import Mathlib

/-!
# uC/TFTPs: the protocol engine of `Source/tftp-s.c`

A shallow embedding of the server loop of `tftp-s.c` (V2.01.00) and of the
functions it calls, followed by theorems about it.

* The file-scope variables of `tftp-s.c` are the fields of the structure `TFTPs`.
* The two packet buffers are maps from index to octet (`Buf`); an index that
  is at or beyond `TFTPs_BUF_SIZE` stands for the memory after the array.
* The collaborators that are not part of the repository (`NetSock_*`,
  `NetFS_*`) are modelled by their interface: every call is appended to the
  field `Calls`, and what a call returns in one iteration of the loop is
  read from an `Env` value that is an input of that iteration.
* `TFTPs_Trace` only writes the trace table, which no protocol variable
  depends on; the calls to it are left out of the handlers.
-/

namespace TFTPServer

/-! ## Constants of `tftp-s.c` -/

@[simp] abbrev TFTPs_FILE_OPEN_RD : Nat := 0
@[simp] abbrev TFTPs_FILE_OPEN_WR : Nat := 1

@[simp] abbrev TFTP_PKT_OFFSET_OPCODE : Nat := 0
@[simp] abbrev TFTP_PKT_OFFSET_FILENAME : Nat := 2
@[simp] abbrev TFTP_PKT_OFFSET_BLK_NBR : Nat := 2
@[simp] abbrev TFTP_PKT_OFFSET_ERR_CODE : Nat := 2
@[simp] abbrev TFTP_PKT_OFFSET_ERR_MSG : Nat := 4
@[simp] abbrev TFTP_PKT_OFFSET_DATA : Nat := 4

@[simp] abbrev TFTP_PKT_SIZE_OPCODE : Nat := 2
@[simp] abbrev TFTP_PKT_SIZE_BLK_NBR : Nat := 2
@[simp] abbrev TFTP_PKT_SIZE_ERR_CODE : Nat := 2

@[simp] abbrev TFTP_OPCODE_RD_REQ : Nat := 1
@[simp] abbrev TFTP_OPCODE_WR_REQ : Nat := 2
@[simp] abbrev TFTP_OPCODE_DATA : Nat := 3
@[simp] abbrev TFTP_OPCODE_ACK : Nat := 4
@[simp] abbrev TFTP_OPCODE_ERR : Nat := 5

@[simp] abbrev TFTPs_STATE_IDLE : Nat := 0
@[simp] abbrev TFTPs_STATE_DATA_RD : Nat := 1
@[simp] abbrev TFTPs_STATE_DATA_WR : Nat := 2

@[simp] abbrev TFTPs_BLOCK_SIZE : Nat := 512
@[simp] abbrev TFTPs_BUF_SIZE : Nat := TFTPs_BLOCK_SIZE + TFTP_PKT_SIZE_OPCODE + TFTP_PKT_SIZE_BLK_NBR

/-- The error codes of `tftp-s.h` (`enum tftps_err`). -/
inductive TFTPs_ERR
  | NONE
  | NULL_PTR
  | CFG_INVALID_SOCK_FAMILY
  | INIT_TASK_INVALID_ARG
  | INIT_TASK_MEM_ALLOC
  | INIT_TASK_CREATE
  | RD_REQ
  | WR_REQ
  | DATA
  | ACK
  | ERR
  | INVALID_STATE
  | FILE_NOT_FOUND
  | TX
  | FILE_RD
  | TIMED_OUT
  | NO_SOCK
  | CANT_BIND
  | INVALID_FAMILY
  | INVALID_ADDR
  deriving DecidableEq, Repr

/-! ## Types declared outside the repository -/

/-- The address family of a socket address, as far as `TFTPs_Task` tells
families apart: the two `case` labels and `default`. -/
inductive NET_SOCK_ADDR_FAMILY
  | IP_V4
  | IP_V6
  | other (n : Nat)
  deriving DecidableEq, Repr

/-- A socket address (`NET_SOCK_ADDR`), by the fields `TFTPs_Task` reads
through its IPv4 view (`Port`, `Addr`) and its IPv6 view (`AddrV6`, the
16 address octets). -/
structure NET_SOCK_ADDR where
  AddrFamily : NET_SOCK_ADDR_FAMILY
  Port : Nat
  Addr : Nat
  AddrV6 : List Nat
  deriving DecidableEq, Repr

/-- The socket selection of the configuration (`TFTPs_CFG.SockSel`). -/
inductive TFTPs_SOCK_SEL
  | IPv4
  | IPv6
  | IPv4_IPv6
  deriving DecidableEq, Repr

/-- The run-time configuration `TFTPs_CFG` (see `Cfg/Template/tftp-s_cfg.c`). -/
structure TFTPs_CFG where
  SockSel : TFTPs_SOCK_SEL
  Port : Nat
  RxTimeoutMax : Nat
  TxTimeoutMax : Nat
  deriving DecidableEq, Repr

/-- The build switches of the network stack that `tftp-s.c` tests with
`#ifdef`: `NET_IPv4_MODULE_EN` and `NET_IPv6_MODULE_EN`. -/
structure NetCfg where
  IPv4_MODULE_EN : Bool
  IPv6_MODULE_EN : Bool
  deriving DecidableEq, Repr

/-- The argument `timeout_ms` of a call of `NetSock_CfgTimeoutRxQ_Set`: `none`
when the code passes the constant `NET_TMR_TIME_INFINITE`, `some v` when it
passes the configured value `v` (`p_cfg->RxTimeoutMax`, which nothing
validates and which may be the value of the constant: see `Timeout_ms`). -/
abbrev Timeout := Option Nat

/-- One call of a collaborator, in the order the server makes them. -/
inductive Call
  | NetFS_FileOpen (name : List Nat) (rw : Nat) (handle : Nat)
  | NetFS_FileRd (handle : Nat) (size : Nat)
  | NetFS_FileWr (handle : Nat) (data : List Nat)
  | NetFS_FileClose (handle : Nat)
  | NetSock_TxDataTo (pkt : List Nat) (dest : NET_SOCK_ADDR)
  | NetSock_CfgTimeoutRxQ_Set (t : Timeout)
  deriving DecidableEq, Repr

/-- What the collaborators return during one iteration of the server loop.
`NetFS_FileOpen` is the handle returned by the open (0 is the null pointer);
`NetFS_FileRd_ok` and `NetFS_FileRd_data` are the result and the octets of
the read; `NetFS_FileWr_ok` is the result of the write (the code discards
it); `NetSock_TxDataTo` is the value returned by the transmit whose result
the code inspects (the results of the other transmits are discarded);
`err_uninit` is the value of the local `err` of `TFTPs_StateIdle`, which has
no initialiser. -/
structure Env where
  NetFS_FileOpen : Nat
  NetFS_FileRd_ok : Bool
  NetFS_FileRd_data : List Nat
  NetFS_FileWr_ok : Bool
  NetSock_TxDataTo : Int
  err_uninit : TFTPs_ERR
  deriving Repr

/-! ## Octet buffers -/

/-- An octet array in memory, by index. -/
abbrev Buf := Nat → Nat

/-- Copy the octets `d` into the buffer, the first one at index `off`. -/
def bufWrite (b : Buf) (off : Nat) (d : List Nat) : Buf :=
  fun i => if off ≤ i ∧ i < off + d.length then d.getD (i - off) 0 else b i

/-- The `len` octets of the buffer from index `off` on. -/
def bufRead (b : Buf) (off len : Nat) : List Nat :=
  (List.range len).map (fun i => b (off + i))

/-- Read a 16-bit value stored in network order at `off`
(`NET_UTIL_NET_TO_HOST_16` applied to the two octets). -/
def rd16 (b : Buf) (off : Nat) : Nat :=
  (256 * b off + b (off + 1)) % 65536

/-- Store a 16-bit value in network order at `off`. -/
def wr16 (b : Buf) (off : Nat) (v : Nat) : Buf :=
  bufWrite b off [v / 256 % 256, v % 256]

/-- The octets of a C string literal, without the terminating NUL. -/
def Str_Octets (msg : String) : List Nat :=
  msg.toList.map Char.toNat

/-- The C string that starts at index `off`: the octets before the first
NUL, looking at no more than `fuel` octets. -/
def Str_At (b : Buf) (off fuel : Nat) : List Nat :=
  (bufRead b off fuel).takeWhile (fun c => c != 0)

/-- The loop `while (*p > 0) p++` of `TFTPs_FileOpen`, from index `i`,
looking at no more than `fuel` octets: the index where it stops. -/
def Str_Skip (b : Buf) : Nat → Nat → Nat
  | 0, i => i
  | fuel + 1, i => if b i > 0 then Str_Skip b fuel (i + 1) else i

/-! ## The variables of `tftp-s.c` -/

/-- The file-scope variables of `tftp-s.c`, the configuration in force, the
receive time-out set on the socket and the calls made so far. -/
structure TFTPs where
  Cfg : TFTPs_CFG
  Net : NetCfg
  TFTPs_RxBlkNbr : Nat
  TFTPs_RxMsgBuf : Buf
  TFTPs_RxMsgCtr : Nat
  TFTPs_RxMsgLen : Int
  TFTPs_TxBlkNbr : Nat
  TFTPs_TxMsgBuf : Buf
  TFTPs_TxMsgCtr : Nat
  TFTPs_TxMsgLen : Nat
  TFTPs_SockAddr : NET_SOCK_ADDR
  TFTPs_State : Nat
  TFTPs_OpCode : Nat
  TFTPs_FileHandle : Nat
  TFTPs_ServerEn : Bool
  RxQ_Timeout : Timeout
  Calls : List Call

/-- What `NetSock_RxDataFrom` hands to one iteration of the loop: an error
(`NET_SOCK_BSD_ERR_RX`, which includes the time-out), or a datagram and the
address it came from. -/
inductive Rx
  | err
  | data (pkt : List Nat) (addr_ip_remote : NET_SOCK_ADDR)
  deriving DecidableEq, Repr

/-! ## Transmit functions -/

/-- Function `TFTPs_Tx`: store opcode and block number in the first four octets of
the transmit buffer and hand `tx_len` octets of it to the transport,
addressed to `TFTPs_SockAddr`. Every caller passes `&TFTPs_TxMsgBuf[0]` as
`p_buf`. -/
def TFTPs_Tx (s : TFTPs) (e : Env) (opcode blk_nbr tx_len : Nat) : TFTPs × Int :=
  let buf1 := wr16 s.TFTPs_TxMsgBuf TFTP_PKT_OFFSET_OPCODE (opcode % 65536)
  let buf2 := wr16 buf1 TFTP_PKT_OFFSET_BLK_NBR (blk_nbr % 65536)
  ({ s with
      TFTPs_TxMsgBuf := buf2
      Calls := s.Calls ++ [Call.NetSock_TxDataTo (bufRead buf2 0 (tx_len % 65536)) s.TFTPs_SockAddr] },
   e.NetSock_TxDataTo)

/-- Function `TFTPs_TxErr`: copy the message and its NUL behind the header and send
an Error packet. -/
def TFTPs_TxErr (s : TFTPs) (e : Env) (err_code : Nat) (p_err_msg : String) : TFTPs :=
  let tx_len := (Str_Octets p_err_msg).length + TFTP_PKT_SIZE_OPCODE + TFTP_PKT_SIZE_BLK_NBR + 1
  let s1 := { s with
      TFTPs_TxMsgBuf := bufWrite s.TFTPs_TxMsgBuf TFTP_PKT_OFFSET_DATA (Str_Octets p_err_msg ++ [0]) }
  (TFTPs_Tx s1 e TFTP_OPCODE_ERR err_code tx_len).1

/-- Function `TFTPs_DataWrAck`: send an acknowledgement of `blk_nbr`. -/
def TFTPs_DataWrAck (s : TFTPs) (e : Env) (blk_nbr : Nat) : TFTPs :=
  let tx_len := TFTP_PKT_SIZE_OPCODE + TFTP_PKT_SIZE_BLK_NBR
  let s1 := { s with TFTPs_TxMsgCtr := (s.TFTPs_TxMsgCtr + 1) % 65536 }
  (TFTPs_Tx s1 e TFTP_OPCODE_ACK blk_nbr tx_len).1

/-! ## File functions -/

/-- Function `TFTPs_FileOpenMode`: open the file for reading, or create it for
writing; any other `rw` opens nothing and gives the null pointer. -/
def TFTPs_FileOpenMode (s : TFTPs) (e : Env) (p_filename : List Nat) (rw : Nat) : TFTPs × Nat :=
  if rw = TFTPs_FILE_OPEN_RD ∨ rw = TFTPs_FILE_OPEN_WR then
    ({ s with Calls := s.Calls ++ [Call.NetFS_FileOpen p_filename rw e.NetFS_FileOpen] },
     e.NetFS_FileOpen)
  else (s, 0)

/-- Function `TFTPs_FileOpen`: the file name is the C string at offset 2 of the
receive buffer. The loop `while (*p_mode > (CPU_CHAR)0)` that looks for the
end of the name has no bound: when the buffer holds no NUL from offset 2 on,
the C code reads on behind the buffer and the name it passes is longer than
the one here, which ends with the buffer. The definition gives the name the
code passes exactly when a NUL lies at or after offset 2 inside the buffer;
statements about the name are made under that condition. The pointers
`p_mode` and `p_name` that the function also computes (two more scans of the
same kind) are used by nothing (the option parsing is compiled out). -/
def TFTPs_FileOpen (s : TFTPs) (e : Env) (rw : Nat) : TFTPs × TFTPs_ERR :=
  let p_filename := Str_At s.TFTPs_RxMsgBuf TFTP_PKT_OFFSET_FILENAME
                      (TFTPs_BUF_SIZE - TFTP_PKT_OFFSET_FILENAME)
  let r := TFTPs_FileOpenMode s e p_filename rw
  let s1 : TFTPs := { r.1 with TFTPs_FileHandle := r.2 }
  if s1.TFTPs_FileHandle = 0 then
    (TFTPs_TxErr s1 e 0 "file not found", TFTPs_ERR.FILE_NOT_FOUND)
  else (s1, TFTPs_ERR.NONE)

/-- The call `NetFS_FileClose(TFTPs_FileHandle)`. -/
def NetFS_FileClose (s : TFTPs) : TFTPs :=
  { s with Calls := s.Calls ++ [Call.NetFS_FileClose s.TFTPs_FileHandle] }

/-- The call `NetSock_CfgTimeoutRxQ_Set(TFTPs_SockID, t, &err)`. -/
def NetSock_CfgTimeoutRxQ_Set (s : TFTPs) (t : Timeout) : TFTPs :=
  { s with RxQ_Timeout := t, Calls := s.Calls ++ [Call.NetSock_CfgTimeoutRxQ_Set t] }

/-- Function `TFTPs_DataRd`: read the next block of the file into the transmit buffer
and send it. -/
def TFTPs_DataRd (s : TFTPs) (e : Env) : TFTPs × TFTPs_ERR :=
  let ok := e.NetFS_FileRd_ok
  let s1 := { s with
      TFTPs_TxMsgBuf := bufWrite s.TFTPs_TxMsgBuf TFTP_PKT_OFFSET_DATA e.NetFS_FileRd_data
      TFTPs_TxMsgLen := e.NetFS_FileRd_data.length
      Calls := s.Calls ++ [Call.NetFS_FileRd s.TFTPs_FileHandle TFTPs_BLOCK_SIZE] }
  let s2 :=
    if s1.TFTPs_TxMsgLen < TFTPs_BLOCK_SIZE then
      { NetFS_FileClose s1 with TFTPs_State := TFTPs_STATE_IDLE }
    else s1
  if ok = false then
    (TFTPs_TxErr s2 e 0 "RRQ file read error", TFTPs_ERR.FILE_RD)
  else
    let s3 := { s2 with
        TFTPs_TxMsgCtr := (s2.TFTPs_TxMsgCtr + 1) % 65536
        TFTPs_TxBlkNbr := (s2.TFTPs_TxBlkNbr + 1) % 65536 }
    let s4 := { s3 with
        TFTPs_TxMsgLen := s3.TFTPs_TxMsgLen + TFTP_PKT_SIZE_OPCODE + TFTP_PKT_SIZE_BLK_NBR }
    let r := TFTPs_Tx s4 e TFTP_OPCODE_DATA s4.TFTPs_TxBlkNbr s4.TFTPs_TxMsgLen
    if r.2 < 0 then
      (TFTPs_TxErr r.1 e 0 "RRQ file read error", TFTPs_ERR.TX)
    else (r.1, TFTPs_ERR.NONE)

/-- Function `TFTPs_DataWr`: write the data of the received block to the file and
acknowledge the block. -/
def TFTPs_DataWr (s : TFTPs) (e : Env) : TFTPs × TFTPs_ERR :=
  let blk_nbr := rd16 s.TFTPs_RxMsgBuf TFTP_PKT_OFFSET_BLK_NBR
  let s3 :=
    if blk_nbr > s.TFTPs_TxBlkNbr then
      let data_bytes : Int := s.TFTPs_RxMsgLen - TFTP_PKT_SIZE_OPCODE - TFTP_PKT_SIZE_BLK_NBR
      let s1 :=
        if data_bytes > 0 then
          { s with Calls := s.Calls ++ [Call.NetFS_FileWr s.TFTPs_FileHandle
              (bufRead s.TFTPs_RxMsgBuf TFTP_PKT_OFFSET_DATA data_bytes.toNat)] }
        else s
      if data_bytes < TFTPs_BLOCK_SIZE then
        { NetFS_FileClose s1 with TFTPs_State := TFTPs_STATE_IDLE }
      else s1
    else s
  let s4 := TFTPs_DataWrAck s3 e blk_nbr
  ({ s4 with TFTPs_TxBlkNbr := blk_nbr }, TFTPs_ERR.NONE)

/-! ## State handlers -/

/-- Function `TFTPs_GetRxBlkNbr`. -/
def TFTPs_GetRxBlkNbr (s : TFTPs) : TFTPs :=
  { s with TFTPs_RxBlkNbr := rd16 s.TFTPs_RxMsgBuf TFTP_PKT_OFFSET_BLK_NBR }

/-- Function `TFTPs_Terminate`. -/
def TFTPs_Terminate (s : TFTPs) : TFTPs :=
  let s1 := { s with TFTPs_State := TFTPs_STATE_IDLE }
  let s2 :=
    if s1.TFTPs_FileHandle ≠ 0 then
      { NetFS_FileClose s1 with TFTPs_FileHandle := 0 }
    else s1
  NetSock_CfgTimeoutRxQ_Set s2 none

/-- Function `TFTPs_StateIdle`. The `switch` has no `default`: for an opcode outside
1..5 the function returns its local `err` without having assigned it. -/
def TFTPs_StateIdle (s : TFTPs) (e : Env) : TFTPs × TFTPs_ERR :=
  let r : TFTPs × TFTPs_ERR :=
    if s.TFTPs_OpCode = TFTP_OPCODE_RD_REQ then
      let r1 := TFTPs_FileOpen s e TFTPs_FILE_OPEN_RD
      if r1.2 = TFTPs_ERR.NONE then
        TFTPs_DataRd { r1.1 with TFTPs_TxBlkNbr := 0, TFTPs_State := TFTPs_STATE_DATA_RD } e
      else r1
    else if s.TFTPs_OpCode = TFTP_OPCODE_ACK then
      (s, TFTPs_ERR.ACK)
    else if s.TFTPs_OpCode = TFTP_OPCODE_WR_REQ then
      let r1 := TFTPs_FileOpen { s with TFTPs_TxBlkNbr := 0 } e TFTPs_FILE_OPEN_WR
      if r1.2 = TFTPs_ERR.NONE then
        let s2 := { r1.1 with TFTPs_State := TFTPs_STATE_DATA_WR }
        (TFTPs_DataWrAck s2 e s2.TFTPs_TxBlkNbr, TFTPs_ERR.NONE)
      else r1
    else if s.TFTPs_OpCode = TFTP_OPCODE_DATA then
      (s, TFTPs_ERR.DATA)
    else if s.TFTPs_OpCode = TFTP_OPCODE_ERR then
      (s, TFTPs_ERR.ERR)
    else (s, e.err_uninit)
  if r.2 = TFTPs_ERR.NONE then
    (NetSock_CfgTimeoutRxQ_Set r.1 (some r.1.Cfg.RxTimeoutMax), r.2)
  else r

/-- Function `TFTPs_StateDataRd`. -/
def TFTPs_StateDataRd (s : TFTPs) (e : Env) : TFTPs × TFTPs_ERR :=
  if s.TFTPs_OpCode = TFTP_OPCODE_RD_REQ then
    let r1 := TFTPs_FileOpen (NetFS_FileClose s) e TFTPs_FILE_OPEN_RD
    if r1.2 = TFTPs_ERR.NONE then
      TFTPs_DataRd { r1.1 with TFTPs_TxBlkNbr := 0, TFTPs_State := TFTPs_STATE_DATA_RD } e
    else r1
  else if s.TFTPs_OpCode = TFTP_OPCODE_ACK then
    let s1 := TFTPs_GetRxBlkNbr s
    if s1.TFTPs_RxBlkNbr = s1.TFTPs_TxBlkNbr then
      TFTPs_DataRd s1 e
    else
      let r := TFTPs_Tx s1 e TFTP_OPCODE_DATA s1.TFTPs_TxBlkNbr s1.TFTPs_TxMsgLen
      if r.2 < 0 then
        (TFTPs_TxErr r.1 e 0 "RRQ file read error", TFTPs_ERR.TX)
      else (r.1, TFTPs_ERR.NONE)
  else if s.TFTPs_OpCode = TFTP_OPCODE_WR_REQ then
    (TFTPs_TxErr s e 0 "RRQ server busy, WRQ  opcode?", TFTPs_ERR.WR_REQ)
  else if s.TFTPs_OpCode = TFTP_OPCODE_DATA then
    (TFTPs_TxErr s e 0 "RRQ server busy, DATA opcode?", TFTPs_ERR.DATA)
  else if s.TFTPs_OpCode = TFTP_OPCODE_ERR then
    (TFTPs_TxErr s e 0 "RRQ server busy, ERR  opcode?", TFTPs_ERR.ERR)
  else (s, TFTPs_ERR.NONE)

/-- Function `TFTPs_StateDataWr`. -/
def TFTPs_StateDataWr (s : TFTPs) (e : Env) : TFTPs × TFTPs_ERR :=
  if s.TFTPs_OpCode = TFTP_OPCODE_RD_REQ then
    (TFTPs_TxErr s e 0 "WRQ server busy, RRQ  opcode?", TFTPs_ERR.RD_REQ)
  else if s.TFTPs_OpCode = TFTP_OPCODE_ACK then
    (TFTPs_TxErr s e 0 "WRQ server busy, ACK  opcode?", TFTPs_ERR.ACK)
  else if s.TFTPs_OpCode = TFTP_OPCODE_WR_REQ then
    let r1 := TFTPs_FileOpen { NetFS_FileClose s with TFTPs_TxBlkNbr := 0 } e TFTPs_FILE_OPEN_WR
    if r1.2 = TFTPs_ERR.NONE then
      let s2 := { r1.1 with TFTPs_State := TFTPs_STATE_DATA_WR }
      (TFTPs_DataWrAck s2 e s2.TFTPs_TxBlkNbr, TFTPs_ERR.NONE)
    else r1
  else if s.TFTPs_OpCode = TFTP_OPCODE_DATA then
    TFTPs_DataWr s e
  else if s.TFTPs_OpCode = TFTP_OPCODE_ERR then
    (TFTPs_TxErr s e 0 "WRQ server busy, ERR  opcode?", TFTPs_ERR.ERR)
  else (s, TFTPs_ERR.NONE)

/-! ## The server loop -/

/-- The receive buffer after `NetSock_RxDataFrom` stored the datagram `pkt`
in it: the transport copies at most `sizeof(TFTPs_RxMsgBuf)` octets. -/
def Rx_buf (b : Buf) (pkt : List Nat) : Buf :=
  bufWrite b 0 (pkt.take TFTPs_BUF_SIZE)

/-- The TID check of `TFTPs_Task`: does the datagram come from the address
stored in `TFTPs_SockAddr`? -/
def valid_tid (net : NetCfg) (remote server : NET_SOCK_ADDR) : Bool :=
  match remote.AddrFamily with
  | NET_SOCK_ADDR_FAMILY.IP_V4 =>
      if net.IPv4_MODULE_EN then
        if remote.Port ≠ server.Port ∨ remote.Addr ≠ server.Addr then false else true
      else false
  | NET_SOCK_ADDR_FAMILY.IP_V6 =>
      if net.IPv6_MODULE_EN then
        if remote.AddrV6 = server.AddrV6 then true else false
      else false
  | NET_SOCK_ADDR_FAMILY.other _ => false

/-- The answer of `TFTPs_Task` to a datagram that fails the TID check during
a transfer: the Error packet goes to the sender, and `TFTPs_SockAddr` is put
back afterwards. -/
def TFTPs_Task_busy (s : TFTPs) (e : Env) (addr_ip_remote : NET_SOCK_ADDR) : TFTPs :=
  let addr_ip_server := s.TFTPs_SockAddr
  let s1 := { s with TFTPs_SockAddr := addr_ip_remote }
  let s2 := TFTPs_TxErr s1 e 0 "Transaction denied, Server BUSY"
  { s2 with TFTPs_SockAddr := addr_ip_server }

/-- One iteration of the `while (DEF_ON)` loop of `TFTPs_Task`. -/
def TFTPs_Task (s : TFTPs) (rx : Rx) (e : Env) : TFTPs :=
  match rx with
  | Rx.err => TFTPs_Terminate { s with TFTPs_RxMsgLen := -1 }
  | Rx.data pkt addr_ip_remote =>
    let s1 := { s with
        TFTPs_RxMsgBuf := Rx_buf s.TFTPs_RxMsgBuf pkt
        TFTPs_RxMsgLen := ((pkt.take TFTPs_BUF_SIZE).length : Int) }
    let s2 := { s1 with TFTPs_RxMsgCtr := (s1.TFTPs_RxMsgCtr + 1) % 4294967296 }
    if s2.TFTPs_ServerEn ≠ true then
      TFTPs_TxErr s2 e 0 "Transaction denied, Server DISABLED"
    else
      let valid := valid_tid s2.Net addr_ip_remote s2.TFTPs_SockAddr
      let s3 := { s2 with TFTPs_OpCode := rd16 s2.TFTPs_RxMsgBuf TFTP_PKT_OFFSET_OPCODE }
      let r : TFTPs × TFTPs_ERR :=
        if s3.TFTPs_State = TFTPs_STATE_IDLE then
          TFTPs_StateIdle { s3 with TFTPs_SockAddr := addr_ip_remote } e
        else if s3.TFTPs_State = TFTPs_STATE_DATA_RD then
          if valid = true then TFTPs_StateDataRd s3 e
          else (TFTPs_Task_busy s3 e addr_ip_remote, TFTPs_ERR.NONE)
        else if s3.TFTPs_State = TFTPs_STATE_DATA_WR then
          if valid = true then TFTPs_StateDataWr s3 e
          else (TFTPs_Task_busy s3 e addr_ip_remote, TFTPs_ERR.NONE)
        else (s3, TFTPs_ERR.INVALID_STATE)
      if r.2 ≠ TFTPs_ERR.NONE then TFTPs_Terminate r.1 else r.1

/-- Function `TFTPs_En`. -/
def TFTPs_En (s : TFTPs) : TFTPs :=
  { s with TFTPs_ServerEn := true, TFTPs_State := TFTPs_STATE_IDLE }

/-- Function `TFTPs_Dis`. -/
def TFTPs_Dis (s : TFTPs) : TFTPs :=
  TFTPs_Terminate { s with TFTPs_ServerEn := false }

/-- The variables when `TFTPs_Task` enters its loop, after `TFTPs_Init` and
a successful `TFTPs_ServerSockInit`: the counters are zero, the state is
Idle, the server is enabled, `TFTPs_SockAddr` holds the local address the
socket was bound to, and the receive time-out is infinite. With a socket
selection other than IPv4 or IPv6 the task never enters the loop. -/
def TFTPs_Task_entry (cfg : TFTPs_CFG) (net : NetCfg) : Option TFTPs :=
  let family : Option NET_SOCK_ADDR_FAMILY :=
    match cfg.SockSel with
    | TFTPs_SOCK_SEL.IPv4 => if net.IPv4_MODULE_EN then some NET_SOCK_ADDR_FAMILY.IP_V4 else none
    | TFTPs_SOCK_SEL.IPv6 => if net.IPv6_MODULE_EN then some NET_SOCK_ADDR_FAMILY.IP_V6 else none
    | TFTPs_SOCK_SEL.IPv4_IPv6 => none
  match family with
  | none => none
  | some f =>
    some {
      Cfg := cfg
      Net := net
      TFTPs_RxBlkNbr := 0
      TFTPs_RxMsgBuf := fun _ => 0
      TFTPs_RxMsgCtr := 0
      TFTPs_RxMsgLen := 0
      TFTPs_TxBlkNbr := 0
      TFTPs_TxMsgBuf := fun _ => 0
      TFTPs_TxMsgCtr := 0
      TFTPs_TxMsgLen := 0
      TFTPs_SockAddr := { AddrFamily := f, Port := cfg.Port, Addr := 0, AddrV6 := List.replicate 16 0 }
      TFTPs_State := TFTPs_STATE_IDLE
      TFTPs_OpCode := 0
      TFTPs_FileHandle := 0
      TFTPs_ServerEn := true
      RxQ_Timeout := none
      Calls := [] }

/-- One step of the environment: a result of the blocking receive, or a call
of `TFTPs_Dis` or `TFTPs_En` by the application between two iterations. -/
inductive Step
  | rx (r : Rx) (e : Env)
  | dis
  | en

/-- The effect of one step. -/
def step (s : TFTPs) : Step → TFTPs
  | Step.rx r e => TFTPs_Task s r e
  | Step.dis => TFTPs_Dis s
  | Step.en => TFTPs_En s

/-- The effect of a sequence of steps, in order. -/
def run (s : TFTPs) (l : List Step) : TFTPs :=
  l.foldl step s

/-- The states of the variables at the loop boundary that the server can be
in: those reached from the loop entry by a sequence of steps. -/
def Reachable (s : TFTPs) : Prop :=
  ∃ cfg net s0 l, TFTPs_Task_entry cfg net = some s0 ∧ run s0 l = s

/-- The packets handed to the transport, oldest first. -/
def sent : List Call → List (List Nat × NET_SOCK_ADDR)
  | [] => []
  | Call.NetSock_TxDataTo pkt dest :: cs => (pkt, dest) :: sent cs
  | _ :: cs => sent cs

/-- The calls of the file store among the calls, oldest first. -/
def fileCalls : List Call → List Call
  | [] => []
  | Call.NetSock_TxDataTo _ _ :: cs => fileCalls cs
  | Call.NetSock_CfgTimeoutRxQ_Set _ :: cs => fileCalls cs
  | c :: cs => c :: fileCalls cs

/-! ## Wire format of the packets the server sends (for the statements) -/

/-- The octets of a Data packet with block number `n` and payload `p`. -/
def Pkt_Data (n : Nat) (p : List Nat) : List Nat :=
  [0, 3, n / 256 % 256, n % 256] ++ p

/-- The octets of an Ack packet with block number `n`. -/
def Pkt_Ack (n : Nat) : List Nat :=
  [0, 4, n / 256 % 256, n % 256]

/-- The octets of an Error packet with code `c` and message `m`. -/
def Pkt_Error (c : Nat) (m : String) : List Nat :=
  [0, 5, c / 256 % 256, c % 256] ++ Str_Octets m ++ [0]

/-- The transmit buffer after `TFTPs_TxErr`. -/
def TxErr_buf (b : Buf) (c : Nat) (m : String) : Buf :=
  wr16 (wr16 (bufWrite b 4 (Str_Octets m ++ [0])) 0 5) 2 (c % 65536)

/-! ## Concrete values used to instantiate the theorems -/

/-- The template configuration of `Cfg/Template/tftp-s_cfg.c`. -/
def W_cfg : TFTPs_CFG :=
  { SockSel := TFTPs_SOCK_SEL.IPv4, Port := 69, RxTimeoutMax := 5000, TxTimeoutMax := 5000 }

/-- A build with the IPv4 module only. -/
def W_net : NetCfg :=
  { IPv4_MODULE_EN := true, IPv6_MODULE_EN := false }

/-- A first client. -/
def W_peerA : NET_SOCK_ADDR :=
  { AddrFamily := NET_SOCK_ADDR_FAMILY.IP_V4, Port := 1025, Addr := 3232235777, AddrV6 := [] }

/-- A second client. -/
def W_peerB : NET_SOCK_ADDR :=
  { AddrFamily := NET_SOCK_ADDR_FAMILY.IP_V4, Port := 2049, Addr := 3232235778, AddrV6 := [] }

/-- An environment in which the open returns the handle `h`, the read
succeeds with the octets `d`, and the transmit succeeds. -/
def W_env (h : Nat) (d : List Nat) : Env :=
  { NetFS_FileOpen := h, NetFS_FileRd_ok := true, NetFS_FileRd_data := d,
    NetFS_FileWr_ok := true, NetSock_TxDataTo := 1, err_uninit := TFTPs_ERR.NONE }

/-- The variables at the loop entry with the template configuration. -/
def W_entry : TFTPs :=
  (TFTPs_Task_entry W_cfg W_net).get rfl

/-- A read request for the file `a`, mode `octet`. -/
def W_rrq : List Nat := [0, 1, 97, 0, 111, 99, 116, 101, 116, 0]

/-- A write request for the file `a`, mode `octet`. -/
def W_wrq : List Nat := [0, 2, 97, 0, 111, 99, 116, 101, 116, 0]

/-- The server after it accepted the write request of the first client. -/
def W_wr : TFTPs :=
  run W_entry [Step.rx (Rx.data W_wrq W_peerA) (W_env 7 [])]

/-! ## Fields of a received datagram (for the statements) -/

/-- The opcode field of a datagram: its first two octets, in network order. -/
def Dgram_OpCode (pkt : List Nat) : Nat :=
  (256 * pkt.getD 0 0 + pkt.getD 1 0) % 65536

/-- The block number field of a datagram: its octets 2 and 3, in network order. -/
def Dgram_BlkNbr (pkt : List Nat) : Nat :=
  (256 * pkt.getD 2 0 + pkt.getD 3 0) % 65536

/-- The payload of a Data datagram: the octets behind the 4-octet header, as
far as they fit the receive buffer. -/
def Dgram_Payload (pkt : List Nat) : List Nat :=
  (pkt.take TFTPs_BUF_SIZE).drop TFTP_PKT_OFFSET_DATA

/-- The transmit buffer after `TFTPs_DataRd` read the octets `d` and sent
them as block `n`. -/
def DataRd_buf (b : Buf) (n : Nat) (d : List Nat) : Buf :=
  wr16 (wr16 (bufWrite b 4 d) 0 3) 2 (n % 65536)

/-- The transmit buffer after an Ack of block `n` was sent. -/
def Ack_buf (b : Buf) (n : Nat) : Buf :=
  wr16 (wr16 b 0 4) 2 (n % 65536)

/-! ## Scripts of whole transfers (for the statements) -/

/-- The client side of a read transfer after the request: the Ack of block
`b`, then of block `b + 1`, and so on, one for each environment in the list.
Block numbers are 16-bit values. -/
def readAcks (peer : NET_SOCK_ADDR) : Nat → List Env → List Step
  | _, [] => []
  | b, e :: es => Step.rx (Rx.data (Pkt_Ack (b % 65536)) peer) e :: readAcks peer (b + 1) es

/-- A read transfer: the request, then the Acks of block 1, 2, ... -/
def readTransfer (rrq : List Nat) (peer : NET_SOCK_ADDR) (e0 : Env) (es : List Env) : List Step :=
  Step.rx (Rx.data rrq peer) e0 :: readAcks peer 1 es

/-- The Data packets of the blocks `b`, `b + 1`, ... whose payloads are the
octets that the reads of the environments return. -/
def dataPkts (peer : NET_SOCK_ADDR) : Nat → List Env → List (List Nat × NET_SOCK_ADDR)
  | _, [] => []
  | b, e :: es => (Pkt_Data (b % 65536) e.NetFS_FileRd_data, peer) :: dataPkts peer (b + 1) es

/-- The file store and the transport succeed in the environment: the read
succeeds and returns at most the 512 octets asked for, and the transport
accepts the packet. -/
def Env_rd_ok (e : Env) : Prop :=
  e.NetFS_FileRd_ok = true ∧ 0 ≤ e.NetSock_TxDataTo ∧ e.NetFS_FileRd_data.length ≤ 512

instance (e : Env) : Decidable (Env_rd_ok e) := by
  unfold Env_rd_ok
  infer_instance

/-- The loop invariant of a read transfer in progress with the client
`peer`, when block `b` was the last one sent. -/
def RdInv (peer : NET_SOCK_ADDR) (b : Nat) (s : TFTPs) : Prop :=
  s.TFTPs_State = TFTPs_STATE_DATA_RD ∧ s.TFTPs_ServerEn = true ∧ s.TFTPs_SockAddr = peer ∧
    valid_tid s.Net peer peer = true ∧ s.TFTPs_TxBlkNbr = b % 65536

/-- The error that the Idle state signals for an opcode it does not expect:
`TFTPs_ERR_ACK` for an Ack, `TFTPs_ERR_DATA` for a Data packet,
`TFTPs_ERR_ERR` for an Error packet. -/
def Idle_err (op : Nat) : TFTPs_ERR :=
  if op = TFTP_OPCODE_ACK then TFTPs_ERR.ACK
  else if op = TFTP_OPCODE_DATA then TFTPs_ERR.DATA
  else TFTPs_ERR.ERR

/-- A file of ten octets. -/
def W_file10 : List Nat := [1, 2, 3, 4, 5, 6, 7, 8, 9, 10]

/-- The client side of a write transfer after the request: the Data packets
of the blocks `b`, `b + 1`, ... with the given payloads, each paired with
the environment of the iteration that receives it. -/
def writeBlocks (peer : NET_SOCK_ADDR) : Nat → List (List Nat × Env) → List Step
  | _, [] => []
  | b, p :: ps => Step.rx (Rx.data (Pkt_Data b p.1) peer) p.2 :: writeBlocks peer (b + 1) ps

/-- A write transfer: the request, then the Data blocks 1, 2, ... -/
def writeTransfer (wrq : List Nat) (peer : NET_SOCK_ADDR) (e0 : Env)
    (blocks : List (List Nat × Env)) : List Step :=
  Step.rx (Rx.data wrq peer) e0 :: writeBlocks peer 1 blocks

/-- The octets handed to `NetFS_FileWr`, in the order of the calls. -/
def written : List Call → List Nat
  | [] => []
  | Call.NetFS_FileWr _ data :: cs => data ++ written cs
  | _ :: cs => written cs

/-- The Acks of the blocks `b`, `b + 1`, ..., one for each element of the list. -/
def ackPkts (peer : NET_SOCK_ADDR) : Nat → List (List Nat × Env) → List (List Nat × NET_SOCK_ADDR)
  | _, [] => []
  | b, _ :: ps => (Pkt_Ack b, peer) :: ackPkts peer (b + 1) ps

/-- The loop invariant of a write transfer in progress with the client
`peer`, when block `b` was the last one accepted. -/
def WrInv (peer : NET_SOCK_ADDR) (b : Nat) (s : TFTPs) : Prop :=
  s.TFTPs_State = TFTPs_STATE_DATA_WR ∧ s.TFTPs_ServerEn = true ∧ s.TFTPs_SockAddr = peer ∧
    valid_tid s.Net peer peer = true ∧ s.TFTPs_TxBlkNbr = b

/-- The opcodes that a transfer state does not expect from the active peer:
WriteRequest, Data and Error in TransferRead; ReadRequest, Ack and Error in
TransferWrite. -/
def Unexpected (state op : Nat) : Prop :=
  (state = TFTPs_STATE_DATA_RD ∧
      (op = TFTP_OPCODE_WR_REQ ∨ op = TFTP_OPCODE_DATA ∨ op = TFTP_OPCODE_ERR)) ∨
    (state = TFTPs_STATE_DATA_WR ∧
      (op = TFTP_OPCODE_RD_REQ ∨ op = TFTP_OPCODE_ACK ∨ op = TFTP_OPCODE_ERR))

instance (state op : Nat) : Decidable (Unexpected state op) := by
  unfold Unexpected
  infer_instance

/-- The message of the Error packet with which `TFTPs_StateDataRd` and
`TFTPs_StateDataWr` answer an opcode they do not expect. -/
def Busy_msg (state op : Nat) : String :=
  if state = TFTPs_STATE_DATA_RD then
    if op = TFTP_OPCODE_WR_REQ then "RRQ server busy, WRQ  opcode?"
    else if op = TFTP_OPCODE_DATA then "RRQ server busy, DATA opcode?"
    else "RRQ server busy, ERR  opcode?"
  else
    if op = TFTP_OPCODE_RD_REQ then "WRQ server busy, RRQ  opcode?"
    else if op = TFTP_OPCODE_ACK then "WRQ server busy, ACK  opcode?"
    else "WRQ server busy, ERR  opcode?"

/-- The server after it sent the first block, of 512 octets, of a file to
the first client. -/
def W_rd : TFTPs :=
  run W_entry [Step.rx (Rx.data W_rrq W_peerA) (W_env 7 (List.replicate 512 170))]

/-- The server after it then refused a request of the second client. -/
def W_rd_busy : TFTPs :=
  run W_rd [Step.rx (Rx.data W_rrq W_peerB) (W_env 8 [])]

/-- The server after the first client then acknowledged block 0. -/
def W_rd_retx : TFTPs :=
  run W_rd_busy [Step.rx (Rx.data (Pkt_Ack 0) W_peerA) (W_env 0 [])]

/-! ## Parts of one iteration and the files the server holds open (for the statements) -/

/-- The variables in `TFTPs_Task` once a datagram was received, counted and
its opcode extracted, before the `switch` on the state. -/
def TFTPs_Task_rx (s : TFTPs) (pkt : List Nat) : TFTPs :=
  { s with
    TFTPs_RxMsgBuf := Rx_buf s.TFTPs_RxMsgBuf pkt
    TFTPs_RxMsgLen := ((pkt.take TFTPs_BUF_SIZE).length : Int)
    TFTPs_RxMsgCtr := (s.TFTPs_RxMsgCtr + 1) % 4294967296
    TFTPs_OpCode := rd16 (Rx_buf s.TFTPs_RxMsgBuf pkt) TFTP_PKT_OFFSET_OPCODE }

/-- The `switch (TFTPs_State)` of `TFTPs_Task` with the server enabled: the
variables after the state handler (or after the busy answer) and the value
of `tftp_err`. -/
def TFTPs_Task_dispatch (s : TFTPs) (pkt : List Nat) (addr_ip_remote : NET_SOCK_ADDR)
    (e : Env) : TFTPs × TFTPs_ERR :=
  let s3 := TFTPs_Task_rx s pkt
  let valid := valid_tid s3.Net addr_ip_remote s3.TFTPs_SockAddr
  if s3.TFTPs_State = TFTPs_STATE_IDLE then
    TFTPs_StateIdle { s3 with TFTPs_SockAddr := addr_ip_remote } e
  else if s3.TFTPs_State = TFTPs_STATE_DATA_RD then
    if valid = true then TFTPs_StateDataRd s3 e
    else (TFTPs_Task_busy s3 e addr_ip_remote, TFTPs_ERR.NONE)
  else if s3.TFTPs_State = TFTPs_STATE_DATA_WR then
    if valid = true then TFTPs_StateDataWr s3 e
    else (TFTPs_Task_busy s3 e addr_ip_remote, TFTPs_ERR.NONE)
  else (s3, TFTPs_ERR.INVALID_STATE)

/-- The effect of one call on the handles that are open: a successful
`NetFS_FileOpen` adds the handle it returned, `NetFS_FileClose` takes the
handle away (once), every other call leaves the handles alone. -/
def openFiles_call (hs : List Nat) : Call → List Nat
  | Call.NetFS_FileOpen _ _ h => if h = 0 then hs else h :: hs
  | Call.NetFS_FileClose h => hs.erase h
  | _ => hs

/-- The handles that are open after the calls: those that an open returned
and no later close took away. -/
def openFiles (cs : List Call) : List Nat :=
  cs.foldl openFiles_call []

/-- No file is open, or the one open file is the one of the handle `h`. -/
def HandleInv (cs : List Call) (h : Nat) : Prop :=
  openFiles cs = [] ∨ (h ≠ 0 ∧ openFiles cs = [h])

/-- The invariant of the loop boundary on files: in Idle no file is open;
in a transfer exactly one file is open, and `TFTPs_FileHandle` is its
handle, which is not null. -/
def FilesInv (s : TFTPs) : Prop :=
  (s.TFTPs_State = TFTPs_STATE_IDLE → openFiles s.Calls = []) ∧
    (s.TFTPs_State ≠ TFTPs_STATE_IDLE →
      s.TFTPs_FileHandle ≠ 0 ∧ openFiles s.Calls = [s.TFTPs_FileHandle])

/-- An environment in which the open returns the handle `h` and the read
fails, having delivered the octets `d`. -/
def W_env_rdfail (h : Nat) (d : List Nat) : Env :=
  { NetFS_FileOpen := h, NetFS_FileRd_ok := false, NetFS_FileRd_data := d,
    NetFS_FileWr_ok := true, NetSock_TxDataTo := 1, err_uninit := TFTPs_ERR.NONE }

/-- An environment in which the open returns the handle `h`, the read
succeeds with the octets `d`, the write fails and the transport refuses the
packet. -/
def W_env_fail (h : Nat) (d : List Nat) : Env :=
  { NetFS_FileOpen := h, NetFS_FileRd_ok := true, NetFS_FileRd_data := d,
    NetFS_FileWr_ok := false, NetSock_TxDataTo := -1, err_uninit := TFTPs_ERR.NONE }

/-- An environment in which only the write to the file fails. -/
def W_env_wrfail : Env :=
  { NetFS_FileOpen := 0, NetFS_FileRd_ok := true, NetFS_FileRd_data := [],
    NetFS_FileWr_ok := false, NetSock_TxDataTo := 1, err_uninit := TFTPs_ERR.NONE }

/-! ## Request datagrams (for the statements) -/

/-- The file name of a request datagram: the octets from offset 2 up to the
first NUL. -/
def Dgram_Filename (pkt : List Nat) : List Nat :=
  ((pkt.take TFTPs_BUF_SIZE).drop TFTP_PKT_OFFSET_FILENAME).takeWhile (fun c => c != 0)

/-- The file name of the datagram ends inside the datagram: there is a NUL at
or after offset 2, among the octets that fit the receive buffer. -/
def Dgram_NameEnds (pkt : List Nat) : Prop :=
  0 ∈ (pkt.take TFTPs_BUF_SIZE).drop TFTP_PKT_OFFSET_FILENAME

instance (pkt : List Nat) : Decidable (Dgram_NameEnds pkt) := by
  unfold Dgram_NameEnds
  infer_instance

/-- The two sets of variables agree in everything but the receive buffer and
the received length. -/
def SameButRx (x y : TFTPs) : Prop :=
  x.Cfg = y.Cfg ∧ x.Net = y.Net ∧ x.TFTPs_RxBlkNbr = y.TFTPs_RxBlkNbr ∧
    x.TFTPs_RxMsgCtr = y.TFTPs_RxMsgCtr ∧ x.TFTPs_TxBlkNbr = y.TFTPs_TxBlkNbr ∧
    x.TFTPs_TxMsgBuf = y.TFTPs_TxMsgBuf ∧ x.TFTPs_TxMsgCtr = y.TFTPs_TxMsgCtr ∧
    x.TFTPs_TxMsgLen = y.TFTPs_TxMsgLen ∧ x.TFTPs_SockAddr = y.TFTPs_SockAddr ∧
    x.TFTPs_State = y.TFTPs_State ∧ x.TFTPs_OpCode = y.TFTPs_OpCode ∧
    x.TFTPs_FileHandle = y.TFTPs_FileHandle ∧ x.TFTPs_ServerEn = y.TFTPs_ServerEn ∧
    x.RxQ_Timeout = y.RxQ_Timeout ∧ x.Calls = y.Calls

/-- The two results of a handler agree in the error returned and in all
variables but the receive buffer and the received length. -/
def SameResult (rx ry : TFTPs × TFTPs_ERR) : Prop :=
  rx.2 = ry.2 ∧ SameButRx rx.1 ry.1

/-! ## More concrete values used to instantiate the theorems -/

/-- A read request for the file `a`, mode `netascii`, with the option
`blksize` of value `1428`. -/
def W_rrq_opts : List Nat :=
  [0, 1, 97, 0, 110, 101, 116, 97, 115, 99, 105, 105, 0,
   98, 108, 107, 115, 105, 122, 101, 0, 49, 52, 50, 56, 0]

/-- A read request for the file `abc`, mode `octet`. -/
def W_rrq_abc : List Nat := [0, 1, 97, 98, 99, 0, 111, 99, 116, 101, 116, 0]

/-- The server after the first client read the ten-octet file `abc`: the
transfer ended with its first block. -/
def W_idle_abc : TFTPs :=
  run W_entry [Step.rx (Rx.data W_rrq_abc W_peerA) (W_env 7 W_file10)]

/-! ## Bounds on the transmit side (for the statements) -/

/-- The file store returns no more than the 512 octets the read asked for. -/
def Env_rd_bounded (e : Env) : Prop :=
  e.NetFS_FileRd_data.length ≤ TFTPs_BLOCK_SIZE

/-- A step in which the file store, if it is read, returns no more than the
512 octets asked for. -/
def Step_rd_bounded : Step → Prop
  | Step.rx _ e => Env_rd_bounded e
  | _ => True

/-- The states of the loop boundary reached from the loop entry by steps in
which every read of the file store returns at most 512 octets. -/
def Reachable_rd_bounded (s : TFTPs) : Prop :=
  ∃ cfg net s0 l, TFTPs_Task_entry cfg net = some s0 ∧ (∀ x ∈ l, Step_rd_bounded x) ∧
    run s0 l = s

/-- The length kept in `TFTPs_TxMsgLen` and the length of every packet handed
to the transport so far are at most the size of the transmit buffer. -/
def TxInv (s : TFTPs) : Prop :=
  s.TFTPs_TxMsgLen ≤ TFTPs_BUF_SIZE ∧ ∀ p ∈ sent s.Calls, p.1.length ≤ TFTPs_BUF_SIZE

/-- From `s` to `t` the memory at and after index 516 of the transmit buffer
is not written, and the bound `TxInv` is kept. -/
def TxBounded (s t : TFTPs) : Prop :=
  (∀ i, TFTPs_BUF_SIZE ≤ i → t.TFTPs_TxMsgBuf i = s.TFTPs_TxMsgBuf i) ∧ (TxInv s → TxInv t)

/-! ## The receive time-out and the state (for the statements) -/

/-- While a transfer is in progress the receive time-out is the configured
inactivity time. -/
def TimeoutInv (s : TFTPs) : Prop :=
  s.TFTPs_State ≠ TFTPs_STATE_IDLE → s.RxQ_Timeout = some s.Cfg.RxTimeoutMax

/-! ## Datagrams and receive errors only (for the statements) -/

/-- The step is a result of the blocking receive (a datagram or an error). -/
def Step_isRx : Step → Bool
  | Step.rx _ _ => true
  | _ => false

/-- The states of the loop boundary reached from the loop entry by datagrams
and receive errors alone. -/
def Reachable_rx (s : TFTPs) : Prop :=
  ∃ cfg net s0 l, TFTPs_Task_entry cfg net = some s0 ∧ (∀ x ∈ l, Step_isRx x = true) ∧
    run s0 l = s

/-- The server after the first client wrote a file of three octets: the
transfer ended with its first block. -/
def W_wr_done : TFTPs :=
  run W_wr [Step.rx (Rx.data (Pkt_Data 1 [65, 66, 67]) W_peerA) (W_env 0 [])]

/-! ## Initialisation: `TFTPs_Init` and `TFTPs_TaskInit` -/

/-- The value `DEF_ENABLED` of `lib_def.h` (uC/LIB, outside the repository). -/
@[simp] abbrev DEF_ENABLED : Nat := 1

/-- The value `DEF_DISABLED` of `lib_def.h` (uC/LIB, outside the repository). -/
@[simp] abbrev DEF_DISABLED : Nat := 0

/-- The value `DEF_OK` of `lib_def.h`, as a truth value. -/
@[simp] abbrev DEF_OK : Bool := true

/-- The value `DEF_FAIL` of `lib_def.h`, as a truth value. -/
@[simp] abbrev DEF_FAIL : Bool := false

/-- The error codes of the kernel abstraction layer (`KAL_ERR`, declared
outside the repository), by the `case` labels of `TFTPs_TaskInit` and
`default`. -/
inductive KAL_ERR
  | NONE
  | INVALID_ARG
  | MEM_ALLOC
  | ISR
  | OS
  | other (n : Nat)
  deriving DecidableEq, Repr

/-- The task configuration `TFTPs_TASK_CFG` (declared in `tftp-s_type.h`), by
the fields that `TFTPs_TaskInit` reads, in the order of the initialiser in
`Cfg/Template/tftp-s_cfg.c`. -/
structure TFTPs_TASK_CFG where
  Prio : Nat
  StkSizeBytes : Nat
  StkPtr : Nat
  deriving DecidableEq, Repr

/-- What the kernel abstraction layer answers during the initialisation: the
error codes of `KAL_TaskAlloc` and of `KAL_TaskCreate`. -/
structure KalEnv where
  KAL_TaskAlloc : KAL_ERR
  KAL_TaskCreate : KAL_ERR
  deriving DecidableEq, Repr

/-- One call of the kernel abstraction layer. -/
inductive KalCall
  | KAL_TaskAlloc (stk_ptr : Nat) (stk_size_bytes : Nat)
  | KAL_TaskCreate (prio : Nat)
  deriving DecidableEq, Repr

/-- The build switches that the preprocessor condition at the head of
`TFTPs_Init` compares: the value of `TFTPs_CFG_ARG_CHK_EXT_EN` (from
`tftp-s_cfg.h`) and the definition of the identifier `DEF_ENABELD`, which is
how the condition spells its right-hand side; `none` when no header defines
that identifier. -/
structure BuildCfg where
  TFTPs_CFG_ARG_CHK_EXT_EN : Nat
  DEF_ENABELD : Option Nat
  deriving DecidableEq, Repr

/-- The value of an identifier in a `#if` condition: an identifier that is
not defined as a macro evaluates to 0. -/
def Preproc_value (d : Option Nat) : Nat :=
  d.getD 0

/-- What `TFTPs_Init` hands back: the value returned, the value stored in
`*p_err`, the calls made to create the task, and `TFTPs_CfgPtr` if it was
set. -/
structure InitResult where
  result : Bool
  p_err : TFTPs_ERR
  Calls : List KalCall
  TFTPs_CfgPtr : Option TFTPs_CFG
  deriving DecidableEq, Repr

/-- Function `TFTPs_TaskInit`: allocate and create the server task; the
error stored in `*p_err` and the calls made. -/
def TFTPs_TaskInit (p_task_cfg : TFTPs_TASK_CFG) (k : KalEnv) : TFTPs_ERR × List KalCall :=
  let c1 := [KalCall.KAL_TaskAlloc p_task_cfg.StkPtr p_task_cfg.StkSizeBytes]
  match k.KAL_TaskAlloc with
  | KAL_ERR.NONE =>
    let c2 := c1 ++ [KalCall.KAL_TaskCreate p_task_cfg.Prio]
    match k.KAL_TaskCreate with
    | KAL_ERR.NONE => (TFTPs_ERR.NONE, c2)
    | _ => (TFTPs_ERR.INIT_TASK_CREATE, c2)
  | KAL_ERR.INVALID_ARG => (TFTPs_ERR.INIT_TASK_INVALID_ARG, c1)
  | _ => (TFTPs_ERR.INIT_TASK_MEM_ALLOC, c1)

/-- The `switch (p_cfg->SockSel)` of `TFTPs_Init` with its `#ifndef` branches:
`true` when control reaches `break`, `false` when it reaches
`goto exit` with `TFTPs_ERR_CFG_INVALID_SOCK_FAMILY`. -/
def TFTPs_Init_SockSel (net : NetCfg) (sel : TFTPs_SOCK_SEL) : Bool :=
  match sel with
  | TFTPs_SOCK_SEL.IPv4 => net.IPv4_MODULE_EN
  | TFTPs_SOCK_SEL.IPv6 => net.IPv6_MODULE_EN
  | TFTPs_SOCK_SEL.IPv4_IPv6 =>
      if net.IPv4_MODULE_EN = false then false
      else if net.IPv6_MODULE_EN = false then false
      else true

/-- Function `TFTPs_Init`. The pointers `p_cfg` and `p_task_cfg` are `none`
when null; `p_err` is taken to point to a variable. The result is `none`
when the function dereferences a null pointer (`p_cfg->SockSel`, or
`p_task_cfg->StkPtr` in `TFTPs_TaskInit`): the behaviour is undefined then.
The assignments to the counters, the state and the enable flag, which give
the variables their values of `TFTPs_Task_entry`, are left out. -/
def TFTPs_Init (bld : BuildCfg) (net : NetCfg) (p_cfg : Option TFTPs_CFG)
    (p_task_cfg : Option TFTPs_TASK_CFG) (k : KalEnv) : Option InitResult :=
  let arg_chk : Bool := bld.TFTPs_CFG_ARG_CHK_EXT_EN = Preproc_value bld.DEF_ENABELD
  if arg_chk = true ∧ p_cfg = none then
    some { result := DEF_FAIL, p_err := TFTPs_ERR.NULL_PTR, Calls := [], TFTPs_CfgPtr := none }
  else if arg_chk = true ∧ p_task_cfg = none then
    some { result := DEF_FAIL, p_err := TFTPs_ERR.NULL_PTR, Calls := [], TFTPs_CfgPtr := none }
  else
    match p_cfg with
    | none => none
    | some cfg =>
      if TFTPs_Init_SockSel net cfg.SockSel = false then
        some { result := DEF_FAIL, p_err := TFTPs_ERR.CFG_INVALID_SOCK_FAMILY, Calls := [],
               TFTPs_CfgPtr := none }
      else
        match p_task_cfg with
        | none => none
        | some task_cfg =>
          let r := TFTPs_TaskInit task_cfg k
          if r.1 ≠ TFTPs_ERR.NONE then
            some { result := DEF_FAIL, p_err := r.1, Calls := r.2, TFTPs_CfgPtr := some cfg }
          else
            some { result := DEF_OK, p_err := TFTPs_ERR.NONE, Calls := r.2,
                   TFTPs_CfgPtr := some cfg }

/-- The socket selection is one the server task serves: `TFTPs_Task` enters
its loop with it. The first `switch` of `TFTPs_Task` takes a family for
`TFTPs_SOCK_SEL_IPv4` and `TFTPs_SOCK_SEL_IPv6` and goes to
"Init error, Socket IP family" and an endless empty loop for
`TFTPs_SOCK_SEL_IPv4_IPv6` (see `TFTPs_Task_entry`). -/
def SockSel_served (net : NetCfg) (cfg : TFTPs_CFG) : Bool :=
  (TFTPs_Task_entry cfg net).isSome

/-- The template build: argument checking configured as enabled
(`Cfg/Template/tftp-s_cfg.h`), no header defines `DEF_ENABELD`. -/
def W_build : BuildCfg :=
  { TFTPs_CFG_ARG_CHK_EXT_EN := DEF_ENABLED, DEF_ENABELD := none }

/-- The template task configuration of `Cfg/Template/tftp-s_cfg.c`. -/
def W_task_cfg : TFTPs_TASK_CFG :=
  { Prio := 20, StkSizeBytes := 512, StkPtr := 0 }

/-- A kernel that allocates and creates the task. -/
def W_kal : KalEnv :=
  { KAL_TaskAlloc := KAL_ERR.NONE, KAL_TaskCreate := KAL_ERR.NONE }

/-- A build with both the IPv4 and the IPv6 module. -/
def W_net_dual : NetCfg :=
  { IPv4_MODULE_EN := true, IPv6_MODULE_EN := true }

/-! ## Closes and opens of the file store (for the statements) -/

/-- The effect of one call on the handles that are open and on the verdict
so far: a close counts as in order when its handle is among the open ones. -/
def closes_step (st : List Nat × Bool) : Call → List Nat × Bool
  | Call.NetFS_FileOpen _ _ h => (if h = 0 then st.1 else h :: st.1, st.2)
  | Call.NetFS_FileClose h => (st.1.erase h, st.2 && decide (h ∈ st.1))
  | _ => st

/-- Every `NetFS_FileClose` among the calls is applied to a handle that a
successful open returned and that was not closed since. -/
def ClosesOpen (cs : List Call) : Bool :=
  (cs.foldl closes_step ([], true)).2

/-- The step is a call of `TFTPs_En`. -/
def Step_isEn : Step → Bool
  | Step.en => true
  | _ => false

/-- The states of the loop boundary reached from the loop entry by
datagrams, receive errors and calls of `TFTPs_Dis`. -/
def Reachable_rx_dis (s : TFTPs) : Prop :=
  ∃ cfg net s0 l, TFTPs_Task_entry cfg net = some s0 ∧ (∀ x ∈ l, Step_isEn x = false) ∧
    run s0 l = s

/-- The number of calls of `NetFS_FileWr` among the calls. -/
def writeCalls : List Call → Nat
  | [] => 0
  | Call.NetFS_FileWr _ _ :: cs => writeCalls cs + 1
  | _ :: cs => writeCalls cs

/-- The error code field of a datagram: its octets 2 and 3, in network order. -/
def Dgram_ErrCode (pkt : List Nat) : Nat :=
  (256 * pkt.getD TFTP_PKT_OFFSET_ERR_CODE 0 + pkt.getD (TFTP_PKT_OFFSET_ERR_CODE + 1) 0) % 65536

@[simp] abbrev TFTPs_ERR_CODE_ERR_STR : Nat := 0
@[simp] abbrev TFTPs_ERR_CODE_FILE_NOT_FOUND : Nat := 1

/-- The server after the first client read the file `abc` and acknowledged
its only block. -/
def W_idle_abc_acked : TFTPs :=
  run W_idle_abc [Step.rx (Rx.data (Pkt_Ack 1) W_peerA) (W_env 0 [])]

/-- The write transfer of the first client after the blocks 1 and 2, of 512
octets each. -/
def W_wr_12 : TFTPs :=
  run W_wr
    [Step.rx (Rx.data (Pkt_Data 1 (List.replicate 512 1)) W_peerA) (W_env 0 []),
     Step.rx (Rx.data (Pkt_Data 2 (List.replicate 512 2)) W_peerA) (W_env 0 [])]

/-- The same transfer after the client then repeated block 1. -/
def W_wr_121 : TFTPs :=
  run W_wr_12 [Step.rx (Rx.data (Pkt_Data 1 (List.replicate 512 1)) W_peerA) (W_env 0 [])]

/-- The same transfer after the client then repeated block 2. -/
def W_wr_1212 : TFTPs :=
  run W_wr_121 [Step.rx (Rx.data (Pkt_Data 2 (List.replicate 512 2)) W_peerA) (W_env 0 [])]

/-- The write transfer of the first client after a block numbered 65535, of
512 octets. -/
def W_wr_65535 : TFTPs :=
  run W_wr [Step.rx (Rx.data (Pkt_Data 65535 (List.replicate 512 1)) W_peerA) (W_env 0 [])]

/-- The same transfer after the client then sent a block numbered 0 and a
block numbered 1, of three octets each. -/
def W_wr_65535_0_1 : TFTPs :=
  run W_wr_65535
    [Step.rx (Rx.data (Pkt_Data 0 [7, 7, 7]) W_peerA) (W_env 0 []),
     Step.rx (Rx.data (Pkt_Data 1 [8, 8, 8]) W_peerA) (W_env 0 [])]

/-! ## The Error packets sent (for the statements) -/

/-- From `s` to `t` packets were only added to those sent, and each added
packet that is an Error packet carries the error code 0. -/
def ErrCode0 (s t : TFTPs) : Prop :=
  ∃ l, sent t.Calls = sent s.Calls ++ l ∧
    ∀ p ∈ l, Dgram_OpCode p.1 = TFTP_OPCODE_ERR → Dgram_ErrCode p.1 = TFTPs_ERR_CODE_ERR_STR


/-- The octets that the file store returns for the read number `j` (counted
from 0) of the file with the octets `f`, when every read asks for 512 octets
and returns the octets that remain, at most 512. -/
def File_block (f : List Nat) (j : Nat) : List Nat :=
  (f.drop (TFTPs_BLOCK_SIZE * j)).take TFTPs_BLOCK_SIZE

/-- The environments of a read transfer of the file with the octets `f`: the
open returns the handle `h`, read number `j` returns `File_block f j`, and
the transport accepts every packet. -/
def File_env (h : Nat) (f : List Nat) (j : Nat) : Env :=
  { NetFS_FileOpen := h, NetFS_FileRd_ok := true, NetFS_FileRd_data := File_block f j,
    NetFS_FileWr_ok := true, NetSock_TxDataTo := 1, err_uninit := TFTPs_ERR.NONE }

/-- A file of 1024 octets, two blocks. -/
def W_file1024 : List Nat := List.replicate 512 1 ++ List.replicate 512 2

/-! ## The trace history: `TFTPs_TraceInit`, `TFTPs_Trace` and `TFTPs_DispTrace` -/

/-- Type `TFTPs_TRACE_STRUCT`: one entry of the trace table. -/
structure TFTPs_TRACE_STRUCT where
  Id : Nat
  TS : Nat
  State : Nat
  Str : String
  RxBlkNbr : Nat
  TxBlkNbr : Nat
  deriving DecidableEq, Repr

/-- The file-scope variables of the trace: the table `TFTPs_TraceTbl`, declared
with `TFTPs_TRACE_HIST_SIZE` entries, and the write index `TFTPs_TraceIx`. -/
structure TraceVars where
  TFTPs_TraceTbl : List TFTPs_TRACE_STRUCT
  TFTPs_TraceIx : Nat
  deriving DecidableEq, Repr

/-- The configuration constant `TFTPs_TRACE_HIST_SIZE` of the template
`tftp-s_cfg.h`. The header `tftp-s.h` refuses a value below 16; the functions
of the trace take the value of the build as the parameter `hist`. -/
@[simp] abbrev TFTPs_TRACE_HIST_SIZE : Nat := 16

/-- The trace variables when the program starts: static storage is zero. -/
def TraceVars_static (hist : Nat) : TraceVars :=
  { TFTPs_TraceTbl := List.replicate hist
      { Id := 0, TS := 0, State := 0, Str := "", RxBlkNbr := 0, TxBlkNbr := 0 }
    TFTPs_TraceIx := 0 }

/-- Function `TFTPs_TraceInit`: set the write index to 0 and clear `Id` and `TS` of
the entries `0 .. hist - 1`. -/
def TFTPs_TraceInit (hist : Nat) (t : TraceVars) : TraceVars :=
  { TFTPs_TraceIx := 0
    TFTPs_TraceTbl := (List.range hist).foldl
      (fun tbl i =>
        match tbl.get? i with
        | some x => tbl.set i { x with Id := 0, TS := 0 }
        | none => tbl)
      t.TFTPs_TraceTbl }

/-- Function `TFTPs_Trace`: store the entry at `TFTPs_TraceIx`, then increment the
index (a `CPU_INT16U`) and set it to 0 when it is not below `hist`. The time
stamp is the answer `tick` of `KAL_TickGet`. -/
def TFTPs_Trace (hist : Nat) (s : TFTPs) (tick : Nat) (t : TraceVars) (id : Nat)
    (p_str : String) : TraceVars :=
  let tbl := t.TFTPs_TraceTbl.set t.TFTPs_TraceIx
    { Id := id, TS := tick, State := s.TFTPs_State, Str := p_str,
      RxBlkNbr := s.TFTPs_RxBlkNbr, TxBlkNbr := s.TFTPs_TxBlkNbr }
  let ix1 := (t.TFTPs_TraceIx + 1) % 65536
  { TFTPs_TraceTbl := tbl, TFTPs_TraceIx := if ix1 ≥ hist then 0 else ix1 }

/-- One row that `TFTPs_DispTrace` renders: the loop index `Row`, which is the
index of the row in `TFTPs_DispTbl` and also the index at which the row reads
`TFTPs_TraceTbl`; whether the row starts with the marker `>`; and the entry
read, `none` when the index lies outside the table. -/
structure DispRow where
  Row : Nat
  Mark : Bool
  Entry : Option TFTPs_TRACE_STRUCT
  deriving DecidableEq, Repr

/-- Function `TFTPs_DispTrace`, the loop `for (i = 2; i < hist + 2; i++)` that
renders the trace rows: row `i` is marked when `i == TFTPs_TraceIx` and shows
the fields of `TFTPs_TraceTbl[i]`. -/
def TFTPs_DispTrace (hist : Nat) (t : TraceVars) : List DispRow :=
  ((List.range hist).map (fun j => j + 2)).map
    (fun i => { Row := i, Mark := decide (i = t.TFTPs_TraceIx), Entry := t.TFTPs_TraceTbl.get? i })

/-- The trace after `TFTPs_TraceInit` and the first call `TFTPs_Trace(10, "Idle State")`
of `TFTPs_StateIdle`, in the template build. -/
def W_trace : TraceVars :=
  TFTPs_Trace TFTPs_TRACE_HIST_SIZE W_entry 100
    (TFTPs_TraceInit TFTPs_TRACE_HIST_SIZE (TraceVars_static TFTPs_TRACE_HIST_SIZE)) 10
    "Idle State"


/-! ## The value of the receive time-out (for the statements) -/

/-- The number that a call of `NetSock_CfgTimeoutRxQ_Set` hands to the
socket. The constant `NET_TMR_TIME_INFINITE` is declared by the network
stack, outside the repository: its value is the parameter `inf`. -/
def Timeout_ms (inf : Nat) : Timeout → Nat
  | none => inf
  | some v => v

/-- The socket waits without a bound: the number it was given is the value
of `NET_TMR_TIME_INFINITE`. -/
def Timeout_infinite (inf : Nat) (t : Timeout) : Prop :=
  Timeout_ms inf t = inf

instance (inf : Nat) (t : Timeout) : Decidable (Timeout_infinite inf t) := by
  unfold Timeout_infinite
  infer_instance

/-- A value for `NET_TMR_TIME_INFINITE`: the largest 32-bit number. -/
def W_inf : Nat := 4294967295

/-- The template configuration with `RxTimeoutMax` set to the value of
`NET_TMR_TIME_INFINITE`. -/
def W_cfg_inf : TFTPs_CFG :=
  { W_cfg with RxTimeoutMax := W_inf }

/-- The server with the configuration `W_cfg_inf` after it accepted the read
request of the first client and sent a first block of 512 octets. -/
def W_rd_inf : TFTPs :=
  run ((TFTPs_Task_entry W_cfg_inf W_net).get rfl)
    [Step.rx (Rx.data W_rrq W_peerA) (W_env 7 (List.replicate 512 170))]
/-! ## Lemmas on buffers and on the transmit functions -/

theorem bufRead_length (b : Buf) (off n : Nat) : (bufRead b off n).length = n := by
  simp [bufRead]

theorem bufRead_add (b : Buf) (off m n : Nat) :
    bufRead b off (m + n) = bufRead b off m ++ bufRead b (off + m) n := by
  simp [bufRead, List.range_add, List.map_append, Nat.add_assoc]

theorem bufRead_bufWrite_same (b : Buf) (off : Nat) (d : List Nat) :
    bufRead (bufWrite b off d) off d.length = d := by
  apply List.ext_getElem
  · simp [bufRead]
  · intro i h1 h2
    simp [bufRead] at h1
    simp [bufRead, bufWrite, h1, List.getD_eq_getElem?_getD, List.getElem?_eq_getElem h2]

theorem bufRead_congr (b c : Buf) (off n : Nat) (h : ∀ i, off ≤ i → i < off + n → b i = c i) :
    bufRead b off n = bufRead c off n := by
  apply List.ext_getElem
  · simp [bufRead]
  · intro i h1 h2
    simp [bufRead] at h1
    simp [bufRead]
    exact h _ (by omega) (by omega)

theorem bufRead_hdr (b : Buf) (op blk n : Nat) :
    bufRead (wr16 (wr16 b 0 op) 2 blk) 0 (4 + n)
      = [op / 256 % 256, op % 256, blk / 256 % 256, blk % 256] ++ bufRead b 4 n := by
  have hA : bufRead (wr16 (wr16 b 0 op) 2 blk) 0 4
      = [op / 256 % 256, op % 256, blk / 256 % 256, blk % 256] := by
    simp [bufRead, wr16, bufWrite, List.range_succ]
  have hB : bufRead (wr16 (wr16 b 0 op) 2 blk) (0 + 4) n = bufRead b 4 n := by
    apply bufRead_congr
    intro i h1 h2
    have h3 : ¬ (i < 2) := by omega
    have h4 : ¬ (i < 2 + 2) := by omega
    simp [wr16, bufWrite, h3, h4]
  rw [bufRead_add, hA, hB]

theorem TFTPs_TxErr_eq (s : TFTPs) (e : Env) (c : Nat) (m : String)
    (hm : (Str_Octets m).length + 5 < 65536) :
    TFTPs_TxErr s e c m =
      { s with
        TFTPs_TxMsgBuf := TxErr_buf s.TFTPs_TxMsgBuf c m
        Calls := s.Calls ++ [Call.NetSock_TxDataTo (Pkt_Error (c % 65536) m) s.TFTPs_SockAddr] } := by
  have h1 : ((Str_Octets m).length + 2 + 2 + 1) % 65536 = 4 + (Str_Octets m ++ [0]).length := by
    rw [Nat.mod_eq_of_lt (by omega)]; simp; omega
  have h2 := bufRead_hdr (bufWrite s.TFTPs_TxMsgBuf 4 (Str_Octets m ++ [0])) 5 (c % 65536)
    (Str_Octets m ++ [0]).length
  rw [bufRead_bufWrite_same] at h2
  simp only [List.length_append, List.length_singleton] at h1 h2
  simp [TFTPs_TxErr, TFTPs_Tx, TxErr_buf, Pkt_Error, h1, h2]

theorem TFTPs_DataWrAck_eq (s : TFTPs) (e : Env) (n : Nat) :
    TFTPs_DataWrAck s e n =
      { s with
        TFTPs_TxMsgCtr := (s.TFTPs_TxMsgCtr + 1) % 65536
        TFTPs_TxMsgBuf := wr16 (wr16 s.TFTPs_TxMsgBuf 0 4) 2 (n % 65536)
        Calls := s.Calls ++ [Call.NetSock_TxDataTo (Pkt_Ack (n % 65536)) s.TFTPs_SockAddr] } := by
  have h := bufRead_hdr s.TFTPs_TxMsgBuf 4 (n % 65536) 0
  have h0 : bufRead s.TFTPs_TxMsgBuf 4 0 = [] := rfl
  rw [h0] at h
  simp [TFTPs_DataWrAck, TFTPs_Tx, Pkt_Ack, h]

/-! ## The server stays enabled or disabled across the handlers -/

@[simp] theorem TFTPs_Tx_ServerEn (s : TFTPs) (e : Env) (a b c : Nat) :
    (TFTPs_Tx s e a b c).1.TFTPs_ServerEn = s.TFTPs_ServerEn := by
  simp [TFTPs_Tx]

@[simp] theorem TFTPs_TxErr_ServerEn (s : TFTPs) (e : Env) (c : Nat) (m : String) :
    (TFTPs_TxErr s e c m).TFTPs_ServerEn = s.TFTPs_ServerEn := by
  simp [TFTPs_TxErr]

@[simp] theorem TFTPs_DataWrAck_ServerEn (s : TFTPs) (e : Env) (n : Nat) :
    (TFTPs_DataWrAck s e n).TFTPs_ServerEn = s.TFTPs_ServerEn := by
  simp [TFTPs_DataWrAck]

@[simp] theorem NetFS_FileClose_ServerEn (s : TFTPs) :
    (NetFS_FileClose s).TFTPs_ServerEn = s.TFTPs_ServerEn := by
  simp [NetFS_FileClose]

@[simp] theorem TFTPs_FileOpen_ServerEn (s : TFTPs) (e : Env) (rw : Nat) :
    (TFTPs_FileOpen s e rw).1.TFTPs_ServerEn = s.TFTPs_ServerEn := by
  simp only [TFTPs_FileOpen, TFTPs_FileOpenMode]
  split_ifs <;> simp

@[simp] theorem TFTPs_DataRd_ServerEn (s : TFTPs) (e : Env) :
    (TFTPs_DataRd s e).1.TFTPs_ServerEn = s.TFTPs_ServerEn := by
  simp only [TFTPs_DataRd]
  split_ifs <;> simp

@[simp] theorem TFTPs_DataWr_ServerEn (s : TFTPs) (e : Env) :
    (TFTPs_DataWr s e).1.TFTPs_ServerEn = s.TFTPs_ServerEn := by
  simp only [TFTPs_DataWr]
  split_ifs <;> simp

@[simp] theorem TFTPs_Terminate_ServerEn (s : TFTPs) :
    (TFTPs_Terminate s).TFTPs_ServerEn = s.TFTPs_ServerEn := by
  simp only [TFTPs_Terminate, NetSock_CfgTimeoutRxQ_Set]
  split_ifs <;> simp

@[simp] theorem TFTPs_Terminate_State (s : TFTPs) :
    (TFTPs_Terminate s).TFTPs_State = TFTPs_STATE_IDLE := by
  simp only [TFTPs_Terminate, NetSock_CfgTimeoutRxQ_Set]
  split_ifs <;> simp [NetFS_FileClose]

@[simp] theorem TFTPs_StateIdle_ServerEn (s : TFTPs) (e : Env) :
    (TFTPs_StateIdle s e).1.TFTPs_ServerEn = s.TFTPs_ServerEn := by
  simp only [TFTPs_StateIdle, NetSock_CfgTimeoutRxQ_Set]
  split_ifs <;> simp

@[simp] theorem TFTPs_StateDataRd_ServerEn (s : TFTPs) (e : Env) :
    (TFTPs_StateDataRd s e).1.TFTPs_ServerEn = s.TFTPs_ServerEn := by
  simp only [TFTPs_StateDataRd, TFTPs_GetRxBlkNbr]
  split_ifs <;> simp

@[simp] theorem TFTPs_StateDataWr_ServerEn (s : TFTPs) (e : Env) :
    (TFTPs_StateDataWr s e).1.TFTPs_ServerEn = s.TFTPs_ServerEn := by
  simp only [TFTPs_StateDataWr]
  split_ifs <;> simp

theorem TFTPs_Task_ServerEn (s : TFTPs) (rx : Rx) (e : Env) :
    (TFTPs_Task s rx e).TFTPs_ServerEn = s.TFTPs_ServerEn := by
  cases rx with
  | err => simp [TFTPs_Task]
  | data pkt remote =>
    simp only [TFTPs_Task, TFTPs_Task_busy]
    split_ifs <;> simp

/-- The invariant of the loop boundary that ties the state to the enable
flag: a transfer is in progress only while the server is enabled. -/
theorem step_enabled (s : TFTPs) (x : Step)
    (h : s.TFTPs_State ≠ TFTPs_STATE_IDLE → s.TFTPs_ServerEn = true) :
    (step s x).TFTPs_State ≠ TFTPs_STATE_IDLE → (step s x).TFTPs_ServerEn = true := by
  cases x with
  | rx r e =>
    simp only [step]
    rw [TFTPs_Task_ServerEn]
    cases hEn : s.TFTPs_ServerEn with
    | true => simp
    | false =>
      have h0 : s.TFTPs_State = TFTPs_STATE_IDLE := by
        by_contra hc
        rw [h hc] at hEn
        exact Bool.noConfusion hEn
      cases r with
      | err => simp [TFTPs_Task]
      | data pkt remote => simp [TFTPs_Task, hEn, TFTPs_TxErr, TFTPs_Tx, h0]
  | dis => simp [step, TFTPs_Dis]
  | en => simp [step, TFTPs_En]

theorem run_enabled (l : List Step) (s : TFTPs)
    (h : s.TFTPs_State ≠ TFTPs_STATE_IDLE → s.TFTPs_ServerEn = true) :
    (run s l).TFTPs_State ≠ TFTPs_STATE_IDLE → (run s l).TFTPs_ServerEn = true := by
  induction l generalizing s with
  | nil => simpa [run] using h
  | cons x xs ih =>
    have := ih (step s x) (step_enabled s x h)
    simpa [run] using this

theorem Reachable_enabled (s : TFTPs) (hR : Reachable s)
    (h : s.TFTPs_State ≠ TFTPs_STATE_IDLE) : s.TFTPs_ServerEn = true := by
  obtain ⟨cfg, net, s0, l, h0, hl⟩ := hR
  subst hl
  apply run_enabled l s0 _ h
  intro _
  simp only [TFTPs_Task_entry] at h0
  split at h0
  · exact Option.noConfusion h0
  · injection h0 with h0
    subst h0
    rfl
/-! ## Lemmas on the received datagram -/

theorem Rx_buf_get (b : Buf) (pkt : List Nat) (i : Nat) (h1 : i < 516) (h2 : i < pkt.length) :
    Rx_buf b pkt i = pkt.getD i 0 := by
  have h3 : i < min 516 pkt.length := by omega
  simp [Rx_buf, bufWrite, h3, List.getD_eq_getElem?_getD, List.getElem?_take, h1,
    List.getElem?_eq_getElem h2]

theorem rd16_Rx_buf_0 (b : Buf) (pkt : List Nat) (h : 2 ≤ pkt.length) :
    rd16 (Rx_buf b pkt) 0 = Dgram_OpCode pkt := by
  simp only [rd16, Dgram_OpCode]
  rw [Rx_buf_get b pkt 0 (by omega) (by omega), Rx_buf_get b pkt 1 (by omega) (by omega)]

theorem rd16_Rx_buf_2 (b : Buf) (pkt : List Nat) (h : 4 ≤ pkt.length) :
    rd16 (Rx_buf b pkt) 2 = Dgram_BlkNbr pkt := by
  simp only [rd16, Dgram_BlkNbr]
  rw [Rx_buf_get b pkt 2 (by omega) (by omega), Rx_buf_get b pkt 3 (by omega) (by omega)]

theorem bufRead_bufWrite_drop (b : Buf) (d : List Nat) (k : Nat) :
    bufRead (bufWrite b 0 d) k (d.length - k) = d.drop k := by
  apply List.ext_getElem
  · simp [bufRead]
  · intro i h1 h2
    simp [bufRead] at h1
    have h3 : k + i < d.length := by omega
    simp [bufRead, bufWrite, h3, List.getD_eq_getElem?_getD, List.getElem?_eq_getElem h3]

theorem bufRead_Rx_buf_payload (b : Buf) (pkt : List Nat) :
    bufRead (Rx_buf b pkt) 4 ((pkt.take 516).length - 4) = Dgram_Payload pkt := by
  simp only [Rx_buf, Dgram_Payload, TFTPs_BUF_SIZE, TFTPs_BLOCK_SIZE, TFTP_PKT_SIZE_OPCODE,
    TFTP_PKT_SIZE_BLK_NBR, TFTP_PKT_OFFSET_DATA]
  exact bufRead_bufWrite_drop b (pkt.take 516) 4

/-! ## The read of one block -/

theorem TFTPs_DataRd_ok (s : TFTPs) (e : Env) (hok : e.NetFS_FileRd_ok = true)
    (htx : 0 ≤ e.NetSock_TxDataTo) (hlen : e.NetFS_FileRd_data.length ≤ 512) :
    TFTPs_DataRd s e =
      ({ s with
          TFTPs_State :=
            if e.NetFS_FileRd_data.length < 512 then TFTPs_STATE_IDLE else s.TFTPs_State
          TFTPs_TxBlkNbr := (s.TFTPs_TxBlkNbr + 1) % 65536
          TFTPs_TxMsgCtr := (s.TFTPs_TxMsgCtr + 1) % 65536
          TFTPs_TxMsgLen := e.NetFS_FileRd_data.length + 4
          TFTPs_TxMsgBuf := DataRd_buf s.TFTPs_TxMsgBuf (s.TFTPs_TxBlkNbr + 1) e.NetFS_FileRd_data
          Calls := s.Calls ++ [Call.NetFS_FileRd s.TFTPs_FileHandle 512]
            ++ (if e.NetFS_FileRd_data.length < 512
                then [Call.NetFS_FileClose s.TFTPs_FileHandle] else [])
            ++ [Call.NetSock_TxDataTo
                (Pkt_Data ((s.TFTPs_TxBlkNbr + 1) % 65536) e.NetFS_FileRd_data)
                s.TFTPs_SockAddr] },
        TFTPs_ERR.NONE) := by
  have h1 : (e.NetFS_FileRd_data.length + 2 + 2) % 65536 = 4 + e.NetFS_FileRd_data.length := by
    rw [Nat.mod_eq_of_lt (by omega)]; omega
  have h2 := bufRead_hdr (bufWrite s.TFTPs_TxMsgBuf 4 e.NetFS_FileRd_data) 3
    ((s.TFTPs_TxBlkNbr + 1) % 65536) e.NetFS_FileRd_data.length
  rw [bufRead_bufWrite_same] at h2
  have h3 : ¬ (e.NetSock_TxDataTo < 0) := by omega
  by_cases hs : e.NetFS_FileRd_data.length < 512
  · simp [TFTPs_DataRd, TFTPs_Tx, NetFS_FileClose, hok, h3, hs, h1, h2, DataRd_buf, Pkt_Data]
  · simp [TFTPs_DataRd, TFTPs_Tx, NetFS_FileClose, hok, h3, hs, h1, h2, DataRd_buf, Pkt_Data]

/-! ## One iteration of the loop, path by path -/

theorem Task_idle_rrq (s : TFTPs) (pkt : List Nat) (remote : NET_SOCK_ADDR) (e : Env)
    (hS : s.TFTPs_State = TFTPs_STATE_IDLE) (hEn : s.TFTPs_ServerEn = true)
    (hlen : 2 ≤ pkt.length) (hop : Dgram_OpCode pkt = TFTP_OPCODE_RD_REQ)
    (hopen : e.NetFS_FileOpen ≠ 0) (hok : e.NetFS_FileRd_ok = true)
    (htx : 0 ≤ e.NetSock_TxDataTo) (hd : e.NetFS_FileRd_data.length ≤ 512) :
    TFTPs_Task s (Rx.data pkt remote) e =
      { s with
        TFTPs_RxMsgBuf := Rx_buf s.TFTPs_RxMsgBuf pkt
        TFTPs_RxMsgLen := ((pkt.take TFTPs_BUF_SIZE).length : Int)
        TFTPs_RxMsgCtr := (s.TFTPs_RxMsgCtr + 1) % 4294967296
        TFTPs_OpCode := TFTP_OPCODE_RD_REQ
        TFTPs_SockAddr := remote
        TFTPs_FileHandle := e.NetFS_FileOpen
        TFTPs_State :=
          if e.NetFS_FileRd_data.length < 512 then TFTPs_STATE_IDLE else TFTPs_STATE_DATA_RD
        TFTPs_TxBlkNbr := 1
        TFTPs_TxMsgCtr := (s.TFTPs_TxMsgCtr + 1) % 65536
        TFTPs_TxMsgLen := e.NetFS_FileRd_data.length + 4
        TFTPs_TxMsgBuf := DataRd_buf s.TFTPs_TxMsgBuf 1 e.NetFS_FileRd_data
        RxQ_Timeout := some s.Cfg.RxTimeoutMax
        Calls := s.Calls
          ++ [Call.NetFS_FileOpen (Str_At (Rx_buf s.TFTPs_RxMsgBuf pkt) 2 514) TFTPs_FILE_OPEN_RD
                e.NetFS_FileOpen,
              Call.NetFS_FileRd e.NetFS_FileOpen 512]
          ++ (if e.NetFS_FileRd_data.length < 512
              then [Call.NetFS_FileClose e.NetFS_FileOpen] else [])
          ++ [Call.NetSock_TxDataTo (Pkt_Data 1 e.NetFS_FileRd_data) remote,
              Call.NetSock_CfgTimeoutRxQ_Set (some s.Cfg.RxTimeoutMax)] } := by
  by_cases hs : e.NetFS_FileRd_data.length < 512
  · simp [TFTPs_Task, hS, hEn, rd16_Rx_buf_0 _ _ hlen, hop, TFTPs_StateIdle, TFTPs_FileOpen,
      TFTPs_FileOpenMode, hopen, fun s => TFTPs_DataRd_ok s e hok htx hd, hs,
      NetSock_CfgTimeoutRxQ_Set]
  · simp [TFTPs_Task, hS, hEn, rd16_Rx_buf_0 _ _ hlen, hop, TFTPs_StateIdle, TFTPs_FileOpen,
      TFTPs_FileOpenMode, hopen, fun s => TFTPs_DataRd_ok s e hok htx hd, hs,
      NetSock_CfgTimeoutRxQ_Set]

theorem Task_rd_ack_next (s : TFTPs) (pkt : List Nat) (remote : NET_SOCK_ADDR) (e : Env)
    (hS : s.TFTPs_State = TFTPs_STATE_DATA_RD) (hEn : s.TFTPs_ServerEn = true)
    (hT : valid_tid s.Net remote s.TFTPs_SockAddr = true)
    (hlen : 4 ≤ pkt.length) (hop : Dgram_OpCode pkt = TFTP_OPCODE_ACK)
    (hblk : Dgram_BlkNbr pkt = s.TFTPs_TxBlkNbr) (hok : e.NetFS_FileRd_ok = true)
    (htx : 0 ≤ e.NetSock_TxDataTo) (hd : e.NetFS_FileRd_data.length ≤ 512) :
    TFTPs_Task s (Rx.data pkt remote) e =
      { s with
        TFTPs_RxMsgBuf := Rx_buf s.TFTPs_RxMsgBuf pkt
        TFTPs_RxMsgLen := ((pkt.take TFTPs_BUF_SIZE).length : Int)
        TFTPs_RxMsgCtr := (s.TFTPs_RxMsgCtr + 1) % 4294967296
        TFTPs_OpCode := TFTP_OPCODE_ACK
        TFTPs_RxBlkNbr := s.TFTPs_TxBlkNbr
        TFTPs_State :=
          if e.NetFS_FileRd_data.length < 512 then TFTPs_STATE_IDLE else TFTPs_STATE_DATA_RD
        TFTPs_TxBlkNbr := (s.TFTPs_TxBlkNbr + 1) % 65536
        TFTPs_TxMsgCtr := (s.TFTPs_TxMsgCtr + 1) % 65536
        TFTPs_TxMsgLen := e.NetFS_FileRd_data.length + 4
        TFTPs_TxMsgBuf := DataRd_buf s.TFTPs_TxMsgBuf (s.TFTPs_TxBlkNbr + 1) e.NetFS_FileRd_data
        Calls := s.Calls
          ++ [Call.NetFS_FileRd s.TFTPs_FileHandle 512]
          ++ (if e.NetFS_FileRd_data.length < 512
              then [Call.NetFS_FileClose s.TFTPs_FileHandle] else [])
          ++ [Call.NetSock_TxDataTo
                (Pkt_Data ((s.TFTPs_TxBlkNbr + 1) % 65536) e.NetFS_FileRd_data)
                s.TFTPs_SockAddr] } := by
  have h2 : 2 ≤ pkt.length := by omega
  by_cases hs : e.NetFS_FileRd_data.length < 512
  · simp [TFTPs_Task, hS, hEn, hT, rd16_Rx_buf_0 _ _ h2, hop, TFTPs_StateDataRd,
      TFTPs_GetRxBlkNbr, rd16_Rx_buf_2 _ _ hlen, hblk,
      fun s => TFTPs_DataRd_ok s e hok htx hd, hs]
  · simp [TFTPs_Task, hS, hEn, hT, rd16_Rx_buf_0 _ _ h2, hop, TFTPs_StateDataRd,
      TFTPs_GetRxBlkNbr, rd16_Rx_buf_2 _ _ hlen, hblk,
      fun s => TFTPs_DataRd_ok s e hok htx hd, hs]

/-! ## More paths of one iteration -/

theorem TFTPs_Terminate_eq (s : TFTPs) :
    TFTPs_Terminate s =
      { s with
        TFTPs_State := TFTPs_STATE_IDLE
        TFTPs_FileHandle := 0
        RxQ_Timeout := none
        Calls := s.Calls
          ++ (if s.TFTPs_FileHandle ≠ 0 then [Call.NetFS_FileClose s.TFTPs_FileHandle] else [])
          ++ [Call.NetSock_CfgTimeoutRxQ_Set none] } := by
  by_cases h : s.TFTPs_FileHandle = 0
  · simp [TFTPs_Terminate, NetSock_CfgTimeoutRxQ_Set, NetFS_FileClose, h]
  · simp [TFTPs_Terminate, NetSock_CfgTimeoutRxQ_Set, NetFS_FileClose, h]

theorem msg_len_file_not_found : (Str_Octets "file not found").length + 5 < 65536 := by decide

theorem Task_idle_req_nofile (s : TFTPs) (pkt : List Nat) (remote : NET_SOCK_ADDR) (e : Env)
    (op : Nat) (hS : s.TFTPs_State = TFTPs_STATE_IDLE) (hEn : s.TFTPs_ServerEn = true)
    (hlen : 2 ≤ pkt.length) (hop : Dgram_OpCode pkt = op)
    (hreq : op = TFTP_OPCODE_RD_REQ ∨ op = TFTP_OPCODE_WR_REQ)
    (hopen : e.NetFS_FileOpen = 0) :
    TFTPs_Task s (Rx.data pkt remote) e =
      { s with
        TFTPs_RxMsgBuf := Rx_buf s.TFTPs_RxMsgBuf pkt
        TFTPs_RxMsgLen := ((pkt.take TFTPs_BUF_SIZE).length : Int)
        TFTPs_RxMsgCtr := (s.TFTPs_RxMsgCtr + 1) % 4294967296
        TFTPs_OpCode := op
        TFTPs_SockAddr := remote
        TFTPs_FileHandle := 0
        TFTPs_State := TFTPs_STATE_IDLE
        TFTPs_TxBlkNbr := if op = TFTP_OPCODE_WR_REQ then 0 else s.TFTPs_TxBlkNbr
        TFTPs_TxMsgBuf := TxErr_buf s.TFTPs_TxMsgBuf 0 "file not found"
        RxQ_Timeout := none
        Calls := s.Calls
          ++ [Call.NetFS_FileOpen (Str_At (Rx_buf s.TFTPs_RxMsgBuf pkt) 2 514) (op - 1) 0,
              Call.NetSock_TxDataTo (Pkt_Error 0 "file not found") remote,
              Call.NetSock_CfgTimeoutRxQ_Set none] } := by
  rcases hreq with h | h
  · subst h
    simp [TFTPs_Task, hS, hEn, rd16_Rx_buf_0 _ _ hlen, hop, TFTPs_StateIdle, TFTPs_FileOpen,
      TFTPs_FileOpenMode, hopen, TFTPs_TxErr_eq _ _ _ _ msg_len_file_not_found,
      TFTPs_Terminate_eq]
  · subst h
    simp [TFTPs_Task, hS, hEn, rd16_Rx_buf_0 _ _ hlen, hop, TFTPs_StateIdle, TFTPs_FileOpen,
      TFTPs_FileOpenMode, hopen, TFTPs_TxErr_eq _ _ _ _ msg_len_file_not_found,
      TFTPs_Terminate_eq]

theorem Task_idle_wrq (s : TFTPs) (pkt : List Nat) (remote : NET_SOCK_ADDR) (e : Env)
    (hS : s.TFTPs_State = TFTPs_STATE_IDLE) (hEn : s.TFTPs_ServerEn = true)
    (hlen : 2 ≤ pkt.length) (hop : Dgram_OpCode pkt = TFTP_OPCODE_WR_REQ)
    (hopen : e.NetFS_FileOpen ≠ 0) :
    TFTPs_Task s (Rx.data pkt remote) e =
      { s with
        TFTPs_RxMsgBuf := Rx_buf s.TFTPs_RxMsgBuf pkt
        TFTPs_RxMsgLen := ((pkt.take TFTPs_BUF_SIZE).length : Int)
        TFTPs_RxMsgCtr := (s.TFTPs_RxMsgCtr + 1) % 4294967296
        TFTPs_OpCode := TFTP_OPCODE_WR_REQ
        TFTPs_SockAddr := remote
        TFTPs_FileHandle := e.NetFS_FileOpen
        TFTPs_State := TFTPs_STATE_DATA_WR
        TFTPs_TxBlkNbr := 0
        TFTPs_TxMsgCtr := (s.TFTPs_TxMsgCtr + 1) % 65536
        TFTPs_TxMsgBuf := Ack_buf s.TFTPs_TxMsgBuf 0
        RxQ_Timeout := some s.Cfg.RxTimeoutMax
        Calls := s.Calls
          ++ [Call.NetFS_FileOpen (Str_At (Rx_buf s.TFTPs_RxMsgBuf pkt) 2 514) TFTPs_FILE_OPEN_WR
                e.NetFS_FileOpen,
              Call.NetSock_TxDataTo (Pkt_Ack 0) remote,
              Call.NetSock_CfgTimeoutRxQ_Set (some s.Cfg.RxTimeoutMax)] } := by
  simp [TFTPs_Task, hS, hEn, rd16_Rx_buf_0 _ _ hlen, hop, TFTPs_StateIdle, TFTPs_FileOpen,
    TFTPs_FileOpenMode, hopen, TFTPs_DataWrAck_eq, NetSock_CfgTimeoutRxQ_Set, Ack_buf]

/-- The error that `TFTPs_StateIdle` returns for an Ack, a Data or an Error
packet. -/
theorem TFTPs_StateIdle_unexpected (t : TFTPs) (e : Env) :
    (t.TFTPs_OpCode = TFTP_OPCODE_ACK → TFTPs_StateIdle t e = (t, TFTPs_ERR.ACK)) ∧
      (t.TFTPs_OpCode = TFTP_OPCODE_DATA → TFTPs_StateIdle t e = (t, TFTPs_ERR.DATA)) ∧
      (t.TFTPs_OpCode = TFTP_OPCODE_ERR → TFTPs_StateIdle t e = (t, TFTPs_ERR.ERR)) := by
  refine ⟨?_, ?_, ?_⟩ <;> intro h <;> simp [TFTPs_StateIdle, h]

theorem Task_idle_unexpected (s : TFTPs) (pkt : List Nat) (remote : NET_SOCK_ADDR) (e : Env)
    (op : Nat) (hS : s.TFTPs_State = TFTPs_STATE_IDLE) (hEn : s.TFTPs_ServerEn = true)
    (hlen : 2 ≤ pkt.length) (hop : Dgram_OpCode pkt = op)
    (hun : op = TFTP_OPCODE_ACK ∨ op = TFTP_OPCODE_DATA ∨ op = TFTP_OPCODE_ERR) :
    TFTPs_Task s (Rx.data pkt remote) e =
      { s with
        TFTPs_RxMsgBuf := Rx_buf s.TFTPs_RxMsgBuf pkt
        TFTPs_RxMsgLen := ((pkt.take TFTPs_BUF_SIZE).length : Int)
        TFTPs_RxMsgCtr := (s.TFTPs_RxMsgCtr + 1) % 4294967296
        TFTPs_OpCode := op
        TFTPs_SockAddr := remote
        TFTPs_FileHandle := 0
        TFTPs_State := TFTPs_STATE_IDLE
        RxQ_Timeout := none
        Calls := s.Calls
          ++ (if s.TFTPs_FileHandle ≠ 0 then [Call.NetFS_FileClose s.TFTPs_FileHandle] else [])
          ++ [Call.NetSock_CfgTimeoutRxQ_Set none] } := by
  rcases hun with h | h | h <;> subst h <;>
    simp [TFTPs_Task, hS, hEn, rd16_Rx_buf_0 _ _ hlen, hop, TFTPs_StateIdle,
      TFTPs_Terminate_eq]

/-! ## The write of one block -/

theorem TFTPs_DataWr_eq (t : TFTPs) (e : Env) (L : Nat) (hL : t.TFTPs_RxMsgLen = (L : Int))
    (h4 : 4 ≤ L) :
    TFTPs_DataWr t e =
      ({ t with
          TFTPs_State :=
            if t.TFTPs_TxBlkNbr < rd16 t.TFTPs_RxMsgBuf 2 ∧ L - 4 < 512
            then TFTPs_STATE_IDLE else t.TFTPs_State
          TFTPs_TxBlkNbr := rd16 t.TFTPs_RxMsgBuf 2
          TFTPs_TxMsgCtr := (t.TFTPs_TxMsgCtr + 1) % 65536
          TFTPs_TxMsgBuf := Ack_buf t.TFTPs_TxMsgBuf (rd16 t.TFTPs_RxMsgBuf 2)
          Calls := t.Calls
            ++ (if t.TFTPs_TxBlkNbr < rd16 t.TFTPs_RxMsgBuf 2 ∧ 0 < L - 4
                then [Call.NetFS_FileWr t.TFTPs_FileHandle (bufRead t.TFTPs_RxMsgBuf 4 (L - 4))]
                else [])
            ++ (if t.TFTPs_TxBlkNbr < rd16 t.TFTPs_RxMsgBuf 2 ∧ L - 4 < 512
                then [Call.NetFS_FileClose t.TFTPs_FileHandle] else [])
            ++ [Call.NetSock_TxDataTo (Pkt_Ack (rd16 t.TFTPs_RxMsgBuf 2)) t.TFTPs_SockAddr] },
        TFTPs_ERR.NONE) := by
  have hmod : rd16 t.TFTPs_RxMsgBuf 2 % 65536 = rd16 t.TFTPs_RxMsgBuf 2 := by
    simp [rd16]
  have htn : ((L : Int) - 2 - 2).toNat = L - 4 := by omega
  by_cases hb : t.TFTPs_TxBlkNbr < rd16 t.TFTPs_RxMsgBuf 2
  · by_cases hp : 0 < L - 4
    · have hp2 : (L : Int) - 2 - 2 > 0 := by omega
      by_cases hs : L - 4 < 512
      · have hs2 : (L : Int) - 2 - 2 < 512 := by omega
        simp [TFTPs_DataWr, hL, hb, hp, hp2, hs, hs2, htn, TFTPs_DataWrAck_eq, NetFS_FileClose,
          Ack_buf, hmod]
      · have hs2 : ¬ ((L : Int) - 2 - 2 < 512) := by omega
        simp [TFTPs_DataWr, hL, hb, hp, hp2, hs, hs2, htn, TFTPs_DataWrAck_eq, NetFS_FileClose,
          Ack_buf, hmod]
    · have hp2 : ¬ ((L : Int) - 2 - 2 > 0) := by omega
      have hs : L - 4 < 512 := by omega
      have hs2 : (L : Int) - 2 - 2 < 512 := by omega
      simp [TFTPs_DataWr, hL, hb, hp, hp2, hs, hs2, htn, TFTPs_DataWrAck_eq, NetFS_FileClose,
        Ack_buf, hmod]
  · simp [TFTPs_DataWr, hL, hb, TFTPs_DataWrAck_eq, Ack_buf, hmod]

theorem Dgram_Payload_length (pkt : List Nat) :
    (Dgram_Payload pkt).length = (pkt.take 516).length - 4 := by
  simp [Dgram_Payload]

theorem Task_wr_data (s : TFTPs) (pkt : List Nat) (remote : NET_SOCK_ADDR) (e : Env)
    (hS : s.TFTPs_State = TFTPs_STATE_DATA_WR) (hEn : s.TFTPs_ServerEn = true)
    (hT : valid_tid s.Net remote s.TFTPs_SockAddr = true)
    (hlen : 4 ≤ pkt.length) (hop : Dgram_OpCode pkt = TFTP_OPCODE_DATA) :
    TFTPs_Task s (Rx.data pkt remote) e =
      { s with
        TFTPs_RxMsgBuf := Rx_buf s.TFTPs_RxMsgBuf pkt
        TFTPs_RxMsgLen := ((pkt.take TFTPs_BUF_SIZE).length : Int)
        TFTPs_RxMsgCtr := (s.TFTPs_RxMsgCtr + 1) % 4294967296
        TFTPs_OpCode := TFTP_OPCODE_DATA
        TFTPs_State :=
          if s.TFTPs_TxBlkNbr < Dgram_BlkNbr pkt ∧ (Dgram_Payload pkt).length < 512
          then TFTPs_STATE_IDLE else TFTPs_STATE_DATA_WR
        TFTPs_TxBlkNbr := Dgram_BlkNbr pkt
        TFTPs_TxMsgCtr := (s.TFTPs_TxMsgCtr + 1) % 65536
        TFTPs_TxMsgBuf := Ack_buf s.TFTPs_TxMsgBuf (Dgram_BlkNbr pkt)
        Calls := s.Calls
          ++ (if s.TFTPs_TxBlkNbr < Dgram_BlkNbr pkt ∧ 0 < (Dgram_Payload pkt).length
              then [Call.NetFS_FileWr s.TFTPs_FileHandle (Dgram_Payload pkt)] else [])
          ++ (if s.TFTPs_TxBlkNbr < Dgram_BlkNbr pkt ∧ (Dgram_Payload pkt).length < 512
              then [Call.NetFS_FileClose s.TFTPs_FileHandle] else [])
          ++ [Call.NetSock_TxDataTo (Pkt_Ack (Dgram_BlkNbr pkt)) s.TFTPs_SockAddr] } := by
  have h2 : 2 ≤ pkt.length := by omega
  have hL : 4 ≤ (pkt.take 516).length := by simp; omega
  have hw := fun t h => TFTPs_DataWr_eq t e (pkt.take 516).length h hL
  rw [Dgram_Payload_length, ← bufRead_Rx_buf_payload s.TFTPs_RxMsgBuf pkt,
    ← rd16_Rx_buf_2 s.TFTPs_RxMsgBuf pkt hlen]
  simp only [TFTPs_Task, hS, hEn, hT, rd16_Rx_buf_0 _ _ h2, hop, TFTPs_StateDataWr]
  simp
  rw [hw _ (by simp)]
  simp [hS]

/-! ## The loop after the state handler, and the open files -/

theorem TFTPs_Task_enabled (s : TFTPs) (pkt : List Nat) (remote : NET_SOCK_ADDR) (e : Env)
    (hEn : s.TFTPs_ServerEn = true) :
    TFTPs_Task s (Rx.data pkt remote) e =
      if (TFTPs_Task_dispatch s pkt remote e).2 ≠ TFTPs_ERR.NONE
      then TFTPs_Terminate (TFTPs_Task_dispatch s pkt remote e).1
      else (TFTPs_Task_dispatch s pkt remote e).1 := by
  simp only [TFTPs_Task, TFTPs_Task_dispatch, TFTPs_Task_rx, hEn]
  rfl

theorem openFiles_append (l1 l2 : List Call) :
    openFiles (l1 ++ l2) = l2.foldl openFiles_call (openFiles l1) := by
  simp [openFiles, List.foldl_append]

theorem openFiles_tx (l : List Call) (pkt : List Nat) (dest : NET_SOCK_ADDR) :
    openFiles (l ++ [Call.NetSock_TxDataTo pkt dest]) = openFiles l := by
  simp [openFiles_append, openFiles_call]

theorem openFiles_timeout (l : List Call) (t : Timeout) :
    openFiles (l ++ [Call.NetSock_CfgTimeoutRxQ_Set t]) = openFiles l := by
  simp [openFiles_append, openFiles_call]

theorem openFiles_rd (l : List Call) (h n : Nat) :
    openFiles (l ++ [Call.NetFS_FileRd h n]) = openFiles l := by
  simp [openFiles_append, openFiles_call]

theorem openFiles_wr (l : List Call) (h : Nat) (d : List Nat) :
    openFiles (l ++ [Call.NetFS_FileWr h d]) = openFiles l := by
  simp [openFiles_append, openFiles_call]

theorem openFiles_close (l : List Call) (h : Nat) :
    openFiles (l ++ [Call.NetFS_FileClose h]) = (openFiles l).erase h := by
  simp [openFiles_append, openFiles_call]

theorem openFiles_open (l : List Call) (name : List Nat) (rw h : Nat) :
    openFiles (l ++ [Call.NetFS_FileOpen name rw h])
      = if h = 0 then openFiles l else h :: openFiles l := by
  simp [openFiles_append, openFiles_call]

theorem HandleInv_close (cs : List Call) (h : Nat) (hI : HandleInv cs h) :
    openFiles (cs ++ [Call.NetFS_FileClose h]) = [] := by
  rw [openFiles_close]
  rcases hI with h1 | ⟨_, h1⟩ <;> simp [h1]

theorem HandleInv_of_nil (cs : List Call) (h : Nat) (h0 : openFiles cs = []) :
    HandleInv cs h := Or.inl h0

theorem HandleInv_Tx (t : TFTPs) (e : Env) (a b c : Nat)
    (hI : HandleInv t.Calls t.TFTPs_FileHandle) :
    HandleInv (TFTPs_Tx t e a b c).1.Calls (TFTPs_Tx t e a b c).1.TFTPs_FileHandle := by
  simpa [TFTPs_Tx, HandleInv, openFiles_append, openFiles_call] using hI

theorem HandleInv_TxErr (t : TFTPs) (e : Env) (c : Nat) (m : String)
    (hI : HandleInv t.Calls t.TFTPs_FileHandle) :
    HandleInv (TFTPs_TxErr t e c m).Calls (TFTPs_TxErr t e c m).TFTPs_FileHandle := by
  simpa [TFTPs_TxErr, TFTPs_Tx, HandleInv, openFiles_append, openFiles_call] using hI

theorem HandleInv_DataWrAck (t : TFTPs) (e : Env) (n : Nat)
    (hI : HandleInv t.Calls t.TFTPs_FileHandle) :
    HandleInv (TFTPs_DataWrAck t e n).Calls (TFTPs_DataWrAck t e n).TFTPs_FileHandle := by
  simpa [TFTPs_DataWrAck, TFTPs_Tx, HandleInv, openFiles_append, openFiles_call] using hI

theorem HandleInv_FileOpen (t : TFTPs) (e : Env) (rw : Nat) (h0 : openFiles t.Calls = []) :
    HandleInv (TFTPs_FileOpen t e rw).1.Calls (TFTPs_FileOpen t e rw).1.TFTPs_FileHandle := by
  by_cases hrw : rw = 0 ∨ rw = 1
  · by_cases ho : e.NetFS_FileOpen = 0
    · simp [TFTPs_FileOpen, TFTPs_FileOpenMode, hrw, ho, TFTPs_TxErr, TFTPs_Tx, HandleInv,
        openFiles_append, openFiles_call, h0]
    · simp [TFTPs_FileOpen, TFTPs_FileOpenMode, hrw, ho, HandleInv, openFiles_append,
        openFiles_call, h0]
  · simp [TFTPs_FileOpen, TFTPs_FileOpenMode, hrw, TFTPs_TxErr, TFTPs_Tx, HandleInv,
      openFiles_append, openFiles_call, h0]

theorem HandleInv_DataRd (t : TFTPs) (e : Env) (hI : HandleInv t.Calls t.TFTPs_FileHandle) :
    HandleInv (TFTPs_DataRd t e).1.Calls (TFTPs_DataRd t e).1.TFTPs_FileHandle := by
  rcases hI with h1 | ⟨h2, h1⟩ <;>
    by_cases hs : e.NetFS_FileRd_data.length < 512 <;>
    by_cases hok : e.NetFS_FileRd_ok = true <;>
    by_cases htx : e.NetSock_TxDataTo < 0 <;>
    simp [TFTPs_DataRd, hs, hok, htx, NetFS_FileClose, TFTPs_TxErr, TFTPs_Tx, HandleInv,
      openFiles_append, openFiles_call, *]

theorem HandleInv_DataWr (t : TFTPs) (e : Env) (hI : HandleInv t.Calls t.TFTPs_FileHandle) :
    HandleInv (TFTPs_DataWr t e).1.Calls (TFTPs_DataWr t e).1.TFTPs_FileHandle := by
  rcases hI with h1 | ⟨h2, h1⟩ <;>
    by_cases hb : rd16 t.TFTPs_RxMsgBuf 2 > t.TFTPs_TxBlkNbr <;>
    by_cases hp : t.TFTPs_RxMsgLen - 2 - 2 > 0 <;>
    by_cases hs : t.TFTPs_RxMsgLen - 2 - 2 < 512 <;>
    simp [TFTPs_DataWr, hb, hp, hs, NetFS_FileClose, TFTPs_DataWrAck, TFTPs_Tx, HandleInv,
      openFiles_append, openFiles_call, *]

theorem HandleInv_Terminate (t : TFTPs) (hI : HandleInv t.Calls t.TFTPs_FileHandle) :
    openFiles (TFTPs_Terminate t).Calls = [] := by
  rw [TFTPs_Terminate_eq]
  by_cases hh : t.TFTPs_FileHandle = 0
  · rcases hI with h1 | ⟨h2, _⟩
    · simp [hh, openFiles_append, openFiles_call, h1]
    · exact absurd hh h2
  · rcases hI with h1 | ⟨_, h1⟩ <;> simp [hh, openFiles_append, openFiles_call, h1]

theorem HandleInv_timeout (t : TFTPs) (x : Timeout)
    (hI : HandleInv t.Calls t.TFTPs_FileHandle) :
    HandleInv (NetSock_CfgTimeoutRxQ_Set t x).Calls
      (NetSock_CfgTimeoutRxQ_Set t x).TFTPs_FileHandle := by
  simpa [NetSock_CfgTimeoutRxQ_Set, HandleInv, openFiles_append, openFiles_call] using hI

theorem openFiles_FileClose (t : TFTPs) (hI : HandleInv t.Calls t.TFTPs_FileHandle) :
    openFiles (NetFS_FileClose t).Calls = [] :=
  HandleInv_close t.Calls t.TFTPs_FileHandle hI

theorem HandleInv_StateIdle (t : TFTPs) (e : Env) (h0 : openFiles t.Calls = []) :
    HandleInv (TFTPs_StateIdle t e).1.Calls (TFTPs_StateIdle t e).1.TFTPs_FileHandle := by
  have inner : ∀ r : TFTPs × TFTPs_ERR, HandleInv r.1.Calls r.1.TFTPs_FileHandle →
      HandleInv
        (if r.2 = TFTPs_ERR.NONE
          then (NetSock_CfgTimeoutRxQ_Set r.1 (some r.1.Cfg.RxTimeoutMax), r.2) else r).1.Calls
        (if r.2 = TFTPs_ERR.NONE
          then (NetSock_CfgTimeoutRxQ_Set r.1 (some r.1.Cfg.RxTimeoutMax), r.2)
          else r).1.TFTPs_FileHandle := by
    intro r hr
    split_ifs
    · exact HandleInv_timeout _ _ hr
    · exact hr
  unfold TFTPs_StateIdle
  dsimp only
  apply inner
  split_ifs
  · exact HandleInv_DataRd _ e (HandleInv_FileOpen t e TFTPs_FILE_OPEN_RD h0)
  · exact HandleInv_FileOpen t e TFTPs_FILE_OPEN_RD h0
  · exact Or.inl h0
  · exact HandleInv_DataWrAck _ e _
      (HandleInv_FileOpen { t with TFTPs_TxBlkNbr := 0 } e TFTPs_FILE_OPEN_WR h0)
  · exact HandleInv_FileOpen { t with TFTPs_TxBlkNbr := 0 } e TFTPs_FILE_OPEN_WR h0
  · exact Or.inl h0
  · exact Or.inl h0
  · exact Or.inl h0

theorem HandleInv_StateDataRd (t : TFTPs) (e : Env)
    (hI : HandleInv t.Calls t.TFTPs_FileHandle) :
    HandleInv (TFTPs_StateDataRd t e).1.Calls (TFTPs_StateDataRd t e).1.TFTPs_FileHandle := by
  have hc := openFiles_FileClose t hI
  unfold TFTPs_StateDataRd
  dsimp only
  split_ifs
  · exact HandleInv_DataRd _ e (HandleInv_FileOpen (NetFS_FileClose t) e TFTPs_FILE_OPEN_RD hc)
  · exact HandleInv_FileOpen (NetFS_FileClose t) e TFTPs_FILE_OPEN_RD hc
  · exact HandleInv_DataRd (TFTPs_GetRxBlkNbr t) e hI
  · exact HandleInv_TxErr _ e _ _ (HandleInv_Tx (TFTPs_GetRxBlkNbr t) e _ _ _ hI)
  · exact HandleInv_Tx (TFTPs_GetRxBlkNbr t) e _ _ _ hI
  · exact HandleInv_TxErr t e _ _ hI
  · exact HandleInv_TxErr t e _ _ hI
  · exact HandleInv_TxErr t e _ _ hI
  · exact hI

theorem HandleInv_StateDataWr (t : TFTPs) (e : Env)
    (hI : HandleInv t.Calls t.TFTPs_FileHandle) :
    HandleInv (TFTPs_StateDataWr t e).1.Calls (TFTPs_StateDataWr t e).1.TFTPs_FileHandle := by
  have hc := openFiles_FileClose t hI
  unfold TFTPs_StateDataWr
  dsimp only
  split_ifs
  · exact HandleInv_TxErr t e _ _ hI
  · exact HandleInv_TxErr t e _ _ hI
  · exact HandleInv_DataWrAck _ e _
      (HandleInv_FileOpen { NetFS_FileClose t with TFTPs_TxBlkNbr := 0 } e TFTPs_FILE_OPEN_WR hc)
  · exact HandleInv_FileOpen { NetFS_FileClose t with TFTPs_TxBlkNbr := 0 } e
      TFTPs_FILE_OPEN_WR hc
  · exact HandleInv_DataWr t e hI
  · exact HandleInv_TxErr t e _ _ hI
  · exact hI

theorem HandleInv_busy (t : TFTPs) (e : Env) (remote : NET_SOCK_ADDR)
    (hI : HandleInv t.Calls t.TFTPs_FileHandle) :
    HandleInv (TFTPs_Task_busy t e remote).Calls (TFTPs_Task_busy t e remote).TFTPs_FileHandle := by
  simpa [TFTPs_Task_busy, TFTPs_TxErr, TFTPs_Tx, HandleInv, openFiles_append, openFiles_call]
    using hI

theorem HandleInv_of_FilesInv (s : TFTPs) (hF : FilesInv s) :
    HandleInv s.Calls s.TFTPs_FileHandle := by
  by_cases h : s.TFTPs_State = TFTPs_STATE_IDLE
  · exact Or.inl (hF.1 h)
  · exact Or.inr (hF.2 h)

theorem HandleInv_dispatch (s : TFTPs) (pkt : List Nat) (remote : NET_SOCK_ADDR) (e : Env)
    (hF : FilesInv s) :
    HandleInv (TFTPs_Task_dispatch s pkt remote e).1.Calls
      (TFTPs_Task_dispatch s pkt remote e).1.TFTPs_FileHandle := by
  have hI : HandleInv (TFTPs_Task_rx s pkt).Calls (TFTPs_Task_rx s pkt).TFTPs_FileHandle :=
    HandleInv_of_FilesInv s hF
  unfold TFTPs_Task_dispatch
  dsimp only
  split_ifs with h1 h2 h3 h4 h5
  · exact HandleInv_StateIdle _ e (hF.1 h1)
  · exact HandleInv_StateDataRd _ e hI
  · exact HandleInv_busy _ e remote hI
  · exact HandleInv_StateDataWr _ e hI
  · exact HandleInv_busy _ e remote hI
  · exact hI

/-! ## Failing reads and transmits, and repeated requests -/

theorem msg_len_read_error : (Str_Octets "RRQ file read error").length + 5 < 65536 := by
  decide

theorem TFTPs_DataRd_rdfail (t : TFTPs) (e : Env) (hok : e.NetFS_FileRd_ok = false) :
    TFTPs_DataRd t e =
      ({ t with
          TFTPs_State :=
            if e.NetFS_FileRd_data.length < 512 then TFTPs_STATE_IDLE else t.TFTPs_State
          TFTPs_TxMsgLen := e.NetFS_FileRd_data.length
          TFTPs_TxMsgBuf :=
            TxErr_buf (bufWrite t.TFTPs_TxMsgBuf 4 e.NetFS_FileRd_data) 0 "RRQ file read error"
          Calls := t.Calls ++ [Call.NetFS_FileRd t.TFTPs_FileHandle 512]
            ++ (if e.NetFS_FileRd_data.length < 512
                then [Call.NetFS_FileClose t.TFTPs_FileHandle] else [])
            ++ [Call.NetSock_TxDataTo (Pkt_Error 0 "RRQ file read error") t.TFTPs_SockAddr] },
        TFTPs_ERR.FILE_RD) := by
  by_cases hs : e.NetFS_FileRd_data.length < 512
  · simp [TFTPs_DataRd, NetFS_FileClose, hok, hs, TFTPs_TxErr_eq _ _ _ _ msg_len_read_error]
  · simp [TFTPs_DataRd, NetFS_FileClose, hok, hs, TFTPs_TxErr_eq _ _ _ _ msg_len_read_error]

theorem TFTPs_DataRd_txfail (t : TFTPs) (e : Env) (hok : e.NetFS_FileRd_ok = true)
    (htx : e.NetSock_TxDataTo < 0) (hlen : e.NetFS_FileRd_data.length ≤ 512) :
    TFTPs_DataRd t e =
      ({ t with
          TFTPs_State :=
            if e.NetFS_FileRd_data.length < 512 then TFTPs_STATE_IDLE else t.TFTPs_State
          TFTPs_TxBlkNbr := (t.TFTPs_TxBlkNbr + 1) % 65536
          TFTPs_TxMsgCtr := (t.TFTPs_TxMsgCtr + 1) % 65536
          TFTPs_TxMsgLen := e.NetFS_FileRd_data.length + 4
          TFTPs_TxMsgBuf :=
            TxErr_buf (DataRd_buf t.TFTPs_TxMsgBuf (t.TFTPs_TxBlkNbr + 1) e.NetFS_FileRd_data) 0
              "RRQ file read error"
          Calls := t.Calls ++ [Call.NetFS_FileRd t.TFTPs_FileHandle 512]
            ++ (if e.NetFS_FileRd_data.length < 512
                then [Call.NetFS_FileClose t.TFTPs_FileHandle] else [])
            ++ [Call.NetSock_TxDataTo
                  (Pkt_Data ((t.TFTPs_TxBlkNbr + 1) % 65536) e.NetFS_FileRd_data)
                  t.TFTPs_SockAddr,
                Call.NetSock_TxDataTo (Pkt_Error 0 "RRQ file read error") t.TFTPs_SockAddr] },
        TFTPs_ERR.TX) := by
  have h1 : (e.NetFS_FileRd_data.length + 2 + 2) % 65536 = 4 + e.NetFS_FileRd_data.length := by
    rw [Nat.mod_eq_of_lt (by omega)]; omega
  have h2 := bufRead_hdr (bufWrite t.TFTPs_TxMsgBuf 4 e.NetFS_FileRd_data) 3
    ((t.TFTPs_TxBlkNbr + 1) % 65536) e.NetFS_FileRd_data.length
  rw [bufRead_bufWrite_same] at h2
  have hT := fun s => TFTPs_TxErr_eq s e 0 "RRQ file read error" msg_len_read_error
  by_cases hs : e.NetFS_FileRd_data.length < 512
  · simp [TFTPs_DataRd, hT, TFTPs_Tx, NetFS_FileClose, hok, htx, hs, h1, h2, DataRd_buf,
      Pkt_Data]
  · simp [TFTPs_DataRd, hT, TFTPs_Tx, NetFS_FileClose, hok, htx, hs, h1, h2, DataRd_buf,
      Pkt_Data]

theorem dispatch_rd_ack_next (s : TFTPs) (pkt : List Nat) (remote : NET_SOCK_ADDR) (e : Env)
    (hS : s.TFTPs_State = TFTPs_STATE_DATA_RD)
    (hT : valid_tid s.Net remote s.TFTPs_SockAddr = true)
    (hlen : 4 ≤ pkt.length) (hop : Dgram_OpCode pkt = TFTP_OPCODE_ACK)
    (hblk : Dgram_BlkNbr pkt = s.TFTPs_TxBlkNbr) :
    TFTPs_Task_dispatch s pkt remote e
      = TFTPs_DataRd { TFTPs_Task_rx s pkt with TFTPs_RxBlkNbr := s.TFTPs_TxBlkNbr } e := by
  have h2 : 2 ≤ pkt.length := by omega
  simp [TFTPs_Task_dispatch, TFTPs_Task_rx, hS, hT, rd16_Rx_buf_0 _ _ h2, hop,
    TFTPs_StateDataRd, TFTPs_GetRxBlkNbr, rd16_Rx_buf_2 _ _ hlen, hblk]

theorem dispatch_rd_ack_retransmit (s : TFTPs) (pkt : List Nat) (remote : NET_SOCK_ADDR)
    (e : Env) (hS : s.TFTPs_State = TFTPs_STATE_DATA_RD)
    (hT : valid_tid s.Net remote s.TFTPs_SockAddr = true)
    (hlen : 4 ≤ pkt.length) (hop : Dgram_OpCode pkt = TFTP_OPCODE_ACK)
    (hblk : Dgram_BlkNbr pkt ≠ s.TFTPs_TxBlkNbr) (htx : e.NetSock_TxDataTo < 0) :
    TFTPs_Task_dispatch s pkt remote e
      = ({ TFTPs_Task_rx s pkt with
            TFTPs_RxBlkNbr := Dgram_BlkNbr pkt
            TFTPs_TxMsgBuf :=
              TxErr_buf (wr16 (wr16 s.TFTPs_TxMsgBuf 0 3) 2 (s.TFTPs_TxBlkNbr % 65536)) 0
                "RRQ file read error"
            Calls := s.Calls
              ++ [Call.NetSock_TxDataTo
                    (bufRead (wr16 (wr16 s.TFTPs_TxMsgBuf 0 3) 2 (s.TFTPs_TxBlkNbr % 65536)) 0
                      (s.TFTPs_TxMsgLen % 65536))
                    s.TFTPs_SockAddr,
                  Call.NetSock_TxDataTo (Pkt_Error 0 "RRQ file read error") s.TFTPs_SockAddr] },
          TFTPs_ERR.TX) := by
  have h2 : 2 ≤ pkt.length := by omega
  have hE := fun s => TFTPs_TxErr_eq s e 0 "RRQ file read error" msg_len_read_error
  simp [TFTPs_Task_dispatch, TFTPs_Task_rx, hS, hT, rd16_Rx_buf_0 _ _ h2, hop,
    TFTPs_StateDataRd, TFTPs_GetRxBlkNbr, rd16_Rx_buf_2 _ _ hlen, hblk, hE, TFTPs_Tx, htx]

/-! ## What the handlers of a request take from the receive buffer -/

theorem takeWhile_append_of_mem (p : Nat → Bool) (l1 l2 : List Nat)
    (h : ∃ x ∈ l1, p x = false) : (l1 ++ l2).takeWhile p = l1.takeWhile p := by
  induction l1 with
  | nil => simp at h
  | cons a as ih =>
    by_cases ha : p a = true
    · obtain ⟨x, hx, hpx⟩ := h
      rcases List.mem_cons.mp hx with rfl | hx2
      · rw [ha] at hpx
        exact Bool.noConfusion hpx
      · simp [List.takeWhile, ha, ih ⟨x, hx2, hpx⟩]
    · simp [List.takeWhile, ha]

theorem Str_At_Rx_buf (b : Buf) (pkt : List Nat) (hN : Dgram_NameEnds pkt) :
    Str_At (Rx_buf b pkt) 2 514 = Dgram_Filename pkt := by
  have hlen : (pkt.take 516).length ≤ 516 := by simp
  have h2 : 2 < (pkt.take 516).length := by
    have := List.length_pos_of_mem hN
    simp at this
    simp
    omega
  have hsplit : 514 = ((pkt.take 516).length - 2) + (516 - (pkt.take 516).length) := by omega
  have hd : bufRead (Rx_buf b pkt) 2 ((pkt.take 516).length - 2) = (pkt.take 516).drop 2 :=
    bufRead_bufWrite_drop b (pkt.take 516) 2
  unfold Str_At Dgram_Filename
  rw [hsplit, bufRead_add, hd]
  exact takeWhile_append_of_mem _ _ _ ⟨0, hN, by simp⟩

theorem SameButRx_refl (x : TFTPs) : SameButRx x x := by
  simp [SameButRx]

theorem SameButRx_TxErr (x y : TFTPs) (e : Env) (c : Nat) (m : String) (h : SameButRx x y) :
    SameButRx (TFTPs_TxErr x e c m) (TFTPs_TxErr y e c m) := by
  obtain ⟨h1, h2, h3, h4, h5, h6, h7, h8, h9, h10, h11, h12, h13, h14, h15⟩ := h
  simp [SameButRx, TFTPs_TxErr, TFTPs_Tx, *]

theorem SameButRx_DataWrAck (x y : TFTPs) (e : Env) (n : Nat) (h : SameButRx x y) :
    SameButRx (TFTPs_DataWrAck x e n) (TFTPs_DataWrAck y e n) := by
  obtain ⟨h1, h2, h3, h4, h5, h6, h7, h8, h9, h10, h11, h12, h13, h14, h15⟩ := h
  simp [SameButRx, TFTPs_DataWrAck, TFTPs_Tx, *]

theorem SameButRx_FileClose (x y : TFTPs) (h : SameButRx x y) :
    SameButRx (NetFS_FileClose x) (NetFS_FileClose y) := by
  obtain ⟨h1, h2, h3, h4, h5, h6, h7, h8, h9, h10, h11, h12, h13, h14, h15⟩ := h
  simp [SameButRx, NetFS_FileClose, *]

theorem SameButRx_timeout (x y : TFTPs) (t : Timeout) (h : SameButRx x y) :
    SameButRx (NetSock_CfgTimeoutRxQ_Set x t) (NetSock_CfgTimeoutRxQ_Set y t) := by
  obtain ⟨h1, h2, h3, h4, h5, h6, h7, h8, h9, h10, h11, h12, h13, h14, h15⟩ := h
  simp [SameButRx, NetSock_CfgTimeoutRxQ_Set, *]

theorem SameButRx_Terminate (x y : TFTPs) (h : SameButRx x y) :
    SameButRx (TFTPs_Terminate x) (TFTPs_Terminate y) := by
  obtain ⟨h1, h2, h3, h4, h5, h6, h7, h8, h9, h10, h11, h12, h13, h14, h15⟩ := h
  rw [TFTPs_Terminate_eq, TFTPs_Terminate_eq]
  simp [SameButRx, *]

theorem SameButRx_busy (x y : TFTPs) (e : Env) (r : NET_SOCK_ADDR) (h : SameButRx x y) :
    SameButRx (TFTPs_Task_busy x e r) (TFTPs_Task_busy y e r) := by
  obtain ⟨h1, h2, h3, h4, h5, h6, h7, h8, h9, h10, h11, h12, h13, h14, h15⟩ := h
  simp [SameButRx, TFTPs_Task_busy, TFTPs_TxErr, TFTPs_Tx, *]

theorem SameResult_DataRd (x y : TFTPs) (e : Env) (h : SameButRx x y) :
    SameResult (TFTPs_DataRd x e) (TFTPs_DataRd y e) := by
  obtain ⟨h1, h2, h3, h4, h5, h6, h7, h8, h9, h10, h11, h12, h13, h14, h15⟩ := h
  by_cases hs : e.NetFS_FileRd_data.length < 512 <;>
    by_cases hok : e.NetFS_FileRd_ok = true <;>
    by_cases htx : e.NetSock_TxDataTo < 0 <;>
    simp [SameResult, SameButRx, TFTPs_DataRd, hs, hok, htx, NetFS_FileClose, TFTPs_TxErr,
      TFTPs_Tx, *]

theorem SameResult_FileOpen (x y : TFTPs) (e : Env) (rw : Nat) (h : SameButRx x y)
    (hname : Str_At x.TFTPs_RxMsgBuf 2 514 = Str_At y.TFTPs_RxMsgBuf 2 514) :
    SameResult (TFTPs_FileOpen x e rw) (TFTPs_FileOpen y e rw) := by
  obtain ⟨h1, h2, h3, h4, h5, h6, h7, h8, h9, h10, h11, h12, h13, h14, h15⟩ := h
  by_cases hrw : rw = 0 ∨ rw = 1 <;>
    by_cases ho : e.NetFS_FileOpen = 0 <;>
    simp [SameResult, SameButRx, TFTPs_FileOpen, TFTPs_FileOpenMode, hrw, ho, TFTPs_TxErr,
      TFTPs_Tx, hname, *]

theorem SameButRx_start_rd (x y : TFTPs) (h : SameButRx x y) :
    SameButRx { x with TFTPs_TxBlkNbr := 0, TFTPs_State := TFTPs_STATE_DATA_RD }
      { y with TFTPs_TxBlkNbr := 0, TFTPs_State := TFTPs_STATE_DATA_RD } := by
  obtain ⟨h1, h2, h3, h4, h5, h6, h7, h8, h9, h10, h11, h12, h13, h14, h15⟩ := h
  simp [SameButRx, *]

theorem SameButRx_start_wr (x y : TFTPs) (h : SameButRx x y) :
    SameButRx { x with TFTPs_State := TFTPs_STATE_DATA_WR }
      { y with TFTPs_State := TFTPs_STATE_DATA_WR } := by
  obtain ⟨h1, h2, h3, h4, h5, h6, h7, h8, h9, h10, h11, h12, h13, h14, h15⟩ := h
  simp [SameButRx, *]

theorem SameButRx_addr (x y : TFTPs) (r : NET_SOCK_ADDR) (h : SameButRx x y) :
    SameButRx { x with TFTPs_SockAddr := r } { y with TFTPs_SockAddr := r } := by
  obtain ⟨h1, h2, h3, h4, h5, h6, h7, h8, h9, h10, h11, h12, h13, h14, h15⟩ := h
  simp [SameButRx, *]

/-- The part of a request handler that reads the file name: open the file
and, when it is open, send the first block (read) or the first Ack (write). -/
theorem SameResult_rd_req (x y : TFTPs) (e : Env) (h : SameButRx x y)
    (hname : Str_At x.TFTPs_RxMsgBuf 2 514 = Str_At y.TFTPs_RxMsgBuf 2 514) :
    SameResult
      (if (TFTPs_FileOpen x e TFTPs_FILE_OPEN_RD).2 = TFTPs_ERR.NONE then
        TFTPs_DataRd { (TFTPs_FileOpen x e TFTPs_FILE_OPEN_RD).1 with
          TFTPs_TxBlkNbr := 0, TFTPs_State := TFTPs_STATE_DATA_RD } e
       else TFTPs_FileOpen x e TFTPs_FILE_OPEN_RD)
      (if (TFTPs_FileOpen y e TFTPs_FILE_OPEN_RD).2 = TFTPs_ERR.NONE then
        TFTPs_DataRd { (TFTPs_FileOpen y e TFTPs_FILE_OPEN_RD).1 with
          TFTPs_TxBlkNbr := 0, TFTPs_State := TFTPs_STATE_DATA_RD } e
       else TFTPs_FileOpen y e TFTPs_FILE_OPEN_RD) := by
  have hfo := SameResult_FileOpen x y e TFTPs_FILE_OPEN_RD h hname
  rw [hfo.1]
  split_ifs with hc
  · exact SameResult_DataRd _ _ e (SameButRx_start_rd _ _ hfo.2)
  · exact hfo

theorem SameResult_wr_req (x y : TFTPs) (e : Env) (h : SameButRx x y)
    (hname : Str_At x.TFTPs_RxMsgBuf 2 514 = Str_At y.TFTPs_RxMsgBuf 2 514) :
    SameResult
      (if (TFTPs_FileOpen x e TFTPs_FILE_OPEN_WR).2 = TFTPs_ERR.NONE then
        (TFTPs_DataWrAck { (TFTPs_FileOpen x e TFTPs_FILE_OPEN_WR).1 with
            TFTPs_State := TFTPs_STATE_DATA_WR } e
          (TFTPs_FileOpen x e TFTPs_FILE_OPEN_WR).1.TFTPs_TxBlkNbr, TFTPs_ERR.NONE)
       else TFTPs_FileOpen x e TFTPs_FILE_OPEN_WR)
      (if (TFTPs_FileOpen y e TFTPs_FILE_OPEN_WR).2 = TFTPs_ERR.NONE then
        (TFTPs_DataWrAck { (TFTPs_FileOpen y e TFTPs_FILE_OPEN_WR).1 with
            TFTPs_State := TFTPs_STATE_DATA_WR } e
          (TFTPs_FileOpen y e TFTPs_FILE_OPEN_WR).1.TFTPs_TxBlkNbr, TFTPs_ERR.NONE)
       else TFTPs_FileOpen y e TFTPs_FILE_OPEN_WR) := by
  have hfo := SameResult_FileOpen x y e TFTPs_FILE_OPEN_WR h hname
  rw [hfo.1]
  split_ifs with hc
  · have hb : (TFTPs_FileOpen x e TFTPs_FILE_OPEN_WR).1.TFTPs_TxBlkNbr
        = (TFTPs_FileOpen y e TFTPs_FILE_OPEN_WR).1.TFTPs_TxBlkNbr := hfo.2.2.2.2.2.1
    rw [hb]
    exact ⟨rfl, SameButRx_DataWrAck _ _ e _ (SameButRx_start_wr _ _ hfo.2)⟩
  · exact hfo

theorem SameResult_finish (rx ry : TFTPs × TFTPs_ERR) (h : SameResult rx ry) :
    SameResult
      (if rx.2 = TFTPs_ERR.NONE then
        (NetSock_CfgTimeoutRxQ_Set rx.1 (some rx.1.Cfg.RxTimeoutMax), rx.2) else rx)
      (if ry.2 = TFTPs_ERR.NONE then
        (NetSock_CfgTimeoutRxQ_Set ry.1 (some ry.1.Cfg.RxTimeoutMax), ry.2) else ry) := by
  have hc : rx.1.Cfg = ry.1.Cfg := h.2.1
  rw [h.1, hc]
  split_ifs with hn
  · exact ⟨rfl, SameButRx_timeout _ _ _ h.2⟩
  · exact h

theorem SameResult_StateIdle (x y : TFTPs) (e : Env) (h : SameButRx x y)
    (hop : y.TFTPs_OpCode = TFTP_OPCODE_RD_REQ ∨ y.TFTPs_OpCode = TFTP_OPCODE_WR_REQ)
    (hname : Str_At x.TFTPs_RxMsgBuf 2 514 = Str_At y.TFTPs_RxMsgBuf 2 514) :
    SameResult (TFTPs_StateIdle x e) (TFTPs_StateIdle y e) := by
  have hxo : x.TFTPs_OpCode = y.TFTPs_OpCode := h.2.2.2.2.2.2.2.2.2.2.1
  unfold TFTPs_StateIdle
  apply SameResult_finish
  rcases hop with h1 | h2
  · have hx1 : x.TFTPs_OpCode = TFTP_OPCODE_RD_REQ := hxo.trans h1
    simp only [hx1, h1, if_true]
    exact SameResult_rd_req x y e h hname
  · have hx2 : x.TFTPs_OpCode = TFTP_OPCODE_WR_REQ := hxo.trans h2
    have hn1 : ¬ (TFTP_OPCODE_WR_REQ = TFTP_OPCODE_RD_REQ) := by decide
    have hn2 : ¬ (TFTP_OPCODE_WR_REQ = TFTP_OPCODE_ACK) := by decide
    simp only [hx2, h2, hn1, hn2, if_true, if_false]
    refine SameResult_wr_req _ _ e ?_ hname
    obtain ⟨h1, h2, h3, h4, h5, h6, h7, h8, h9, h10, h11, h12, h13, h14, h15⟩ := h
    simp [SameButRx, *]

theorem SameResult_StateDataRd (x y : TFTPs) (e : Env) (h : SameButRx x y)
    (hop : y.TFTPs_OpCode = TFTP_OPCODE_RD_REQ ∨ y.TFTPs_OpCode = TFTP_OPCODE_WR_REQ)
    (hname : Str_At x.TFTPs_RxMsgBuf 2 514 = Str_At y.TFTPs_RxMsgBuf 2 514) :
    SameResult (TFTPs_StateDataRd x e) (TFTPs_StateDataRd y e) := by
  have hxo : x.TFTPs_OpCode = y.TFTPs_OpCode := h.2.2.2.2.2.2.2.2.2.2.1
  unfold TFTPs_StateDataRd
  rcases hop with h1 | h2
  · have hx1 : x.TFTPs_OpCode = TFTP_OPCODE_RD_REQ := hxo.trans h1
    simp only [hx1, h1, if_true]
    exact SameResult_rd_req _ _ e (SameButRx_FileClose x y h) hname
  · have hx2 : x.TFTPs_OpCode = TFTP_OPCODE_WR_REQ := hxo.trans h2
    have hn1 : ¬ (TFTP_OPCODE_WR_REQ = TFTP_OPCODE_RD_REQ) := by decide
    have hn2 : ¬ (TFTP_OPCODE_WR_REQ = TFTP_OPCODE_ACK) := by decide
    simp only [hx2, h2, hn1, hn2, if_true, if_false]
    exact ⟨rfl, SameButRx_TxErr x y e _ _ h⟩

theorem SameResult_StateDataWr (x y : TFTPs) (e : Env) (h : SameButRx x y)
    (hop : y.TFTPs_OpCode = TFTP_OPCODE_RD_REQ ∨ y.TFTPs_OpCode = TFTP_OPCODE_WR_REQ)
    (hname : Str_At x.TFTPs_RxMsgBuf 2 514 = Str_At y.TFTPs_RxMsgBuf 2 514) :
    SameResult (TFTPs_StateDataWr x e) (TFTPs_StateDataWr y e) := by
  have hxo : x.TFTPs_OpCode = y.TFTPs_OpCode := h.2.2.2.2.2.2.2.2.2.2.1
  unfold TFTPs_StateDataWr
  rcases hop with h1 | h2
  · have hx1 : x.TFTPs_OpCode = TFTP_OPCODE_RD_REQ := hxo.trans h1
    simp only [hx1, h1, if_true]
    exact ⟨rfl, SameButRx_TxErr x y e _ _ h⟩
  · have hx2 : x.TFTPs_OpCode = TFTP_OPCODE_WR_REQ := hxo.trans h2
    have hn1 : ¬ (TFTP_OPCODE_WR_REQ = TFTP_OPCODE_RD_REQ) := by decide
    have hn2 : ¬ (TFTP_OPCODE_WR_REQ = TFTP_OPCODE_ACK) := by decide
    simp only [hx2, h2, hn1, hn2, if_true, if_false]
    refine SameResult_wr_req _ _ e ?_ hname
    obtain ⟨h1, h2, h3, h4, h5, h6, h7, h8, h9, h10, h11, h12, h13, h14, h15⟩ := h
    simp [SameButRx, NetFS_FileClose, *]

theorem SameButRx_Task_rx (s : TFTPs) (pkt1 pkt2 : List Nat)
    (hop : Dgram_OpCode pkt1 = Dgram_OpCode pkt2)
    (h1 : 2 ≤ pkt1.length) (h2 : 2 ≤ pkt2.length) :
    SameButRx (TFTPs_Task_rx s pkt1) (TFTPs_Task_rx s pkt2) := by
  have e1 := rd16_Rx_buf_0 s.TFTPs_RxMsgBuf pkt1 h1
  have e2 := rd16_Rx_buf_0 s.TFTPs_RxMsgBuf pkt2 h2
  simp only [SameButRx, TFTPs_Task_rx, TFTP_PKT_OFFSET_OPCODE, and_true, true_and]
  rw [e1, e2]
  exact hop

theorem SameResult_dispatch (s : TFTPs) (pkt1 pkt2 : List Nat) (remote : NET_SOCK_ADDR)
    (e : Env) (hop : Dgram_OpCode pkt1 = Dgram_OpCode pkt2)
    (hreq : Dgram_OpCode pkt2 = TFTP_OPCODE_RD_REQ ∨ Dgram_OpCode pkt2 = TFTP_OPCODE_WR_REQ)
    (hN1 : Dgram_NameEnds pkt1) (hN2 : Dgram_NameEnds pkt2)
    (hname : Dgram_Filename pkt1 = Dgram_Filename pkt2) :
    SameResult (TFTPs_Task_dispatch s pkt1 remote e) (TFTPs_Task_dispatch s pkt2 remote e) := by
  have hl1 : 2 ≤ pkt1.length := by
    have := List.length_pos_of_mem hN1
    simp at this
    omega
  have hl2 : 2 ≤ pkt2.length := by
    have := List.length_pos_of_mem hN2
    simp at this
    omega
  have hS := SameButRx_Task_rx s pkt1 pkt2 hop hl1 hl2
  have hop2 : (TFTPs_Task_rx s pkt2).TFTPs_OpCode = TFTP_OPCODE_RD_REQ ∨
      (TFTPs_Task_rx s pkt2).TFTPs_OpCode = TFTP_OPCODE_WR_REQ := by
    have e2 := rd16_Rx_buf_0 s.TFTPs_RxMsgBuf pkt2 hl2
    simp only [TFTPs_Task_rx, TFTP_PKT_OFFSET_OPCODE]
    rw [e2]
    exact hreq
  have hnm : Str_At (TFTPs_Task_rx s pkt1).TFTPs_RxMsgBuf 2 514
      = Str_At (TFTPs_Task_rx s pkt2).TFTPs_RxMsgBuf 2 514 := by
    show Str_At (Rx_buf s.TFTPs_RxMsgBuf pkt1) 2 514 = Str_At (Rx_buf s.TFTPs_RxMsgBuf pkt2) 2 514
    rw [Str_At_Rx_buf _ _ hN1, Str_At_Rx_buf _ _ hN2, hname]
  have hst : (TFTPs_Task_rx s pkt1).TFTPs_State = (TFTPs_Task_rx s pkt2).TFTPs_State := rfl
  have hnet : (TFTPs_Task_rx s pkt1).Net = (TFTPs_Task_rx s pkt2).Net := rfl
  have hsa : (TFTPs_Task_rx s pkt1).TFTPs_SockAddr = (TFTPs_Task_rx s pkt2).TFTPs_SockAddr := rfl
  unfold TFTPs_Task_dispatch
  dsimp only
  rw [hst, hnet, hsa]
  split_ifs
  · exact SameResult_StateIdle _ _ e (SameButRx_addr _ _ remote hS) hop2 hnm
  · exact SameResult_StateDataRd _ _ e hS hop2 hnm
  · exact ⟨rfl, SameButRx_busy _ _ e remote hS⟩
  · exact SameResult_StateDataWr _ _ e hS hop2 hnm
  · exact ⟨rfl, SameButRx_busy _ _ e remote hS⟩
  · exact ⟨rfl, hS⟩

/-! ## C1: a datagram from another peer during a transfer -/

theorem busy_core (s : TFTPs) (pkt : List Nat) (remote : NET_SOCK_ADDR) (e : Env)
    (hEn : s.TFTPs_ServerEn = true)
    (hS : s.TFTPs_State = TFTPs_STATE_DATA_RD ∨ s.TFTPs_State = TFTPs_STATE_DATA_WR)
    (hT : valid_tid s.Net remote s.TFTPs_SockAddr = false) :
    TFTPs_Task s (Rx.data pkt remote) e =
      { s with
        TFTPs_RxMsgBuf := Rx_buf s.TFTPs_RxMsgBuf pkt
        TFTPs_RxMsgLen := ((pkt.take TFTPs_BUF_SIZE).length : Int)
        TFTPs_RxMsgCtr := (s.TFTPs_RxMsgCtr + 1) % 4294967296
        TFTPs_OpCode := rd16 (Rx_buf s.TFTPs_RxMsgBuf pkt) 0
        TFTPs_TxMsgBuf := TxErr_buf s.TFTPs_TxMsgBuf 0 "Transaction denied, Server BUSY"
        Calls := s.Calls ++ [Call.NetSock_TxDataTo
            (Pkt_Error 0 "Transaction denied, Server BUSY") remote] } := by
  rcases hS with hS | hS <;>
    simp [TFTPs_Task, hEn, hS, hT, TFTPs_Task_busy,
      TFTPs_TxErr_eq _ _ _ _
        (by decide : (Str_Octets "Transaction denied, Server BUSY").length + 5 < 65536)]

/-- C1. In TransferRead and in TransferWrite, a datagram whose source fails
the TID check makes one iteration of `TFTPs_Task` hand exactly one packet to
the transport, the Error packet "Transaction denied, Server BUSY" addressed
to the sender of the datagram, and make no other call (no file-store call);
`TFTPs_State`, `TFTPs_TxBlkNbr`, `TFTPs_FileHandle` and `TFTPs_SockAddr` keep
their values. -/
theorem C1_busy_rejection (s : TFTPs) (pkt : List Nat) (remote : NET_SOCK_ADDR) (e : Env)
    (hR : Reachable s)
    (hS : s.TFTPs_State = TFTPs_STATE_DATA_RD ∨ s.TFTPs_State = TFTPs_STATE_DATA_WR)
    (hT : valid_tid s.Net remote s.TFTPs_SockAddr = false) :
    (TFTPs_Task s (Rx.data pkt remote) e).Calls
        = s.Calls ++ [Call.NetSock_TxDataTo
            (Pkt_Error 0 "Transaction denied, Server BUSY") remote] ∧
      (TFTPs_Task s (Rx.data pkt remote) e).TFTPs_State = s.TFTPs_State ∧
      (TFTPs_Task s (Rx.data pkt remote) e).TFTPs_TxBlkNbr = s.TFTPs_TxBlkNbr ∧
      (TFTPs_Task s (Rx.data pkt remote) e).TFTPs_FileHandle = s.TFTPs_FileHandle ∧
      (TFTPs_Task s (Rx.data pkt remote) e).TFTPs_SockAddr = s.TFTPs_SockAddr := by
  have hEn : s.TFTPs_ServerEn = true := by
    apply Reachable_enabled s hR
    rcases hS with hS | hS <;> simp [hS]
  rw [busy_core s pkt remote e hEn hS hT]
  simp

theorem W_wr_reachable : Reachable W_wr :=
  ⟨W_cfg, W_net, W_entry, _, rfl, rfl⟩

/-- C1 at a write transfer of the first client and a read request of the
second client. -/
theorem C1_busy_rejection_witness :
    Reachable W_wr ∧
      (W_wr.TFTPs_State = TFTPs_STATE_DATA_RD ∨ W_wr.TFTPs_State = TFTPs_STATE_DATA_WR) ∧
      valid_tid W_wr.Net W_peerB W_wr.TFTPs_SockAddr = false ∧
      (TFTPs_Task W_wr (Rx.data W_rrq W_peerB) (W_env 8 [])).Calls
        = W_wr.Calls ++ [Call.NetSock_TxDataTo
            (Pkt_Error 0 "Transaction denied, Server BUSY") W_peerB] ∧
      (TFTPs_Task W_wr (Rx.data W_rrq W_peerB) (W_env 8 [])).TFTPs_State = W_wr.TFTPs_State ∧
      (TFTPs_Task W_wr (Rx.data W_rrq W_peerB) (W_env 8 [])).TFTPs_TxBlkNbr = W_wr.TFTPs_TxBlkNbr ∧
      (TFTPs_Task W_wr (Rx.data W_rrq W_peerB) (W_env 8 [])).TFTPs_FileHandle
        = W_wr.TFTPs_FileHandle ∧
      (TFTPs_Task W_wr (Rx.data W_rrq W_peerB) (W_env 8 [])).TFTPs_SockAddr
        = W_wr.TFTPs_SockAddr :=
  ⟨W_wr_reachable, Or.inr (by decide), by decide,
    C1_busy_rejection W_wr W_rrq W_peerB (W_env 8 []) W_wr_reachable
      (Or.inr (by decide)) (by decide)⟩

/-! ## C2: retransmission of the last Data packet -/

theorem Task_rd_ack_retransmit (s : TFTPs) (pkt : List Nat) (remote : NET_SOCK_ADDR) (e : Env)
    (hS : s.TFTPs_State = TFTPs_STATE_DATA_RD) (hEn : s.TFTPs_ServerEn = true)
    (hT : valid_tid s.Net remote s.TFTPs_SockAddr = true)
    (hlen : 4 ≤ pkt.length) (hop : Dgram_OpCode pkt = TFTP_OPCODE_ACK)
    (hblk : Dgram_BlkNbr pkt ≠ s.TFTPs_TxBlkNbr) (htx : 0 ≤ e.NetSock_TxDataTo) :
    TFTPs_Task s (Rx.data pkt remote) e =
      { s with
        TFTPs_RxMsgBuf := Rx_buf s.TFTPs_RxMsgBuf pkt
        TFTPs_RxMsgLen := ((pkt.take TFTPs_BUF_SIZE).length : Int)
        TFTPs_RxMsgCtr := (s.TFTPs_RxMsgCtr + 1) % 4294967296
        TFTPs_OpCode := TFTP_OPCODE_ACK
        TFTPs_RxBlkNbr := Dgram_BlkNbr pkt
        TFTPs_TxMsgBuf := wr16 (wr16 s.TFTPs_TxMsgBuf 0 3) 2 (s.TFTPs_TxBlkNbr % 65536)
        Calls := s.Calls
          ++ [Call.NetSock_TxDataTo
                (bufRead (wr16 (wr16 s.TFTPs_TxMsgBuf 0 3) 2 (s.TFTPs_TxBlkNbr % 65536)) 0
                  (s.TFTPs_TxMsgLen % 65536))
                s.TFTPs_SockAddr] } := by
  have h2 : 2 ≤ pkt.length := by omega
  have h3 : ¬ (e.NetSock_TxDataTo < 0) := by omega
  simp [TFTPs_Task, hS, hEn, hT, rd16_Rx_buf_0 _ _ h2, hop, TFTPs_StateDataRd,
    TFTPs_GetRxBlkNbr, rd16_Rx_buf_2 _ _ hlen, hblk, TFTPs_Tx, h3]

set_option maxRecDepth 100000 in
/-- C2 fails on the code. The server sends Data block 1 with 512 octets
`0xAA` to the first client, answers a request of a second client with the
busy Error packet, and then receives an Ack of block 0 from the first
client. The packet it retransmits is a Data packet of block 1 with the same
length, but its first 32 payload octets are the text of the busy Error
packet: `TFTPs_TxErr` built that packet in the same `TFTPs_TxMsgBuf`. No
file read is made and the block number and the state are unchanged. -/
theorem C2_retransmit_after_busy :
    W_rd.TFTPs_State = TFTPs_STATE_DATA_RD ∧ W_rd.TFTPs_TxBlkNbr = 1 ∧
      sent W_rd.Calls = [(Pkt_Data 1 (List.replicate 512 170), W_peerA)] ∧
      sent W_rd_busy.Calls
        = sent W_rd.Calls ++ [(Pkt_Error 0 "Transaction denied, Server BUSY", W_peerB)] ∧
      valid_tid W_rd_busy.Net W_peerA W_rd_busy.TFTPs_SockAddr = true ∧
      Dgram_OpCode (Pkt_Ack 0) = TFTP_OPCODE_ACK ∧
      Dgram_BlkNbr (Pkt_Ack 0) ≠ W_rd_busy.TFTPs_TxBlkNbr ∧
      sent W_rd_retx.Calls
        = sent W_rd_busy.Calls
          ++ [(Pkt_Data 1 (Str_Octets "Transaction denied, Server BUSY" ++ [0]
                ++ List.replicate 480 170), W_peerA)] ∧
      fileCalls W_rd_retx.Calls = fileCalls W_rd.Calls ∧
      W_rd_retx.TFTPs_State = TFTPs_STATE_DATA_RD ∧ W_rd_retx.TFTPs_TxBlkNbr = 1 ∧
      Pkt_Data 1 (Str_Octets "Transaction denied, Server BUSY" ++ [0]
          ++ List.replicate 480 170)
        ≠ Pkt_Data 1 (List.replicate 512 170) := by
  decide

theorem bufRead_after_hdr (b : Buf) (op blk n : Nat) :
    bufRead (wr16 (wr16 b 0 op) 2 blk) 4 n = bufRead b 4 n := by
  apply bufRead_congr
  intro i h1 h2
  have h3 : ¬ (i < 2) := by omega
  have h4 : ¬ (i < 2 + 2) := by omega
  simp [wr16, bufWrite, h3, h4]

/-- The part of C2 that holds: when the transmit buffer still holds the Data
packet sent last (nothing else was transmitted since), an Ack with another
block number makes the server send the same Data packet again, with no file
read and with the block number and the state unchanged. -/
theorem retransmit_exact (s : TFTPs) (pkt : List Nat) (remote : NET_SOCK_ADDR) (e : Env)
    (b : Buf) (n : Nat) (d : List Nat)
    (hbuf : s.TFTPs_TxMsgBuf = DataRd_buf b n d) (hmsg : s.TFTPs_TxMsgLen = d.length + 4)
    (hnbr : s.TFTPs_TxBlkNbr = n % 65536) (hd : d.length ≤ 512)
    (hS : s.TFTPs_State = TFTPs_STATE_DATA_RD) (hEn : s.TFTPs_ServerEn = true)
    (hT : valid_tid s.Net remote s.TFTPs_SockAddr = true)
    (hlen : 4 ≤ pkt.length) (hop : Dgram_OpCode pkt = TFTP_OPCODE_ACK)
    (hblk : Dgram_BlkNbr pkt ≠ s.TFTPs_TxBlkNbr) (htx : 0 ≤ e.NetSock_TxDataTo) :
    (TFTPs_Task s (Rx.data pkt remote) e).Calls
        = s.Calls ++ [Call.NetSock_TxDataTo (Pkt_Data (n % 65536) d) s.TFTPs_SockAddr] ∧
      (TFTPs_Task s (Rx.data pkt remote) e).TFTPs_TxBlkNbr = s.TFTPs_TxBlkNbr ∧
      (TFTPs_Task s (Rx.data pkt remote) e).TFTPs_State = s.TFTPs_State := by
  rw [Task_rd_ack_retransmit s pkt remote e hS hEn hT hlen hop hblk htx]
  have h1 : (d.length + 4) % 65536 = 4 + d.length := by
    rw [Nat.mod_eq_of_lt (by omega)]; omega
  have h2 : bufRead (DataRd_buf b n d) 4 d.length = d := by
    rw [DataRd_buf, bufRead_after_hdr, bufRead_bufWrite_same]
  simp [hbuf, hmsg, hnbr, h1, bufRead_hdr, h2, Pkt_Data]

/-! ## C3: block numbers and termination of a read transfer -/

theorem run_nil (s : TFTPs) : run s [] = s := rfl

theorem run_cons (s : TFTPs) (x : Step) (l : List Step) : run s (x :: l) = run (step s x) l := rfl

theorem run_append (s : TFTPs) (l1 l2 : List Step) : run s (l1 ++ l2) = run (run s l1) l2 := by
  simp [run, List.foldl_append]

theorem sent_append (l1 l2 : List Call) : sent (l1 ++ l2) = sent l1 ++ sent l2 := by
  induction l1 with
  | nil => rfl
  | cons c cs ih => cases c <;> simp [sent, ih]

theorem fileCalls_append (l1 l2 : List Call) :
    fileCalls (l1 ++ l2) = fileCalls l1 ++ fileCalls l2 := by
  induction l1 with
  | nil => rfl
  | cons c cs ih => cases c <;> simp [fileCalls, ih]

theorem readAcks_append (peer : NET_SOCK_ADDR) (b : Nat) (l1 l2 : List Env) :
    readAcks peer b (l1 ++ l2) = readAcks peer b l1 ++ readAcks peer (b + l1.length) l2 := by
  induction l1 generalizing b with
  | nil => simp [readAcks]
  | cons e es ih => simp [readAcks, ih, Nat.add_assoc, Nat.add_comm 1]

theorem readAcks_take (peer : NET_SOCK_ADDR) (b k : Nat) (l : List Env) :
    (readAcks peer b l).take k = readAcks peer b (l.take k) := by
  induction l generalizing b k with
  | nil => simp [readAcks]
  | cons e es ih =>
    cases k with
    | zero => simp [readAcks]
    | succ k => simp [readAcks, ih]

theorem dataPkts_append (peer : NET_SOCK_ADDR) (b : Nat) (l1 l2 : List Env) :
    dataPkts peer b (l1 ++ l2) = dataPkts peer b l1 ++ dataPkts peer (b + l1.length) l2 := by
  induction l1 generalizing b with
  | nil => simp [dataPkts]
  | cons e es ih => simp [dataPkts, ih, Nat.add_assoc, Nat.add_comm 1]

theorem Dgram_OpCode_Pkt_Ack (n : Nat) : Dgram_OpCode (Pkt_Ack n) = TFTP_OPCODE_ACK := by
  simp [Dgram_OpCode, Pkt_Ack]

theorem Dgram_BlkNbr_Pkt_Ack (n : Nat) (h : n < 65536) : Dgram_BlkNbr (Pkt_Ack n) = n := by
  simp [Dgram_BlkNbr, Pkt_Ack]
  omega

theorem read_step (peer : NET_SOCK_ADDR) (b : Nat) (s : TFTPs) (e : Env)
    (hI : RdInv peer b s) (he : Env_rd_ok e) :
    sent (step s (Step.rx (Rx.data (Pkt_Ack (b % 65536)) peer) e)).Calls
        = sent s.Calls ++ [(Pkt_Data ((b + 1) % 65536) e.NetFS_FileRd_data, peer)] ∧
      (step s (Step.rx (Rx.data (Pkt_Ack (b % 65536)) peer) e)).TFTPs_State
        = (if e.NetFS_FileRd_data.length < 512 then TFTPs_STATE_IDLE else TFTPs_STATE_DATA_RD) ∧
      (e.NetFS_FileRd_data.length = 512 →
        RdInv peer (b + 1) (step s (Step.rx (Rx.data (Pkt_Ack (b % 65536)) peer) e))) := by
  obtain ⟨h1, h2, h3, h4, h5⟩ := hI
  obtain ⟨g1, g2, g3⟩ := he
  have hb : b % 65536 < 65536 := Nat.mod_lt _ (by decide)
  have hT : valid_tid s.Net peer s.TFTPs_SockAddr = true := by rw [h3]; exact h4
  have hstep := Task_rd_ack_next s (Pkt_Ack (b % 65536)) peer e h1 h2 hT (by simp [Pkt_Ack])
    (Dgram_OpCode_Pkt_Ack _) (by rw [Dgram_BlkNbr_Pkt_Ack _ hb, h5]) g1 g2 g3
  simp only [step]
  rw [hstep]
  refine ⟨?_, ?_, ?_⟩
  · by_cases hs : e.NetFS_FileRd_data.length < 512 <;>
      simp [sent_append, sent, hs, h5, h3]
  · simp
  · intro hfull
    have hs : ¬ e.NetFS_FileRd_data.length < 512 := by omega
    simp [RdInv, hs, h2, h3, h4, h5]

theorem read_full_run (peer : NET_SOCK_ADDR) (es : List Env) (b : Nat) (s : TFTPs)
    (hI : RdInv peer b s) (he : ∀ e ∈ es, Env_rd_ok e)
    (hfull : ∀ e ∈ es, e.NetFS_FileRd_data.length = 512) :
    RdInv peer (b + es.length) (run s (readAcks peer b es)) ∧
      sent (run s (readAcks peer b es)).Calls = sent s.Calls ++ dataPkts peer (b + 1) es := by
  induction es generalizing b s with
  | nil => simpa [readAcks, run_nil, dataPkts] using hI
  | cons e es ih =>
    have h1 := read_step peer b s e hI (he e (by simp))
    have h2 := ih (b + 1) _ (h1.2.2 (hfull e (by simp)))
      (fun x hx => he x (by simp [hx])) (fun x hx => hfull x (by simp [hx]))
    simp only [readAcks, run_cons, dataPkts]
    refine ⟨?_, ?_⟩
    · have := h2.1
      simpa [Nat.add_assoc, Nat.add_comm 1] using this
    · rw [h2.2, h1.1]
      simp

theorem read_first_step (s : TFTPs) (rrq : List Nat) (peer : NET_SOCK_ADDR) (e : Env)
    (hS : s.TFTPs_State = TFTPs_STATE_IDLE) (hEn : s.TFTPs_ServerEn = true)
    (hP : valid_tid s.Net peer peer = true)
    (hlen : 2 ≤ rrq.length) (hop : Dgram_OpCode rrq = TFTP_OPCODE_RD_REQ)
    (hopen : e.NetFS_FileOpen ≠ 0) (he : Env_rd_ok e) :
    sent (step s (Step.rx (Rx.data rrq peer) e)).Calls
        = sent s.Calls ++ [(Pkt_Data 1 e.NetFS_FileRd_data, peer)] ∧
      (step s (Step.rx (Rx.data rrq peer) e)).TFTPs_State
        = (if e.NetFS_FileRd_data.length < 512 then TFTPs_STATE_IDLE else TFTPs_STATE_DATA_RD) ∧
      (e.NetFS_FileRd_data.length = 512 →
        RdInv peer 1 (step s (Step.rx (Rx.data rrq peer) e))) := by
  obtain ⟨g1, g2, g3⟩ := he
  simp only [step]
  rw [Task_idle_rrq s rrq peer e hS hEn hlen hop hopen g1 g2 g3]
  refine ⟨?_, ?_, ?_⟩
  · by_cases hs : e.NetFS_FileRd_data.length < 512 <;>
      simp [sent_append, sent, hs]
  · simp
  · intro hfull
    have hs : ¬ e.NetFS_FileRd_data.length < 512 := by omega
    simp [RdInv, hs, hEn, hP]

theorem mem_dropLast_cons_of_mem_take (e0 : Env) (es : List Env) (k : Nat) (hk : k < es.length)
    (x : Env) (hx : x ∈ e0 :: es.take k) : x ∈ (e0 :: es).dropLast := by
  have hne : es ≠ [] := by
    intro h
    simp [h] at hk
  rw [List.dropLast_cons_of_ne_nil hne]
  rcases List.mem_cons.mp hx with h | h
  · simp [h]
  · apply List.mem_cons_of_mem
    rw [List.dropLast_eq_take]
    have h2 : es.take k = (es.take (es.length - 1)).take k := by
      rw [List.take_take]
      congr 1
      omega
    rw [h2] at h
    exact List.mem_of_mem_take h

/-- C3. A read transfer in which the file store succeeds, the transport
accepts every Data packet, and every Ack of the client carries the number of
the block sent last: the Data packets sent are numbered 1, 2, 3, ... (each
the 16-bit successor of the one before) and carry the octets read, in order;
`TFTPs_State` is TransferRead after every Data packet before the last one,
all of which carry 512 octets; after the last one it is Idle exactly when
that packet carries fewer than 512 octets. -/
theorem C3_read_sequence (s : TFTPs) (rrq : List Nat) (peer : NET_SOCK_ADDR)
    (e0 : Env) (es : List Env)
    (hS : s.TFTPs_State = TFTPs_STATE_IDLE) (hEn : s.TFTPs_ServerEn = true)
    (hP : valid_tid s.Net peer peer = true)
    (hlen : 2 ≤ rrq.length) (hop : Dgram_OpCode rrq = TFTP_OPCODE_RD_REQ)
    (hopen : e0.NetFS_FileOpen ≠ 0)
    (he : ∀ e ∈ e0 :: es, Env_rd_ok e)
    (hfull : ∀ e ∈ (e0 :: es).dropLast, e.NetFS_FileRd_data.length = 512) :
    sent (run s (readTransfer rrq peer e0 es)).Calls
        = sent s.Calls ++ dataPkts peer 1 (e0 :: es) ∧
      (∀ k, k < es.length →
        (run s ((readTransfer rrq peer e0 es).take (k + 1))).TFTPs_State
          = TFTPs_STATE_DATA_RD) ∧
      (run s (readTransfer rrq peer e0 es)).TFTPs_State
        = (if ((e0 :: es).getLast (List.cons_ne_nil e0 es)).NetFS_FileRd_data.length < 512
            then TFTPs_STATE_IDLE else TFTPs_STATE_DATA_RD) := by
  have h1 := read_first_step s rrq peer e0 hS hEn hP hlen hop hopen (he e0 (by simp))
  refine ⟨?_, ?_, ?_⟩
  · rcases List.eq_nil_or_concat es with h | ⟨es1, eL, h⟩
    · subst h
      simp [readTransfer, readAcks, run_cons, run_nil, dataPkts, h1.1]
    · rw [List.concat_eq_append] at h
      subst h
      have hd : (e0 :: (es1 ++ [eL])).dropLast = e0 :: es1 := by
        rw [← List.cons_append, List.dropLast_concat]
      rw [hd] at hfull
      have hI := h1.2.2 (hfull e0 (by simp))
      have h2 := read_full_run peer es1 1 _ hI (fun x hx => he x (by simp [hx]))
        (fun x hx => hfull x (by simp [hx]))
      have h3 := read_step peer (1 + es1.length) _ eL h2.1 (he eL (by simp))
      simp only [readTransfer, run_cons, readAcks_append, run_append, readAcks, run_nil,
        dataPkts, dataPkts_append]
      rw [h3.1, h2.2, h1.1]
      have harith : 1 + es1.length + 1 = 1 + 1 + es1.length := by omega
      simp [harith]
  · intro k hk
    have hm := mem_dropLast_cons_of_mem_take e0 es k hk
    have hI := h1.2.2 (hfull e0 (hm e0 (by simp)))
    have h2 := read_full_run peer (es.take k) 1 _ hI
      (fun x hx => he x (List.mem_cons_of_mem _ (List.mem_of_mem_take hx)))
      (fun x hx => hfull x (hm x (List.mem_cons_of_mem _ hx)))
    simp only [readTransfer, List.take_succ_cons, run_cons, readAcks_take]
    exact h2.1.1
  · rcases List.eq_nil_or_concat es with h | ⟨es1, eL, h⟩
    · subst h
      simp [readTransfer, readAcks, run_cons, run_nil, h1.2.1]
    · rw [List.concat_eq_append] at h
      subst h
      have hd : (e0 :: (es1 ++ [eL])).dropLast = e0 :: es1 := by
        rw [← List.cons_append, List.dropLast_concat]
      rw [hd] at hfull
      have hI := h1.2.2 (hfull e0 (by simp))
      have h2 := read_full_run peer es1 1 _ hI (fun x hx => he x (by simp [hx]))
        (fun x hx => hfull x (by simp [hx]))
      have h3 := read_step peer (1 + es1.length) _ eL h2.1 (he eL (by simp))
      simp only [readTransfer, run_cons, readAcks_append, run_append, readAcks, run_nil]
      rw [h3.2.1]
      simp

set_option maxRecDepth 20000 in
/-- C3 at a file of 1027 octets, read in blocks of 512, 512 and 3 octets. -/
theorem C3_read_sequence_witness :
    (W_entry.TFTPs_State = TFTPs_STATE_IDLE ∧ W_entry.TFTPs_ServerEn = true ∧
      valid_tid W_entry.Net W_peerA W_peerA = true ∧
      2 ≤ W_rrq.length ∧ Dgram_OpCode W_rrq = TFTP_OPCODE_RD_REQ ∧
      (W_env 7 (List.replicate 512 1)).NetFS_FileOpen ≠ 0 ∧
      (∀ e ∈ W_env 7 (List.replicate 512 1) :: [W_env 7 (List.replicate 512 2), W_env 7 [3, 4, 5]],
        Env_rd_ok e) ∧
      (∀ e ∈ (W_env 7 (List.replicate 512 1) ::
          [W_env 7 (List.replicate 512 2), W_env 7 [3, 4, 5]]).dropLast,
        e.NetFS_FileRd_data.length = 512)) ∧
    (sent (run W_entry (readTransfer W_rrq W_peerA (W_env 7 (List.replicate 512 1))
          [W_env 7 (List.replicate 512 2), W_env 7 [3, 4, 5]])).Calls
        = sent W_entry.Calls ++ dataPkts W_peerA 1
            (W_env 7 (List.replicate 512 1) ::
              [W_env 7 (List.replicate 512 2), W_env 7 [3, 4, 5]]) ∧
      (∀ k, k < [W_env 7 (List.replicate 512 2), W_env 7 [3, 4, 5]].length →
        (run W_entry ((readTransfer W_rrq W_peerA (W_env 7 (List.replicate 512 1))
          [W_env 7 (List.replicate 512 2), W_env 7 [3, 4, 5]]).take (k + 1))).TFTPs_State
          = TFTPs_STATE_DATA_RD) ∧
      (run W_entry (readTransfer W_rrq W_peerA (W_env 7 (List.replicate 512 1))
          [W_env 7 (List.replicate 512 2), W_env 7 [3, 4, 5]])).TFTPs_State
        = (if ((W_env 7 (List.replicate 512 1) ::
                [W_env 7 (List.replicate 512 2), W_env 7 [3, 4, 5]]).getLast
              (List.cons_ne_nil _ _)).NetFS_FileRd_data.length < 512
            then TFTPs_STATE_IDLE else TFTPs_STATE_DATA_RD)) :=
  ⟨⟨by decide, by decide, by decide, by decide, by decide, by decide, by decide, by decide⟩,
    C3_read_sequence W_entry W_rrq W_peerA (W_env 7 (List.replicate 512 1))
      [W_env 7 (List.replicate 512 2), W_env 7 [3, 4, 5]]
      (by decide) (by decide) (by decide) (by decide) (by decide) (by decide) (by decide)
      (by decide)⟩

/-! ## C4, C5: Data packets in TransferWrite -/

/-- C4. In TransferWrite, a Data packet from the active peer with block
number `n`, when `b` is the last accepted block number. If `n ≤ b` the
iteration makes exactly one call, the transmit of Ack(`n`) to the peer: no
file write, no file close. If `n > b` it writes exactly the payload (the
received octets behind the 4-octet header) to the file when the payload is
not empty, closes the file when the payload is shorter than 512 octets,
sends Ack(`n`), and the last accepted block number becomes `n`. -/
theorem C4_data_in_write (s : TFTPs) (pkt : List Nat) (remote : NET_SOCK_ADDR) (e : Env)
    (hR : Reachable s) (hS : s.TFTPs_State = TFTPs_STATE_DATA_WR)
    (hT : valid_tid s.Net remote s.TFTPs_SockAddr = true)
    (hlen : 4 ≤ pkt.length) (hop : Dgram_OpCode pkt = TFTP_OPCODE_DATA) :
    (Dgram_BlkNbr pkt ≤ s.TFTPs_TxBlkNbr →
        (TFTPs_Task s (Rx.data pkt remote) e).Calls = s.Calls
          ++ [Call.NetSock_TxDataTo (Pkt_Ack (Dgram_BlkNbr pkt)) s.TFTPs_SockAddr]) ∧
      (s.TFTPs_TxBlkNbr < Dgram_BlkNbr pkt →
        (TFTPs_Task s (Rx.data pkt remote) e).Calls = s.Calls
          ++ (if Dgram_Payload pkt ≠ []
              then [Call.NetFS_FileWr s.TFTPs_FileHandle (Dgram_Payload pkt)] else [])
          ++ (if (Dgram_Payload pkt).length < 512
              then [Call.NetFS_FileClose s.TFTPs_FileHandle] else [])
          ++ [Call.NetSock_TxDataTo (Pkt_Ack (Dgram_BlkNbr pkt)) s.TFTPs_SockAddr] ∧
        (TFTPs_Task s (Rx.data pkt remote) e).TFTPs_TxBlkNbr = Dgram_BlkNbr pkt) := by
  have hEn : s.TFTPs_ServerEn = true := Reachable_enabled s hR (by simp [hS])
  rw [Task_wr_data s pkt remote e hS hEn hT hlen hop]
  refine ⟨?_, ?_⟩
  · intro h
    have h1 : ¬ s.TFTPs_TxBlkNbr < Dgram_BlkNbr pkt := by omega
    simp [h1]
  · intro h
    simp [h, List.length_pos]

set_option maxRecDepth 20000 in
/-- C4 at block 1 with three octets, received after the write request was
accepted. -/
theorem C4_data_in_write_witness :
    (Reachable W_wr ∧ W_wr.TFTPs_State = TFTPs_STATE_DATA_WR ∧
      valid_tid W_wr.Net W_peerA W_wr.TFTPs_SockAddr = true ∧
      4 ≤ (Pkt_Data 1 [65, 66, 67]).length ∧
      Dgram_OpCode (Pkt_Data 1 [65, 66, 67]) = TFTP_OPCODE_DATA ∧
      W_wr.TFTPs_TxBlkNbr < Dgram_BlkNbr (Pkt_Data 1 [65, 66, 67])) ∧
    ((TFTPs_Task W_wr (Rx.data (Pkt_Data 1 [65, 66, 67]) W_peerA) (W_env 0 [])).Calls
        = W_wr.Calls ++ [Call.NetFS_FileWr 7 [65, 66, 67], Call.NetFS_FileClose 7,
            Call.NetSock_TxDataTo (Pkt_Ack 1) W_peerA] ∧
      (TFTPs_Task W_wr (Rx.data (Pkt_Data 1 [65, 66, 67]) W_peerA) (W_env 0 [])).TFTPs_TxBlkNbr
        = 1) :=
  have h := (C4_data_in_write W_wr (Pkt_Data 1 [65, 66, 67]) W_peerA (W_env 0 [])
    W_wr_reachable (by decide) (by decide) (by decide) (by decide)).2 (by decide)
  ⟨⟨W_wr_reachable, by decide, by decide, by decide, by decide, by decide⟩,
    h.1.trans (by decide), h.2.trans (by decide)⟩

theorem written_append (l1 l2 : List Call) : written (l1 ++ l2) = written l1 ++ written l2 := by
  induction l1 with
  | nil => rfl
  | cons c cs ih => cases c <;> simp [written, ih]

theorem Pkt_Data_fields (n : Nat) (p : List Nat) (hn : n < 65536) (hp : p.length ≤ 512) :
    4 ≤ (Pkt_Data n p).length ∧ Dgram_OpCode (Pkt_Data n p) = TFTP_OPCODE_DATA ∧
      Dgram_BlkNbr (Pkt_Data n p) = n ∧ Dgram_Payload (Pkt_Data n p) = p := by
  refine ⟨by simp [Pkt_Data], by simp [Dgram_OpCode, Pkt_Data], ?_, ?_⟩
  · simp [Dgram_BlkNbr, Pkt_Data]
    omega
  · simp [Dgram_Payload, Pkt_Data, List.take_of_length_le hp]

theorem write_step (peer : NET_SOCK_ADDR) (b : Nat) (s : TFTPs) (p : List Nat) (e : Env)
    (hI : WrInv peer b s) (hb : b + 1 < 65536) (hp : p.length ≤ 512) :
    sent (step s (Step.rx (Rx.data (Pkt_Data (b + 1) p) peer) e)).Calls
        = sent s.Calls ++ [(Pkt_Ack (b + 1), peer)] ∧
      written (step s (Step.rx (Rx.data (Pkt_Data (b + 1) p) peer) e)).Calls
        = written s.Calls ++ p ∧
      (step s (Step.rx (Rx.data (Pkt_Data (b + 1) p) peer) e)).TFTPs_State
        = (if p.length < 512 then TFTPs_STATE_IDLE else TFTPs_STATE_DATA_WR) ∧
      (p.length = 512 →
        WrInv peer (b + 1) (step s (Step.rx (Rx.data (Pkt_Data (b + 1) p) peer) e))) := by
  obtain ⟨h1, h2, h3, h4, h5⟩ := hI
  obtain ⟨f1, f2, f3, f4⟩ := Pkt_Data_fields (b + 1) p hb hp
  have hT : valid_tid s.Net peer s.TFTPs_SockAddr = true := by rw [h3]; exact h4
  simp only [step]
  rw [Task_wr_data s (Pkt_Data (b + 1) p) peer e h1 h2 hT f1 f2, f3, f4, h5, h3]
  have hlt : b < b + 1 := by omega
  refine ⟨?_, ?_, ?_, ?_⟩
  · by_cases hs : p.length < 512 <;> by_cases h0 : 0 < p.length <;>
      simp [sent_append, sent, hlt, hs, h0]
  · by_cases hs : p.length < 512 <;> by_cases h0 : 0 < p.length
    · simp [written_append, written, hlt, hs, h0]
    · have : p = [] := List.length_eq_zero.mp (by omega)
      simp [written_append, written, hlt, hs, this]
    · simp [written_append, written, hlt, hs, h0]
    · omega
  · simp [hlt]
  · intro hfull
    have hs : ¬ p.length < 512 := by omega
    simp [WrInv, hlt, hs, h2, h4]

theorem writeBlocks_append (peer : NET_SOCK_ADDR) (b : Nat) (l1 l2 : List (List Nat × Env)) :
    writeBlocks peer b (l1 ++ l2)
      = writeBlocks peer b l1 ++ writeBlocks peer (b + l1.length) l2 := by
  induction l1 generalizing b with
  | nil => simp [writeBlocks]
  | cons e es ih => simp [writeBlocks, ih, Nat.add_assoc, Nat.add_comm 1]

theorem writeBlocks_take (peer : NET_SOCK_ADDR) (b k : Nat) (l : List (List Nat × Env)) :
    (writeBlocks peer b l).take k = writeBlocks peer b (l.take k) := by
  induction l generalizing b k with
  | nil => simp [writeBlocks]
  | cons e es ih =>
    cases k with
    | zero => simp [writeBlocks]
    | succ k => simp [writeBlocks, ih]

theorem ackPkts_append (peer : NET_SOCK_ADDR) (b : Nat) (l1 l2 : List (List Nat × Env)) :
    ackPkts peer b (l1 ++ l2) = ackPkts peer b l1 ++ ackPkts peer (b + l1.length) l2 := by
  induction l1 generalizing b with
  | nil => simp [ackPkts]
  | cons e es ih => simp [ackPkts, ih, Nat.add_assoc, Nat.add_comm 1]

theorem ackPkts_eq_range (peer : NET_SOCK_ADDR) (b : Nat) (l : List (List Nat × Env)) :
    ackPkts peer b l = (List.range l.length).map (fun i => (Pkt_Ack (b + i), peer)) := by
  induction l generalizing b with
  | nil => simp [ackPkts]
  | cons e es ih =>
    simp [ackPkts, ih, List.range_succ_eq_map, Nat.add_assoc, Nat.add_comm 1, Function.comp_def]

theorem write_full_run (peer : NET_SOCK_ADDR) (ps : List (List Nat × Env)) (b : Nat) (s : TFTPs)
    (hI : WrInv peer b s) (hb : b + ps.length < 65536)
    (hfull : ∀ p ∈ ps, p.1.length = 512) :
    WrInv peer (b + ps.length) (run s (writeBlocks peer (b + 1) ps)) ∧
      sent (run s (writeBlocks peer (b + 1) ps)).Calls
        = sent s.Calls ++ ackPkts peer (b + 1) ps ∧
      written (run s (writeBlocks peer (b + 1) ps)).Calls
        = written s.Calls ++ (ps.map (fun p => p.1)).flatten := by
  induction ps generalizing b s with
  | nil => simpa [writeBlocks, run_nil, ackPkts] using hI
  | cons p ps ih =>
    have hl : (p :: ps).length = ps.length + 1 := rfl
    have hp := hfull p (by simp)
    have h1 := write_step peer b s p.1 p.2 hI (by omega) (by omega)
    have h2 := ih (b + 1) _ (h1.2.2.2 hp) (by omega) (fun x hx => hfull x (by simp [hx]))
    simp only [writeBlocks, run_cons, ackPkts]
    refine ⟨?_, ?_, ?_⟩
    · have := h2.1
      simpa [Nat.add_assoc, Nat.add_comm 1] using this
    · rw [h2.2.1, h1.1]
      simp
    · rw [h2.2.2, h1.2.1]
      simp

theorem write_first_step (s : TFTPs) (wrq : List Nat) (peer : NET_SOCK_ADDR) (e : Env)
    (hS : s.TFTPs_State = TFTPs_STATE_IDLE) (hEn : s.TFTPs_ServerEn = true)
    (hP : valid_tid s.Net peer peer = true)
    (hlen : 2 ≤ wrq.length) (hop : Dgram_OpCode wrq = TFTP_OPCODE_WR_REQ)
    (hopen : e.NetFS_FileOpen ≠ 0) :
    sent (step s (Step.rx (Rx.data wrq peer) e)).Calls = sent s.Calls ++ [(Pkt_Ack 0, peer)] ∧
      written (step s (Step.rx (Rx.data wrq peer) e)).Calls = written s.Calls ∧
      WrInv peer 0 (step s (Step.rx (Rx.data wrq peer) e)) := by
  simp only [step]
  rw [Task_idle_wrq s wrq peer e hS hEn hlen hop hopen]
  simp [sent_append, sent, written_append, written, WrInv, hEn, hP]

/-- C5. A write request accepted in Idle and followed, from the same client,
by the Data blocks 1 .. k (k ≤ 65535), of which the blocks 1 .. k-1 carry
512 octets (`fulls`) and block k carries fewer (`last`): the octets written
to the file are the payloads in order, the packets sent are exactly Ack(0),
Ack(1), ..., Ack(k), the state is TransferWrite after the request and after
each of the blocks 1 .. k-1, and Idle after block k. -/
theorem C5_write_sequence (s : TFTPs) (wrq : List Nat) (peer : NET_SOCK_ADDR) (e0 : Env)
    (fulls : List (List Nat × Env)) (last : List Nat × Env)
    (hS : s.TFTPs_State = TFTPs_STATE_IDLE) (hEn : s.TFTPs_ServerEn = true)
    (hP : valid_tid s.Net peer peer = true)
    (hlen : 2 ≤ wrq.length) (hop : Dgram_OpCode wrq = TFTP_OPCODE_WR_REQ)
    (hopen : e0.NetFS_FileOpen ≠ 0)
    (hfull : ∀ p ∈ fulls, p.1.length = 512) (hlast : last.1.length < 512)
    (hk : fulls.length + 1 ≤ 65535) :
    written (run s (writeTransfer wrq peer e0 (fulls ++ [last]))).Calls
        = written s.Calls ++ ((fulls ++ [last]).map (fun p => p.1)).flatten ∧
      sent (run s (writeTransfer wrq peer e0 (fulls ++ [last]))).Calls
        = sent s.Calls
          ++ (List.range (fulls.length + 1 + 1)).map (fun i => (Pkt_Ack i, peer)) ∧
      (∀ j, j ≤ fulls.length →
        (run s ((writeTransfer wrq peer e0 (fulls ++ [last])).take (j + 1))).TFTPs_State
          = TFTPs_STATE_DATA_WR) ∧
      (run s (writeTransfer wrq peer e0 (fulls ++ [last]))).TFTPs_State = TFTPs_STATE_IDLE := by
  have h1 := write_first_step s wrq peer e0 hS hEn hP hlen hop hopen
  have h2 := write_full_run peer fulls 0 _ h1.2.2 (by omega) hfull
  have h3 := write_step peer (0 + fulls.length) _ last.1 last.2 h2.1 (by omega) (by omega)
  simp only [Nat.zero_add] at h2 h3
  refine ⟨?_, ?_, ?_, ?_⟩
  · simp only [writeTransfer, run_cons, writeBlocks_append, run_append, writeBlocks, run_nil]
    rw [Nat.add_comm 1 fulls.length, h3.2.1, h2.2.2, h1.2.1]
    simp
  · simp only [writeTransfer, run_cons, writeBlocks_append, run_append, writeBlocks, run_nil]
    rw [Nat.add_comm 1 fulls.length, h3.1, h2.2.1, h1.1, ackPkts_eq_range]
    rw [List.range_succ (n := fulls.length + 1), List.range_succ_eq_map]
    simp [Nat.add_comm 1, Function.comp_def]
  · intro j hj
    have h4 := write_full_run peer (fulls.take j) 0 _ h1.2.2
      (by simp; omega) (fun x hx => hfull x (List.mem_of_mem_take hx))
    have ht : (fulls ++ [last]).take j = fulls.take j := by
      rw [List.take_append_of_le_length hj]
    simp only [writeTransfer, List.take_succ_cons, run_cons, writeBlocks_take, ht]
    exact h4.1.1
  · simp only [writeTransfer, run_cons, writeBlocks_append, run_append, writeBlocks, run_nil]
    rw [Nat.add_comm 1 fulls.length, h3.2.2.1]
    simp [hlast]

set_option maxRecDepth 20000 in
/-- C5 at the blocks of 512, 512 and 100 octets. -/
theorem C5_write_sequence_witness :
    (W_entry.TFTPs_State = TFTPs_STATE_IDLE ∧ W_entry.TFTPs_ServerEn = true ∧
      valid_tid W_entry.Net W_peerA W_peerA = true ∧
      2 ≤ W_wrq.length ∧ Dgram_OpCode W_wrq = TFTP_OPCODE_WR_REQ ∧
      (W_env 7 []).NetFS_FileOpen ≠ 0 ∧
      (∀ p ∈ [(List.replicate 512 1, W_env 0 []), (List.replicate 512 2, W_env 0 [])],
        p.1.length = 512) ∧
      (List.replicate 100 3, W_env 0 []).1.length < 512 ∧
      [(List.replicate 512 1, W_env 0 []), (List.replicate 512 2, W_env 0 [])].length + 1
        ≤ 65535) ∧
    (written (run W_entry (writeTransfer W_wrq W_peerA (W_env 7 [])
          ([(List.replicate 512 1, W_env 0 []), (List.replicate 512 2, W_env 0 [])]
            ++ [(List.replicate 100 3, W_env 0 [])]))).Calls
        = written W_entry.Calls
          ++ (([(List.replicate 512 1, W_env 0 []), (List.replicate 512 2, W_env 0 [])]
            ++ [(List.replicate 100 3, W_env 0 [])]).map (fun p : List Nat × Env => p.1)).flatten ∧
      sent (run W_entry (writeTransfer W_wrq W_peerA (W_env 7 [])
          ([(List.replicate 512 1, W_env 0 []), (List.replicate 512 2, W_env 0 [])]
            ++ [(List.replicate 100 3, W_env 0 [])]))).Calls
        = [(Pkt_Ack 0, W_peerA), (Pkt_Ack 1, W_peerA), (Pkt_Ack 2, W_peerA),
            (Pkt_Ack 3, W_peerA)] ∧
      (run W_entry (writeTransfer W_wrq W_peerA (W_env 7 [])
          ([(List.replicate 512 1, W_env 0 []), (List.replicate 512 2, W_env 0 [])]
            ++ [(List.replicate 100 3, W_env 0 [])]))).TFTPs_State = TFTPs_STATE_IDLE) :=
  have h := C5_write_sequence W_entry W_wrq W_peerA (W_env 7 [])
    [(List.replicate 512 1, W_env 0 []), (List.replicate 512 2, W_env 0 [])]
    (List.replicate 100 3, W_env 0 [])
    (by decide) (by decide) (by decide) (by decide) (by decide) (by decide) (by decide)
    (by decide) (by decide)
  ⟨⟨by decide, by decide, by decide, by decide, by decide, by decide, by decide, by decide,
      by decide⟩,
    h.1, h.2.1.trans (by decide), h.2.2.2⟩

/-! ## C6, C8, C9, C10: requests and unexpected packets in Idle -/

/-- C6. A read request in Idle for a file of fewer than 512 octets, which
the file store opens and returns whole on the first read and the transport
accepts, followed by an Ack of the client: one Data packet is sent, with
block number 1 and the whole file as payload, addressed to the client; the
state is Idle after the Data packet and after the Ack, and the Ack makes the
server send nothing. -/
theorem C6_short_file_read (s : TFTPs) (rrq ack : List Nat) (peer : NET_SOCK_ADDR)
    (e0 e1 : Env) (file : List Nat)
    (hS : s.TFTPs_State = TFTPs_STATE_IDLE) (hEn : s.TFTPs_ServerEn = true)
    (hlen : 2 ≤ rrq.length) (hop : Dgram_OpCode rrq = TFTP_OPCODE_RD_REQ)
    (hopen : e0.NetFS_FileOpen ≠ 0) (hok : e0.NetFS_FileRd_ok = true)
    (hdata : e0.NetFS_FileRd_data = file) (hshort : file.length < 512)
    (htx : 0 ≤ e0.NetSock_TxDataTo)
    (halen : 2 ≤ ack.length) (haop : Dgram_OpCode ack = TFTP_OPCODE_ACK) :
    sent (run s [Step.rx (Rx.data rrq peer) e0]).Calls
        = sent s.Calls ++ [(Pkt_Data 1 file, peer)] ∧
      (run s [Step.rx (Rx.data rrq peer) e0]).TFTPs_State = TFTPs_STATE_IDLE ∧
      sent (run s [Step.rx (Rx.data rrq peer) e0, Step.rx (Rx.data ack peer) e1]).Calls
        = sent s.Calls ++ [(Pkt_Data 1 file, peer)] ∧
      (run s [Step.rx (Rx.data rrq peer) e0, Step.rx (Rx.data ack peer) e1]).TFTPs_State
        = TFTPs_STATE_IDLE := by
  have hd : e0.NetFS_FileRd_data.length ≤ 512 := by rw [hdata]; omega
  have hs : e0.NetFS_FileRd_data.length < 512 := by rw [hdata]; exact hshort
  have h1 := Task_idle_rrq s rrq peer e0 hS hEn hlen hop hopen hok htx hd
  have hS1 : (TFTPs_Task s (Rx.data rrq peer) e0).TFTPs_State = TFTPs_STATE_IDLE := by
    rw [h1]; simp [hs]
  have hEn1 : (TFTPs_Task s (Rx.data rrq peer) e0).TFTPs_ServerEn = true := by
    rw [TFTPs_Task_ServerEn]; exact hEn
  have hC1 : sent (TFTPs_Task s (Rx.data rrq peer) e0).Calls
      = sent s.Calls ++ [(Pkt_Data 1 file, peer)] := by
    rw [h1]; simp [sent_append, sent, hs, hdata, hshort]
  have h2 := Task_idle_unexpected _ ack peer e1 TFTP_OPCODE_ACK hS1 hEn1 halen haop
    (Or.inl rfl)
  simp only [run_cons, run_nil, step]
  refine ⟨hC1, hS1, ?_, ?_⟩
  · rw [h2, ← hC1]
    by_cases hh : (TFTPs_Task s (Rx.data rrq peer) e0).TFTPs_FileHandle = 0 <;>
      simp [sent_append, sent, hh]
  · rw [h2]

/-- C9. A write request in Idle, with the server enabled. If the file store
opens (creates) the file, the iteration opens a file for writing, sends
exactly one packet, the Ack of block 0, to the requester, the last accepted
block number is 0 and the state is TransferWrite. If the open fails, the only
packet sent is the Error packet "file not found" to the requester (no Ack)
and the state is Idle. The name passed to the open is the file name of the
request when the NUL that ends it lies inside the datagram. -/
theorem C9_write_request_in_idle (s : TFTPs) (wrq : List Nat) (peer : NET_SOCK_ADDR)
    (e : Env)
    (hS : s.TFTPs_State = TFTPs_STATE_IDLE) (hEn : s.TFTPs_ServerEn = true)
    (hlen : 2 ≤ wrq.length) (hop : Dgram_OpCode wrq = TFTP_OPCODE_WR_REQ) :
    (e.NetFS_FileOpen ≠ 0 →
        (∃ p_filename, (Dgram_NameEnds wrq → p_filename = Dgram_Filename wrq) ∧
          (TFTPs_Task s (Rx.data wrq peer) e).Calls = s.Calls
            ++ [Call.NetFS_FileOpen p_filename TFTPs_FILE_OPEN_WR e.NetFS_FileOpen,
                Call.NetSock_TxDataTo (Pkt_Ack 0) peer,
                Call.NetSock_CfgTimeoutRxQ_Set (some s.Cfg.RxTimeoutMax)]) ∧
        sent (TFTPs_Task s (Rx.data wrq peer) e).Calls = sent s.Calls ++ [(Pkt_Ack 0, peer)] ∧
        (TFTPs_Task s (Rx.data wrq peer) e).TFTPs_TxBlkNbr = 0 ∧
        (TFTPs_Task s (Rx.data wrq peer) e).TFTPs_FileHandle = e.NetFS_FileOpen ∧
        (TFTPs_Task s (Rx.data wrq peer) e).TFTPs_State = TFTPs_STATE_DATA_WR) ∧
      (e.NetFS_FileOpen = 0 →
        (∃ p_filename, (Dgram_NameEnds wrq → p_filename = Dgram_Filename wrq) ∧
          (TFTPs_Task s (Rx.data wrq peer) e).Calls = s.Calls
            ++ [Call.NetFS_FileOpen p_filename TFTPs_FILE_OPEN_WR 0,
                Call.NetSock_TxDataTo (Pkt_Error 0 "file not found") peer,
                Call.NetSock_CfgTimeoutRxQ_Set none]) ∧
        sent (TFTPs_Task s (Rx.data wrq peer) e).Calls
          = sent s.Calls ++ [(Pkt_Error 0 "file not found", peer)] ∧
        (TFTPs_Task s (Rx.data wrq peer) e).TFTPs_State = TFTPs_STATE_IDLE) := by
  refine ⟨?_, ?_⟩
  · intro hopen
    rw [Task_idle_wrq s wrq peer e hS hEn hlen hop hopen]
    refine ⟨⟨Str_At (Rx_buf s.TFTPs_RxMsgBuf wrq) 2 514,
      fun hN => Str_At_Rx_buf s.TFTPs_RxMsgBuf wrq hN, rfl⟩, ?_⟩
    simp [sent_append, sent]
  · intro hopen
    rw [Task_idle_req_nofile s wrq peer e TFTP_OPCODE_WR_REQ hS hEn hlen hop (Or.inr rfl) hopen]
    refine ⟨⟨Str_At (Rx_buf s.TFTPs_RxMsgBuf wrq) 2 514,
      fun hN => Str_At_Rx_buf s.TFTPs_RxMsgBuf wrq hN, rfl⟩, ?_⟩
    simp [sent_append, sent]

/-- C8 fails as stated: a read request in Idle for a file of ten octets that
the file store opens and reads makes the server send Data block 1, and the
next state is Idle, not TransferRead. -/
theorem C8_counterexample :
    W_entry.TFTPs_State = TFTPs_STATE_IDLE ∧ W_entry.TFTPs_ServerEn = true ∧
      Dgram_OpCode W_rrq = TFTP_OPCODE_RD_REQ ∧
      (W_env 7 W_file10).NetFS_FileOpen ≠ 0 ∧
      sent (TFTPs_Task W_entry (Rx.data W_rrq W_peerA) (W_env 7 W_file10)).Calls
        = [(Pkt_Data 1 W_file10, W_peerA)] ∧
      (TFTPs_Task W_entry (Rx.data W_rrq W_peerA) (W_env 7 W_file10)).TFTPs_State
        ≠ TFTPs_STATE_DATA_RD := by
  decide

/-- C8, amended. A read request in Idle, with the server enabled. If the
file store opens the file and the first read and its transmit succeed, the
iteration opens a file for reading, reads one block and sends it as Data
block 1 to the requester; the next state is TransferRead when the block
carries 512 octets, and Idle, with the file closed, when it carries fewer.
If the open fails, the only packet sent is the Error packet "file not found"
to the requester (no Data packet) and the next state is Idle. The name
passed to the open is the file name of the request when the NUL that ends it
lies inside the datagram. -/
theorem C8_read_request_in_idle (s : TFTPs) (rrq : List Nat) (peer : NET_SOCK_ADDR)
    (e : Env)
    (hS : s.TFTPs_State = TFTPs_STATE_IDLE) (hEn : s.TFTPs_ServerEn = true)
    (hlen : 2 ≤ rrq.length) (hop : Dgram_OpCode rrq = TFTP_OPCODE_RD_REQ) :
    (e.NetFS_FileOpen ≠ 0 → Env_rd_ok e →
        (∃ p_filename, (Dgram_NameEnds rrq → p_filename = Dgram_Filename rrq) ∧
          (TFTPs_Task s (Rx.data rrq peer) e).Calls = s.Calls
            ++ [Call.NetFS_FileOpen p_filename TFTPs_FILE_OPEN_RD e.NetFS_FileOpen,
                Call.NetFS_FileRd e.NetFS_FileOpen 512]
            ++ (if e.NetFS_FileRd_data.length < 512
                then [Call.NetFS_FileClose e.NetFS_FileOpen] else [])
            ++ [Call.NetSock_TxDataTo (Pkt_Data 1 e.NetFS_FileRd_data) peer,
                Call.NetSock_CfgTimeoutRxQ_Set (some s.Cfg.RxTimeoutMax)]) ∧
        sent (TFTPs_Task s (Rx.data rrq peer) e).Calls
          = sent s.Calls ++ [(Pkt_Data 1 e.NetFS_FileRd_data, peer)] ∧
        (TFTPs_Task s (Rx.data rrq peer) e).TFTPs_TxBlkNbr = 1 ∧
        (TFTPs_Task s (Rx.data rrq peer) e).TFTPs_State
          = (if e.NetFS_FileRd_data.length < 512
              then TFTPs_STATE_IDLE else TFTPs_STATE_DATA_RD)) ∧
      (e.NetFS_FileOpen = 0 →
        (∃ p_filename, (Dgram_NameEnds rrq → p_filename = Dgram_Filename rrq) ∧
          (TFTPs_Task s (Rx.data rrq peer) e).Calls = s.Calls
            ++ [Call.NetFS_FileOpen p_filename TFTPs_FILE_OPEN_RD 0,
                Call.NetSock_TxDataTo (Pkt_Error 0 "file not found") peer,
                Call.NetSock_CfgTimeoutRxQ_Set none]) ∧
        sent (TFTPs_Task s (Rx.data rrq peer) e).Calls
          = sent s.Calls ++ [(Pkt_Error 0 "file not found", peer)] ∧
        (TFTPs_Task s (Rx.data rrq peer) e).TFTPs_State = TFTPs_STATE_IDLE) := by
  refine ⟨?_, ?_⟩
  · intro hopen he
    obtain ⟨g1, g2, g3⟩ := he
    rw [Task_idle_rrq s rrq peer e hS hEn hlen hop hopen g1 g2 g3]
    refine ⟨⟨Str_At (Rx_buf s.TFTPs_RxMsgBuf rrq) 2 514,
      fun hN => Str_At_Rx_buf s.TFTPs_RxMsgBuf rrq hN, ?_⟩, ?_⟩
    · simp
    · by_cases hs : e.NetFS_FileRd_data.length < 512 <;> simp [sent_append, sent, hs]
  · intro hopen
    rw [Task_idle_req_nofile s rrq peer e TFTP_OPCODE_RD_REQ hS hEn hlen hop (Or.inl rfl) hopen]
    refine ⟨⟨Str_At (Rx_buf s.TFTPs_RxMsgBuf rrq) 2 514,
      fun hN => Str_At_Rx_buf s.TFTPs_RxMsgBuf rrq hN, rfl⟩, ?_⟩
    simp [sent_append, sent]

/-- C6 at a file of ten octets. -/
theorem C6_short_file_read_witness :
    (W_entry.TFTPs_State = TFTPs_STATE_IDLE ∧ W_entry.TFTPs_ServerEn = true ∧
      2 ≤ W_rrq.length ∧ Dgram_OpCode W_rrq = TFTP_OPCODE_RD_REQ ∧
      (W_env 7 W_file10).NetFS_FileOpen ≠ 0 ∧ (W_env 7 W_file10).NetFS_FileRd_ok = true ∧
      (W_env 7 W_file10).NetFS_FileRd_data = W_file10 ∧ W_file10.length < 512 ∧
      0 ≤ (W_env 7 W_file10).NetSock_TxDataTo ∧
      2 ≤ (Pkt_Ack 1).length ∧ Dgram_OpCode (Pkt_Ack 1) = TFTP_OPCODE_ACK) ∧
    (sent (run W_entry [Step.rx (Rx.data W_rrq W_peerA) (W_env 7 W_file10)]).Calls
        = sent W_entry.Calls ++ [(Pkt_Data 1 W_file10, W_peerA)] ∧
      (run W_entry [Step.rx (Rx.data W_rrq W_peerA) (W_env 7 W_file10)]).TFTPs_State
        = TFTPs_STATE_IDLE ∧
      sent (run W_entry [Step.rx (Rx.data W_rrq W_peerA) (W_env 7 W_file10),
          Step.rx (Rx.data (Pkt_Ack 1) W_peerA) (W_env 0 [])]).Calls
        = sent W_entry.Calls ++ [(Pkt_Data 1 W_file10, W_peerA)] ∧
      (run W_entry [Step.rx (Rx.data W_rrq W_peerA) (W_env 7 W_file10),
          Step.rx (Rx.data (Pkt_Ack 1) W_peerA) (W_env 0 [])]).TFTPs_State
        = TFTPs_STATE_IDLE) :=
  ⟨⟨by decide, by decide, by decide, by decide, by decide, by decide, by decide, by decide,
      by decide, by decide, by decide⟩,
    C6_short_file_read W_entry W_rrq (Pkt_Ack 1) W_peerA (W_env 7 W_file10) (W_env 0 [])
      W_file10 (by decide) (by decide) (by decide) (by decide) (by decide) (by decide)
      (by decide) (by decide) (by decide) (by decide) (by decide)⟩

set_option maxRecDepth 20000 in
/-- C8 (amended) at a file whose first block has 512 octets: the file `a` is
opened and the next state is TransferRead. -/
theorem C8_read_request_in_idle_witness :
    (W_entry.TFTPs_State = TFTPs_STATE_IDLE ∧ W_entry.TFTPs_ServerEn = true ∧
      2 ≤ W_rrq.length ∧ Dgram_OpCode W_rrq = TFTP_OPCODE_RD_REQ ∧
      (W_env 7 (List.replicate 512 1)).NetFS_FileOpen ≠ 0 ∧
      Env_rd_ok (W_env 7 (List.replicate 512 1)) ∧ Dgram_NameEnds W_rrq ∧
      Dgram_Filename W_rrq = [97]) ∧
    ((TFTPs_Task W_entry (Rx.data W_rrq W_peerA) (W_env 7 (List.replicate 512 1))).Calls
        = W_entry.Calls
          ++ [Call.NetFS_FileOpen [97] TFTPs_FILE_OPEN_RD
                (W_env 7 (List.replicate 512 1)).NetFS_FileOpen,
              Call.NetFS_FileRd (W_env 7 (List.replicate 512 1)).NetFS_FileOpen 512]
          ++ (if (W_env 7 (List.replicate 512 1)).NetFS_FileRd_data.length < 512
              then [Call.NetFS_FileClose (W_env 7 (List.replicate 512 1)).NetFS_FileOpen]
              else [])
          ++ [Call.NetSock_TxDataTo
                (Pkt_Data 1 (W_env 7 (List.replicate 512 1)).NetFS_FileRd_data) W_peerA,
              Call.NetSock_CfgTimeoutRxQ_Set (some W_entry.Cfg.RxTimeoutMax)] ∧
      sent (TFTPs_Task W_entry (Rx.data W_rrq W_peerA) (W_env 7 (List.replicate 512 1))).Calls
        = sent W_entry.Calls ++ [(Pkt_Data 1 (List.replicate 512 1), W_peerA)] ∧
      (TFTPs_Task W_entry (Rx.data W_rrq W_peerA) (W_env 7 (List.replicate 512 1))).TFTPs_TxBlkNbr
        = 1 ∧
      (TFTPs_Task W_entry (Rx.data W_rrq W_peerA) (W_env 7 (List.replicate 512 1))).TFTPs_State
        = TFTPs_STATE_DATA_RD) := by
  have h := (C8_read_request_in_idle W_entry W_rrq W_peerA (W_env 7 (List.replicate 512 1))
    (by decide) (by decide) (by decide) (by decide)).1 (by decide) (by decide)
  obtain ⟨⟨n, hn, hc⟩, h2, h3, h4⟩ := h
  have hn2 : n = [97] := (hn (by decide)).trans (by decide)
  rw [hn2] at hc
  exact ⟨⟨by decide, by decide, by decide, by decide, by decide, by decide, by decide,
    by decide⟩, hc, h2, h3, h4.trans (by decide)⟩

/-- C9 at the write request of the first client, with a file store that
opens the file: the file `a` is opened for writing. -/
theorem C9_write_request_in_idle_witness :
    (W_entry.TFTPs_State = TFTPs_STATE_IDLE ∧ W_entry.TFTPs_ServerEn = true ∧
      2 ≤ W_wrq.length ∧ Dgram_OpCode W_wrq = TFTP_OPCODE_WR_REQ ∧
      (W_env 7 []).NetFS_FileOpen ≠ 0 ∧ Dgram_NameEnds W_wrq ∧
      Dgram_Filename W_wrq = [97]) ∧
    ((TFTPs_Task W_entry (Rx.data W_wrq W_peerA) (W_env 7 [])).Calls
        = W_entry.Calls
          ++ [Call.NetFS_FileOpen [97] TFTPs_FILE_OPEN_WR (W_env 7 []).NetFS_FileOpen,
              Call.NetSock_TxDataTo (Pkt_Ack 0) W_peerA,
              Call.NetSock_CfgTimeoutRxQ_Set (some W_entry.Cfg.RxTimeoutMax)] ∧
      sent (TFTPs_Task W_entry (Rx.data W_wrq W_peerA) (W_env 7 [])).Calls
        = sent W_entry.Calls ++ [(Pkt_Ack 0, W_peerA)] ∧
      (TFTPs_Task W_entry (Rx.data W_wrq W_peerA) (W_env 7 [])).TFTPs_TxBlkNbr = 0 ∧
      (TFTPs_Task W_entry (Rx.data W_wrq W_peerA) (W_env 7 [])).TFTPs_FileHandle
        = (W_env 7 []).NetFS_FileOpen ∧
      (TFTPs_Task W_entry (Rx.data W_wrq W_peerA) (W_env 7 [])).TFTPs_State
        = TFTPs_STATE_DATA_WR) := by
  have h := (C9_write_request_in_idle W_entry W_wrq W_peerA (W_env 7 [])
    (by decide) (by decide) (by decide) (by decide)).1 (by decide)
  obtain ⟨⟨n, hn, hc⟩, h2, h3, h4, h5⟩ := h
  have hn2 : n = [97] := (hn (by decide)).trans (by decide)
  rw [hn2] at hc
  exact ⟨⟨by decide, by decide, by decide, by decide, by decide, by decide, by decide⟩,
    hc, h2, h3, h4, h5⟩

/-! ## C7: an unexpected opcode from the active peer during a transfer -/

theorem Task_transfer_unexpected (s : TFTPs) (pkt : List Nat) (remote : NET_SOCK_ADDR)
    (e : Env) (hEn : s.TFTPs_ServerEn = true)
    (hU : Unexpected s.TFTPs_State (Dgram_OpCode pkt))
    (hT : valid_tid s.Net remote s.TFTPs_SockAddr = true) (hlen : 2 ≤ pkt.length) :
    TFTPs_Task s (Rx.data pkt remote) e =
      { s with
        TFTPs_RxMsgBuf := Rx_buf s.TFTPs_RxMsgBuf pkt
        TFTPs_RxMsgLen := ((pkt.take TFTPs_BUF_SIZE).length : Int)
        TFTPs_RxMsgCtr := (s.TFTPs_RxMsgCtr + 1) % 4294967296
        TFTPs_OpCode := Dgram_OpCode pkt
        TFTPs_TxMsgBuf :=
          TxErr_buf s.TFTPs_TxMsgBuf 0 (Busy_msg s.TFTPs_State (Dgram_OpCode pkt))
        TFTPs_State := TFTPs_STATE_IDLE
        TFTPs_FileHandle := 0
        RxQ_Timeout := none
        Calls := s.Calls
          ++ [Call.NetSock_TxDataTo
                (Pkt_Error 0 (Busy_msg s.TFTPs_State (Dgram_OpCode pkt))) s.TFTPs_SockAddr]
          ++ (if s.TFTPs_FileHandle ≠ 0 then [Call.NetFS_FileClose s.TFTPs_FileHandle] else [])
          ++ [Call.NetSock_CfgTimeoutRxQ_Set none] } := by
  have m1 : (Str_Octets "RRQ server busy, WRQ  opcode?").length + 5 < 65536 := by decide
  have m2 : (Str_Octets "RRQ server busy, DATA opcode?").length + 5 < 65536 := by decide
  have m3 : (Str_Octets "RRQ server busy, ERR  opcode?").length + 5 < 65536 := by decide
  have m4 : (Str_Octets "WRQ server busy, RRQ  opcode?").length + 5 < 65536 := by decide
  have m5 : (Str_Octets "WRQ server busy, ACK  opcode?").length + 5 < 65536 := by decide
  have m6 : (Str_Octets "WRQ server busy, ERR  opcode?").length + 5 < 65536 := by decide
  rcases hU with ⟨hS, h | h | h⟩ | ⟨hS, h | h | h⟩
  · simp [TFTPs_Task, hS, hEn, hT, rd16_Rx_buf_0 _ _ hlen, h, TFTPs_StateDataRd, Busy_msg,
      TFTPs_TxErr_eq _ _ _ _ m1, TFTPs_Terminate_eq]
  · simp [TFTPs_Task, hS, hEn, hT, rd16_Rx_buf_0 _ _ hlen, h, TFTPs_StateDataRd, Busy_msg,
      TFTPs_TxErr_eq _ _ _ _ m2, TFTPs_Terminate_eq]
  · simp [TFTPs_Task, hS, hEn, hT, rd16_Rx_buf_0 _ _ hlen, h, TFTPs_StateDataRd, Busy_msg,
      TFTPs_TxErr_eq _ _ _ _ m3, TFTPs_Terminate_eq]
  · simp [TFTPs_Task, hS, hEn, hT, rd16_Rx_buf_0 _ _ hlen, h, TFTPs_StateDataWr, Busy_msg,
      TFTPs_TxErr_eq _ _ _ _ m4, TFTPs_Terminate_eq]
  · simp [TFTPs_Task, hS, hEn, hT, rd16_Rx_buf_0 _ _ hlen, h, TFTPs_StateDataWr, Busy_msg,
      TFTPs_TxErr_eq _ _ _ _ m5, TFTPs_Terminate_eq]
  · simp [TFTPs_Task, hS, hEn, hT, rd16_Rx_buf_0 _ _ hlen, h, TFTPs_StateDataWr, Busy_msg,
      TFTPs_TxErr_eq _ _ _ _ m6, TFTPs_Terminate_eq]

set_option maxRecDepth 20000 in
/-- C7 fails as stated: during the write transfer of the first client, an
Ack from that client is answered with an Error packet, and after the
iteration the state is Idle, the file is closed and the handle is null. -/
theorem C7_counterexample :
    W_wr.TFTPs_State = TFTPs_STATE_DATA_WR ∧ W_wr.TFTPs_ServerEn = true ∧
      W_wr.TFTPs_FileHandle = 7 ∧
      valid_tid W_wr.Net W_peerA W_wr.TFTPs_SockAddr = true ∧
      Dgram_OpCode (Pkt_Ack 0) = TFTP_OPCODE_ACK ∧
      (TFTPs_Task W_wr (Rx.data (Pkt_Ack 0) W_peerA) (W_env 0 [])).Calls
        = W_wr.Calls ++ [Call.NetSock_TxDataTo (Pkt_Error 0 "WRQ server busy, ACK  opcode?")
              W_peerA,
            Call.NetFS_FileClose 7, Call.NetSock_CfgTimeoutRxQ_Set none] ∧
      (TFTPs_Task W_wr (Rx.data (Pkt_Ack 0) W_peerA) (W_env 0 [])).TFTPs_State
        ≠ W_wr.TFTPs_State ∧
      (TFTPs_Task W_wr (Rx.data (Pkt_Ack 0) W_peerA) (W_env 0 [])).TFTPs_FileHandle = 0 := by
  decide

/-- C7, amended. In TransferRead and in TransferWrite, a packet from the
active peer whose opcode the state does not expect makes one iteration of
the loop send one Error packet to the active peer and then end the transfer:
after the iteration the state is Idle, the file handle is null, the file was
closed if the handle was not null, and the receive time-out is infinite. The
block number keeps its value. -/
theorem C7_unexpected_in_transfer (s : TFTPs) (pkt : List Nat) (remote : NET_SOCK_ADDR)
    (e : Env) (hR : Reachable s)
    (hU : Unexpected s.TFTPs_State (Dgram_OpCode pkt))
    (hT : valid_tid s.Net remote s.TFTPs_SockAddr = true) (hlen : 2 ≤ pkt.length) :
    sent (TFTPs_Task s (Rx.data pkt remote) e).Calls = sent s.Calls
        ++ [(Pkt_Error 0 (Busy_msg s.TFTPs_State (Dgram_OpCode pkt)), s.TFTPs_SockAddr)] ∧
      fileCalls (TFTPs_Task s (Rx.data pkt remote) e).Calls = fileCalls s.Calls
        ++ (if s.TFTPs_FileHandle ≠ 0 then [Call.NetFS_FileClose s.TFTPs_FileHandle] else []) ∧
      (TFTPs_Task s (Rx.data pkt remote) e).TFTPs_State = TFTPs_STATE_IDLE ∧
      (TFTPs_Task s (Rx.data pkt remote) e).TFTPs_FileHandle = 0 ∧
      (TFTPs_Task s (Rx.data pkt remote) e).RxQ_Timeout = none ∧
      (TFTPs_Task s (Rx.data pkt remote) e).TFTPs_TxBlkNbr = s.TFTPs_TxBlkNbr := by
  have hne : s.TFTPs_State ≠ TFTPs_STATE_IDLE := by
    rcases hU with ⟨hS, _⟩ | ⟨hS, _⟩ <;> simp [hS]
  have hEn : s.TFTPs_ServerEn = true := Reachable_enabled s hR hne
  rw [Task_transfer_unexpected s pkt remote e hEn hU hT hlen]
  by_cases hh : s.TFTPs_FileHandle = 0 <;>
    simp [sent_append, sent, fileCalls_append, fileCalls, hh]

set_option maxRecDepth 20000 in
/-- C7 (amended) at an Ack from the first client during its write transfer. -/
theorem C7_unexpected_in_transfer_witness :
    (Reachable W_wr ∧ Unexpected W_wr.TFTPs_State (Dgram_OpCode (Pkt_Ack 0)) ∧
      valid_tid W_wr.Net W_peerA W_wr.TFTPs_SockAddr = true ∧ 2 ≤ (Pkt_Ack 0).length) ∧
    (sent (TFTPs_Task W_wr (Rx.data (Pkt_Ack 0) W_peerA) (W_env 0 [])).Calls
        = sent W_wr.Calls ++ [(Pkt_Error 0 "WRQ server busy, ACK  opcode?", W_peerA)] ∧
      (TFTPs_Task W_wr (Rx.data (Pkt_Ack 0) W_peerA) (W_env 0 [])).TFTPs_State
        = TFTPs_STATE_IDLE ∧
      (TFTPs_Task W_wr (Rx.data (Pkt_Ack 0) W_peerA) (W_env 0 [])).TFTPs_FileHandle = 0) :=
  have h := C7_unexpected_in_transfer W_wr (Pkt_Ack 0) W_peerA (W_env 0 [])
    W_wr_reachable (by decide) (by decide) (by decide)
  ⟨⟨W_wr_reachable, by decide, by decide, by decide⟩,
    h.1.trans (by decide), h.2.2.1, h.2.2.2.1⟩

/-! ## C11: a request repeated by the active peer -/

theorem Task_rd_rrq (s : TFTPs) (pkt : List Nat) (remote : NET_SOCK_ADDR) (e : Env)
    (hS : s.TFTPs_State = TFTPs_STATE_DATA_RD) (hEn : s.TFTPs_ServerEn = true)
    (hT : valid_tid s.Net remote s.TFTPs_SockAddr = true)
    (hlen : 2 ≤ pkt.length) (hop : Dgram_OpCode pkt = TFTP_OPCODE_RD_REQ)
    (hopen : e.NetFS_FileOpen ≠ 0) (hok : e.NetFS_FileRd_ok = true)
    (htx : 0 ≤ e.NetSock_TxDataTo) (hd : e.NetFS_FileRd_data.length ≤ 512) :
    TFTPs_Task s (Rx.data pkt remote) e =
      { s with
        TFTPs_RxMsgBuf := Rx_buf s.TFTPs_RxMsgBuf pkt
        TFTPs_RxMsgLen := ((pkt.take TFTPs_BUF_SIZE).length : Int)
        TFTPs_RxMsgCtr := (s.TFTPs_RxMsgCtr + 1) % 4294967296
        TFTPs_OpCode := TFTP_OPCODE_RD_REQ
        TFTPs_FileHandle := e.NetFS_FileOpen
        TFTPs_State :=
          if e.NetFS_FileRd_data.length < 512 then TFTPs_STATE_IDLE else TFTPs_STATE_DATA_RD
        TFTPs_TxBlkNbr := 1
        TFTPs_TxMsgCtr := (s.TFTPs_TxMsgCtr + 1) % 65536
        TFTPs_TxMsgLen := e.NetFS_FileRd_data.length + 4
        TFTPs_TxMsgBuf := DataRd_buf s.TFTPs_TxMsgBuf 1 e.NetFS_FileRd_data
        Calls := s.Calls
          ++ [Call.NetFS_FileClose s.TFTPs_FileHandle,
              Call.NetFS_FileOpen (Str_At (Rx_buf s.TFTPs_RxMsgBuf pkt) 2 514) TFTPs_FILE_OPEN_RD
                e.NetFS_FileOpen,
              Call.NetFS_FileRd e.NetFS_FileOpen 512]
          ++ (if e.NetFS_FileRd_data.length < 512
              then [Call.NetFS_FileClose e.NetFS_FileOpen] else [])
          ++ [Call.NetSock_TxDataTo (Pkt_Data 1 e.NetFS_FileRd_data) s.TFTPs_SockAddr] } := by
  by_cases hs : e.NetFS_FileRd_data.length < 512
  · simp [TFTPs_Task, hS, hEn, hT, rd16_Rx_buf_0 _ _ hlen, hop, TFTPs_StateDataRd,
      NetFS_FileClose, TFTPs_FileOpen, TFTPs_FileOpenMode, hopen,
      fun s => TFTPs_DataRd_ok s e hok htx hd, hs]
  · simp [TFTPs_Task, hS, hEn, hT, rd16_Rx_buf_0 _ _ hlen, hop, TFTPs_StateDataRd,
      NetFS_FileClose, TFTPs_FileOpen, TFTPs_FileOpenMode, hopen,
      fun s => TFTPs_DataRd_ok s e hok htx hd, hs]

theorem Task_wr_wrq (s : TFTPs) (pkt : List Nat) (remote : NET_SOCK_ADDR) (e : Env)
    (hS : s.TFTPs_State = TFTPs_STATE_DATA_WR) (hEn : s.TFTPs_ServerEn = true)
    (hT : valid_tid s.Net remote s.TFTPs_SockAddr = true)
    (hlen : 2 ≤ pkt.length) (hop : Dgram_OpCode pkt = TFTP_OPCODE_WR_REQ)
    (hopen : e.NetFS_FileOpen ≠ 0) :
    TFTPs_Task s (Rx.data pkt remote) e =
      { s with
        TFTPs_RxMsgBuf := Rx_buf s.TFTPs_RxMsgBuf pkt
        TFTPs_RxMsgLen := ((pkt.take TFTPs_BUF_SIZE).length : Int)
        TFTPs_RxMsgCtr := (s.TFTPs_RxMsgCtr + 1) % 4294967296
        TFTPs_OpCode := TFTP_OPCODE_WR_REQ
        TFTPs_FileHandle := e.NetFS_FileOpen
        TFTPs_State := TFTPs_STATE_DATA_WR
        TFTPs_TxBlkNbr := 0
        TFTPs_TxMsgCtr := (s.TFTPs_TxMsgCtr + 1) % 65536
        TFTPs_TxMsgBuf := Ack_buf s.TFTPs_TxMsgBuf 0
        Calls := s.Calls
          ++ [Call.NetFS_FileClose s.TFTPs_FileHandle,
              Call.NetFS_FileOpen (Str_At (Rx_buf s.TFTPs_RxMsgBuf pkt) 2 514) TFTPs_FILE_OPEN_WR
                e.NetFS_FileOpen,
              Call.NetSock_TxDataTo (Pkt_Ack 0) s.TFTPs_SockAddr] } := by
  simp [TFTPs_Task, hS, hEn, hT, rd16_Rx_buf_0 _ _ hlen, hop, TFTPs_StateDataWr,
    NetFS_FileClose, TFTPs_FileOpen, TFTPs_FileOpenMode, hopen, TFTPs_DataWrAck_eq, Ack_buf]

theorem Task_transfer_req_nofile (s : TFTPs) (pkt : List Nat) (remote : NET_SOCK_ADDR)
    (e : Env) (hEn : s.TFTPs_ServerEn = true)
    (hSop : (s.TFTPs_State = TFTPs_STATE_DATA_RD ∧ Dgram_OpCode pkt = TFTP_OPCODE_RD_REQ) ∨
      (s.TFTPs_State = TFTPs_STATE_DATA_WR ∧ Dgram_OpCode pkt = TFTP_OPCODE_WR_REQ))
    (hT : valid_tid s.Net remote s.TFTPs_SockAddr = true)
    (hlen : 2 ≤ pkt.length) (hopen : e.NetFS_FileOpen = 0) :
    TFTPs_Task s (Rx.data pkt remote) e =
      { s with
        TFTPs_RxMsgBuf := Rx_buf s.TFTPs_RxMsgBuf pkt
        TFTPs_RxMsgLen := ((pkt.take TFTPs_BUF_SIZE).length : Int)
        TFTPs_RxMsgCtr := (s.TFTPs_RxMsgCtr + 1) % 4294967296
        TFTPs_OpCode := Dgram_OpCode pkt
        TFTPs_FileHandle := 0
        TFTPs_State := TFTPs_STATE_IDLE
        TFTPs_TxBlkNbr :=
          if s.TFTPs_State = TFTPs_STATE_DATA_WR then 0 else s.TFTPs_TxBlkNbr
        TFTPs_TxMsgBuf := TxErr_buf s.TFTPs_TxMsgBuf 0 "file not found"
        RxQ_Timeout := none
        Calls := s.Calls
          ++ [Call.NetFS_FileClose s.TFTPs_FileHandle,
              Call.NetFS_FileOpen (Str_At (Rx_buf s.TFTPs_RxMsgBuf pkt) 2 514)
                (Dgram_OpCode pkt - 1) 0,
              Call.NetSock_TxDataTo (Pkt_Error 0 "file not found") s.TFTPs_SockAddr,
              Call.NetSock_CfgTimeoutRxQ_Set none] } := by
  rcases hSop with ⟨hS, hop⟩ | ⟨hS, hop⟩
  · simp [TFTPs_Task, hS, hEn, hT, rd16_Rx_buf_0 _ _ hlen, hop, TFTPs_StateDataRd,
      NetFS_FileClose, TFTPs_FileOpen, TFTPs_FileOpenMode, hopen,
      TFTPs_TxErr_eq _ _ _ _ msg_len_file_not_found, TFTPs_Terminate_eq]
  · simp [TFTPs_Task, hS, hEn, hT, rd16_Rx_buf_0 _ _ hlen, hop, TFTPs_StateDataWr,
      NetFS_FileClose, TFTPs_FileOpen, TFTPs_FileOpenMode, hopen,
      TFTPs_TxErr_eq _ _ _ _ msg_len_file_not_found, TFTPs_Terminate_eq]

set_option maxRecDepth 20000 in
/-- C11 fails as stated: during its read transfer the first client repeats
the read request, the file store opens the file and the first read returns
ten octets. The server closes the old file, opens the named one and sends
Data block 1, and the iteration ends in Idle, not in TransferRead. -/
theorem C11_counterexample :
    W_rd.TFTPs_State = TFTPs_STATE_DATA_RD ∧ W_rd.TFTPs_ServerEn = true ∧
      valid_tid W_rd.Net W_peerA W_rd.TFTPs_SockAddr = true ∧
      Dgram_OpCode W_rrq = TFTP_OPCODE_RD_REQ ∧ (W_env 9 W_file10).NetFS_FileOpen ≠ 0 ∧
      fileCalls (TFTPs_Task W_rd (Rx.data W_rrq W_peerA) (W_env 9 W_file10)).Calls
        = fileCalls W_rd.Calls ++ [Call.NetFS_FileClose 7, Call.NetFS_FileOpen [97] 0 9,
            Call.NetFS_FileRd 9 512, Call.NetFS_FileClose 9] ∧
      (sent (TFTPs_Task W_rd (Rx.data W_rrq W_peerA) (W_env 9 W_file10)).Calls).getLast?
        = some (Pkt_Data 1 W_file10, W_peerA) ∧
      (TFTPs_Task W_rd (Rx.data W_rrq W_peerA) (W_env 9 W_file10)).TFTPs_State
        ≠ TFTPs_STATE_DATA_RD := by
  decide

/-- C11, amended. A request repeated by the active peer restarts the
transfer. In TransferRead a read request makes the server close the open
file and open the named one for reading; when the open, the first read and
its transmit succeed, it sends Data block 1 and the iteration ends in
TransferRead when the block carries 512 octets and in Idle, with the file
closed, when it carries fewer. In TransferWrite a write request makes the
server close the open file and open the named one for write/create; when
the open succeeds, the last accepted block number is 0, Ack(0) is sent and
the state stays TransferWrite. In both states a failed open is answered with
the Error packet "file not found" and the iteration ends in Idle. The name
passed to the open is the file name of the request when the NUL that ends it
lies inside the datagram. -/
theorem C11_repeated_request (s : TFTPs) (pkt : List Nat) (remote : NET_SOCK_ADDR) (e : Env)
    (hR : Reachable s) (hT : valid_tid s.Net remote s.TFTPs_SockAddr = true)
    (hlen : 2 ≤ pkt.length) :
    (s.TFTPs_State = TFTPs_STATE_DATA_RD → Dgram_OpCode pkt = TFTP_OPCODE_RD_REQ →
        (e.NetFS_FileOpen ≠ 0 → Env_rd_ok e →
          (∃ p_filename, (Dgram_NameEnds pkt → p_filename = Dgram_Filename pkt) ∧
            (TFTPs_Task s (Rx.data pkt remote) e).Calls = s.Calls
              ++ [Call.NetFS_FileClose s.TFTPs_FileHandle,
                  Call.NetFS_FileOpen p_filename TFTPs_FILE_OPEN_RD e.NetFS_FileOpen,
                  Call.NetFS_FileRd e.NetFS_FileOpen 512]
              ++ (if e.NetFS_FileRd_data.length < 512
                  then [Call.NetFS_FileClose e.NetFS_FileOpen] else [])
              ++ [Call.NetSock_TxDataTo (Pkt_Data 1 e.NetFS_FileRd_data) s.TFTPs_SockAddr]) ∧
          (TFTPs_Task s (Rx.data pkt remote) e).TFTPs_TxBlkNbr = 1 ∧
          (TFTPs_Task s (Rx.data pkt remote) e).TFTPs_FileHandle = e.NetFS_FileOpen ∧
          (TFTPs_Task s (Rx.data pkt remote) e).TFTPs_State
            = (if e.NetFS_FileRd_data.length < 512
                then TFTPs_STATE_IDLE else TFTPs_STATE_DATA_RD)) ∧
        (e.NetFS_FileOpen = 0 →
          (∃ p_filename, (Dgram_NameEnds pkt → p_filename = Dgram_Filename pkt) ∧
            (TFTPs_Task s (Rx.data pkt remote) e).Calls = s.Calls
              ++ [Call.NetFS_FileClose s.TFTPs_FileHandle,
                  Call.NetFS_FileOpen p_filename TFTPs_FILE_OPEN_RD 0,
                  Call.NetSock_TxDataTo (Pkt_Error 0 "file not found") s.TFTPs_SockAddr,
                  Call.NetSock_CfgTimeoutRxQ_Set none]) ∧
          (TFTPs_Task s (Rx.data pkt remote) e).TFTPs_State = TFTPs_STATE_IDLE)) ∧
      (s.TFTPs_State = TFTPs_STATE_DATA_WR → Dgram_OpCode pkt = TFTP_OPCODE_WR_REQ →
        (e.NetFS_FileOpen ≠ 0 →
          (∃ p_filename, (Dgram_NameEnds pkt → p_filename = Dgram_Filename pkt) ∧
            (TFTPs_Task s (Rx.data pkt remote) e).Calls = s.Calls
              ++ [Call.NetFS_FileClose s.TFTPs_FileHandle,
                  Call.NetFS_FileOpen p_filename TFTPs_FILE_OPEN_WR e.NetFS_FileOpen,
                  Call.NetSock_TxDataTo (Pkt_Ack 0) s.TFTPs_SockAddr]) ∧
          (TFTPs_Task s (Rx.data pkt remote) e).TFTPs_TxBlkNbr = 0 ∧
          (TFTPs_Task s (Rx.data pkt remote) e).TFTPs_FileHandle = e.NetFS_FileOpen ∧
          (TFTPs_Task s (Rx.data pkt remote) e).TFTPs_State = TFTPs_STATE_DATA_WR) ∧
        (e.NetFS_FileOpen = 0 →
          (∃ p_filename, (Dgram_NameEnds pkt → p_filename = Dgram_Filename pkt) ∧
            (TFTPs_Task s (Rx.data pkt remote) e).Calls = s.Calls
              ++ [Call.NetFS_FileClose s.TFTPs_FileHandle,
                  Call.NetFS_FileOpen p_filename TFTPs_FILE_OPEN_WR 0,
                  Call.NetSock_TxDataTo (Pkt_Error 0 "file not found") s.TFTPs_SockAddr,
                  Call.NetSock_CfgTimeoutRxQ_Set none]) ∧
          (TFTPs_Task s (Rx.data pkt remote) e).TFTPs_State = TFTPs_STATE_IDLE)) := by
  refine ⟨?_, ?_⟩
  · intro hS hop
    have hEn : s.TFTPs_ServerEn = true := Reachable_enabled s hR (by simp [hS])
    refine ⟨?_, ?_⟩
    · intro hopen he
      obtain ⟨g1, g2, g3⟩ := he
      rw [Task_rd_rrq s pkt remote e hS hEn hT hlen hop hopen g1 g2 g3]
      refine ⟨⟨Str_At (Rx_buf s.TFTPs_RxMsgBuf pkt) 2 514,
        fun hN => Str_At_Rx_buf s.TFTPs_RxMsgBuf pkt hN, rfl⟩, ?_⟩
      simp
    · intro hopen
      rw [Task_transfer_req_nofile s pkt remote e hEn (Or.inl ⟨hS, hop⟩) hT hlen hopen]
      refine ⟨⟨Str_At (Rx_buf s.TFTPs_RxMsgBuf pkt) 2 514,
        fun hN => Str_At_Rx_buf s.TFTPs_RxMsgBuf pkt hN, ?_⟩, ?_⟩
      · simp [hop]
      · simp
  · intro hS hop
    have hEn : s.TFTPs_ServerEn = true := Reachable_enabled s hR (by simp [hS])
    refine ⟨?_, ?_⟩
    · intro hopen
      rw [Task_wr_wrq s pkt remote e hS hEn hT hlen hop hopen]
      refine ⟨⟨Str_At (Rx_buf s.TFTPs_RxMsgBuf pkt) 2 514,
        fun hN => Str_At_Rx_buf s.TFTPs_RxMsgBuf pkt hN, rfl⟩, ?_⟩
      simp
    · intro hopen
      rw [Task_transfer_req_nofile s pkt remote e hEn (Or.inr ⟨hS, hop⟩) hT hlen hopen]
      refine ⟨⟨Str_At (Rx_buf s.TFTPs_RxMsgBuf pkt) 2 514,
        fun hN => Str_At_Rx_buf s.TFTPs_RxMsgBuf pkt hN, ?_⟩, ?_⟩
      · simp [hop]
      · simp

set_option maxRecDepth 20000 in
/-- C11 (amended) at a write request that the first client repeats during
its write transfer: the open file is closed and the file `a` is opened. -/
theorem C11_repeated_request_witness :
    (Reachable W_wr ∧ valid_tid W_wr.Net W_peerA W_wr.TFTPs_SockAddr = true ∧
      2 ≤ W_wrq.length ∧ W_wr.TFTPs_State = TFTPs_STATE_DATA_WR ∧
      Dgram_OpCode W_wrq = TFTP_OPCODE_WR_REQ ∧ (W_env 9 []).NetFS_FileOpen ≠ 0 ∧
      Dgram_NameEnds W_wrq ∧ Dgram_Filename W_wrq = [97] ∧ W_wr.TFTPs_FileHandle = 7) ∧
    ((TFTPs_Task W_wr (Rx.data W_wrq W_peerA) (W_env 9 [])).Calls
        = W_wr.Calls
          ++ [Call.NetFS_FileClose W_wr.TFTPs_FileHandle,
              Call.NetFS_FileOpen [97] TFTPs_FILE_OPEN_WR (W_env 9 []).NetFS_FileOpen,
              Call.NetSock_TxDataTo (Pkt_Ack 0) W_wr.TFTPs_SockAddr] ∧
      (TFTPs_Task W_wr (Rx.data W_wrq W_peerA) (W_env 9 [])).TFTPs_TxBlkNbr = 0 ∧
      (TFTPs_Task W_wr (Rx.data W_wrq W_peerA) (W_env 9 [])).TFTPs_FileHandle
        = (W_env 9 []).NetFS_FileOpen ∧
      (TFTPs_Task W_wr (Rx.data W_wrq W_peerA) (W_env 9 [])).TFTPs_State
        = TFTPs_STATE_DATA_WR) := by
  have h := ((C11_repeated_request W_wr W_wrq W_peerA (W_env 9 []) W_wr_reachable
    (by decide) (by decide)).2 (by decide) (by decide)).1 (by decide)
  obtain ⟨⟨n, hn, hc⟩, h2, h3, h4⟩ := h
  have hn2 : n = [97] := (hn (by decide)).trans (by decide)
  rw [hn2] at hc
  exact ⟨⟨W_wr_reachable, by decide, by decide, by decide, by decide, by decide, by decide,
    by decide, by decide⟩, hc, h2, h3, h4⟩
/-! ## C12, C16: termination after a handler error and after a receive error -/

/-- C12. With the server enabled (the state handler runs), when the state
handler returns an error other than `TFTPs_ERR_NONE`, the iteration ends
with `TFTPs_Terminate`: the state is Idle, `TFTPs_FileHandle` is null, the
receive time-out is infinite, and after the calls of the handler the loop
closes the file of the handle if the handle was not null and sets the
time-out. When the loop boundary before the iteration had no file open
other than the one of the handle (`FilesInv`), no file is open afterwards. -/
theorem C12_handler_error_terminates (s : TFTPs) (pkt : List Nat) (remote : NET_SOCK_ADDR)
    (e : Env) (hEn : s.TFTPs_ServerEn = true)
    (herr : (TFTPs_Task_dispatch s pkt remote e).2 ≠ TFTPs_ERR.NONE) :
    (TFTPs_Task s (Rx.data pkt remote) e).TFTPs_State = TFTPs_STATE_IDLE ∧
      (TFTPs_Task s (Rx.data pkt remote) e).TFTPs_FileHandle = 0 ∧
      (TFTPs_Task s (Rx.data pkt remote) e).RxQ_Timeout = none ∧
      (TFTPs_Task s (Rx.data pkt remote) e).Calls
        = (TFTPs_Task_dispatch s pkt remote e).1.Calls
          ++ (if (TFTPs_Task_dispatch s pkt remote e).1.TFTPs_FileHandle ≠ 0
              then [Call.NetFS_FileClose (TFTPs_Task_dispatch s pkt remote e).1.TFTPs_FileHandle]
              else [])
          ++ [Call.NetSock_CfgTimeoutRxQ_Set none] ∧
      (FilesInv s → openFiles (TFTPs_Task s (Rx.data pkt remote) e).Calls = []) := by
  have h := TFTPs_Task_enabled s pkt remote e hEn
  rw [if_pos herr] at h
  refine ⟨?_, ?_, ?_, ?_, ?_⟩
  · rw [h, TFTPs_Terminate_eq]
  · rw [h, TFTPs_Terminate_eq]
  · rw [h, TFTPs_Terminate_eq]
  · rw [h, TFTPs_Terminate_eq]
  · intro hF
    rw [h]
    exact HandleInv_Terminate _ (HandleInv_dispatch s pkt remote e hF)

set_option maxRecDepth 20000 in
/-- C12 at an Ack that the first client sends during its write transfer:
`TFTPs_StateDataWr` returns `TFTPs_ERR_ACK`. -/
theorem C12_handler_error_terminates_witness :
    (W_wr.TFTPs_ServerEn = true ∧
      (TFTPs_Task_dispatch W_wr (Pkt_Ack 0) W_peerA (W_env 0 [])).2 ≠ TFTPs_ERR.NONE ∧
      FilesInv W_wr) ∧
    ((TFTPs_Task W_wr (Rx.data (Pkt_Ack 0) W_peerA) (W_env 0 [])).TFTPs_State
        = TFTPs_STATE_IDLE ∧
      (TFTPs_Task W_wr (Rx.data (Pkt_Ack 0) W_peerA) (W_env 0 [])).TFTPs_FileHandle = 0 ∧
      (TFTPs_Task W_wr (Rx.data (Pkt_Ack 0) W_peerA) (W_env 0 [])).RxQ_Timeout = none ∧
      openFiles (TFTPs_Task W_wr (Rx.data (Pkt_Ack 0) W_peerA) (W_env 0 [])).Calls = []) :=
  have hF : FilesInv W_wr := ⟨by decide, fun _ => by decide⟩
  have h := C12_handler_error_terminates W_wr (Pkt_Ack 0) W_peerA (W_env 0 [])
    (by decide) (by decide)
  ⟨⟨by decide, by decide, hF⟩, h.1, h.2.1, h.2.2.1, h.2.2.2.2 hF⟩

/-- C16. When the blocking receive returns an error, in every state, the
iteration sends no packet, leaves the count of received messages as it was,
and ends with the state Idle, `TFTPs_FileHandle` null and the receive
time-out infinite; its calls are the close of the file of the handle, if the
handle was not null, and the setting of the time-out. When the loop boundary
before had no file open other than the one of the handle (`FilesInv`), no
file is open afterwards. -/
theorem C16_receive_error (s : TFTPs) (e : Env) :
    sent (TFTPs_Task s Rx.err e).Calls = sent s.Calls ∧
      (TFTPs_Task s Rx.err e).TFTPs_RxMsgCtr = s.TFTPs_RxMsgCtr ∧
      (TFTPs_Task s Rx.err e).TFTPs_State = TFTPs_STATE_IDLE ∧
      (TFTPs_Task s Rx.err e).TFTPs_FileHandle = 0 ∧
      (TFTPs_Task s Rx.err e).RxQ_Timeout = none ∧
      (TFTPs_Task s Rx.err e).Calls
        = s.Calls
          ++ (if s.TFTPs_FileHandle ≠ 0 then [Call.NetFS_FileClose s.TFTPs_FileHandle] else [])
          ++ [Call.NetSock_CfgTimeoutRxQ_Set none] ∧
      (FilesInv s → openFiles (TFTPs_Task s Rx.err e).Calls = []) := by
  have h : TFTPs_Task s Rx.err e = TFTPs_Terminate { s with TFTPs_RxMsgLen := -1 } := rfl
  refine ⟨?_, ?_, ?_, ?_, ?_, ?_, ?_⟩
  · rw [h, TFTPs_Terminate_eq]
    by_cases hh : s.TFTPs_FileHandle = 0 <;> simp [sent_append, sent, hh]
  · rw [h, TFTPs_Terminate_eq]
  · rw [h, TFTPs_Terminate_eq]
  · rw [h, TFTPs_Terminate_eq]
  · rw [h, TFTPs_Terminate_eq]
  · rw [h, TFTPs_Terminate_eq]
  · intro hF
    rw [h]
    exact HandleInv_Terminate _ (HandleInv_of_FilesInv s hF)

/-! ## C13: a failing transmit -/

theorem Task_error (s : TFTPs) (pkt : List Nat) (remote : NET_SOCK_ADDR) (e : Env)
    (hEn : s.TFTPs_ServerEn = true)
    (herr : (TFTPs_Task_dispatch s pkt remote e).2 ≠ TFTPs_ERR.NONE) :
    TFTPs_Task s (Rx.data pkt remote) e
      = TFTPs_Terminate (TFTPs_Task_dispatch s pkt remote e).1 := by
  rw [TFTPs_Task_enabled s pkt remote e hEn, if_pos herr]

theorem Task_error_openFiles (s : TFTPs) (pkt : List Nat) (remote : NET_SOCK_ADDR) (e : Env)
    (hEn : s.TFTPs_ServerEn = true)
    (herr : (TFTPs_Task_dispatch s pkt remote e).2 ≠ TFTPs_ERR.NONE) (hF : FilesInv s) :
    openFiles (TFTPs_Task s (Rx.data pkt remote) e).Calls = [] := by
  rw [Task_error s pkt remote e hEn herr]
  exact HandleInv_Terminate _ (HandleInv_dispatch s pkt remote e hF)

set_option maxRecDepth 20000 in
/-- C13 fails as stated: during the write transfer of the first client, the
Data packet of block 1 with 512 octets arrives and the transport refuses the
Ack. The iteration still ends in TransferWrite with the file open and block
1 recorded as accepted; the failure of the transmit is not looked at. -/
theorem C13_counterexample :
    W_wr.TFTPs_State = TFTPs_STATE_DATA_WR ∧ W_wr.TFTPs_ServerEn = true ∧
      valid_tid W_wr.Net W_peerA W_wr.TFTPs_SockAddr = true ∧
      (W_env_fail 0 []).NetSock_TxDataTo < 0 ∧
      sent (TFTPs_Task W_wr (Rx.data (Pkt_Data 1 (List.replicate 512 1)) W_peerA)
          (W_env_fail 0 [])).Calls
        = sent W_wr.Calls ++ [(Pkt_Ack 1, W_peerA)] ∧
      (TFTPs_Task W_wr (Rx.data (Pkt_Data 1 (List.replicate 512 1)) W_peerA)
          (W_env_fail 0 [])).TFTPs_State = TFTPs_STATE_DATA_WR ∧
      (TFTPs_Task W_wr (Rx.data (Pkt_Data 1 (List.replicate 512 1)) W_peerA)
          (W_env_fail 0 [])).TFTPs_TxBlkNbr = 1 ∧
      openFiles (TFTPs_Task W_wr (Rx.data (Pkt_Data 1 (List.replicate 512 1)) W_peerA)
          (W_env_fail 0 [])).Calls = [7] := by
  decide

/-- C13, amended. A packet from the active peer whose answer the transport
refuses. In TransferRead, when the refused packet is a new Data block (Ack
of the last block, read succeeded) or the retransmitted Data block (Ack of
another block), the server hands that packet to the transport once, then an
Error packet "RRQ file read error", and the iteration ends with the state
Idle, the file handle null and, from a loop boundary with no file open other
than the one of the handle, no file open. In TransferWrite the result of the
transmit of an Ack is not looked at: the iteration sends Ack(`n`) once; when
`n` is above the last accepted block number, `n` becomes the last accepted
block number; the state stays TransferWrite, or is Idle after a new block
shorter than 512 octets, as when the transmit succeeds. -/
theorem C13_transmit_failure (s : TFTPs) (pkt : List Nat) (remote : NET_SOCK_ADDR) (e : Env)
    (hR : Reachable s) (hT : valid_tid s.Net remote s.TFTPs_SockAddr = true)
    (hlen : 4 ≤ pkt.length) (htx : e.NetSock_TxDataTo < 0) :
    (s.TFTPs_State = TFTPs_STATE_DATA_RD → Dgram_OpCode pkt = TFTP_OPCODE_ACK →
        Dgram_BlkNbr pkt = s.TFTPs_TxBlkNbr → e.NetFS_FileRd_ok = true →
        e.NetFS_FileRd_data.length ≤ 512 →
        sent (TFTPs_Task s (Rx.data pkt remote) e).Calls
          = sent s.Calls
            ++ [(Pkt_Data ((s.TFTPs_TxBlkNbr + 1) % 65536) e.NetFS_FileRd_data, s.TFTPs_SockAddr),
                (Pkt_Error 0 "RRQ file read error", s.TFTPs_SockAddr)] ∧
        (TFTPs_Task s (Rx.data pkt remote) e).TFTPs_State = TFTPs_STATE_IDLE ∧
        (TFTPs_Task s (Rx.data pkt remote) e).TFTPs_FileHandle = 0 ∧
        (FilesInv s → openFiles (TFTPs_Task s (Rx.data pkt remote) e).Calls = [])) ∧
      (s.TFTPs_State = TFTPs_STATE_DATA_RD → Dgram_OpCode pkt = TFTP_OPCODE_ACK →
        Dgram_BlkNbr pkt ≠ s.TFTPs_TxBlkNbr →
        sent (TFTPs_Task s (Rx.data pkt remote) e).Calls
          = sent s.Calls
            ++ [(bufRead (wr16 (wr16 s.TFTPs_TxMsgBuf 0 3) 2 (s.TFTPs_TxBlkNbr % 65536)) 0
                  (s.TFTPs_TxMsgLen % 65536), s.TFTPs_SockAddr),
                (Pkt_Error 0 "RRQ file read error", s.TFTPs_SockAddr)] ∧
        (TFTPs_Task s (Rx.data pkt remote) e).TFTPs_State = TFTPs_STATE_IDLE ∧
        (TFTPs_Task s (Rx.data pkt remote) e).TFTPs_FileHandle = 0 ∧
        (FilesInv s → openFiles (TFTPs_Task s (Rx.data pkt remote) e).Calls = [])) ∧
      (s.TFTPs_State = TFTPs_STATE_DATA_WR → Dgram_OpCode pkt = TFTP_OPCODE_DATA →
        sent (TFTPs_Task s (Rx.data pkt remote) e).Calls
          = sent s.Calls ++ [(Pkt_Ack (Dgram_BlkNbr pkt), s.TFTPs_SockAddr)] ∧
        (s.TFTPs_TxBlkNbr < Dgram_BlkNbr pkt →
          (TFTPs_Task s (Rx.data pkt remote) e).TFTPs_TxBlkNbr = Dgram_BlkNbr pkt) ∧
        (TFTPs_Task s (Rx.data pkt remote) e).TFTPs_State
          = (if s.TFTPs_TxBlkNbr < Dgram_BlkNbr pkt ∧ (Dgram_Payload pkt).length < 512
              then TFTPs_STATE_IDLE else TFTPs_STATE_DATA_WR)) := by
  refine ⟨?_, ?_, ?_⟩
  · intro hS hop hblk hok hd
    have hEn : s.TFTPs_ServerEn = true := Reachable_enabled s hR (by simp [hS])
    have hD := dispatch_rd_ack_next s pkt remote e hS hT hlen hop hblk
    have herr : (TFTPs_Task_dispatch s pkt remote e).2 ≠ TFTPs_ERR.NONE := by
      rw [hD, TFTPs_DataRd_txfail _ e hok htx hd]
      simp
    refine ⟨?_, ?_, ?_, Task_error_openFiles s pkt remote e hEn herr⟩
    · rw [Task_error s pkt remote e hEn herr, hD, TFTPs_DataRd_txfail _ e hok htx hd]
      by_cases hs : e.NetFS_FileRd_data.length < 512 <;>
        by_cases hh : s.TFTPs_FileHandle = 0 <;>
        simp [TFTPs_Terminate_eq, TFTPs_Task_rx, sent_append, sent, hs, hh]
    · rw [Task_error s pkt remote e hEn herr, TFTPs_Terminate_eq]
    · rw [Task_error s pkt remote e hEn herr, TFTPs_Terminate_eq]
  · intro hS hop hblk
    have hEn : s.TFTPs_ServerEn = true := Reachable_enabled s hR (by simp [hS])
    have hD := dispatch_rd_ack_retransmit s pkt remote e hS hT hlen hop hblk htx
    have herr : (TFTPs_Task_dispatch s pkt remote e).2 ≠ TFTPs_ERR.NONE := by
      rw [hD]
      simp
    refine ⟨?_, ?_, ?_, Task_error_openFiles s pkt remote e hEn herr⟩
    · rw [Task_error s pkt remote e hEn herr, hD]
      by_cases hh : s.TFTPs_FileHandle = 0 <;>
        simp [TFTPs_Terminate_eq, TFTPs_Task_rx, sent_append, sent, hh]
    · rw [Task_error s pkt remote e hEn herr, TFTPs_Terminate_eq]
    · rw [Task_error s pkt remote e hEn herr, TFTPs_Terminate_eq]
  · intro hS hop
    have hEn : s.TFTPs_ServerEn = true := Reachable_enabled s hR (by simp [hS])
    rw [Task_wr_data s pkt remote e hS hEn hT hlen hop]
    by_cases h1 : s.TFTPs_TxBlkNbr < Dgram_BlkNbr pkt <;>
      by_cases h2 : 0 < (Dgram_Payload pkt).length <;>
      by_cases h3 : (Dgram_Payload pkt).length < 512 <;>
      simp [sent_append, sent, h1, h2, h3]

set_option maxRecDepth 20000 in
/-- C13 (amended) at a refused Data block 2 of the read transfer of the first
client, and at a refused Ack of block 1 in its write transfer. -/
theorem C13_transmit_failure_witness :
    (Reachable W_rd ∧ valid_tid W_rd.Net W_peerA W_rd.TFTPs_SockAddr = true ∧
      4 ≤ (Pkt_Ack 1).length ∧ (W_env_fail 7 [1, 2, 3]).NetSock_TxDataTo < 0 ∧
      W_rd.TFTPs_State = TFTPs_STATE_DATA_RD ∧ Dgram_OpCode (Pkt_Ack 1) = TFTP_OPCODE_ACK ∧
      Dgram_BlkNbr (Pkt_Ack 1) = W_rd.TFTPs_TxBlkNbr ∧
      (W_env_fail 7 [1, 2, 3]).NetFS_FileRd_ok = true ∧
      (W_env_fail 7 [1, 2, 3]).NetFS_FileRd_data.length ≤ 512) ∧
    (sent (TFTPs_Task W_rd (Rx.data (Pkt_Ack 1) W_peerA) (W_env_fail 7 [1, 2, 3])).Calls
        = sent W_rd.Calls
          ++ [(Pkt_Data ((W_rd.TFTPs_TxBlkNbr + 1) % 65536)
                  (W_env_fail 7 [1, 2, 3]).NetFS_FileRd_data, W_rd.TFTPs_SockAddr),
              (Pkt_Error 0 "RRQ file read error", W_rd.TFTPs_SockAddr)] ∧
      (TFTPs_Task W_rd (Rx.data (Pkt_Ack 1) W_peerA) (W_env_fail 7 [1, 2, 3])).TFTPs_State
        = TFTPs_STATE_IDLE ∧
      (TFTPs_Task W_rd (Rx.data (Pkt_Ack 1) W_peerA) (W_env_fail 7 [1, 2, 3])).TFTPs_FileHandle
        = 0) ∧
    (Reachable W_wr ∧ valid_tid W_wr.Net W_peerA W_wr.TFTPs_SockAddr = true ∧
      4 ≤ (Pkt_Data 1 [65, 66, 67]).length ∧ (W_env_fail 0 []).NetSock_TxDataTo < 0 ∧
      W_wr.TFTPs_State = TFTPs_STATE_DATA_WR ∧
      Dgram_OpCode (Pkt_Data 1 [65, 66, 67]) = TFTP_OPCODE_DATA ∧
      W_wr.TFTPs_TxBlkNbr < Dgram_BlkNbr (Pkt_Data 1 [65, 66, 67])) ∧
    (sent (TFTPs_Task W_wr (Rx.data (Pkt_Data 1 [65, 66, 67]) W_peerA) (W_env_fail 0 [])).Calls
        = sent W_wr.Calls
          ++ [(Pkt_Ack (Dgram_BlkNbr (Pkt_Data 1 [65, 66, 67])), W_wr.TFTPs_SockAddr)] ∧
      (TFTPs_Task W_wr (Rx.data (Pkt_Data 1 [65, 66, 67]) W_peerA)
        (W_env_fail 0 [])).TFTPs_TxBlkNbr = Dgram_BlkNbr (Pkt_Data 1 [65, 66, 67]) ∧
      (TFTPs_Task W_wr (Rx.data (Pkt_Data 1 [65, 66, 67]) W_peerA)
        (W_env_fail 0 [])).TFTPs_State = TFTPs_STATE_IDLE) :=
  have hR : Reachable W_rd := ⟨W_cfg, W_net, W_entry, _, rfl, rfl⟩
  have h := (C13_transmit_failure W_rd (Pkt_Ack 1) W_peerA (W_env_fail 7 [1, 2, 3])
    hR (by decide) (by decide) (by decide)).1 (by decide) (by decide) (by decide)
    (by decide) (by decide)
  have h2 := (C13_transmit_failure W_wr (Pkt_Data 1 [65, 66, 67]) W_peerA (W_env_fail 0 [])
    W_wr_reachable (by decide) (by decide) (by decide)).2.2 (by decide) (by decide)
  ⟨⟨hR, by decide, by decide, by decide, by decide, by decide, by decide, by decide,
      by decide⟩,
    ⟨h.1, h.2.1, h.2.2.1⟩,
    ⟨W_wr_reachable, by decide, by decide, by decide, by decide, by decide, by decide⟩,
    ⟨h2.1, h2.2.1 (by decide), h2.2.2.trans (by decide)⟩⟩
/-! ## C14: a failing read -/

/-- C14. When the file-store read fails, `TFTPs_DataRd` returns
`TFTPs_ERR_FILE_RD`, leaves `TFTPs_TxBlkNbr` as it was and sends exactly one
packet, the Error packet "RRQ file read error", to the client (no Data
packet). The iteration that made the read, for the Ack of the last block in
TransferRead or for a read request in Idle, sends that one packet and ends
with the state Idle and the file handle null. -/
theorem C14_read_failure (e : Env) (hok : e.NetFS_FileRd_ok = false) :
    (∀ t : TFTPs,
        (TFTPs_DataRd t e).2 = TFTPs_ERR.FILE_RD ∧
        (TFTPs_DataRd t e).1.TFTPs_TxBlkNbr = t.TFTPs_TxBlkNbr ∧
        sent (TFTPs_DataRd t e).1.Calls
          = sent t.Calls ++ [(Pkt_Error 0 "RRQ file read error", t.TFTPs_SockAddr)]) ∧
      (∀ (s : TFTPs) (pkt : List Nat) (remote : NET_SOCK_ADDR), Reachable s →
        s.TFTPs_State = TFTPs_STATE_DATA_RD →
        valid_tid s.Net remote s.TFTPs_SockAddr = true →
        4 ≤ pkt.length → Dgram_OpCode pkt = TFTP_OPCODE_ACK →
        Dgram_BlkNbr pkt = s.TFTPs_TxBlkNbr →
        sent (TFTPs_Task s (Rx.data pkt remote) e).Calls
          = sent s.Calls ++ [(Pkt_Error 0 "RRQ file read error", s.TFTPs_SockAddr)] ∧
        (TFTPs_Task s (Rx.data pkt remote) e).TFTPs_TxBlkNbr = s.TFTPs_TxBlkNbr ∧
        (TFTPs_Task s (Rx.data pkt remote) e).TFTPs_State = TFTPs_STATE_IDLE ∧
        (TFTPs_Task s (Rx.data pkt remote) e).TFTPs_FileHandle = 0) ∧
      (∀ (s : TFTPs) (pkt : List Nat) (remote : NET_SOCK_ADDR),
        s.TFTPs_State = TFTPs_STATE_IDLE → s.TFTPs_ServerEn = true →
        2 ≤ pkt.length → Dgram_OpCode pkt = TFTP_OPCODE_RD_REQ → e.NetFS_FileOpen ≠ 0 →
        sent (TFTPs_Task s (Rx.data pkt remote) e).Calls
          = sent s.Calls ++ [(Pkt_Error 0 "RRQ file read error", remote)] ∧
        (TFTPs_Task s (Rx.data pkt remote) e).TFTPs_State = TFTPs_STATE_IDLE ∧
        (TFTPs_Task s (Rx.data pkt remote) e).TFTPs_FileHandle = 0) := by
  refine ⟨?_, ?_, ?_⟩
  · intro t
    rw [TFTPs_DataRd_rdfail t e hok]
    by_cases hs : e.NetFS_FileRd_data.length < 512 <;> simp [sent_append, sent, hs]
  · intro s pkt remote hR hS hT hlen hop hblk
    have hEn : s.TFTPs_ServerEn = true := Reachable_enabled s hR (by simp [hS])
    rw [TFTPs_Task_enabled s pkt remote e hEn,
      dispatch_rd_ack_next s pkt remote e hS hT hlen hop hblk, TFTPs_DataRd_rdfail _ e hok]
    by_cases hs : e.NetFS_FileRd_data.length < 512 <;>
      by_cases hh : s.TFTPs_FileHandle = 0 <;>
      simp [TFTPs_Terminate_eq, TFTPs_Task_rx, sent_append, sent, hs, hh]
  · intro s pkt remote hS hEn hlen hop hopen
    by_cases hs : e.NetFS_FileRd_data.length < 512 <;>
      simp [TFTPs_Task, hS, hEn, rd16_Rx_buf_0 _ _ hlen, hop, TFTPs_StateIdle, TFTPs_FileOpen,
        TFTPs_FileOpenMode, hopen, TFTPs_DataRd_rdfail _ e hok, TFTPs_Terminate_eq,
        sent_append, sent, hs]

set_option maxRecDepth 20000 in
/-- C14 at a read that fails when the first client acknowledges block 1. -/
theorem C14_read_failure_witness :
    ((W_env_rdfail 7 []).NetFS_FileRd_ok = false ∧ Reachable W_rd ∧
      W_rd.TFTPs_State = TFTPs_STATE_DATA_RD ∧
      valid_tid W_rd.Net W_peerA W_rd.TFTPs_SockAddr = true ∧
      4 ≤ (Pkt_Ack 1).length ∧ Dgram_OpCode (Pkt_Ack 1) = TFTP_OPCODE_ACK ∧
      Dgram_BlkNbr (Pkt_Ack 1) = W_rd.TFTPs_TxBlkNbr) ∧
    ((TFTPs_DataRd W_rd (W_env_rdfail 7 [])).2 = TFTPs_ERR.FILE_RD ∧
      sent (TFTPs_Task W_rd (Rx.data (Pkt_Ack 1) W_peerA) (W_env_rdfail 7 [])).Calls
        = sent W_rd.Calls ++ [(Pkt_Error 0 "RRQ file read error", W_rd.TFTPs_SockAddr)] ∧
      (TFTPs_Task W_rd (Rx.data (Pkt_Ack 1) W_peerA) (W_env_rdfail 7 [])).TFTPs_TxBlkNbr
        = W_rd.TFTPs_TxBlkNbr ∧
      (TFTPs_Task W_rd (Rx.data (Pkt_Ack 1) W_peerA) (W_env_rdfail 7 [])).TFTPs_State
        = TFTPs_STATE_IDLE) :=
  have hR : Reachable W_rd := ⟨W_cfg, W_net, W_entry, _, rfl, rfl⟩
  have h := C14_read_failure (W_env_rdfail 7 []) (by decide)
  have h2 := h.2.1 W_rd (Pkt_Ack 1) W_peerA hR (by decide) (by decide) (by decide)
    (by decide) (by decide)
  ⟨⟨by decide, hR, by decide, by decide, by decide, by decide, by decide⟩,
    (h.1 W_rd).1, h2.1, h2.2.1, h2.2.2.1⟩

/-! ## C15: a failing write -/

set_option maxRecDepth 20000 in
/-- C15 fails as stated: during the write transfer of the first client, the
Data packet of block 1 with 512 octets arrives and the write to the file
fails. The only packet sent is Ack(1), block 1 is recorded as accepted and
the state stays TransferWrite. -/
theorem C15_counterexample :
    W_wr.TFTPs_State = TFTPs_STATE_DATA_WR ∧ W_wr.TFTPs_ServerEn = true ∧
      valid_tid W_wr.Net W_peerA W_wr.TFTPs_SockAddr = true ∧
      W_env_wrfail.NetFS_FileWr_ok = false ∧
      sent (TFTPs_Task W_wr (Rx.data (Pkt_Data 1 (List.replicate 512 1)) W_peerA)
          W_env_wrfail).Calls
        = sent W_wr.Calls ++ [(Pkt_Ack 1, W_peerA)] ∧
      (TFTPs_Task W_wr (Rx.data (Pkt_Data 1 (List.replicate 512 1)) W_peerA)
          W_env_wrfail).TFTPs_State = TFTPs_STATE_DATA_WR ∧
      (TFTPs_Task W_wr (Rx.data (Pkt_Data 1 (List.replicate 512 1)) W_peerA)
          W_env_wrfail).TFTPs_TxBlkNbr = 1 := by
  decide

/-- C15, amended. In TransferWrite, a Data packet from the active peer with
a block number above the last accepted one and a payload that is not empty,
when the write to the file fails: the result of the write is not looked at.
The iteration makes the write call with the payload, sends exactly one
packet, Ack(`n`), and no Error packet, records `n` as the last accepted
block, and stays in TransferWrite, or goes to Idle with the file closed when
the payload is shorter than 512 octets; the variables after the iteration
are the same whatever the file store and the transport return. -/
theorem C15_write_failure (s : TFTPs) (pkt : List Nat) (remote : NET_SOCK_ADDR) (e : Env)
    (hR : Reachable s) (hS : s.TFTPs_State = TFTPs_STATE_DATA_WR)
    (hT : valid_tid s.Net remote s.TFTPs_SockAddr = true)
    (hlen : 4 ≤ pkt.length) (hop : Dgram_OpCode pkt = TFTP_OPCODE_DATA)
    (hn : s.TFTPs_TxBlkNbr < Dgram_BlkNbr pkt) (hp : Dgram_Payload pkt ≠ [])
    (_hwr : e.NetFS_FileWr_ok = false) :
    (TFTPs_Task s (Rx.data pkt remote) e).Calls = s.Calls
        ++ [Call.NetFS_FileWr s.TFTPs_FileHandle (Dgram_Payload pkt)]
        ++ (if (Dgram_Payload pkt).length < 512
            then [Call.NetFS_FileClose s.TFTPs_FileHandle] else [])
        ++ [Call.NetSock_TxDataTo (Pkt_Ack (Dgram_BlkNbr pkt)) s.TFTPs_SockAddr] ∧
      sent (TFTPs_Task s (Rx.data pkt remote) e).Calls
        = sent s.Calls ++ [(Pkt_Ack (Dgram_BlkNbr pkt), s.TFTPs_SockAddr)] ∧
      (TFTPs_Task s (Rx.data pkt remote) e).TFTPs_TxBlkNbr = Dgram_BlkNbr pkt ∧
      (TFTPs_Task s (Rx.data pkt remote) e).TFTPs_State
        = (if (Dgram_Payload pkt).length < 512
            then TFTPs_STATE_IDLE else TFTPs_STATE_DATA_WR) ∧
      (∀ e2 : Env, TFTPs_Task s (Rx.data pkt remote) e2 = TFTPs_Task s (Rx.data pkt remote) e) := by
  have hEn : s.TFTPs_ServerEn = true := Reachable_enabled s hR (by simp [hS])
  have h0 : 0 < (Dgram_Payload pkt).length := List.length_pos.mpr hp
  refine ⟨?_, ?_, ?_, ?_, ?_⟩
  · rw [Task_wr_data s pkt remote e hS hEn hT hlen hop]
    simp [hn, h0]
  · rw [Task_wr_data s pkt remote e hS hEn hT hlen hop]
    by_cases h3 : (Dgram_Payload pkt).length < 512 <;> simp [sent_append, sent, hn, h0, h3]
  · rw [Task_wr_data s pkt remote e hS hEn hT hlen hop]
  · rw [Task_wr_data s pkt remote e hS hEn hT hlen hop]
    simp [hn]
  · intro e2
    rw [Task_wr_data s pkt remote e hS hEn hT hlen hop,
      Task_wr_data s pkt remote e2 hS hEn hT hlen hop]

set_option maxRecDepth 20000 in
/-- C15 (amended) at block 1 with three octets and a failing write. -/
theorem C15_write_failure_witness :
    (Reachable W_wr ∧ W_wr.TFTPs_State = TFTPs_STATE_DATA_WR ∧
      valid_tid W_wr.Net W_peerA W_wr.TFTPs_SockAddr = true ∧
      4 ≤ (Pkt_Data 1 [65, 66, 67]).length ∧
      Dgram_OpCode (Pkt_Data 1 [65, 66, 67]) = TFTP_OPCODE_DATA ∧
      W_wr.TFTPs_TxBlkNbr < Dgram_BlkNbr (Pkt_Data 1 [65, 66, 67]) ∧
      Dgram_Payload (Pkt_Data 1 [65, 66, 67]) ≠ [] ∧ W_env_wrfail.NetFS_FileWr_ok = false) ∧
    (sent (TFTPs_Task W_wr (Rx.data (Pkt_Data 1 [65, 66, 67]) W_peerA) W_env_wrfail).Calls
        = sent W_wr.Calls ++ [(Pkt_Ack 1, W_peerA)] ∧
      (TFTPs_Task W_wr (Rx.data (Pkt_Data 1 [65, 66, 67]) W_peerA) W_env_wrfail).TFTPs_TxBlkNbr
        = 1) :=
  have h := C15_write_failure W_wr (Pkt_Data 1 [65, 66, 67]) W_peerA W_env_wrfail
    W_wr_reachable (by decide) (by decide) (by decide) (by decide) (by decide) (by decide)
    (by decide)
  ⟨⟨W_wr_reachable, by decide, by decide, by decide, by decide, by decide, by decide,
      by decide⟩,
    h.2.1.trans (by decide), h.2.2.1.trans (by decide)⟩

/-! ## C17: datagrams shorter than their header -/

set_option maxRecDepth 20000 in
/-- C17 (the code acts on a datagram shorter than its header): the first
client has a write transfer open, its request `[0, 2, 97, 0, ...]` is still
in the receive buffer. A Data datagram of two octets, `[0, 3]`, then arrives
from that client. `TFTPs_DataWr` checks no length: it takes the block number
from the octets 2 and 3 of the buffer, which the two-octet datagram did not
write (they are the 97 and 0 of the request, so the number is 24832), finds
the payload length 2 - 4 below 512, closes the file, sends the Ack of block
24832, and returns no error: the transfer ends as if it were complete. An
empty datagram is handled with the opcode of the datagram before it: here it
restarts the write transfer (close, open, Ack 0). -/
theorem C17_short_datagram :
    W_wr.TFTPs_State = TFTPs_STATE_DATA_WR ∧
    valid_tid W_wr.Net W_peerA W_wr.TFTPs_SockAddr = true ∧
    Dgram_OpCode [0, 3] = TFTP_OPCODE_DATA ∧
    (TFTPs_Task_rx W_wr [0, 3]).TFTPs_RxMsgLen = 2 ∧
    (TFTPs_Task_rx W_wr [0, 3]).TFTPs_RxMsgBuf 2 = 97 ∧
    (TFTPs_Task_rx W_wr [0, 3]).TFTPs_RxMsgBuf 3 = 0 ∧
    (TFTPs_Task_dispatch W_wr [0, 3] W_peerA (W_env 0 [])).2 = TFTPs_ERR.NONE ∧
    (TFTPs_Task W_wr (Rx.data [0, 3] W_peerA) (W_env 0 [])).Calls
      = W_wr.Calls ++ [Call.NetFS_FileClose 7,
                       Call.NetSock_TxDataTo (Pkt_Ack 24832) W_peerA] ∧
    (TFTPs_Task W_wr (Rx.data [0, 3] W_peerA) (W_env 0 [])).TFTPs_TxBlkNbr = 24832 ∧
    (TFTPs_Task W_wr (Rx.data [0, 3] W_peerA) (W_env 0 [])).TFTPs_State = TFTPs_STATE_IDLE ∧
    (TFTPs_Task_rx W_wr []).TFTPs_RxMsgLen = 0 ∧
    (TFTPs_Task_rx W_wr []).TFTPs_OpCode = TFTP_OPCODE_WR_REQ ∧
    (TFTPs_Task_dispatch W_wr [] W_peerA (W_env 9 [])).2 = TFTPs_ERR.NONE ∧
    (TFTPs_Task W_wr (Rx.data [] W_peerA) (W_env 9 [])).Calls
      = W_wr.Calls ++ [Call.NetFS_FileClose 7, Call.NetFS_FileOpen [97] 1 9,
                       Call.NetSock_TxDataTo (Pkt_Ack 0) W_peerA] ∧
    (TFTPs_Task W_wr (Rx.data [] W_peerA) (W_env 9 [])).TFTPs_State
      = TFTPs_STATE_DATA_WR := by
  decide

/-! ## C18: the file name scan -/

set_option maxRecDepth 20000 in
/-- C18 (the file name scan runs past the received datagram): the first
client read the file `abc`, so the receive buffer holds
`[0, 1, 97, 98, 99, 0, ...]` and the server is idle. A read request of three
octets, `[0, 1, 120]`, with no NUL after offset 2, then arrives from the
second client. `TFTPs_FileOpen` takes the file name from offset 2 up to the
first NUL it finds in the buffer, whatever the received length: the name
handed to the file store is `xbc`, whose octets 98 and 99 are at the indexes
3 and 4, at and beyond the received length 3, and come from the datagram
before; the scan `while (*p_mode > 0) p_mode++` stops at the index 5. The
file of that name is opened and its first block sent. -/
theorem C18_name_scan_past_datagram :
    W_idle_abc.TFTPs_State = TFTPs_STATE_IDLE ∧
    Dgram_OpCode [0, 1, 120] = TFTP_OPCODE_RD_REQ ∧
    ¬ Dgram_NameEnds [0, 1, 120] ∧
    (TFTPs_Task_rx W_idle_abc [0, 1, 120]).TFTPs_RxMsgLen = 3 ∧
    bufRead (TFTPs_Task_rx W_idle_abc [0, 1, 120]).TFTPs_RxMsgBuf 0 6 = [0, 1, 120, 98, 99, 0] ∧
    Str_Skip (TFTPs_Task_rx W_idle_abc [0, 1, 120]).TFTPs_RxMsgBuf 514 2 = 5 ∧
    fileCalls (TFTPs_Task W_idle_abc (Rx.data [0, 1, 120] W_peerB) (W_env 8 W_file10)).Calls
      = fileCalls W_idle_abc.Calls ++
        [Call.NetFS_FileOpen [120, 98, 99] TFTPs_FILE_OPEN_RD 8,
         Call.NetFS_FileRd 8 512, Call.NetFS_FileClose 8] ∧
    (sent (TFTPs_Task W_idle_abc (Rx.data [0, 1, 120] W_peerB) (W_env 8 W_file10)).Calls).getLast?
      = some (Pkt_Data 1 W_file10, W_peerB) := by
  decide

/-! ## C19: opcodes outside 1..5 -/

set_option maxRecDepth 20000 in
/-- C19 (an unknown opcode is accepted in silence): the first client has a
write transfer open and sends a datagram with the opcode 9. The `switch` of
`TFTPs_StateDataWr` has no `default` case and `err` was initialised to
`TFTPs_ERR_NONE`, so the handler returns no error: nothing is sent, the file
stays open, the state stays the write transfer. `TFTPs_StateDataRd` does the
same during a read transfer. In `TFTPs_StateIdle` `err` is not initialised
and the `switch` has no `default` case either: the result is whatever the
variable held, and when that is `TFTPs_ERR_NONE` the handler sets the receive
time-out as after an accepted request. -/
theorem C19_unknown_opcode_accepted :
    Dgram_OpCode [0, 9] = 9 ∧
    W_wr.TFTPs_State = TFTPs_STATE_DATA_WR ∧
    valid_tid W_wr.Net W_peerA W_wr.TFTPs_SockAddr = true ∧
    (TFTPs_Task_rx W_wr [0, 9]).TFTPs_OpCode = 9 ∧
    (TFTPs_StateDataWr (TFTPs_Task_rx W_wr [0, 9]) (W_env 0 [])).2 = TFTPs_ERR.NONE ∧
    (TFTPs_Task W_wr (Rx.data [0, 9] W_peerA) (W_env 0 [])).Calls = W_wr.Calls ∧
    (TFTPs_Task W_wr (Rx.data [0, 9] W_peerA) (W_env 0 [])).TFTPs_State
      = TFTPs_STATE_DATA_WR ∧
    (TFTPs_Task W_wr (Rx.data [0, 9] W_peerA) (W_env 0 [])).TFTPs_FileHandle = 7 ∧
    W_rd.TFTPs_State = TFTPs_STATE_DATA_RD ∧
    (TFTPs_StateDataRd (TFTPs_Task_rx W_rd [0, 9]) (W_env 0 [])).2 = TFTPs_ERR.NONE ∧
    (sent (TFTPs_Task W_rd (Rx.data [0, 9] W_peerA) (W_env 0 [])).Calls).length
      = (sent W_rd.Calls).length ∧
    (TFTPs_Task W_rd (Rx.data [0, 9] W_peerA) (W_env 0 [])).TFTPs_State
      = TFTPs_STATE_DATA_RD ∧
    W_entry.TFTPs_State = TFTPs_STATE_IDLE ∧
    (TFTPs_StateIdle (TFTPs_Task_rx W_entry [0, 9]) (W_env 0 [])).2 = (W_env 0 []).err_uninit ∧
    (TFTPs_Task W_entry (Rx.data [0, 9] W_peerA) (W_env 0 [])).Calls
      = [Call.NetSock_CfgTimeoutRxQ_Set (some W_cfg.RxTimeoutMax)] := by
  decide

/-! ## C20: the mode string and the options of a request -/

/-- C20: two request datagrams (ReadRequest or WriteRequest) with the same
opcode and the same file name, each with the NUL that ends the name inside
the datagram, are processed alike from every state, for every sender and
whatever the collaborators answer: the same calls are made (the same file
open, the same packets sent), the next state is the same, and so is every
variable of the server but the receive buffer and the received length.
What follows the file name (mode string, options) has no effect: the code
steps over the mode string and the string after it and uses neither. -/
theorem C20_mode_and_options_ignored (s : TFTPs) (pkt1 pkt2 : List Nat)
    (remote : NET_SOCK_ADDR) (e : Env)
    (hop : Dgram_OpCode pkt1 = Dgram_OpCode pkt2)
    (hreq : Dgram_OpCode pkt2 = TFTP_OPCODE_RD_REQ ∨ Dgram_OpCode pkt2 = TFTP_OPCODE_WR_REQ)
    (hN1 : Dgram_NameEnds pkt1) (hN2 : Dgram_NameEnds pkt2)
    (hname : Dgram_Filename pkt1 = Dgram_Filename pkt2) :
    (TFTPs_Task s (Rx.data pkt1 remote) e).Calls
      = (TFTPs_Task s (Rx.data pkt2 remote) e).Calls ∧
    (TFTPs_Task s (Rx.data pkt1 remote) e).TFTPs_State
      = (TFTPs_Task s (Rx.data pkt2 remote) e).TFTPs_State ∧
    SameButRx (TFTPs_Task s (Rx.data pkt1 remote) e) (TFTPs_Task s (Rx.data pkt2 remote) e) := by
  have key : SameButRx (TFTPs_Task s (Rx.data pkt1 remote) e)
      (TFTPs_Task s (Rx.data pkt2 remote) e) := by
    by_cases hEn : s.TFTPs_ServerEn = true
    · have hd := SameResult_dispatch s pkt1 pkt2 remote e hop hreq hN1 hN2 hname
      rw [TFTPs_Task_enabled s pkt1 remote e hEn, TFTPs_Task_enabled s pkt2 remote e hEn, hd.1]
      split_ifs
      · exact SameButRx_Terminate _ _ hd.2
      · exact hd.2
    · simp [SameButRx, TFTPs_Task, hEn, TFTPs_TxErr, TFTPs_Tx]
  exact ⟨key.2.2.2.2.2.2.2.2.2.2.2.2.2.2, key.2.2.2.2.2.2.2.2.2.1, key⟩

set_option maxRecDepth 20000 in
/-- Witness for C20: at the loop entry, the read request for the file `a` in
mode `octet` and the one in mode `netascii` with a `blksize` option. -/
theorem C20_mode_and_options_ignored_witness :
    (Dgram_OpCode W_rrq = Dgram_OpCode W_rrq_opts ∧
     Dgram_OpCode W_rrq_opts = TFTP_OPCODE_RD_REQ ∧
     Dgram_NameEnds W_rrq ∧ Dgram_NameEnds W_rrq_opts ∧
     Dgram_Filename W_rrq = Dgram_Filename W_rrq_opts ∧ W_rrq ≠ W_rrq_opts) ∧
    ((TFTPs_Task W_entry (Rx.data W_rrq W_peerA) (W_env 7 W_file10)).Calls
      = (TFTPs_Task W_entry (Rx.data W_rrq_opts W_peerA) (W_env 7 W_file10)).Calls ∧
    (TFTPs_Task W_entry (Rx.data W_rrq W_peerA) (W_env 7 W_file10)).TFTPs_State
      = (TFTPs_Task W_entry (Rx.data W_rrq_opts W_peerA) (W_env 7 W_file10)).TFTPs_State ∧
    SameButRx (TFTPs_Task W_entry (Rx.data W_rrq W_peerA) (W_env 7 W_file10))
      (TFTPs_Task W_entry (Rx.data W_rrq_opts W_peerA) (W_env 7 W_file10))) :=
  ⟨by decide,
   C20_mode_and_options_ignored W_entry W_rrq W_rrq_opts W_peerA (W_env 7 W_file10)
     (by decide) (Or.inl (by decide)) (by decide) (by decide) (by decide)⟩

/-! ## The receive time-out and the configuration across the handlers -/

@[simp] theorem TFTPs_Tx_RxQ_Timeout (s : TFTPs) (e : Env) (a b c : Nat) :
    (TFTPs_Tx s e a b c).1.RxQ_Timeout = s.RxQ_Timeout ∧ (TFTPs_Tx s e a b c).1.Cfg = s.Cfg := by
  simp [TFTPs_Tx]

@[simp] theorem TFTPs_TxErr_RxQ_Timeout (s : TFTPs) (e : Env) (c : Nat) (m : String) :
    (TFTPs_TxErr s e c m).RxQ_Timeout = s.RxQ_Timeout ∧ (TFTPs_TxErr s e c m).Cfg = s.Cfg := by
  simp [TFTPs_TxErr, TFTPs_Tx]

@[simp] theorem TFTPs_DataWrAck_RxQ_Timeout (s : TFTPs) (e : Env) (n : Nat) :
    (TFTPs_DataWrAck s e n).RxQ_Timeout = s.RxQ_Timeout ∧
      (TFTPs_DataWrAck s e n).Cfg = s.Cfg := by
  simp [TFTPs_DataWrAck, TFTPs_Tx]

@[simp] theorem NetFS_FileClose_RxQ_Timeout (s : TFTPs) :
    (NetFS_FileClose s).RxQ_Timeout = s.RxQ_Timeout ∧ (NetFS_FileClose s).Cfg = s.Cfg := by
  simp [NetFS_FileClose]

@[simp] theorem TFTPs_FileOpen_RxQ_Timeout (s : TFTPs) (e : Env) (rw : Nat) :
    (TFTPs_FileOpen s e rw).1.RxQ_Timeout = s.RxQ_Timeout ∧
      (TFTPs_FileOpen s e rw).1.Cfg = s.Cfg := by
  simp only [TFTPs_FileOpen, TFTPs_FileOpenMode]
  split_ifs <;> simp

@[simp] theorem TFTPs_DataRd_RxQ_Timeout (s : TFTPs) (e : Env) :
    (TFTPs_DataRd s e).1.RxQ_Timeout = s.RxQ_Timeout ∧ (TFTPs_DataRd s e).1.Cfg = s.Cfg := by
  simp only [TFTPs_DataRd]
  split_ifs <;> simp

@[simp] theorem TFTPs_DataWr_RxQ_Timeout (s : TFTPs) (e : Env) :
    (TFTPs_DataWr s e).1.RxQ_Timeout = s.RxQ_Timeout ∧ (TFTPs_DataWr s e).1.Cfg = s.Cfg := by
  simp only [TFTPs_DataWr]
  split_ifs <;> simp

@[simp] theorem TFTPs_StateDataRd_RxQ_Timeout (s : TFTPs) (e : Env) :
    (TFTPs_StateDataRd s e).1.RxQ_Timeout = s.RxQ_Timeout ∧
      (TFTPs_StateDataRd s e).1.Cfg = s.Cfg := by
  simp only [TFTPs_StateDataRd, TFTPs_GetRxBlkNbr]
  split_ifs <;> simp

@[simp] theorem TFTPs_StateDataWr_RxQ_Timeout (s : TFTPs) (e : Env) :
    (TFTPs_StateDataWr s e).1.RxQ_Timeout = s.RxQ_Timeout ∧
      (TFTPs_StateDataWr s e).1.Cfg = s.Cfg := by
  simp only [TFTPs_StateDataWr]
  split_ifs <;> simp

@[simp] theorem TFTPs_Task_busy_RxQ_Timeout (s : TFTPs) (e : Env) (r : NET_SOCK_ADDR) :
    (TFTPs_Task_busy s e r).RxQ_Timeout = s.RxQ_Timeout ∧
      (TFTPs_Task_busy s e r).Cfg = s.Cfg ∧
      (TFTPs_Task_busy s e r).TFTPs_State = s.TFTPs_State := by
  simp [TFTPs_Task_busy, TFTPs_TxErr, TFTPs_Tx]

/-- When `TFTPs_StateIdle` returns no error it has set the receive time-out
to the configured inactivity time. -/
theorem TFTPs_StateIdle_RxQ_Timeout (s : TFTPs) (e : Env)
    (h : (TFTPs_StateIdle s e).2 = TFTPs_ERR.NONE) :
    (TFTPs_StateIdle s e).1.RxQ_Timeout = some s.Cfg.RxTimeoutMax ∧
      (TFTPs_StateIdle s e).1.Cfg = s.Cfg := by
  revert h
  simp only [TFTPs_StateIdle, NetSock_CfgTimeoutRxQ_Set]
  split_ifs <;> simp_all

theorem TimeoutInv_Task (s : TFTPs) (rx : Rx) (e : Env) (h : TimeoutInv s) :
    TimeoutInv (TFTPs_Task s rx e) := by
  cases rx with
  | err =>
    intro hne
    exact absurd (TFTPs_Terminate_State _) hne
  | data pkt remote =>
    by_cases hEn : s.TFTPs_ServerEn = true
    · rw [TFTPs_Task_enabled s pkt remote e hEn]
      split_ifs with herr
      · intro hne
        exact absurd (TFTPs_Terminate_State _) hne
      · have herr2 : (TFTPs_Task_dispatch s pkt remote e).2 = TFTPs_ERR.NONE := by
          by_contra hc
          exact herr hc
        revert herr2
        unfold TFTPs_Task_dispatch
        dsimp only
        split_ifs with h0 h1 hv h2 hv2
        · intro hN _
          have := TFTPs_StateIdle_RxQ_Timeout _ e hN
          rw [this.1, this.2]
        · intro _ _
          have hs : s.TFTPs_State ≠ TFTPs_STATE_IDLE := by
            intro hc
            exact h0 hc
          simp
          exact h hs
        · intro _ _
          have hs : s.TFTPs_State ≠ TFTPs_STATE_IDLE := by
            intro hc
            exact h0 hc
          simp
          exact h hs
        · intro _ _
          have hs : s.TFTPs_State ≠ TFTPs_STATE_IDLE := by
            intro hc
            exact h0 hc
          simp
          exact h hs
        · intro _ _
          have hs : s.TFTPs_State ≠ TFTPs_STATE_IDLE := by
            intro hc
            exact h0 hc
          simp
          exact h hs
        · intro hN
          exact hN.elim
    · intro hne
      have hne2 : s.TFTPs_State ≠ TFTPs_STATE_IDLE := by
        simpa [TFTPs_Task, hEn, TFTPs_TxErr, TFTPs_Tx] using hne
      have := h hne2
      simpa [TFTPs_Task, hEn, TFTPs_TxErr, TFTPs_Tx] using this

theorem TimeoutInv_step (s : TFTPs) (x : Step) (h : TimeoutInv s) : TimeoutInv (step s x) := by
  cases x with
  | rx r e => exact TimeoutInv_Task s r e h
  | dis =>
    intro hne
    exact absurd (TFTPs_Terminate_State _) hne
  | en =>
    intro hne
    exact absurd rfl hne

theorem TimeoutInv_run (l : List Step) (s : TFTPs) (h : TimeoutInv s) : TimeoutInv (run s l) := by
  induction l generalizing s with
  | nil => exact h
  | cons x xs ih => exact ih (step s x) (TimeoutInv_step s x h)

theorem TFTPs_Task_entry_State (cfg : TFTPs_CFG) (net : NetCfg) (s0 : TFTPs)
    (h0 : TFTPs_Task_entry cfg net = some s0) :
    s0.TFTPs_State = TFTPs_STATE_IDLE ∧ s0.TFTPs_FileHandle = 0 ∧ s0.Calls = [] ∧
      s0.TFTPs_TxMsgLen = 0 ∧ s0.RxQ_Timeout = none ∧ s0.TFTPs_ServerEn = true := by
  simp only [TFTPs_Task_entry] at h0
  split at h0
  · exact Option.noConfusion h0
  · injection h0 with h0
    subst h0
    simp

theorem TimeoutInv_Reachable (s : TFTPs) (hR : Reachable s) : TimeoutInv s := by
  obtain ⟨cfg, net, s0, l, h0, hl⟩ := hR
  subst hl
  apply TimeoutInv_run
  intro hne
  exact absurd (TFTPs_Task_entry_State cfg net s0 h0).1 hne

/-! ## The open file and the state across the handlers -/

theorem FilesInv_DataRd (t : TFTPs) (e : Env) (hS : t.TFTPs_State ≠ TFTPs_STATE_IDLE)
    (hh : t.TFTPs_FileHandle ≠ 0) (ho : openFiles t.Calls = [t.TFTPs_FileHandle]) :
    FilesInv (TFTPs_DataRd t e).1 := by
  simp only [TFTPs_STATE_IDLE] at hS
  by_cases hs : e.NetFS_FileRd_data.length < 512 <;>
    by_cases hok : e.NetFS_FileRd_ok = true <;>
    by_cases htx : e.NetSock_TxDataTo < 0 <;>
    simp [FilesInv, TFTPs_DataRd, hs, hok, htx, NetFS_FileClose, TFTPs_TxErr, TFTPs_Tx,
      openFiles_append, openFiles_call, hS, hh, ho]

theorem FilesInv_DataWr (t : TFTPs) (e : Env) (hS : t.TFTPs_State ≠ TFTPs_STATE_IDLE)
    (hh : t.TFTPs_FileHandle ≠ 0) (ho : openFiles t.Calls = [t.TFTPs_FileHandle]) :
    FilesInv (TFTPs_DataWr t e).1 := by
  simp only [TFTPs_STATE_IDLE] at hS
  by_cases hb : rd16 t.TFTPs_RxMsgBuf 2 > t.TFTPs_TxBlkNbr <;>
    by_cases hp : t.TFTPs_RxMsgLen - 2 - 2 > 0 <;>
    by_cases hs : t.TFTPs_RxMsgLen - 2 - 2 < 512 <;>
    simp [FilesInv, TFTPs_DataWr, hb, hp, hs, NetFS_FileClose, TFTPs_DataWrAck, TFTPs_Tx,
      openFiles_append, openFiles_call, hS, hh, ho]

/-- After a successful `TFTPs_FileOpen` from a point with no file open, the
file of the handle is the one open file. -/
theorem TFTPs_FileOpen_ok (t : TFTPs) (e : Env) (rw : Nat) (h0 : openFiles t.Calls = [])
    (hN : (TFTPs_FileOpen t e rw).2 = TFTPs_ERR.NONE) :
    (TFTPs_FileOpen t e rw).1.TFTPs_FileHandle ≠ 0 ∧
      openFiles (TFTPs_FileOpen t e rw).1.Calls = [(TFTPs_FileOpen t e rw).1.TFTPs_FileHandle] ∧
      (TFTPs_FileOpen t e rw).1.TFTPs_State = t.TFTPs_State := by
  revert hN
  by_cases hrw : rw = 0 ∨ rw = 1
  · by_cases ho : e.NetFS_FileOpen = 0
    · simp [TFTPs_FileOpen, TFTPs_FileOpenMode, hrw, ho]
    · simp [TFTPs_FileOpen, TFTPs_FileOpenMode, hrw, ho, openFiles_append, openFiles_call, h0]
  · simp [TFTPs_FileOpen, TFTPs_FileOpenMode, hrw]

theorem FilesInv_DataWrAck_start (u : TFTPs) (e : Env) (n : Nat)
    (h1 : u.TFTPs_FileHandle ≠ 0) (h2 : openFiles u.Calls = [u.TFTPs_FileHandle]) :
    FilesInv (TFTPs_DataWrAck { u with TFTPs_State := TFTPs_STATE_DATA_WR } e n) := by
  simp [FilesInv, TFTPs_DataWrAck, TFTPs_Tx, openFiles_append, openFiles_call, h1, h2]

theorem FilesInv_StateIdle (t : TFTPs) (e : Env) (hS : t.TFTPs_State = TFTPs_STATE_IDLE)
    (h0 : openFiles t.Calls = []) (hN : (TFTPs_StateIdle t e).2 = TFTPs_ERR.NONE) :
    FilesInv (TFTPs_StateIdle t e).1 := by
  have inner : ∀ r : TFTPs × TFTPs_ERR, (r.2 = TFTPs_ERR.NONE → FilesInv r.1) →
      (if r.2 = TFTPs_ERR.NONE
        then (NetSock_CfgTimeoutRxQ_Set r.1 (some r.1.Cfg.RxTimeoutMax), r.2) else r).2
        = TFTPs_ERR.NONE →
      FilesInv (if r.2 = TFTPs_ERR.NONE
        then (NetSock_CfgTimeoutRxQ_Set r.1 (some r.1.Cfg.RxTimeoutMax), r.2) else r).1 := by
    intro r hr
    split_ifs with hc
    · intro _
      have := hr hc
      simpa [FilesInv, NetSock_CfgTimeoutRxQ_Set, openFiles_append, openFiles_call] using this
    · intro hc2
      exact absurd hc2 hc
  have hT : FilesInv t := ⟨fun _ => h0, fun hc => absurd hS hc⟩
  revert hN
  unfold TFTPs_StateIdle
  dsimp only
  apply inner
  split_ifs
  · intro _
    have h := TFTPs_FileOpen_ok t e TFTPs_FILE_OPEN_RD h0 (by assumption)
    exact FilesInv_DataRd _ e (by simp) h.1 h.2.1
  · intro hc
    exact absurd hc (by assumption)
  · intro hc
    exact hc.elim
  · intro _
    have h := TFTPs_FileOpen_ok { t with TFTPs_TxBlkNbr := 0 } e TFTPs_FILE_OPEN_WR h0
      (by assumption)
    exact FilesInv_DataWrAck_start _ e _ h.1 h.2.1
  · intro hc
    exact absurd hc (by assumption)
  · intro hc
    exact hc.elim
  · intro hc
    exact hc.elim
  · intro _
    exact hT

theorem FilesInv_StateDataRd (t : TFTPs) (e : Env) (hS : t.TFTPs_State ≠ TFTPs_STATE_IDLE)
    (hh : t.TFTPs_FileHandle ≠ 0) (ho : openFiles t.Calls = [t.TFTPs_FileHandle])
    (hN : (TFTPs_StateDataRd t e).2 = TFTPs_ERR.NONE) :
    FilesInv (TFTPs_StateDataRd t e).1 := by
  have hT : FilesInv t := ⟨fun hc => absurd hc hS, fun _ => ⟨hh, ho⟩⟩
  have hc : openFiles (NetFS_FileClose t).Calls = [] := openFiles_FileClose t (Or.inr ⟨hh, ho⟩)
  revert hN
  unfold TFTPs_StateDataRd
  dsimp only
  split_ifs
  · intro _
    have h := TFTPs_FileOpen_ok (NetFS_FileClose t) e TFTPs_FILE_OPEN_RD hc (by assumption)
    exact FilesInv_DataRd _ e (by simp) h.1 h.2.1
  · intro hc2
    exact absurd hc2 (by assumption)
  · intro _
    exact FilesInv_DataRd (TFTPs_GetRxBlkNbr t) e hS hh ho
  · intro hc2
    exact hc2.elim
  · intro _
    simpa [FilesInv, TFTPs_Tx, TFTPs_GetRxBlkNbr, openFiles_append, openFiles_call] using hT
  · intro hc2
    exact hc2.elim
  · intro hc2
    exact hc2.elim
  · intro hc2
    exact hc2.elim
  · intro _
    exact hT

theorem FilesInv_StateDataWr (t : TFTPs) (e : Env) (hS : t.TFTPs_State ≠ TFTPs_STATE_IDLE)
    (hh : t.TFTPs_FileHandle ≠ 0) (ho : openFiles t.Calls = [t.TFTPs_FileHandle])
    (hN : (TFTPs_StateDataWr t e).2 = TFTPs_ERR.NONE) :
    FilesInv (TFTPs_StateDataWr t e).1 := by
  have hT : FilesInv t := ⟨fun hc => absurd hc hS, fun _ => ⟨hh, ho⟩⟩
  have hc : openFiles (NetFS_FileClose t).Calls = [] := openFiles_FileClose t (Or.inr ⟨hh, ho⟩)
  revert hN
  unfold TFTPs_StateDataWr
  dsimp only
  split_ifs
  · intro hc2
    exact hc2.elim
  · intro hc2
    exact hc2.elim
  · intro _
    have h := TFTPs_FileOpen_ok { NetFS_FileClose t with TFTPs_TxBlkNbr := 0 } e
      TFTPs_FILE_OPEN_WR hc (by assumption)
    exact FilesInv_DataWrAck_start _ e _ h.1 h.2.1
  · intro hc2
    exact absurd hc2 (by assumption)
  · intro _
    exact FilesInv_DataWr t e hS hh ho
  · intro hc2
    exact hc2.elim
  · intro _
    exact hT

theorem FilesInv_busy (t : TFTPs) (e : Env) (remote : NET_SOCK_ADDR) (hT : FilesInv t) :
    FilesInv (TFTPs_Task_busy t e remote) := by
  simpa [FilesInv, TFTPs_Task_busy, TFTPs_TxErr, TFTPs_Tx, openFiles_append, openFiles_call]
    using hT

theorem FilesInv_dispatch (s : TFTPs) (pkt : List Nat) (remote : NET_SOCK_ADDR) (e : Env)
    (hF : FilesInv s) (hN : (TFTPs_Task_dispatch s pkt remote e).2 = TFTPs_ERR.NONE) :
    FilesInv (TFTPs_Task_dispatch s pkt remote e).1 := by
  have hT : FilesInv (TFTPs_Task_rx s pkt) := hF
  revert hN
  unfold TFTPs_Task_dispatch
  dsimp only
  split_ifs with h1 h2 h3 h4 h5
  · intro hN
    exact FilesInv_StateIdle _ e h1 (hF.1 h1) hN
  · intro hN
    exact FilesInv_StateDataRd _ e h1 (hF.2 h1).1 (hF.2 h1).2 hN
  · intro _
    exact FilesInv_busy _ e remote hT
  · intro hN
    exact FilesInv_StateDataWr _ e h1 (hF.2 h1).1 (hF.2 h1).2 hN
  · intro _
    exact FilesInv_busy _ e remote hT
  · intro hN
    exact hN.elim

theorem FilesInv_Terminate (t : TFTPs) (hI : HandleInv t.Calls t.TFTPs_FileHandle) :
    FilesInv (TFTPs_Terminate t) :=
  ⟨fun _ => HandleInv_Terminate t hI, fun hc => absurd (TFTPs_Terminate_State t) hc⟩

theorem FilesInv_Task (s : TFTPs) (rx : Rx) (e : Env) (hF : FilesInv s) :
    FilesInv (TFTPs_Task s rx e) := by
  cases rx with
  | err => exact FilesInv_Terminate _ (HandleInv_of_FilesInv s hF)
  | data pkt remote =>
    by_cases hEn : s.TFTPs_ServerEn = true
    · rw [TFTPs_Task_enabled s pkt remote e hEn]
      split_ifs with herr
      · exact FilesInv_Terminate _ (HandleInv_dispatch s pkt remote e hF)
      · exact FilesInv_dispatch s pkt remote e hF (by
          by_contra hc
          exact herr hc)
    · simpa [FilesInv, TFTPs_Task, hEn, TFTPs_TxErr, TFTPs_Tx, openFiles_append,
        openFiles_call] using hF

theorem FilesInv_Dis (s : TFTPs) (hF : FilesInv s) : FilesInv (TFTPs_Dis s) :=
  FilesInv_Terminate _ (HandleInv_of_FilesInv s hF)

theorem FilesInv_run_rx (l : List Step) (s : TFTPs) (hl : ∀ x ∈ l, Step_isRx x = true)
    (hF : FilesInv s) : FilesInv (run s l) := by
  induction l generalizing s with
  | nil => exact hF
  | cons x xs ih =>
    have hx : Step_isRx x = true := hl x (List.mem_cons_self x xs)
    have hxs : ∀ y ∈ xs, Step_isRx y = true := fun y hy => hl y (List.mem_cons_of_mem x hy)
    cases x with
    | rx r e => exact ih (TFTPs_Task s r e) hxs (FilesInv_Task s r e hF)
    | dis => exact Bool.noConfusion hx
    | en => exact Bool.noConfusion hx

theorem FilesInv_Reachable_rx (s : TFTPs) (hR : Reachable_rx s) : FilesInv s := by
  obtain ⟨cfg, net, s0, l, h0, hl, hr⟩ := hR
  subst hr
  apply FilesInv_run_rx l s0 hl
  have h := TFTPs_Task_entry_State cfg net s0 h0
  refine ⟨fun _ => ?_, fun hc => absurd h.1 hc⟩
  rw [h.2.2.1]
  rfl

/-! ## The transmit buffer and the lengths of the packets across the handlers -/

theorem wr16_frame (b : Buf) (off v i : Nat) (h : off + 2 ≤ i) : wr16 b off v i = b i := by
  have h1 : ¬ (i < off + 2) := by omega
  simp [wr16, bufWrite, h1]

theorem bufWrite_frame (b : Buf) (off : Nat) (d : List Nat) (i : Nat) (h : off + d.length ≤ i) :
    bufWrite b off d i = b i := by
  have h1 : ¬ (i < off + d.length) := by omega
  simp [bufWrite, h1]

theorem TxErr_buf_frame (b : Buf) (c : Nat) (m : String) (i : Nat)
    (hm : (Str_Octets m).length + 5 ≤ 516) (hi : 516 ≤ i) : TxErr_buf b c m i = b i := by
  unfold TxErr_buf
  rw [wr16_frame _ _ _ _ (by omega), wr16_frame _ _ _ _ (by omega),
    bufWrite_frame _ _ _ _ (by simp; omega)]

theorem DataRd_buf_frame (b : Buf) (n : Nat) (d : List Nat) (i : Nat)
    (hd : d.length ≤ 512) (hi : 516 ≤ i) : DataRd_buf b n d i = b i := by
  unfold DataRd_buf
  rw [wr16_frame _ _ _ _ (by omega), wr16_frame _ _ _ _ (by omega),
    bufWrite_frame _ _ _ _ (by omega)]

theorem Pkt_Error_length (c : Nat) (m : String) :
    (Pkt_Error c m).length = (Str_Octets m).length + 5 := by
  simp [Pkt_Error]

theorem Pkt_Data_length (n : Nat) (p : List Nat) : (Pkt_Data n p).length = p.length + 4 := by
  simp [Pkt_Data]

theorem TxBounded_refl (s : TFTPs) : TxBounded s s :=
  ⟨fun _ _ => rfl, fun h => h⟩

theorem TxBounded_trans (s t u : TFTPs) (h1 : TxBounded s t) (h2 : TxBounded t u) :
    TxBounded s u :=
  ⟨fun i hi => (h2.1 i hi).trans (h1.1 i hi), fun h => h2.2 (h1.2 h)⟩

/-- From `s` to `t` the transmit buffer is not written at or after index
516, the stored length stays within the buffer, and the packets `l` that
were sent are within the buffer size, all this when `s` was within bounds. -/
theorem TxBounded_intro (s t : TFTPs) (l : List (List Nat × NET_SOCK_ADDR))
    (hb : ∀ i, 516 ≤ i → t.TFTPs_TxMsgBuf i = s.TFTPs_TxMsgBuf i)
    (hl : s.TFTPs_TxMsgLen ≤ 516 → t.TFTPs_TxMsgLen ≤ 516)
    (hs : sent t.Calls = sent s.Calls ++ l)
    (hp : s.TFTPs_TxMsgLen ≤ 516 → ∀ p ∈ l, p.1.length ≤ 516) : TxBounded s t := by
  refine ⟨hb, ?_⟩
  rintro ⟨h1, h2⟩
  refine ⟨hl h1, ?_⟩
  rw [hs]
  intro p hp2
  rcases List.mem_append.mp hp2 with h | h
  · exact h2 p h
  · exact hp h1 p h

theorem TxBounded_TxErr (s : TFTPs) (e : Env) (c : Nat) (m : String)
    (hm : (Str_Octets m).length + 5 ≤ 516) : TxBounded s (TFTPs_TxErr s e c m) := by
  rw [TFTPs_TxErr_eq s e c m (by omega)]
  apply TxBounded_intro _ _ [(Pkt_Error (c % 65536) m, s.TFTPs_SockAddr)]
  · intro i hi
    exact TxErr_buf_frame _ _ _ _ hm hi
  · intro h
    exact h
  · simp [sent_append, sent]
  · intro _ p hp
    simp at hp
    rw [hp, Pkt_Error_length]
    exact hm

theorem TxBounded_DataWrAck (s : TFTPs) (e : Env) (n : Nat) :
    TxBounded s (TFTPs_DataWrAck s e n) := by
  rw [TFTPs_DataWrAck_eq]
  apply TxBounded_intro _ _ [(Pkt_Ack (n % 65536), s.TFTPs_SockAddr)]
  · intro i hi
    show wr16 (wr16 s.TFTPs_TxMsgBuf 0 4) 2 (n % 65536) i = s.TFTPs_TxMsgBuf i
    rw [wr16_frame _ _ _ _ (by omega), wr16_frame _ _ _ _ (by omega)]
  · intro h
    exact h
  · simp [sent_append, sent]
  · intro _ p hp
    simp at hp
    rw [hp]
    simp [Pkt_Ack]

/-- The retransmission of the transmit buffer with the stored length. -/
theorem TxBounded_Tx (s : TFTPs) (e : Env) (op blk : Nat) :
    TxBounded s (TFTPs_Tx s e op blk s.TFTPs_TxMsgLen).1 := by
  apply TxBounded_intro _ _
    [(bufRead (wr16 (wr16 s.TFTPs_TxMsgBuf 0 (op % 65536)) 2 (blk % 65536)) 0
        (s.TFTPs_TxMsgLen % 65536), s.TFTPs_SockAddr)]
  · intro i hi
    show wr16 (wr16 s.TFTPs_TxMsgBuf 0 (op % 65536)) 2 (blk % 65536) i = s.TFTPs_TxMsgBuf i
    rw [wr16_frame _ _ _ _ (by omega), wr16_frame _ _ _ _ (by omega)]
  · intro h
    exact h
  · simp [TFTPs_Tx, sent_append, sent]
  · intro h p hp
    simp at hp
    rw [hp]
    simp only [bufRead_length]
    exact Nat.le_trans (Nat.mod_le _ _) h

theorem TxBounded_of_sent (s t : TFTPs) (hb : t.TFTPs_TxMsgBuf = s.TFTPs_TxMsgBuf)
    (hl : t.TFTPs_TxMsgLen = s.TFTPs_TxMsgLen) (hs : sent t.Calls = sent s.Calls) :
    TxBounded s t := by
  apply TxBounded_intro _ _ []
  · intro i _
    rw [hb]
  · intro h
    rw [hl]
    exact h
  · simp [hs]
  · intro _ p hp
    simp at hp

theorem TxBounded_FileClose (s : TFTPs) : TxBounded s (NetFS_FileClose s) :=
  TxBounded_of_sent _ _ rfl rfl (by simp [NetFS_FileClose, sent_append, sent])

theorem TxBounded_timeout (s : TFTPs) (t : Timeout) :
    TxBounded s (NetSock_CfgTimeoutRxQ_Set s t) :=
  TxBounded_of_sent _ _ rfl rfl (by simp [NetSock_CfgTimeoutRxQ_Set, sent_append, sent])

theorem TxBounded_Terminate (s : TFTPs) : TxBounded s (TFTPs_Terminate s) := by
  rw [TFTPs_Terminate_eq]
  refine TxBounded_of_sent _ _ ?_ ?_ ?_
  · rfl
  · rfl
  · by_cases hh : s.TFTPs_FileHandle = 0 <;> simp [sent_append, sent, hh]

theorem msg_len_file_not_found_516 : (Str_Octets "file not found").length + 5 ≤ 516 := by
  decide

theorem TxBounded_FileOpen (s : TFTPs) (e : Env) (rw : Nat) :
    TxBounded s (TFTPs_FileOpen s e rw).1 := by
  unfold TFTPs_FileOpen
  dsimp only
  have h1 : TxBounded s
      { (TFTPs_FileOpenMode s e (Str_At s.TFTPs_RxMsgBuf 2 (516 - 2)) rw).1 with
        TFTPs_FileHandle := (TFTPs_FileOpenMode s e (Str_At s.TFTPs_RxMsgBuf 2 (516 - 2)) rw).2 } := by
    apply TxBounded_of_sent
    · simp only [TFTPs_FileOpenMode]
      split_ifs <;> rfl
    · simp only [TFTPs_FileOpenMode]
      split_ifs <;> rfl
    · simp only [TFTPs_FileOpenMode]
      split_ifs <;> simp [sent_append, sent]
  split_ifs
  · exact TxBounded_trans _ _ _ h1 (TxBounded_TxErr _ e _ _ msg_len_file_not_found_516)
  · exact h1

theorem TxBounded_DataRd (s : TFTPs) (e : Env) (hd : Env_rd_bounded e) :
    TxBounded s (TFTPs_DataRd s e).1 := by
  have hd2 : e.NetFS_FileRd_data.length ≤ 512 := hd
  have hm : (Str_Octets "RRQ file read error").length + 5 ≤ 516 := by decide
  cases hok : e.NetFS_FileRd_ok with
  | false =>
    rw [TFTPs_DataRd_rdfail s e hok]
    apply TxBounded_intro _ _ [(Pkt_Error 0 "RRQ file read error", s.TFTPs_SockAddr)]
    · intro i hi
      show TxErr_buf (bufWrite s.TFTPs_TxMsgBuf 4 e.NetFS_FileRd_data) 0 "RRQ file read error" i
        = s.TFTPs_TxMsgBuf i
      rw [TxErr_buf_frame _ _ _ _ hm hi, bufWrite_frame _ _ _ _ (by omega)]
    · intro _
      show e.NetFS_FileRd_data.length ≤ 516
      omega
    · by_cases hs : e.NetFS_FileRd_data.length < 512 <;> simp [sent_append, sent, hs]
    · intro _ p hp
      simp at hp
      rw [hp, Pkt_Error_length]
      exact hm
  | true =>
    by_cases htx : e.NetSock_TxDataTo < 0
    · rw [TFTPs_DataRd_txfail s e hok htx hd2]
      apply TxBounded_intro _ _
        [(Pkt_Data ((s.TFTPs_TxBlkNbr + 1) % 65536) e.NetFS_FileRd_data, s.TFTPs_SockAddr),
         (Pkt_Error 0 "RRQ file read error", s.TFTPs_SockAddr)]
      · intro i hi
        show TxErr_buf (DataRd_buf s.TFTPs_TxMsgBuf (s.TFTPs_TxBlkNbr + 1)
            e.NetFS_FileRd_data) 0 "RRQ file read error" i = s.TFTPs_TxMsgBuf i
        rw [TxErr_buf_frame _ _ _ _ hm hi, DataRd_buf_frame _ _ _ _ hd2 hi]
      · intro _
        show e.NetFS_FileRd_data.length + 4 ≤ 516
        omega
      · by_cases hs : e.NetFS_FileRd_data.length < 512 <;> simp [sent_append, sent, hs]
      · intro _ p hp
        simp at hp
        rcases hp with hp | hp
        · rw [hp, Pkt_Data_length]
          show e.NetFS_FileRd_data.length + 4 ≤ 516
          omega
        · rw [hp, Pkt_Error_length]
          exact hm
    · rw [TFTPs_DataRd_ok s e hok (by omega) hd2]
      apply TxBounded_intro _ _
        [(Pkt_Data ((s.TFTPs_TxBlkNbr + 1) % 65536) e.NetFS_FileRd_data, s.TFTPs_SockAddr)]
      · intro i hi
        exact DataRd_buf_frame _ _ _ _ hd2 hi
      · intro _
        show e.NetFS_FileRd_data.length + 4 ≤ 516
        omega
      · by_cases hs : e.NetFS_FileRd_data.length < 512 <;> simp [sent_append, sent, hs]
      · intro _ p hp
        simp at hp
        rw [hp, Pkt_Data_length]
        show e.NetFS_FileRd_data.length + 4 ≤ 516
        omega

theorem TxBounded_DataWr (s : TFTPs) (e : Env) : TxBounded s (TFTPs_DataWr s e).1 := by
  apply TxBounded_intro _ _
    [(Pkt_Ack (rd16 s.TFTPs_RxMsgBuf 2 % 65536), s.TFTPs_SockAddr)]
  · intro i hi
    have hb : (TFTPs_DataWr s e).1.TFTPs_TxMsgBuf
        = wr16 (wr16 s.TFTPs_TxMsgBuf 0 4) 2 (rd16 s.TFTPs_RxMsgBuf 2 % 65536) := by
      simp only [TFTPs_DataWr, TFTPs_DataWrAck_eq]
      split_ifs <;> rfl
    rw [hb, wr16_frame _ _ _ _ (by omega), wr16_frame _ _ _ _ (by omega)]
  · intro h
    have hl : (TFTPs_DataWr s e).1.TFTPs_TxMsgLen = s.TFTPs_TxMsgLen := by
      simp only [TFTPs_DataWr, TFTPs_DataWrAck_eq]
      split_ifs <;> rfl
    rw [hl]
    exact h
  · simp only [TFTPs_DataWr, TFTPs_DataWrAck_eq]
    split_ifs <;> simp [NetFS_FileClose, sent_append, sent]
  · intro _ p hp
    simp at hp
    rw [hp]
    simp [Pkt_Ack]

theorem TxBounded_upd (s u : TFTPs) (h : TxBounded s u) (v : TFTPs)
    (hb : v.TFTPs_TxMsgBuf = u.TFTPs_TxMsgBuf) (hl : v.TFTPs_TxMsgLen = u.TFTPs_TxMsgLen)
    (hc : v.Calls = u.Calls) : TxBounded s v :=
  TxBounded_trans _ _ _ h (TxBounded_of_sent _ _ hb hl (by rw [hc]))

theorem TxBounded_StateIdle (t : TFTPs) (e : Env) (hd : Env_rd_bounded e) :
    TxBounded t (TFTPs_StateIdle t e).1 := by
  have inner : ∀ r : TFTPs × TFTPs_ERR, TxBounded t r.1 →
      TxBounded t (if r.2 = TFTPs_ERR.NONE
        then (NetSock_CfgTimeoutRxQ_Set r.1 (some r.1.Cfg.RxTimeoutMax), r.2) else r).1 := by
    intro r hr
    split_ifs
    · exact TxBounded_trans _ _ _ hr (TxBounded_timeout _ _)
    · exact hr
  have hwr : TxBounded t { t with TFTPs_TxBlkNbr := 0 } :=
    TxBounded_upd _ _ (TxBounded_refl t) _ rfl rfl rfl
  unfold TFTPs_StateIdle
  dsimp only
  apply inner
  split_ifs
  · exact TxBounded_trans _ _ _
      (TxBounded_upd _ _ (TxBounded_FileOpen t e TFTPs_FILE_OPEN_RD) _ rfl rfl rfl)
      (TxBounded_DataRd _ e hd)
  · exact TxBounded_FileOpen t e TFTPs_FILE_OPEN_RD
  · exact TxBounded_refl t
  · exact TxBounded_trans _ _ _
      (TxBounded_upd _ _
        (TxBounded_trans _ _ _ hwr
          (TxBounded_FileOpen { t with TFTPs_TxBlkNbr := 0 } e TFTPs_FILE_OPEN_WR))
        _ rfl rfl rfl)
      (TxBounded_DataWrAck _ e _)
  · exact TxBounded_trans _ _ _ hwr
      (TxBounded_FileOpen { t with TFTPs_TxBlkNbr := 0 } e TFTPs_FILE_OPEN_WR)
  · exact TxBounded_refl t
  · exact TxBounded_refl t
  · exact TxBounded_refl t

theorem TxBounded_StateDataRd (t : TFTPs) (e : Env) (hd : Env_rd_bounded e) :
    TxBounded t (TFTPs_StateDataRd t e).1 := by
  have hg : TxBounded t (TFTPs_GetRxBlkNbr t) :=
    TxBounded_upd _ _ (TxBounded_refl t) _ rfl rfl rfl
  unfold TFTPs_StateDataRd
  dsimp only
  split_ifs
  · exact TxBounded_trans _ _ _
      (TxBounded_upd _ _
        (TxBounded_trans _ _ _ (TxBounded_FileClose t)
          (TxBounded_FileOpen (NetFS_FileClose t) e TFTPs_FILE_OPEN_RD))
        _ rfl rfl rfl)
      (TxBounded_DataRd _ e hd)
  · exact TxBounded_trans _ _ _ (TxBounded_FileClose t)
      (TxBounded_FileOpen (NetFS_FileClose t) e TFTPs_FILE_OPEN_RD)
  · exact TxBounded_trans _ _ _ hg (TxBounded_DataRd _ e hd)
  · exact TxBounded_trans _ _ _
      (TxBounded_trans _ _ _ hg (TxBounded_Tx (TFTPs_GetRxBlkNbr t) e _ _))
      (TxBounded_TxErr _ e _ _ (by decide))
  · exact TxBounded_trans _ _ _ hg (TxBounded_Tx (TFTPs_GetRxBlkNbr t) e _ _)
  · exact TxBounded_TxErr t e _ _ (by decide)
  · exact TxBounded_TxErr t e _ _ (by decide)
  · exact TxBounded_TxErr t e _ _ (by decide)
  · exact TxBounded_refl t

theorem TxBounded_StateDataWr (t : TFTPs) (e : Env) :
    TxBounded t (TFTPs_StateDataWr t e).1 := by
  have hwr : TxBounded t { NetFS_FileClose t with TFTPs_TxBlkNbr := 0 } :=
    TxBounded_upd _ _ (TxBounded_FileClose t) _ rfl rfl rfl
  unfold TFTPs_StateDataWr
  dsimp only
  split_ifs
  · exact TxBounded_TxErr t e _ _ (by decide)
  · exact TxBounded_TxErr t e _ _ (by decide)
  · exact TxBounded_trans _ _ _
      (TxBounded_upd _ _
        (TxBounded_trans _ _ _ hwr
          (TxBounded_FileOpen { NetFS_FileClose t with TFTPs_TxBlkNbr := 0 } e
            TFTPs_FILE_OPEN_WR))
        _ rfl rfl rfl)
      (TxBounded_DataWrAck _ e _)
  · exact TxBounded_trans _ _ _ hwr
      (TxBounded_FileOpen { NetFS_FileClose t with TFTPs_TxBlkNbr := 0 } e TFTPs_FILE_OPEN_WR)
  · exact TxBounded_DataWr t e
  · exact TxBounded_TxErr t e _ _ (by decide)
  · exact TxBounded_refl t

theorem TxBounded_busy (t : TFTPs) (e : Env) (remote : NET_SOCK_ADDR) :
    TxBounded t (TFTPs_Task_busy t e remote) := by
  unfold TFTPs_Task_busy
  dsimp only
  exact TxBounded_upd _ _
    (TxBounded_trans _ _ _
      (TxBounded_upd _ _ (TxBounded_refl t) { t with TFTPs_SockAddr := remote } rfl rfl rfl)
      (TxBounded_TxErr { t with TFTPs_SockAddr := remote } e _ _ (by decide)))
    _ rfl rfl rfl

theorem TxBounded_dispatch (s : TFTPs) (pkt : List Nat) (remote : NET_SOCK_ADDR) (e : Env)
    (hd : Env_rd_bounded e) : TxBounded s (TFTPs_Task_dispatch s pkt remote e).1 := by
  have hrx : TxBounded s (TFTPs_Task_rx s pkt) :=
    TxBounded_upd _ _ (TxBounded_refl s) _ rfl rfl rfl
  unfold TFTPs_Task_dispatch
  dsimp only
  split_ifs
  · exact TxBounded_trans _ _ _
      (TxBounded_upd _ _ hrx { TFTPs_Task_rx s pkt with TFTPs_SockAddr := remote } rfl rfl rfl)
      (TxBounded_StateIdle _ e hd)
  · exact TxBounded_trans _ _ _ hrx (TxBounded_StateDataRd _ e hd)
  · exact TxBounded_trans _ _ _ hrx (TxBounded_busy _ e remote)
  · exact TxBounded_trans _ _ _ hrx (TxBounded_StateDataWr _ e)
  · exact TxBounded_trans _ _ _ hrx (TxBounded_busy _ e remote)
  · exact hrx

theorem TxBounded_Task (s : TFTPs) (rx : Rx) (e : Env) (hd : Env_rd_bounded e) :
    TxBounded s (TFTPs_Task s rx e) := by
  cases rx with
  | err =>
    exact TxBounded_trans _ _ _
      (TxBounded_upd _ _ (TxBounded_refl s) { s with TFTPs_RxMsgLen := -1 } rfl rfl rfl)
      (TxBounded_Terminate _)
  | data pkt remote =>
    cases hEn : s.TFTPs_ServerEn with
    | true =>
      rw [TFTPs_Task_enabled s pkt remote e hEn]
      split_ifs
      · exact TxBounded_trans _ _ _ (TxBounded_dispatch s pkt remote e hd)
          (TxBounded_Terminate _)
      · exact TxBounded_dispatch s pkt remote e hd
    | false =>
      have h : TFTPs_Task s (Rx.data pkt remote) e
          = TFTPs_TxErr { s with
              TFTPs_RxMsgBuf := Rx_buf s.TFTPs_RxMsgBuf pkt
              TFTPs_RxMsgLen := ((pkt.take TFTPs_BUF_SIZE).length : Int)
              TFTPs_RxMsgCtr := (s.TFTPs_RxMsgCtr + 1) % 4294967296 } e 0
              "Transaction denied, Server DISABLED" := by
        simp [TFTPs_Task, hEn]
      rw [h]
      exact TxBounded_trans _ _ _
        (TxBounded_upd _ _ (TxBounded_refl s) _ rfl rfl rfl)
        (TxBounded_TxErr _ e _ _ (by decide))

theorem TxBounded_step (s : TFTPs) (x : Step) (hx : Step_rd_bounded x) :
    TxBounded s (step s x) := by
  cases x with
  | rx r e => exact TxBounded_Task s r e hx
  | dis =>
    exact TxBounded_trans _ _ _
      (TxBounded_upd _ _ (TxBounded_refl s) { s with TFTPs_ServerEn := false } rfl rfl rfl)
      (TxBounded_Terminate _)
  | en => exact TxBounded_upd _ _ (TxBounded_refl s) _ rfl rfl rfl

theorem TxBounded_run (l : List Step) (s : TFTPs) (hl : ∀ x ∈ l, Step_rd_bounded x) :
    TxBounded s (run s l) := by
  induction l generalizing s with
  | nil => exact TxBounded_refl s
  | cons x xs ih =>
    exact TxBounded_trans _ _ _
      (TxBounded_step s x (hl x (List.mem_cons_self x xs)))
      (ih (step s x) (fun y hy => hl y (List.mem_cons_of_mem x hy)))

theorem TFTPs_Task_entry_TxInv (cfg : TFTPs_CFG) (net : NetCfg) (s0 : TFTPs)
    (h0 : TFTPs_Task_entry cfg net = some s0) : TxInv s0 := by
  have h := TFTPs_Task_entry_State cfg net s0 h0
  refine ⟨?_, ?_⟩
  · rw [h.2.2.2.1]
    decide
  · rw [h.2.2.1]
    intro p hp
    simp [sent] at hp

/-! ## C21: the octets of the packets sent -/

/-- C21. The octets of the packets the server hands to the transport. For a
16-bit block number `n`, a read of at most 512 octets `p`, a 16-bit error
code `c` and a message `m` that fits the transmit buffer: `TFTPs_DataRd`
(read and transmit succeed, `n` the successor of `TFTPs_TxBlkNbr`) sends
`[0, 3, n / 256, n % 256]` followed by `p`, of length `4 + |p|`;
`TFTPs_DataWrAck` sends `[0, 4, n / 256, n % 256]`, of length 4;
`TFTPs_TxErr` sends `[0, 5, c / 256, c % 256]` followed by the octets of `m`
and one NUL, of length `|m| + 5`. -/
theorem C21_wire_format (s : TFTPs) (e : Env) (n c : Nat) (m : String)
    (hn : n < 65536) (hc : c < 65536)
    (hm : (Str_Octets m).length + 5 ≤ TFTPs_BUF_SIZE)
    (hp : e.NetFS_FileRd_data.length ≤ TFTPs_BLOCK_SIZE)
    (hok : e.NetFS_FileRd_ok = true) (htx : 0 ≤ e.NetSock_TxDataTo)
    (hblk : (s.TFTPs_TxBlkNbr + 1) % 65536 = n) :
    sent (TFTPs_DataRd s e).1.Calls
        = sent s.Calls
          ++ [([0, 3, n / 256, n % 256] ++ e.NetFS_FileRd_data, s.TFTPs_SockAddr)] ∧
      ([0, 3, n / 256, n % 256] ++ e.NetFS_FileRd_data).length
        = 4 + e.NetFS_FileRd_data.length ∧
      (TFTPs_DataWrAck s e n).Calls
        = s.Calls ++ [Call.NetSock_TxDataTo [0, 4, n / 256, n % 256] s.TFTPs_SockAddr] ∧
      (TFTPs_TxErr s e c m).Calls
        = s.Calls ++ [Call.NetSock_TxDataTo
            ([0, 5, c / 256, c % 256] ++ Str_Octets m ++ [0]) s.TFTPs_SockAddr] ∧
      ([0, 5, c / 256, c % 256] ++ Str_Octets m ++ [0]).length = m.length + 5 := by
  have hn1 : n / 256 % 256 = n / 256 := Nat.mod_eq_of_lt (by omega)
  have hc1 : c / 256 % 256 = c / 256 := Nat.mod_eq_of_lt (by omega)
  have hm2 : (Str_Octets m).length + 5 < 65536 := by
    simp only [TFTPs_BUF_SIZE, TFTPs_BLOCK_SIZE, TFTP_PKT_SIZE_OPCODE, TFTP_PKT_SIZE_BLK_NBR] at hm
    omega
  refine ⟨?_, ?_, ?_, ?_, ?_⟩
  · rw [TFTPs_DataRd_ok s e hok htx hp, hblk]
    by_cases hs : e.NetFS_FileRd_data.length < 512 <;>
      simp [sent_append, sent, hs, Pkt_Data, hn1]
  · simp
    omega
  · rw [TFTPs_DataWrAck_eq, Nat.mod_eq_of_lt hn]
    simp [Pkt_Ack, hn1]
  · rw [TFTPs_TxErr_eq s e c m hm2, Nat.mod_eq_of_lt hc]
    simp [Pkt_Error, hc1]
  · simp [Str_Octets]

set_option maxRecDepth 20000 in
/-- C21 at block 2 of the read transfer of the first client, with three
octets read, and at the Error packet "file not found". -/
theorem C21_wire_format_witness :
    ((2 : Nat) < 65536 ∧ (0 : Nat) < 65536 ∧
      (Str_Octets "file not found").length + 5 ≤ TFTPs_BUF_SIZE ∧
      (W_env 7 [1, 2, 3]).NetFS_FileRd_data.length ≤ TFTPs_BLOCK_SIZE ∧
      (W_env 7 [1, 2, 3]).NetFS_FileRd_ok = true ∧ 0 ≤ (W_env 7 [1, 2, 3]).NetSock_TxDataTo ∧
      (W_rd.TFTPs_TxBlkNbr + 1) % 65536 = 2) ∧
    (sent (TFTPs_DataRd W_rd (W_env 7 [1, 2, 3])).1.Calls
        = sent W_rd.Calls ++ [([0, 3, 0, 2, 1, 2, 3], W_peerA)] ∧
      (TFTPs_DataWrAck W_rd (W_env 7 [1, 2, 3]) 2).Calls
        = W_rd.Calls ++ [Call.NetSock_TxDataTo [0, 4, 0, 2] W_peerA] ∧
      (TFTPs_TxErr W_rd (W_env 7 [1, 2, 3]) 0 "file not found").Calls
        = W_rd.Calls ++ [Call.NetSock_TxDataTo
            [0, 5, 0, 0, 102, 105, 108, 101, 32, 110, 111, 116, 32, 102, 111, 117, 110, 100, 0]
            W_peerA]) :=
  have h := C21_wire_format W_rd (W_env 7 [1, 2, 3]) 2 0 "file not found"
    (by decide) (by decide) (by decide) (by decide) (by decide) (by decide) (by decide)
  ⟨⟨by decide, by decide, by decide, by decide, by decide, by decide, by decide⟩,
    h.1, h.2.2.1, h.2.2.2.1⟩

/-! ## C22: the transmit side stays inside the transmit buffer -/

/-- C22. When every read of the file store returns at most the 512 octets
asked for: at every loop boundary the server can reach, every packet handed
to the transport so far has at most 516 octets and so has every packet of
the next iteration; and an iteration, from any value of the variables,
leaves the memory at and after index 516 of the transmit buffer as it was,
that is, it writes the transmit buffer below index 516 only. -/
theorem C22_transmit_bounds (s : TFTPs) (rx : Rx) (e : Env) (hR : Reachable_rd_bounded s)
    (he : Env_rd_bounded e) :
    (∀ p ∈ sent s.Calls, p.1.length ≤ TFTPs_BUF_SIZE) ∧
      s.TFTPs_TxMsgLen ≤ TFTPs_BUF_SIZE ∧
      (∀ p ∈ sent (TFTPs_Task s rx e).Calls, p.1.length ≤ TFTPs_BUF_SIZE) ∧
      (∀ (t : TFTPs) (i : Nat), TFTPs_BUF_SIZE ≤ i →
        (TFTPs_Task t rx e).TFTPs_TxMsgBuf i = t.TFTPs_TxMsgBuf i) ∧
      (∀ i : Nat, TFTPs_BUF_SIZE ≤ i → s.TFTPs_TxMsgBuf i = 0) := by
  obtain ⟨cfg, net, s0, l, h0, hl, hr⟩ := hR
  subst hr
  have hI0 : TxInv s0 := TFTPs_Task_entry_TxInv cfg net s0 h0
  have hrun := TxBounded_run l s0 hl
  have hI : TxInv (run s0 l) := hrun.2 hI0
  have hT := TxBounded_Task (run s0 l) rx e he
  refine ⟨hI.2, hI.1, (hT.2 hI).2, fun t i hi => (TxBounded_Task t rx e he).1 i hi, ?_⟩
  intro i hi
  rw [hrun.1 i hi]
  simp only [TFTPs_Task_entry] at h0
  split at h0
  · exact Option.noConfusion h0
  · injection h0 with h0
    subst h0
    rfl

theorem W_rd_reachable_rd_bounded : Reachable_rd_bounded W_rd := by
  refine ⟨W_cfg, W_net, W_entry,
    [Step.rx (Rx.data W_rrq W_peerA) (W_env 7 (List.replicate 512 170))], rfl, ?_, rfl⟩
  intro x hx
  rw [List.mem_singleton.mp hx]
  show (List.replicate 512 170).length ≤ 512
  exact Nat.le_of_eq (List.length_replicate 512 170)

set_option maxRecDepth 20000 in
/-- C22 at the read transfer of the first client, when the Ack of block 1
arrives and the file store returns three more octets. -/
theorem C22_transmit_bounds_witness :
    (Reachable_rd_bounded W_rd ∧ Env_rd_bounded (W_env 7 [1, 2, 3])) ∧
    ((∀ p ∈ sent W_rd.Calls, p.1.length ≤ TFTPs_BUF_SIZE) ∧
      (∀ p ∈ sent (TFTPs_Task W_rd (Rx.data (Pkt_Ack 1) W_peerA) (W_env 7 [1, 2, 3])).Calls,
        p.1.length ≤ TFTPs_BUF_SIZE)) :=
  have he : Env_rd_bounded (W_env 7 [1, 2, 3]) := by
    show ([1, 2, 3] : List Nat).length ≤ 512
    decide
  have h := C22_transmit_bounds W_rd (Rx.data (Pkt_Ack 1) W_peerA) (W_env 7 [1, 2, 3])
    W_rd_reachable_rd_bounded he
  ⟨⟨W_rd_reachable_rd_bounded, he⟩, h.1, h.2.2.1⟩

/-! ## C23: the TID check -/

/-- C23. The TID check of `TFTPs_Task` accepts a datagram exactly when its
source is an IPv4 address (in a build with the IPv4 module) whose port and
address both equal those stored in `TFTPs_SockAddr`, or an IPv6 address (in a
build with the IPv6 module) whose address octets equal the stored ones, the
port not being compared; a source of any other family is never accepted.
During a transfer the state handler runs when the check accepts, and the
"Server BUSY" answer is given when it does not. -/
theorem C23_tid_check (s : TFTPs) (pkt : List Nat) (remote : NET_SOCK_ADDR) (e : Env) :
    (valid_tid s.Net remote s.TFTPs_SockAddr = true ↔
        (remote.AddrFamily = NET_SOCK_ADDR_FAMILY.IP_V4 ∧ s.Net.IPv4_MODULE_EN = true ∧
          remote.Port = s.TFTPs_SockAddr.Port ∧ remote.Addr = s.TFTPs_SockAddr.Addr) ∨
        (remote.AddrFamily = NET_SOCK_ADDR_FAMILY.IP_V6 ∧ s.Net.IPv6_MODULE_EN = true ∧
          remote.AddrV6 = s.TFTPs_SockAddr.AddrV6)) ∧
      (∀ n : Nat, valid_tid s.Net { remote with AddrFamily := NET_SOCK_ADDR_FAMILY.other n }
          s.TFTPs_SockAddr = false) ∧
      (∀ port : Nat, valid_tid s.Net
          { remote with AddrFamily := NET_SOCK_ADDR_FAMILY.IP_V6, Port := port } s.TFTPs_SockAddr
        = valid_tid s.Net { remote with AddrFamily := NET_SOCK_ADDR_FAMILY.IP_V6 }
            s.TFTPs_SockAddr) ∧
      TFTPs_Task_dispatch { s with TFTPs_State := TFTPs_STATE_DATA_RD } pkt remote e
        = (if valid_tid s.Net remote s.TFTPs_SockAddr = true
            then TFTPs_StateDataRd
              (TFTPs_Task_rx { s with TFTPs_State := TFTPs_STATE_DATA_RD } pkt) e
            else (TFTPs_Task_busy
              (TFTPs_Task_rx { s with TFTPs_State := TFTPs_STATE_DATA_RD } pkt) e remote,
              TFTPs_ERR.NONE)) ∧
      TFTPs_Task_dispatch { s with TFTPs_State := TFTPs_STATE_DATA_WR } pkt remote e
        = (if valid_tid s.Net remote s.TFTPs_SockAddr = true
            then TFTPs_StateDataWr
              (TFTPs_Task_rx { s with TFTPs_State := TFTPs_STATE_DATA_WR } pkt) e
            else (TFTPs_Task_busy
              (TFTPs_Task_rx { s with TFTPs_State := TFTPs_STATE_DATA_WR } pkt) e remote,
              TFTPs_ERR.NONE)) := by
  refine ⟨?_, ?_, ?_, ?_, ?_⟩
  · unfold valid_tid
    cases hf : remote.AddrFamily with
    | IP_V4 =>
      cases h4 : s.Net.IPv4_MODULE_EN <;> simp
    | IP_V6 =>
      cases h6 : s.Net.IPv6_MODULE_EN <;> simp
    | other n => simp
  · intro n
    simp [valid_tid]
  · intro port
    simp [valid_tid]
  · simp [TFTPs_Task_dispatch, TFTPs_Task_rx]
  · simp [TFTPs_Task_dispatch, TFTPs_Task_rx]

/-! ## C29: `TFTPs_Terminate` twice -/

/-- C29. From every value of the variables `TFTPs_Terminate` sets the state
to Idle, closes the file of the handle exactly when the handle is not null,
sets the handle to null and the receive time-out to infinite. A second call
right after leaves every variable as the first call left it and makes one
call only, the setting of the time-out: no second close. -/
theorem C29_terminate_idempotent (s : TFTPs) :
    (TFTPs_Terminate s).TFTPs_State = TFTPs_STATE_IDLE ∧
      (TFTPs_Terminate s).TFTPs_FileHandle = 0 ∧
      (TFTPs_Terminate s).RxQ_Timeout = none ∧
      (TFTPs_Terminate s).Calls
        = s.Calls
          ++ (if s.TFTPs_FileHandle ≠ 0 then [Call.NetFS_FileClose s.TFTPs_FileHandle] else [])
          ++ [Call.NetSock_CfgTimeoutRxQ_Set none] ∧
      TFTPs_Terminate (TFTPs_Terminate s)
        = { TFTPs_Terminate s with
            Calls := (TFTPs_Terminate s).Calls ++ [Call.NetSock_CfgTimeoutRxQ_Set none] } ∧
      fileCalls (TFTPs_Terminate (TFTPs_Terminate s)).Calls
        = fileCalls (TFTPs_Terminate s).Calls := by
  have h2 : TFTPs_Terminate (TFTPs_Terminate s)
      = { TFTPs_Terminate s with
          Calls := (TFTPs_Terminate s).Calls ++ [Call.NetSock_CfgTimeoutRxQ_Set none] } := by
    rw [TFTPs_Terminate_eq (TFTPs_Terminate s), TFTPs_Terminate_eq s]
    simp
  refine ⟨?_, ?_, ?_, ?_, h2, ?_⟩
  · rw [TFTPs_Terminate_eq]
  · rw [TFTPs_Terminate_eq]
  · rw [TFTPs_Terminate_eq]
  · rw [TFTPs_Terminate_eq]
  · rw [h2]
    simp [fileCalls_append, fileCalls]

/-! ## C24: disabling and enabling the server -/

theorem msg_len_disabled :
    (Str_Octets "Transaction denied, Server DISABLED").length + 5 < 65536 := by
  decide

theorem Task_disabled (s : TFTPs) (pkt : List Nat) (remote : NET_SOCK_ADDR) (e : Env)
    (hEn : s.TFTPs_ServerEn = false) :
    TFTPs_Task s (Rx.data pkt remote) e =
      { s with
        TFTPs_RxMsgBuf := Rx_buf s.TFTPs_RxMsgBuf pkt
        TFTPs_RxMsgLen := ((pkt.take TFTPs_BUF_SIZE).length : Int)
        TFTPs_RxMsgCtr := (s.TFTPs_RxMsgCtr + 1) % 4294967296
        TFTPs_TxMsgBuf := TxErr_buf s.TFTPs_TxMsgBuf 0 "Transaction denied, Server DISABLED"
        Calls := s.Calls ++ [Call.NetSock_TxDataTo
          (Pkt_Error 0 "Transaction denied, Server DISABLED") s.TFTPs_SockAddr] } := by
  simp only [TFTPs_Task, hEn]
  rw [if_pos (by simp), TFTPs_TxErr_eq _ e 0 _ msg_len_disabled]

/-- C24. After `TFTPs_Dis` the state is Idle, the file handle is null, the
server is disabled, and the calls made are the close of the file of the
handle, if the handle was not null, and the setting of the infinite
time-out; from a loop boundary with no file open other than the one of the
handle, no file is open afterwards. A datagram received while the server is
disabled is answered with the Error packet "Transaction denied, Server
DISABLED" and nothing else: no call of the file store, state, file handle
and enable flag unchanged; at every loop boundary the server can reach
while disabled the state is Idle, so it stays Idle. After `TFTPs_En` the
server is enabled with the state Idle, and the next datagram is handled by
`TFTPs_StateIdle`. -/
theorem C24_disable_enable (s : TFTPs) (pkt : List Nat) (remote : NET_SOCK_ADDR) (e : Env) :
    ((TFTPs_Dis s).TFTPs_State = TFTPs_STATE_IDLE ∧
      (TFTPs_Dis s).TFTPs_FileHandle = 0 ∧
      (TFTPs_Dis s).TFTPs_ServerEn = false ∧
      (TFTPs_Dis s).Calls
        = s.Calls
          ++ (if s.TFTPs_FileHandle ≠ 0 then [Call.NetFS_FileClose s.TFTPs_FileHandle] else [])
          ++ [Call.NetSock_CfgTimeoutRxQ_Set none] ∧
      (FilesInv s → openFiles (TFTPs_Dis s).Calls = [])) ∧
    (s.TFTPs_ServerEn = false →
      (TFTPs_Task s (Rx.data pkt remote) e).Calls
        = s.Calls ++ [Call.NetSock_TxDataTo
            (Pkt_Error 0 "Transaction denied, Server DISABLED") s.TFTPs_SockAddr] ∧
      fileCalls (TFTPs_Task s (Rx.data pkt remote) e).Calls = fileCalls s.Calls ∧
      (TFTPs_Task s (Rx.data pkt remote) e).TFTPs_State = s.TFTPs_State ∧
      (TFTPs_Task s (Rx.data pkt remote) e).TFTPs_FileHandle = s.TFTPs_FileHandle ∧
      (TFTPs_Task s (Rx.data pkt remote) e).TFTPs_ServerEn = false ∧
      (Reachable s → s.TFTPs_State = TFTPs_STATE_IDLE ∧
        (TFTPs_Task s (Rx.data pkt remote) e).TFTPs_State = TFTPs_STATE_IDLE)) ∧
    ((TFTPs_En s).TFTPs_ServerEn = true ∧
      (TFTPs_En s).TFTPs_State = TFTPs_STATE_IDLE ∧
      TFTPs_Task_dispatch (TFTPs_En s) pkt remote e
        = TFTPs_StateIdle { TFTPs_Task_rx (TFTPs_En s) pkt with TFTPs_SockAddr := remote } e ∧
      TFTPs_Task (TFTPs_En s) (Rx.data pkt remote) e
        = (if (TFTPs_StateIdle
                { TFTPs_Task_rx (TFTPs_En s) pkt with TFTPs_SockAddr := remote } e).2
              ≠ TFTPs_ERR.NONE
          then TFTPs_Terminate (TFTPs_StateIdle
                { TFTPs_Task_rx (TFTPs_En s) pkt with TFTPs_SockAddr := remote } e).1
          else (TFTPs_StateIdle
                { TFTPs_Task_rx (TFTPs_En s) pkt with TFTPs_SockAddr := remote } e).1)) := by
  have hD : TFTPs_Dis s = TFTPs_Terminate { s with TFTPs_ServerEn := false } := rfl
  have hdisp : TFTPs_Task_dispatch (TFTPs_En s) pkt remote e
      = TFTPs_StateIdle { TFTPs_Task_rx (TFTPs_En s) pkt with TFTPs_SockAddr := remote } e := by
    simp [TFTPs_Task_dispatch, TFTPs_Task_rx, TFTPs_En]
  refine ⟨⟨?_, ?_, ?_, ?_, ?_⟩, ?_, rfl, rfl, hdisp, ?_⟩
  · rw [hD, TFTPs_Terminate_eq]
  · rw [hD, TFTPs_Terminate_eq]
  · rw [hD, TFTPs_Terminate_eq]
  · rw [hD, TFTPs_Terminate_eq]
  · intro hF
    rw [hD]
    exact HandleInv_Terminate _ (HandleInv_of_FilesInv s hF)
  · intro hEn
    rw [Task_disabled s pkt remote e hEn]
    refine ⟨rfl, ?_, rfl, rfl, hEn, ?_⟩
    · simp [fileCalls_append, fileCalls]
    · intro hR
      have h0 : s.TFTPs_State = TFTPs_STATE_IDLE := by
        by_contra hc
        rw [Reachable_enabled s hR hc] at hEn
        exact Bool.noConfusion hEn
      exact ⟨h0, h0⟩
  · rw [TFTPs_Task_enabled (TFTPs_En s) pkt remote e rfl, hdisp]

theorem W_wr_FilesInv : FilesInv W_wr :=
  ⟨by decide, fun _ => by decide⟩

theorem W_wr_dis_reachable : Reachable (TFTPs_Dis W_wr) :=
  ⟨W_cfg, W_net, W_entry, [Step.rx (Rx.data W_wrq W_peerA) (W_env 7 []), Step.dis], rfl, rfl⟩

set_option maxRecDepth 20000 in
/-- C24 at the write transfer of the first client: the server is disabled
during the transfer, the second client then sends a read request, the server
is enabled again. -/
theorem C24_disable_enable_witness :
    (FilesInv W_wr ∧ (TFTPs_Dis W_wr).TFTPs_ServerEn = false ∧ Reachable (TFTPs_Dis W_wr)) ∧
    ((TFTPs_Dis W_wr).TFTPs_State = TFTPs_STATE_IDLE ∧
      (TFTPs_Dis W_wr).TFTPs_FileHandle = 0 ∧
      openFiles (TFTPs_Dis W_wr).Calls = [] ∧
      fileCalls (TFTPs_Task (TFTPs_Dis W_wr) (Rx.data W_rrq W_peerB) (W_env 8 W_file10)).Calls
        = fileCalls (TFTPs_Dis W_wr).Calls ∧
      (TFTPs_Task (TFTPs_Dis W_wr) (Rx.data W_rrq W_peerB) (W_env 8 W_file10)).TFTPs_State
        = TFTPs_STATE_IDLE ∧
      (TFTPs_En (TFTPs_Dis W_wr)).TFTPs_ServerEn = true ∧
      (TFTPs_En (TFTPs_Dis W_wr)).TFTPs_State = TFTPs_STATE_IDLE) :=
  have h1 := C24_disable_enable W_wr W_rrq W_peerB (W_env 8 W_file10)
  have h2 := C24_disable_enable (TFTPs_Dis W_wr) W_rrq W_peerB (W_env 8 W_file10)
  have h3 := h2.2.1 (by decide)
  ⟨⟨W_wr_FilesInv, by decide, W_wr_dis_reachable⟩,
    h1.1.1, h1.1.2.1, h1.1.2.2.2.2 W_wr_FilesInv, h3.2.1,
    (h3.2.2.2.2.2 W_wr_dis_reachable).2, h2.2.2.1, h2.2.2.2.1⟩

/-! ## C25, C26: the result of `TFTPs_Init` -/

theorem TFTPs_TaskInit_cases (tc : TFTPs_TASK_CFG) (k : KalEnv) :
    (k.KAL_TaskAlloc = KAL_ERR.NONE ∧ k.KAL_TaskCreate = KAL_ERR.NONE ∧
        TFTPs_TaskInit tc k = (TFTPs_ERR.NONE,
          [KalCall.KAL_TaskAlloc tc.StkPtr tc.StkSizeBytes, KalCall.KAL_TaskCreate tc.Prio])) ∨
      (k.KAL_TaskAlloc = KAL_ERR.NONE ∧ k.KAL_TaskCreate ≠ KAL_ERR.NONE ∧
        TFTPs_TaskInit tc k = (TFTPs_ERR.INIT_TASK_CREATE,
          [KalCall.KAL_TaskAlloc tc.StkPtr tc.StkSizeBytes, KalCall.KAL_TaskCreate tc.Prio])) ∨
      (k.KAL_TaskAlloc = KAL_ERR.INVALID_ARG ∧
        TFTPs_TaskInit tc k = (TFTPs_ERR.INIT_TASK_INVALID_ARG,
          [KalCall.KAL_TaskAlloc tc.StkPtr tc.StkSizeBytes])) ∨
      (k.KAL_TaskAlloc ≠ KAL_ERR.NONE ∧ k.KAL_TaskAlloc ≠ KAL_ERR.INVALID_ARG ∧
        TFTPs_TaskInit tc k = (TFTPs_ERR.INIT_TASK_MEM_ALLOC,
          [KalCall.KAL_TaskAlloc tc.StkPtr tc.StkSizeBytes])) := by
  unfold TFTPs_TaskInit
  cases h1 : k.KAL_TaskAlloc <;> cases h2 : k.KAL_TaskCreate <;> simp

theorem SockSel_served_cases (net : NetCfg) (cfg : TFTPs_CFG) :
    (SockSel_served net cfg = true → TFTPs_Init_SockSel net cfg.SockSel = true) ∧
      (cfg.SockSel = TFTPs_SOCK_SEL.IPv4_IPv6 → SockSel_served net cfg = false) ∧
      (cfg.SockSel = TFTPs_SOCK_SEL.IPv4_IPv6 → net.IPv4_MODULE_EN = true →
        net.IPv6_MODULE_EN = true → TFTPs_Init_SockSel net cfg.SockSel = true) ∧
      (SockSel_served net cfg = false →
        ¬ (cfg.SockSel = TFTPs_SOCK_SEL.IPv4_IPv6 ∧ net.IPv4_MODULE_EN = true ∧
            net.IPv6_MODULE_EN = true) →
        TFTPs_Init_SockSel net cfg.SockSel = false) := by
  cases hsel : cfg.SockSel <;> cases h4 : net.IPv4_MODULE_EN <;>
    cases h6 : net.IPv6_MODULE_EN <;>
    simp [SockSel_served, TFTPs_Task_entry, TFTPs_Init_SockSel, hsel, h4, h6]

theorem TFTPs_Init_returns (bld : BuildCfg) (net : NetCfg)
    (p_cfg : Option TFTPs_CFG) (p_task_cfg : Option TFTPs_TASK_CFG) (k : KalEnv)
    (r : InitResult) (hr : TFTPs_Init bld net p_cfg p_task_cfg k = some r) :
    (r.result = DEF_OK ↔ r.p_err = TFTPs_ERR.NONE) := by
  unfold TFTPs_Init at hr
  dsimp only at hr
  split_ifs at hr with h1 h2
  · injection hr with hr
    subst hr
    simp
  · injection hr with hr
    subst hr
    simp
  · cases p_cfg with
    | none => exact Option.noConfusion hr
    | some c =>
      dsimp only at hr
      split_ifs at hr with h3
      · injection hr with hr
        subst hr
        simp
      · cases p_task_cfg with
        | none => exact Option.noConfusion hr
        | some t =>
          dsimp only at hr
          split_ifs at hr with h4
          · injection hr with hr
            subst hr
            simpa using h4
          · injection hr with hr
            subst hr
            simp

theorem TFTPs_Init_cases (bld : BuildCfg) (net : NetCfg) (cfg : TFTPs_CFG)
    (tc : TFTPs_TASK_CFG) (k : KalEnv) :
    ∃ r, TFTPs_Init bld net (some cfg) (some tc) k = some r ∧
      (TFTPs_Init_SockSel net cfg.SockSel = false →
        r.result = DEF_FAIL ∧ r.p_err = TFTPs_ERR.CFG_INVALID_SOCK_FAMILY ∧ r.Calls = []) ∧
      (TFTPs_Init_SockSel net cfg.SockSel = true →
        r.p_err = (TFTPs_TaskInit tc k).1 ∧ r.Calls = (TFTPs_TaskInit tc k).2 ∧
        (k.KAL_TaskAlloc = KAL_ERR.INVALID_ARG →
          r.result = DEF_FAIL ∧ r.p_err = TFTPs_ERR.INIT_TASK_INVALID_ARG ∧
          r.Calls = [KalCall.KAL_TaskAlloc tc.StkPtr tc.StkSizeBytes]) ∧
        (k.KAL_TaskAlloc ≠ KAL_ERR.NONE → k.KAL_TaskAlloc ≠ KAL_ERR.INVALID_ARG →
          r.result = DEF_FAIL ∧ r.p_err = TFTPs_ERR.INIT_TASK_MEM_ALLOC ∧
          r.Calls = [KalCall.KAL_TaskAlloc tc.StkPtr tc.StkSizeBytes]) ∧
        (k.KAL_TaskAlloc = KAL_ERR.NONE → k.KAL_TaskCreate ≠ KAL_ERR.NONE →
          r.result = DEF_FAIL ∧ r.p_err = TFTPs_ERR.INIT_TASK_CREATE) ∧
        (k.KAL_TaskAlloc = KAL_ERR.NONE → k.KAL_TaskCreate = KAL_ERR.NONE →
          r.result = DEF_OK ∧ r.p_err = TFTPs_ERR.NONE ∧
          r.Calls = [KalCall.KAL_TaskAlloc tc.StkPtr tc.StkSizeBytes,
                     KalCall.KAL_TaskCreate tc.Prio])) := by
  cases hS2 : TFTPs_Init_SockSel net cfg.SockSel with
  | true =>
    rcases TFTPs_TaskInit_cases tc k with ⟨a, b, hT⟩ | ⟨a, b, hT⟩ | ⟨a, hT⟩ | ⟨a, b, hT⟩
    · refine ⟨{ result := DEF_OK, p_err := TFTPs_ERR.NONE, Calls := (TFTPs_TaskInit tc k).2,
                TFTPs_CfgPtr := some cfg }, ?_, ?_, ?_⟩
      · simp [TFTPs_Init, hS2, hT]
      · intro hc
        exact Bool.noConfusion hc
      · intro _
        simp [hT, a, b]
    · refine ⟨{ result := DEF_FAIL, p_err := TFTPs_ERR.INIT_TASK_CREATE,
                Calls := (TFTPs_TaskInit tc k).2, TFTPs_CfgPtr := some cfg }, ?_, ?_, ?_⟩
      · simp [TFTPs_Init, hS2, hT]
      · intro hc
        exact Bool.noConfusion hc
      · intro _
        simp [hT, a, b]
    · refine ⟨{ result := DEF_FAIL, p_err := TFTPs_ERR.INIT_TASK_INVALID_ARG,
                Calls := (TFTPs_TaskInit tc k).2, TFTPs_CfgPtr := some cfg }, ?_, ?_, ?_⟩
      · simp [TFTPs_Init, hS2, hT]
      · intro hc
        exact Bool.noConfusion hc
      · intro _
        simp [hT, a]
    · refine ⟨{ result := DEF_FAIL, p_err := TFTPs_ERR.INIT_TASK_MEM_ALLOC,
                Calls := (TFTPs_TaskInit tc k).2, TFTPs_CfgPtr := some cfg }, ?_, ?_, ?_⟩
      · simp [TFTPs_Init, hS2, hT]
      · intro hc
        exact Bool.noConfusion hc
      · intro _
        simp [hT, a, b]
  | false =>
    refine ⟨{ result := DEF_FAIL, p_err := TFTPs_ERR.CFG_INVALID_SOCK_FAMILY, Calls := [],
              TFTPs_CfgPtr := none }, ?_, ?_, ?_⟩
    · simp [TFTPs_Init, hS2]
    · intro _
      simp
    · intro hc
      exact Bool.noConfusion hc

/-- C25 (a selection the server does not serve passes `TFTPs_Init`): every
call of `TFTPs_Init` that returns gives `DEF_OK` exactly when it stored
`TFTPs_ERR_NONE` in `*p_err`. With pointers that are not null the call
returns. When the switch on the selection is passed, the error is the one of
`TFTPs_TaskInit`: `INIT_TASK_INVALID_ARG` or `INIT_TASK_MEM_ALLOC` with
`DEF_FAIL` when the allocation fails (the task is not created),
`INIT_TASK_CREATE` with `DEF_FAIL` when the creation fails, `DEF_OK` when
both succeed. A selection that the task does not serve is refused with
`TFTPs_ERR_CFG_INVALID_SOCK_FAMILY` and no call to allocate or create the
task, with one exception: `TFTPs_SOCK_SEL_IPv4_IPv6` in a build with both
modules. The task never serves that selection (`TFTPs_Task` goes to "Init
error, Socket IP family"), but `TFTPs_Init` passes it on to `TFTPs_TaskInit`:
with the template task configuration and a kernel that creates the task, it
returns `DEF_OK` with `TFTPs_ERR_NONE` and the task is created. -/
theorem C25_init_accepts_unserved_selection :
    (∀ (bld : BuildCfg) (net : NetCfg) (p_cfg : Option TFTPs_CFG)
        (p_task_cfg : Option TFTPs_TASK_CFG) (k : KalEnv) (r : InitResult),
        TFTPs_Init bld net p_cfg p_task_cfg k = some r →
        (r.result = DEF_OK ↔ r.p_err = TFTPs_ERR.NONE)) ∧
    (∀ (bld : BuildCfg) (net : NetCfg) (cfg : TFTPs_CFG) (tc : TFTPs_TASK_CFG) (k : KalEnv),
      ∃ r, TFTPs_Init bld net (some cfg) (some tc) k = some r ∧
        (SockSel_served net cfg = false →
          ¬ (cfg.SockSel = TFTPs_SOCK_SEL.IPv4_IPv6 ∧ net.IPv4_MODULE_EN = true ∧
              net.IPv6_MODULE_EN = true) →
          r.result = DEF_FAIL ∧ r.p_err = TFTPs_ERR.CFG_INVALID_SOCK_FAMILY ∧ r.Calls = []) ∧
        (SockSel_served net cfg = true ∨
            (cfg.SockSel = TFTPs_SOCK_SEL.IPv4_IPv6 ∧ net.IPv4_MODULE_EN = true ∧
              net.IPv6_MODULE_EN = true) →
          r.p_err = (TFTPs_TaskInit tc k).1 ∧ r.Calls = (TFTPs_TaskInit tc k).2 ∧
          (k.KAL_TaskAlloc = KAL_ERR.INVALID_ARG →
            r.result = DEF_FAIL ∧ r.p_err = TFTPs_ERR.INIT_TASK_INVALID_ARG ∧
            r.Calls = [KalCall.KAL_TaskAlloc tc.StkPtr tc.StkSizeBytes]) ∧
          (k.KAL_TaskAlloc ≠ KAL_ERR.NONE → k.KAL_TaskAlloc ≠ KAL_ERR.INVALID_ARG →
            r.result = DEF_FAIL ∧ r.p_err = TFTPs_ERR.INIT_TASK_MEM_ALLOC ∧
            r.Calls = [KalCall.KAL_TaskAlloc tc.StkPtr tc.StkSizeBytes]) ∧
          (k.KAL_TaskAlloc = KAL_ERR.NONE → k.KAL_TaskCreate ≠ KAL_ERR.NONE →
            r.result = DEF_FAIL ∧ r.p_err = TFTPs_ERR.INIT_TASK_CREATE) ∧
          (k.KAL_TaskAlloc = KAL_ERR.NONE → k.KAL_TaskCreate = KAL_ERR.NONE →
            r.result = DEF_OK ∧ r.p_err = TFTPs_ERR.NONE ∧
            r.Calls = [KalCall.KAL_TaskAlloc tc.StkPtr tc.StkSizeBytes,
                       KalCall.KAL_TaskCreate tc.Prio]))) ∧
    (∀ (net : NetCfg) (cfg : TFTPs_CFG),
      cfg.SockSel = TFTPs_SOCK_SEL.IPv4_IPv6 →
        SockSel_served net cfg = false ∧ TFTPs_Task_entry cfg net = none) ∧
    SockSel_served W_net_dual { W_cfg with SockSel := TFTPs_SOCK_SEL.IPv4_IPv6 } = false ∧
    TFTPs_Init W_build W_net_dual (some { W_cfg with SockSel := TFTPs_SOCK_SEL.IPv4_IPv6 })
        (some W_task_cfg) W_kal
      = some { result := DEF_OK, p_err := TFTPs_ERR.NONE,
               Calls := [KalCall.KAL_TaskAlloc 0 512, KalCall.KAL_TaskCreate 20],
               TFTPs_CfgPtr := some { W_cfg with SockSel := TFTPs_SOCK_SEL.IPv4_IPv6 } } ∧
    SockSel_served W_net W_cfg = true ∧
    SockSel_served W_net { W_cfg with SockSel := TFTPs_SOCK_SEL.IPv6 } = false ∧
    TFTPs_Init W_build W_net (some { W_cfg with SockSel := TFTPs_SOCK_SEL.IPv6 })
        (some W_task_cfg) W_kal
      = some { result := DEF_FAIL, p_err := TFTPs_ERR.CFG_INVALID_SOCK_FAMILY, Calls := [],
               TFTPs_CfgPtr := none } := by
  refine ⟨fun bld net p_cfg p_task_cfg k r hr => TFTPs_Init_returns bld net p_cfg p_task_cfg k r hr,
    ?_, ?_, by decide, by decide, by decide, by decide, by decide⟩
  · intro bld net cfg tc k
    obtain ⟨r, hr, hF, hT⟩ := TFTPs_Init_cases bld net cfg tc k
    have hc := SockSel_served_cases net cfg
    refine ⟨r, hr, ?_, ?_⟩
    · intro h1 h2
      exact hF (hc.2.2.2 h1 h2)
    · intro h
      rcases h with h | ⟨h1, h2, h3⟩
      · exact hT (hc.1 h)
      · exact hT (hc.2.2.1 h1 h2 h3)
  · intro net cfg hsel
    have h := (SockSel_served_cases net cfg).2.1 hsel
    refine ⟨h, ?_⟩
    simpa [SockSel_served] using h

/-- C26 (the null-pointer check is compiled out when it is configured in):
the condition that guards the check reads
`#if (TFTPs_CFG_ARG_CHK_EXT_EN == DEF_ENABELD)`; no header defines
`DEF_ENABELD`, so it evaluates to 0 and the condition is false when
`TFTPs_CFG_ARG_CHK_EXT_EN` is `DEF_ENABLED` (1), as in the template. With a
null `p_cfg` the function then goes on to `p_cfg->SockSel`, with a null
`p_task_cfg` (and a supported selection) `TFTPs_TaskInit` reads
`p_task_cfg->StkPtr`: a null pointer is dereferenced and no
`TFTPs_ERR_NULL_PTR` is returned. With a selection that the build does not
support and a null `p_task_cfg` the error is
`TFTPs_ERR_CFG_INVALID_SOCK_FAMILY`. The check is compiled in, and returns
`DEF_FAIL` with `TFTPs_ERR_NULL_PTR`, when the switch is `DEF_DISABLED`. -/
theorem C26_null_pointer_unchecked :
    W_build.TFTPs_CFG_ARG_CHK_EXT_EN = DEF_ENABLED ∧
      TFTPs_Init W_build W_net none (some W_task_cfg) W_kal = none ∧
      TFTPs_Init W_build W_net (some W_cfg) none W_kal = none ∧
      TFTPs_Init W_build W_net none none W_kal = none ∧
      TFTPs_Init W_build W_net (some { W_cfg with SockSel := TFTPs_SOCK_SEL.IPv6 }) none W_kal
        = some { result := DEF_FAIL, p_err := TFTPs_ERR.CFG_INVALID_SOCK_FAMILY, Calls := [],
                 TFTPs_CfgPtr := none } ∧
      TFTPs_Init { W_build with TFTPs_CFG_ARG_CHK_EXT_EN := DEF_DISABLED } W_net none
          (some W_task_cfg) W_kal
        = some { result := DEF_FAIL, p_err := TFTPs_ERR.NULL_PTR, Calls := [],
                 TFTPs_CfgPtr := none } ∧
      TFTPs_Init { W_build with TFTPs_CFG_ARG_CHK_EXT_EN := DEF_DISABLED } W_net (some W_cfg)
          none W_kal
        = some { result := DEF_FAIL, p_err := TFTPs_ERR.NULL_PTR, Calls := [],
                 TFTPs_CfgPtr := none } := by
  decide

/-! ## C27, C28: the receive time-out at the loop boundary -/

theorem W_idle_abc_reachable : Reachable W_idle_abc :=
  ⟨W_cfg, W_net, W_entry, _, rfl, rfl⟩

theorem W_wr_done_reachable : Reachable W_wr_done :=
  ⟨W_cfg, W_net, W_entry,
    [Step.rx (Rx.data W_wrq W_peerA) (W_env 7 []),
     Step.rx (Rx.data (Pkt_Data 1 [65, 66, 67]) W_peerA) (W_env 0 [])], rfl, rfl⟩

theorem W_rd_reachable : Reachable W_rd :=
  ⟨W_cfg, W_net, W_entry, _, rfl, rfl⟩

set_option maxRecDepth 20000 in
/-- C27 (the time-out stays finite after a transfer completed): the first
client reads a file of ten octets, or writes a file of three octets. The
short block ends the transfer inside `TFTPs_DataRd` / `TFTPs_DataWr`, which
set the state to Idle and leave the receive time-out alone: at the next
blocking receive the state is Idle and the time-out is the inactivity time
of the configuration (5000), set by `TFTPs_StateIdle` when it accepted the
request, not infinite. The receive error that the expiry of this time-out
produces then runs `TFTPs_Terminate`, which sets the time-out to infinite and
closes the file of the stale handle once more. -/
theorem C27_timeout_after_short_block :
    Reachable W_idle_abc ∧ Reachable W_wr_done ∧
      W_idle_abc.TFTPs_State = TFTPs_STATE_IDLE ∧
      W_idle_abc.RxQ_Timeout = some W_cfg.RxTimeoutMax ∧
      W_idle_abc.RxQ_Timeout ≠ none ∧
      W_wr_done.TFTPs_State = TFTPs_STATE_IDLE ∧
      W_wr_done.RxQ_Timeout = some W_cfg.RxTimeoutMax ∧
      W_wr_done.RxQ_Timeout ≠ none ∧
      fileCalls W_wr_done.Calls
        = [Call.NetFS_FileOpen [97] TFTPs_FILE_OPEN_WR 7, Call.NetFS_FileWr 7 [65, 66, 67],
           Call.NetFS_FileClose 7] ∧
      (TFTPs_Task W_wr_done Rx.err (W_env 0 [])).RxQ_Timeout = none ∧
      fileCalls (TFTPs_Task W_wr_done Rx.err (W_env 0 [])).Calls
        = fileCalls W_wr_done.Calls ++ [Call.NetFS_FileClose 7] :=
  ⟨W_idle_abc_reachable, W_wr_done_reachable, by decide⟩

set_option maxRecDepth 20000 in
/-- C28 fails as stated: the configuration sets `RxTimeoutMax` to the value
of `NET_TMR_TIME_INFINITE` (here the largest 32-bit number). The first
client starts a read transfer; `TFTPs_StateIdle` passes the configured value
to `NetSock_CfgTimeoutRxQ_Set` as it is, so during the transfer the socket
waits without a bound. -/
theorem C28_counterexample :
    Reachable W_rd_inf ∧
      W_rd_inf.TFTPs_State = TFTPs_STATE_DATA_RD ∧
      W_rd_inf.Cfg.RxTimeoutMax = W_inf ∧
      W_rd_inf.RxQ_Timeout = some W_rd_inf.Cfg.RxTimeoutMax ∧
      Timeout_ms W_inf W_rd_inf.RxQ_Timeout = W_inf ∧
      Timeout_infinite W_inf W_rd_inf.RxQ_Timeout :=
  ⟨⟨W_cfg_inf, W_net, (TFTPs_Task_entry W_cfg_inf W_net).get rfl, _, rfl, rfl⟩, by decide⟩

/-- C28, amended. At every loop boundary the server can reach, when the
state is TransferRead or TransferWrite the receive time-out on the socket is
the one set with the `RxTimeoutMax` of the configuration: the number the
socket was given is that value, and the wait is without a bound exactly when
the configured value is the value `inf` of `NET_TMR_TIME_INFINITE`. -/
theorem C28_timeout_during_transfer (inf : Nat) (s : TFTPs) (hR : Reachable s)
    (hS : s.TFTPs_State = TFTPs_STATE_DATA_RD ∨ s.TFTPs_State = TFTPs_STATE_DATA_WR) :
    s.RxQ_Timeout = some s.Cfg.RxTimeoutMax ∧
      Timeout_ms inf s.RxQ_Timeout = s.Cfg.RxTimeoutMax ∧
      (Timeout_infinite inf s.RxQ_Timeout ↔ s.Cfg.RxTimeoutMax = inf) := by
  have hne : s.TFTPs_State ≠ TFTPs_STATE_IDLE := by
    rcases hS with hS | hS <;> simp [hS]
  have h := TimeoutInv_Reachable s hR hne
  refine ⟨h, ?_, ?_⟩
  · rw [h]
    rfl
  · unfold Timeout_infinite
    rw [h]
    exact Iff.rfl

set_option maxRecDepth 20000 in
/-- C28 (amended) at the read transfer of the first client with the template
configuration: the time-out is 5000 ms, not the infinite one. -/
theorem C28_timeout_during_transfer_witness :
    (Reachable W_rd ∧ W_rd.TFTPs_State = TFTPs_STATE_DATA_RD) ∧
    (W_rd.RxQ_Timeout = some W_rd.Cfg.RxTimeoutMax ∧
      Timeout_ms W_inf W_rd.RxQ_Timeout = W_rd.Cfg.RxTimeoutMax ∧
      (Timeout_infinite W_inf W_rd.RxQ_Timeout ↔ W_rd.Cfg.RxTimeoutMax = W_inf)) ∧
    W_rd.Cfg.RxTimeoutMax = 5000 ∧ ¬ Timeout_infinite W_inf W_rd.RxQ_Timeout :=
  ⟨⟨W_rd_reachable, by decide⟩,
    C28_timeout_during_transfer W_inf W_rd W_rd_reachable (Or.inl (by decide)),
    by decide, by decide⟩
/-! ## C30: the open file during a transfer -/

/-- C30. At every loop boundary that the server reaches from the loop entry
by datagrams and receive errors, when the state is TransferRead or
TransferWrite exactly one file is open: the handles opened and not closed
since are the one handle in `TFTPs_FileHandle`, which is not null. -/
theorem C30_one_open_file (s : TFTPs) (hR : Reachable_rx s)
    (hS : s.TFTPs_State = TFTPs_STATE_DATA_RD ∨ s.TFTPs_State = TFTPs_STATE_DATA_WR) :
    s.TFTPs_FileHandle ≠ 0 ∧ openFiles s.Calls = [s.TFTPs_FileHandle] := by
  have hne : s.TFTPs_State ≠ TFTPs_STATE_IDLE := by
    rcases hS with hS | hS <;> simp [hS]
  exact (FilesInv_Reachable_rx s hR).2 hne

set_option maxRecDepth 20000 in
/-- C30 at the read transfer of the first client. -/
theorem C30_one_open_file_witness :
    (Reachable_rx W_rd ∧ W_rd.TFTPs_State = TFTPs_STATE_DATA_RD) ∧
    (W_rd.TFTPs_FileHandle ≠ 0 ∧ openFiles W_rd.Calls = [W_rd.TFTPs_FileHandle]) :=
  have hR : Reachable_rx W_rd :=
    ⟨W_cfg, W_net, W_entry, [Step.rx (Rx.data W_rrq W_peerA) (W_env 7 (List.replicate 512 170))],
      rfl, by decide, rfl⟩
  ⟨⟨hR, by decide⟩, C30_one_open_file W_rd hR (Or.inl (by decide))⟩

/-! ## The error code of the Error packets across the handlers -/

theorem bufRead_getD (b : Buf) (off n i : Nat) :
    (bufRead b off n).getD i 0 = if i < n then b (off + i) else 0 := by
  by_cases h : i < n
  · have h2 : i < (bufRead b off n).length := by simpa [bufRead] using h
    rw [List.getD_eq_getElem _ 0 h2]
    simp [bufRead, h]
  · have h2 : (bufRead b off n).length ≤ i := by
      simp [bufRead]
      omega
    rw [List.getD_eq_default _ 0 h2]
    simp [h]

theorem Dgram_OpCode_data (b : Buf) (blk len : Nat) :
    Dgram_OpCode (bufRead (wr16 (wr16 b 0 (TFTP_OPCODE_DATA % 65536)) 2 blk) 0 len)
      ≠ TFTP_OPCODE_ERR := by
  unfold Dgram_OpCode
  rw [bufRead_getD, bufRead_getD]
  have h0 : wr16 (wr16 b 0 (TFTP_OPCODE_DATA % 65536)) 2 blk (0 + 0) = 0 := by
    simp [wr16, bufWrite]
  have h1 : wr16 (wr16 b 0 (TFTP_OPCODE_DATA % 65536)) 2 blk (0 + 1) = 3 := by
    simp [wr16, bufWrite]
  rw [h0, h1]
  split_ifs <;> simp

theorem ErrCode0_refl (s : TFTPs) : ErrCode0 s s :=
  ⟨[], by simp, fun p hp => by simp at hp⟩

theorem ErrCode0_trans (s t u : TFTPs) (h1 : ErrCode0 s t) (h2 : ErrCode0 t u) :
    ErrCode0 s u := by
  obtain ⟨l1, e1, p1⟩ := h1
  obtain ⟨l2, e2, p2⟩ := h2
  refine ⟨l1 ++ l2, ?_, ?_⟩
  · rw [e2, e1, List.append_assoc]
  · intro p hp
    rcases List.mem_append.mp hp with h | h
    · exact p1 p h
    · exact p2 p h

theorem ErrCode0_upd (s u : TFTPs) (h : ErrCode0 s u) (v : TFTPs)
    (hc : sent v.Calls = sent u.Calls) : ErrCode0 s v := by
  obtain ⟨l, e1, p1⟩ := h
  exact ⟨l, by rw [hc, e1], p1⟩

theorem ErrCode0_TxErr (s : TFTPs) (e : Env) (m : String)
    (hm : (Str_Octets m).length + 5 ≤ 516) : ErrCode0 s (TFTPs_TxErr s e 0 m) := by
  rw [TFTPs_TxErr_eq s e 0 m (by omega)]
  refine ⟨[(Pkt_Error 0 m, s.TFTPs_SockAddr)], by simp [sent_append, sent], ?_⟩
  intro p hp _
  simp at hp
  rw [hp]
  simp [Dgram_ErrCode, Pkt_Error]

theorem ErrCode0_DataWrAck (s : TFTPs) (e : Env) (n : Nat) :
    ErrCode0 s (TFTPs_DataWrAck s e n) := by
  rw [TFTPs_DataWrAck_eq]
  refine ⟨[(Pkt_Ack (n % 65536), s.TFTPs_SockAddr)], by simp [sent_append, sent], ?_⟩
  intro p hp hop
  simp at hp
  rw [hp] at hop
  simp [Dgram_OpCode, Pkt_Ack] at hop

theorem ErrCode0_Tx_data (s : TFTPs) (e : Env) (blk len : Nat) :
    ErrCode0 s (TFTPs_Tx s e TFTP_OPCODE_DATA blk len).1 := by
  refine ⟨[(bufRead (wr16 (wr16 s.TFTPs_TxMsgBuf 0 (TFTP_OPCODE_DATA % 65536)) 2 (blk % 65536))
      0 (len % 65536), s.TFTPs_SockAddr)], by simp [TFTPs_Tx, sent_append, sent], ?_⟩
  intro p hp hop
  simp only [List.mem_singleton] at hp
  rw [hp] at hop
  exact absurd hop (Dgram_OpCode_data _ _ _)

theorem ErrCode0_FileClose (s : TFTPs) : ErrCode0 s (NetFS_FileClose s) :=
  ErrCode0_upd _ _ (ErrCode0_refl s) _ (by simp [NetFS_FileClose, sent_append, sent])

theorem ErrCode0_timeout (s : TFTPs) (t : Timeout) :
    ErrCode0 s (NetSock_CfgTimeoutRxQ_Set s t) :=
  ErrCode0_upd _ _ (ErrCode0_refl s) _ (by simp [NetSock_CfgTimeoutRxQ_Set, sent_append, sent])

theorem ErrCode0_Terminate (s : TFTPs) : ErrCode0 s (TFTPs_Terminate s) := by
  rw [TFTPs_Terminate_eq]
  refine ErrCode0_upd _ _ (ErrCode0_refl s) _ ?_
  by_cases hh : s.TFTPs_FileHandle = 0 <;> simp [sent_append, sent, hh]

theorem ErrCode0_FileOpen (s : TFTPs) (e : Env) (rw : Nat) :
    ErrCode0 s (TFTPs_FileOpen s e rw).1 := by
  unfold TFTPs_FileOpen
  dsimp only
  have h1 : ErrCode0 s
      { (TFTPs_FileOpenMode s e (Str_At s.TFTPs_RxMsgBuf 2 (516 - 2)) rw).1 with
        TFTPs_FileHandle := (TFTPs_FileOpenMode s e (Str_At s.TFTPs_RxMsgBuf 2 (516 - 2)) rw).2 } := by
    refine ErrCode0_upd _ _ (ErrCode0_refl s) _ ?_
    simp only [TFTPs_FileOpenMode]
    split_ifs <;> simp [sent_append, sent]
  split_ifs
  · exact ErrCode0_trans _ _ _ h1 (ErrCode0_TxErr _ e _ (by decide))
  · exact h1

theorem ErrCode0_DataRd (s : TFTPs) (e : Env) : ErrCode0 s (TFTPs_DataRd s e).1 := by
  have hA : ErrCode0 s { s with
      TFTPs_TxMsgBuf := bufWrite s.TFTPs_TxMsgBuf TFTP_PKT_OFFSET_DATA e.NetFS_FileRd_data
      TFTPs_TxMsgLen := e.NetFS_FileRd_data.length
      Calls := s.Calls ++ [Call.NetFS_FileRd s.TFTPs_FileHandle TFTPs_BLOCK_SIZE] } :=
    ErrCode0_upd _ _ (ErrCode0_refl s) _ (by simp [sent_append, sent])
  have hB : ErrCode0 s { NetFS_FileClose { s with
      TFTPs_TxMsgBuf := bufWrite s.TFTPs_TxMsgBuf TFTP_PKT_OFFSET_DATA e.NetFS_FileRd_data
      TFTPs_TxMsgLen := e.NetFS_FileRd_data.length
      Calls := s.Calls ++ [Call.NetFS_FileRd s.TFTPs_FileHandle TFTPs_BLOCK_SIZE] } with
      TFTPs_State := TFTPs_STATE_IDLE } :=
    ErrCode0_upd _ _ (ErrCode0_trans _ _ _ hA (ErrCode0_FileClose _)) _ rfl
  unfold TFTPs_DataRd
  dsimp only
  split_ifs
  · exact ErrCode0_trans _ _ _ hB (ErrCode0_TxErr _ e _ (by decide))
  · exact ErrCode0_trans _ _ _ hA (ErrCode0_TxErr _ e _ (by decide))
  · exact ErrCode0_trans _ _ _ (ErrCode0_trans _ _ _ (ErrCode0_upd _ _ hB _ rfl)
      (ErrCode0_Tx_data _ e _ _)) (ErrCode0_TxErr _ e _ (by decide))
  · exact ErrCode0_trans _ _ _ (ErrCode0_upd _ _ hB _ rfl) (ErrCode0_Tx_data _ e _ _)
  · exact ErrCode0_trans _ _ _ (ErrCode0_trans _ _ _ (ErrCode0_upd _ _ hA _ rfl)
      (ErrCode0_Tx_data _ e _ _)) (ErrCode0_TxErr _ e _ (by decide))
  · exact ErrCode0_trans _ _ _ (ErrCode0_upd _ _ hA _ rfl) (ErrCode0_Tx_data _ e _ _)

theorem ErrCode0_DataWr (s : TFTPs) (e : Env) : ErrCode0 s (TFTPs_DataWr s e).1 := by
  refine ⟨[(Pkt_Ack (rd16 s.TFTPs_RxMsgBuf 2 % 65536), s.TFTPs_SockAddr)], ?_, ?_⟩
  · simp only [TFTPs_DataWr, TFTPs_DataWrAck_eq]
    split_ifs <;> simp [NetFS_FileClose, sent_append, sent]
  · intro p hp hop
    simp at hp
    rw [hp] at hop
    simp [Dgram_OpCode, Pkt_Ack] at hop

theorem ErrCode0_StateIdle (t : TFTPs) (e : Env) :
    ErrCode0 t (TFTPs_StateIdle t e).1 := by
  have inner : ∀ r : TFTPs × TFTPs_ERR, ErrCode0 t r.1 →
      ErrCode0 t (if r.2 = TFTPs_ERR.NONE
        then (NetSock_CfgTimeoutRxQ_Set r.1 (some r.1.Cfg.RxTimeoutMax), r.2) else r).1 := by
    intro r hr
    split_ifs
    · exact ErrCode0_trans _ _ _ hr (ErrCode0_timeout _ _)
    · exact hr
  have hwr : ErrCode0 t { t with TFTPs_TxBlkNbr := 0 } :=
    ErrCode0_upd _ _ (ErrCode0_refl t) _ rfl
  unfold TFTPs_StateIdle
  dsimp only
  apply inner
  split_ifs
  · exact ErrCode0_trans _ _ _
      (ErrCode0_upd _ _ (ErrCode0_FileOpen t e TFTPs_FILE_OPEN_RD) _ rfl)
      (ErrCode0_DataRd _ e)
  · exact ErrCode0_FileOpen t e TFTPs_FILE_OPEN_RD
  · exact ErrCode0_refl t
  · exact ErrCode0_trans _ _ _
      (ErrCode0_upd _ _
        (ErrCode0_trans _ _ _ hwr
          (ErrCode0_FileOpen { t with TFTPs_TxBlkNbr := 0 } e TFTPs_FILE_OPEN_WR))
        _ rfl)
      (ErrCode0_DataWrAck _ e _)
  · exact ErrCode0_trans _ _ _ hwr
      (ErrCode0_FileOpen { t with TFTPs_TxBlkNbr := 0 } e TFTPs_FILE_OPEN_WR)
  · exact ErrCode0_refl t
  · exact ErrCode0_refl t
  · exact ErrCode0_refl t

theorem ErrCode0_StateDataRd (t : TFTPs) (e : Env) :
    ErrCode0 t (TFTPs_StateDataRd t e).1 := by
  have hg : ErrCode0 t (TFTPs_GetRxBlkNbr t) :=
    ErrCode0_upd _ _ (ErrCode0_refl t) _ rfl
  unfold TFTPs_StateDataRd
  dsimp only
  split_ifs
  · exact ErrCode0_trans _ _ _
      (ErrCode0_upd _ _
        (ErrCode0_trans _ _ _ (ErrCode0_FileClose t)
          (ErrCode0_FileOpen (NetFS_FileClose t) e TFTPs_FILE_OPEN_RD))
        _ rfl)
      (ErrCode0_DataRd _ e)
  · exact ErrCode0_trans _ _ _ (ErrCode0_FileClose t)
      (ErrCode0_FileOpen (NetFS_FileClose t) e TFTPs_FILE_OPEN_RD)
  · exact ErrCode0_trans _ _ _ hg (ErrCode0_DataRd _ e)
  · exact ErrCode0_trans _ _ _
      (ErrCode0_trans _ _ _ hg (ErrCode0_Tx_data (TFTPs_GetRxBlkNbr t) e _ _))
      (ErrCode0_TxErr _ e _ (by decide))
  · exact ErrCode0_trans _ _ _ hg (ErrCode0_Tx_data (TFTPs_GetRxBlkNbr t) e _ _)
  · exact ErrCode0_TxErr t e _ (by decide)
  · exact ErrCode0_TxErr t e _ (by decide)
  · exact ErrCode0_TxErr t e _ (by decide)
  · exact ErrCode0_refl t

theorem ErrCode0_StateDataWr (t : TFTPs) (e : Env) :
    ErrCode0 t (TFTPs_StateDataWr t e).1 := by
  have hwr : ErrCode0 t { NetFS_FileClose t with TFTPs_TxBlkNbr := 0 } :=
    ErrCode0_upd _ _ (ErrCode0_FileClose t) _ rfl
  unfold TFTPs_StateDataWr
  dsimp only
  split_ifs
  · exact ErrCode0_TxErr t e _ (by decide)
  · exact ErrCode0_TxErr t e _ (by decide)
  · exact ErrCode0_trans _ _ _
      (ErrCode0_upd _ _
        (ErrCode0_trans _ _ _ hwr
          (ErrCode0_FileOpen { NetFS_FileClose t with TFTPs_TxBlkNbr := 0 } e
            TFTPs_FILE_OPEN_WR))
        _ rfl)
      (ErrCode0_DataWrAck _ e _)
  · exact ErrCode0_trans _ _ _ hwr
      (ErrCode0_FileOpen { NetFS_FileClose t with TFTPs_TxBlkNbr := 0 } e TFTPs_FILE_OPEN_WR)
  · exact ErrCode0_DataWr t e
  · exact ErrCode0_TxErr t e _ (by decide)
  · exact ErrCode0_refl t

theorem ErrCode0_busy (t : TFTPs) (e : Env) (remote : NET_SOCK_ADDR) :
    ErrCode0 t (TFTPs_Task_busy t e remote) := by
  unfold TFTPs_Task_busy
  dsimp only
  exact ErrCode0_upd _ _
    (ErrCode0_trans _ _ _
      (ErrCode0_upd _ _ (ErrCode0_refl t) { t with TFTPs_SockAddr := remote } rfl)
      (ErrCode0_TxErr { t with TFTPs_SockAddr := remote } e _ (by decide)))
    _ rfl

theorem ErrCode0_dispatch (s : TFTPs) (pkt : List Nat) (remote : NET_SOCK_ADDR) (e : Env)
    : ErrCode0 s (TFTPs_Task_dispatch s pkt remote e).1 := by
  have hrx : ErrCode0 s (TFTPs_Task_rx s pkt) :=
    ErrCode0_upd _ _ (ErrCode0_refl s) _ rfl
  unfold TFTPs_Task_dispatch
  dsimp only
  split_ifs
  · exact ErrCode0_trans _ _ _
      (ErrCode0_upd _ _ hrx { TFTPs_Task_rx s pkt with TFTPs_SockAddr := remote } rfl)
      (ErrCode0_StateIdle _ e)
  · exact ErrCode0_trans _ _ _ hrx (ErrCode0_StateDataRd _ e)
  · exact ErrCode0_trans _ _ _ hrx (ErrCode0_busy _ e remote)
  · exact ErrCode0_trans _ _ _ hrx (ErrCode0_StateDataWr _ e)
  · exact ErrCode0_trans _ _ _ hrx (ErrCode0_busy _ e remote)
  · exact hrx

theorem ErrCode0_Task (s : TFTPs) (rx : Rx) (e : Env) :
    ErrCode0 s (TFTPs_Task s rx e) := by
  cases rx with
  | err =>
    exact ErrCode0_trans _ _ _
      (ErrCode0_upd _ _ (ErrCode0_refl s) { s with TFTPs_RxMsgLen := -1 } rfl)
      (ErrCode0_Terminate _)
  | data pkt remote =>
    cases hEn : s.TFTPs_ServerEn with
    | true =>
      rw [TFTPs_Task_enabled s pkt remote e hEn]
      split_ifs
      · exact ErrCode0_trans _ _ _ (ErrCode0_dispatch s pkt remote e)
          (ErrCode0_Terminate _)
      · exact ErrCode0_dispatch s pkt remote e
    | false =>
      have h : TFTPs_Task s (Rx.data pkt remote) e
          = TFTPs_TxErr { s with
              TFTPs_RxMsgBuf := Rx_buf s.TFTPs_RxMsgBuf pkt
              TFTPs_RxMsgLen := ((pkt.take TFTPs_BUF_SIZE).length : Int)
              TFTPs_RxMsgCtr := (s.TFTPs_RxMsgCtr + 1) % 4294967296 } e 0
              "Transaction denied, Server DISABLED" := by
        simp [TFTPs_Task, hEn]
      rw [h]
      exact ErrCode0_trans _ _ _
        (ErrCode0_upd _ _ (ErrCode0_refl s) _ rfl)
        (ErrCode0_TxErr _ e _ (by decide))

theorem ErrCode0_step (s : TFTPs) (x : Step) :
    ErrCode0 s (step s x) := by
  cases x with
  | rx r e => exact ErrCode0_Task s r e
  | dis =>
    exact ErrCode0_trans _ _ _
      (ErrCode0_upd _ _ (ErrCode0_refl s) { s with TFTPs_ServerEn := false } rfl)
      (ErrCode0_Terminate _)
  | en => exact ErrCode0_upd _ _ (ErrCode0_refl s) _ rfl

theorem ErrCode0_run (l : List Step) (s : TFTPs) :
    ErrCode0 s (run s l) := by
  induction l generalizing s with
  | nil => exact ErrCode0_refl s
  | cons x xs ih =>
    exact ErrCode0_trans _ _ _
      (ErrCode0_step s x) (ih (step s x))

/-! ## C31: the header fields, written and read back -/

theorem Dgram_fields_of_header (pkt : List Nat) (op n : Nat) (hop : op < 65536)
    (hn : n < 65536) (hhdr : pkt.take 4 = [op / 256 % 256, op % 256, n / 256 % 256, n % 256]) :
    4 ≤ pkt.length ∧ Dgram_OpCode pkt = op ∧ Dgram_BlkNbr pkt = n := by
  rcases pkt with _ | ⟨a, _ | ⟨b, _ | ⟨c, _ | ⟨d, rest⟩⟩⟩⟩
  · simp at hhdr
  · simp at hhdr
  · simp at hhdr
  · simp at hhdr
  · simp at hhdr
    obtain ⟨ha, hb, hc, hd⟩ := hhdr
    subst ha hb hc hd
    refine ⟨by simp, ?_, ?_⟩
    · simp [Dgram_OpCode]
      omega
    · simp [Dgram_BlkNbr]
      omega

/-- C31. Reading the header back gives what `TFTPs_Tx` wrote. When the
first four octets of a received datagram are the four octets that `TFTPs_Tx`
puts at the head of the transmit buffer for a 16-bit opcode `op` and a 16-bit
number `n`, the opcode that `TFTPs_Task` extracts is `op`, and the block
number that `TFTPs_GetRxBlkNbr` extracts, and the one that `TFTPs_DataWr`
extracts (it stores it in `TFTPs_TxBlkNbr` and acknowledges it), is `n`. For
every datagram of at least four octets the block number extracted is
`256 * octet[2] + octet[3]`. -/
theorem C31_header_roundtrip (s t : TFTPs) (e : Env) (op n len : Nat) (pkt : List Nat)
    (hop : op < 65536) (hn : n < 65536)
    (hhdr : pkt.take 4 = bufRead (TFTPs_Tx t e op n len).1.TFTPs_TxMsgBuf 0 4) :
    (TFTPs_Task_rx s pkt).TFTPs_OpCode = op ∧
      (TFTPs_GetRxBlkNbr (TFTPs_Task_rx s pkt)).TFTPs_RxBlkNbr = n ∧
      (TFTPs_DataWr (TFTPs_Task_rx s pkt) e).1.TFTPs_TxBlkNbr = n ∧
      (sent (TFTPs_DataWr (TFTPs_Task_rx s pkt) e).1.Calls).getLast?
        = some (Pkt_Ack n, s.TFTPs_SockAddr) ∧
      (∀ q : List Nat, 4 ≤ q.length → (∀ x ∈ q, x < 256) →
        (TFTPs_GetRxBlkNbr (TFTPs_Task_rx s q)).TFTPs_RxBlkNbr = 256 * q.getD 2 0 + q.getD 3 0 ∧
        (TFTPs_DataWr (TFTPs_Task_rx s q) e).1.TFTPs_TxBlkNbr
          = 256 * q.getD 2 0 + q.getD 3 0) := by
  have hb : bufRead (TFTPs_Tx t e op n len).1.TFTPs_TxMsgBuf 0 4
      = [op / 256 % 256, op % 256, n / 256 % 256, n % 256] := by
    have h := bufRead_hdr t.TFTPs_TxMsgBuf (op % 65536) (n % 65536) 0
    have h0 : bufRead t.TFTPs_TxMsgBuf 4 0 = [] := rfl
    rw [h0, Nat.mod_eq_of_lt hop, Nat.mod_eq_of_lt hn] at h
    simpa [TFTPs_Tx, Nat.mod_eq_of_lt hop, Nat.mod_eq_of_lt hn] using h
  rw [hb] at hhdr
  obtain ⟨h4, h1, h2⟩ := Dgram_fields_of_header pkt op n hop hn hhdr
  have hrd : ∀ q : List Nat, 4 ≤ q.length →
      (TFTPs_GetRxBlkNbr (TFTPs_Task_rx s q)).TFTPs_RxBlkNbr = Dgram_BlkNbr q ∧
      (TFTPs_DataWr (TFTPs_Task_rx s q) e).1.TFTPs_TxBlkNbr = Dgram_BlkNbr q := by
    intro q hq
    have := rd16_Rx_buf_2 s.TFTPs_RxMsgBuf q hq
    exact ⟨this, this⟩
  refine ⟨?_, ?_, ?_, ?_, ?_⟩
  · have := rd16_Rx_buf_0 s.TFTPs_RxMsgBuf pkt (by omega)
    exact this.trans h1
  · exact (hrd pkt h4).1.trans h2
  · exact (hrd pkt h4).2.trans h2
  · have hr := rd16_Rx_buf_2 s.TFTPs_RxMsgBuf pkt h4
    have hs : sent (TFTPs_DataWr (TFTPs_Task_rx s pkt) e).1.Calls
        = sent s.Calls ++ [(Pkt_Ack n, s.TFTPs_SockAddr)] := by
      simp only [TFTPs_DataWr, TFTPs_DataWrAck_eq]
      have hr2 : rd16 (TFTPs_Task_rx s pkt).TFTPs_RxMsgBuf 2 = n := hr.trans h2
      simp only [TFTP_PKT_OFFSET_BLK_NBR, hr2, Nat.mod_eq_of_lt hn]
      split_ifs <;> simp [NetFS_FileClose, TFTPs_Task_rx, sent_append, sent]
    rw [hs]
    simp
  · intro q hq hoct
    have h2o : q.getD 2 0 < 256 := by
      rw [List.getD_eq_getElem q 0 (by omega)]
      exact hoct _ (List.getElem_mem _)
    have h3o : q.getD 3 0 < 256 := by
      rw [List.getD_eq_getElem q 0 (by omega)]
      exact hoct _ (List.getElem_mem _)
    have hq2 : Dgram_BlkNbr q = 256 * q.getD 2 0 + q.getD 3 0 := by
      unfold Dgram_BlkNbr
      exact Nat.mod_eq_of_lt (by omega)
    rw [(hrd q hq).1, (hrd q hq).2, hq2]
    exact ⟨rfl, rfl⟩

set_option maxRecDepth 20000 in
/-- C31 at the Ack of block 515 that the first client sends during its write
transfer. -/
theorem C31_header_roundtrip_witness :
    ((4 : Nat) < 65536 ∧ (515 : Nat) < 65536 ∧
      (Pkt_Ack 515).take 4 = bufRead (TFTPs_Tx W_rd (W_env 0 []) 4 515 4).1.TFTPs_TxMsgBuf 0 4) ∧
    ((TFTPs_Task_rx W_wr (Pkt_Ack 515)).TFTPs_OpCode = 4 ∧
      (TFTPs_GetRxBlkNbr (TFTPs_Task_rx W_wr (Pkt_Ack 515))).TFTPs_RxBlkNbr = 515 ∧
      (TFTPs_DataWr (TFTPs_Task_rx W_wr (Pkt_Ack 515)) (W_env 0 [])).1.TFTPs_TxBlkNbr = 515) :=
  have h := C31_header_roundtrip W_wr W_rd (W_env 0 []) 4 515 4 (Pkt_Ack 515)
    (by decide) (by decide) (by decide)
  ⟨⟨by decide, by decide, by decide⟩, h.1, h.2.1, h.2.2.1⟩

/-! ## C32: closes of the file store -/

theorem W_idle_abc_acked_reachable : Reachable_rx_dis W_idle_abc_acked :=
  ⟨W_cfg, W_net, W_entry,
    [Step.rx (Rx.data W_rrq_abc W_peerA) (W_env 7 W_file10),
     Step.rx (Rx.data (Pkt_Ack 1) W_peerA) (W_env 0 [])], rfl, by decide, rfl⟩

set_option maxRecDepth 20000 in
/-- C32 (a file is closed twice): the first client reads the ten-octet file
`abc`. `TFTPs_DataRd` sends the short block, closes the file of handle 7 and
sets the state to Idle, but leaves `TFTPs_FileHandle` at 7. The client then
acknowledges block 1, as the protocol asks: `TFTPs_StateIdle` returns
`TFTPs_ERR_ACK`, `TFTPs_Task` calls `TFTPs_Terminate`, which finds the handle
not null and calls `NetFS_FileClose` on it again, with no open in between.
The same second close follows a completed write transfer when the receive
times out, and when `TFTPs_Dis` is called. -/
theorem C32_double_close :
    Reachable_rx_dis W_idle_abc_acked ∧
      fileCalls W_idle_abc.Calls
        = [Call.NetFS_FileOpen [97, 98, 99] TFTPs_FILE_OPEN_RD 7, Call.NetFS_FileRd 7 512,
           Call.NetFS_FileClose 7] ∧
      W_idle_abc.TFTPs_State = TFTPs_STATE_IDLE ∧
      W_idle_abc.TFTPs_FileHandle = 7 ∧
      openFiles W_idle_abc.Calls = [] ∧
      ClosesOpen W_idle_abc.Calls = true ∧
      fileCalls W_idle_abc_acked.Calls
        = [Call.NetFS_FileOpen [97, 98, 99] TFTPs_FILE_OPEN_RD 7, Call.NetFS_FileRd 7 512,
           Call.NetFS_FileClose 7, Call.NetFS_FileClose 7] ∧
      ClosesOpen W_idle_abc_acked.Calls = false ∧
      ClosesOpen W_wr_done.Calls = true ∧
      ClosesOpen (TFTPs_Task W_wr_done Rx.err (W_env 0 [])).Calls = false ∧
      ClosesOpen (TFTPs_Dis W_wr_done).Calls = false :=
  ⟨W_idle_abc_acked_reachable, by decide⟩

/-! ## C33: repeated Data packets -/

set_option maxRecDepth 20000 in
/-- C33 (a repeated block lowers the last accepted block number): in the
write transfer of the first client the blocks 1 and 2 were written. The
client repeats block 1: the block is not written, but `TFTPs_DataWr` stores
its number in `TFTPs_TxBlkNbr`, which goes down from 2 to 1. The client then
repeats block 2: its number is above 1, so its payload is written a second
time. The four Data packets 1, 2, 1, 2 make three writes. -/
theorem C33_duplicate_lowers_block_number :
    W_wr_12.TFTPs_State = TFTPs_STATE_DATA_WR ∧
      W_wr_12.TFTPs_TxBlkNbr = 2 ∧
      writeCalls W_wr_12.Calls = 2 ∧
      W_wr_121.TFTPs_State = TFTPs_STATE_DATA_WR ∧
      W_wr_121.TFTPs_TxBlkNbr = 1 ∧
      writeCalls W_wr_121.Calls = 2 ∧
      W_wr_1212.TFTPs_TxBlkNbr = 2 ∧
      writeCalls W_wr_1212.Calls = 3 ∧
      (written W_wr_1212.Calls).length = 3 * 512 ∧
      (written W_wr_1212.Calls).drop 1024 = (written W_wr_12.Calls).drop 512 := by
  decide

/-! ## C37: the answer while the server is disabled -/

set_option maxRecDepth 20000 in
/-- C37 (the "Server DISABLED" Error is not sent to the sender): the server
is disabled during the write transfer of the first client, then the second
client sends a request. `TFTPs_Task` calls `TFTPs_TxErr` without storing the
address of the sender in `TFTPs_SockAddr` first, as it does for the "Server
BUSY" answer: the Error packet goes to the first client. When the server is
disabled before any request, the packet goes to the address the socket was
bound to. -/
theorem C37_disabled_answer_address :
    (TFTPs_Dis W_wr).TFTPs_ServerEn = false ∧
      W_peerA ≠ W_peerB ∧
      sent (TFTPs_Task (TFTPs_Dis W_wr) (Rx.data W_rrq W_peerB) (W_env 8 W_file10)).Calls
        = sent (TFTPs_Dis W_wr).Calls
          ++ [(Pkt_Error 0 "Transaction denied, Server DISABLED", W_peerA)] ∧
      sent (TFTPs_Task (TFTPs_Dis W_entry) (Rx.data W_rrq W_peerB) (W_env 8 W_file10)).Calls
        = [(Pkt_Error 0 "Transaction denied, Server DISABLED", W_entry.TFTPs_SockAddr)] ∧
      W_entry.TFTPs_SockAddr ≠ W_peerB ∧
      sent (TFTPs_Task W_wr (Rx.data W_rrq W_peerB) (W_env 8 W_file10)).Calls
        = sent W_wr.Calls ++ [(Pkt_Error 0 "Transaction denied, Server BUSY", W_peerB)] := by
  decide

/-! ## C34: the block after block 65535 -/

set_option maxRecDepth 20000 in
theorem W_wr_65535_reachable : Reachable W_wr_65535 :=
  ⟨W_cfg, W_net, W_entry,
    [Step.rx (Rx.data W_wrq W_peerA) (W_env 7 []),
     Step.rx (Rx.data (Pkt_Data 65535 (List.replicate 512 1)) W_peerA) (W_env 0 [])], rfl, rfl⟩

theorem Task_wr_data_after_65535 (s : TFTPs) (pkt : List Nat) (remote : NET_SOCK_ADDR) (e : Env)
    (hR : Reachable s) (hS : s.TFTPs_State = TFTPs_STATE_DATA_WR)
    (hT : valid_tid s.Net remote s.TFTPs_SockAddr = true)
    (hlen : 4 ≤ pkt.length) (hop : Dgram_OpCode pkt = TFTP_OPCODE_DATA)
    (hb : s.TFTPs_TxBlkNbr = 65535) :
    Dgram_BlkNbr pkt ≤ 65535 ∧
      (TFTPs_Task s (Rx.data pkt remote) e).Calls
        = s.Calls ++ [Call.NetSock_TxDataTo (Pkt_Ack (Dgram_BlkNbr pkt)) s.TFTPs_SockAddr] ∧
      fileCalls (TFTPs_Task s (Rx.data pkt remote) e).Calls = fileCalls s.Calls ∧
      written (TFTPs_Task s (Rx.data pkt remote) e).Calls = written s.Calls ∧
      (TFTPs_Task s (Rx.data pkt remote) e).TFTPs_State = TFTPs_STATE_DATA_WR := by
  have hEn : s.TFTPs_ServerEn = true := Reachable_enabled s hR (by simp [hS])
  have hn : Dgram_BlkNbr pkt < 65536 := Nat.mod_lt _ (by decide)
  have h1 : ¬ s.TFTPs_TxBlkNbr < Dgram_BlkNbr pkt := by omega
  rw [Task_wr_data s pkt remote e hS hEn hT hlen hop]
  refine ⟨by omega, ?_, ?_, ?_, ?_⟩
  · simp [h1]
  · simp [h1, fileCalls_append, fileCalls]
  · simp [h1, written_append, written]
  · simp [h1]

set_option maxRecDepth 20000 in
/-- C34 (a block after block 65535 is stored again): in a write transfer
whose last accepted block number is 65535, a Data packet from the active
peer, whatever its block number `n`, is acknowledged with Ack(`n`) and not
written, and the state stays TransferWrite: no 16-bit `n` is above 65535.
But `TFTPs_DataWr` stores `n` in `TFTPs_TxBlkNbr` all the same. In the write
transfer of the first client, after block 65535 the client sends block 0:
it is not written and `TFTPs_TxBlkNbr` becomes 0. The client then sends
block 1: its number is above 0, so its payload is written. A block after
block 65536 is stored. -/
theorem C34_block_stored_after_wrap :
    (∀ (s : TFTPs) (pkt : List Nat) (remote : NET_SOCK_ADDR) (e : Env),
      Reachable s → s.TFTPs_State = TFTPs_STATE_DATA_WR →
      valid_tid s.Net remote s.TFTPs_SockAddr = true → 4 ≤ pkt.length →
      Dgram_OpCode pkt = TFTP_OPCODE_DATA → s.TFTPs_TxBlkNbr = 65535 →
        Dgram_BlkNbr pkt ≤ 65535 ∧
        (TFTPs_Task s (Rx.data pkt remote) e).Calls
          = s.Calls ++ [Call.NetSock_TxDataTo (Pkt_Ack (Dgram_BlkNbr pkt)) s.TFTPs_SockAddr] ∧
        fileCalls (TFTPs_Task s (Rx.data pkt remote) e).Calls = fileCalls s.Calls ∧
        written (TFTPs_Task s (Rx.data pkt remote) e).Calls = written s.Calls ∧
        (TFTPs_Task s (Rx.data pkt remote) e).TFTPs_State = TFTPs_STATE_DATA_WR) ∧
      Reachable W_wr_65535 ∧
      W_wr_65535.TFTPs_State = TFTPs_STATE_DATA_WR ∧
      W_wr_65535.TFTPs_TxBlkNbr = 65535 ∧
      writeCalls W_wr_65535.Calls = 1 ∧
      (run W_wr_65535
        [Step.rx (Rx.data (Pkt_Data 0 [7, 7, 7]) W_peerA) (W_env 0 [])]).TFTPs_TxBlkNbr = 0 ∧
      writeCalls (run W_wr_65535
        [Step.rx (Rx.data (Pkt_Data 0 [7, 7, 7]) W_peerA) (W_env 0 [])]).Calls = 1 ∧
      W_wr_65535_0_1.TFTPs_TxBlkNbr = 1 ∧
      writeCalls W_wr_65535_0_1.Calls = 2 ∧
      (written W_wr_65535_0_1.Calls).drop 512 = [8, 8, 8] :=
  ⟨fun s pkt remote e hR hS hT hlen hop hb =>
      Task_wr_data_after_65535 s pkt remote e hR hS hT hlen hop hb,
    W_wr_65535_reachable, by decide⟩

/-! ## C35: read transfer of a file whose length is a multiple of 512 -/

theorem File_block_length (f : List Nat) (k j : Nat) (hf : f.length = k * 512) (hj : j < k) :
    (File_block f j).length = 512 := by
  simp only [File_block, TFTPs_BLOCK_SIZE, List.length_take, List.length_drop]
  omega

theorem File_block_last (f : List Nat) (k : Nat) (hf : f.length = k * 512) :
    File_block f k = [] := by
  have h : f.drop (TFTPs_BLOCK_SIZE * k) = [] := by
    apply List.drop_eq_nil_of_le
    simp only [TFTPs_BLOCK_SIZE]
    omega
  simp [File_block, h]

theorem dataPkts_map_range (peer : NET_SOCK_ADDR) (env : Nat → Env) (n b : Nat)
    (hb : b + n ≤ 65536) :
    dataPkts peer b ((List.range n).map env)
      = (List.range n).map (fun j => (Pkt_Data (b + j) (env j).NetFS_FileRd_data, peer)) := by
  induction n with
  | zero => simp [dataPkts]
  | succ n ih =>
    rw [List.range_succ, List.map_append, List.map_append, dataPkts_append, ih (by omega)]
    simp [dataPkts, Nat.mod_eq_of_lt (show b + n < 65536 by omega)]

theorem read_full_prefix (s : TFTPs) (rrq : List Nat) (peer : NET_SOCK_ADDR)
    (e0 : Env) (es : List Env)
    (hS : s.TFTPs_State = TFTPs_STATE_IDLE) (hEn : s.TFTPs_ServerEn = true)
    (hP : valid_tid s.Net peer peer = true)
    (hlen : 2 ≤ rrq.length) (hop : Dgram_OpCode rrq = TFTP_OPCODE_RD_REQ)
    (hopen : e0.NetFS_FileOpen ≠ 0)
    (he : ∀ e ∈ e0 :: es, Env_rd_ok e)
    (hfull : ∀ e ∈ e0 :: es, e.NetFS_FileRd_data.length = 512) :
    RdInv peer (1 + es.length) (run s (readTransfer rrq peer e0 es)) ∧
      sent (run s (readTransfer rrq peer e0 es)).Calls
        = sent s.Calls ++ dataPkts peer 1 (e0 :: es) := by
  have h1 := read_first_step s rrq peer e0 hS hEn hP hlen hop hopen (he e0 (by simp))
  have hI := h1.2.2 (hfull e0 (by simp))
  have h2 := read_full_run peer es 1 _ hI (fun x hx => he x (by simp [hx]))
    (fun x hx => hfull x (by simp [hx]))
  simp only [readTransfer, run_cons, dataPkts]
  refine ⟨h2.1, ?_⟩
  rw [h2.2, h1.1]
  simp

theorem readTransfer_snoc (rrq : List Nat) (peer : NET_SOCK_ADDR) (e0 : Env) (es : List Env)
    (eL : Env) :
    readTransfer rrq peer e0 (es ++ [eL])
      = readTransfer rrq peer e0 es
          ++ [Step.rx (Rx.data (Pkt_Ack ((1 + es.length) % 65536)) peer) eL] := by
  simp [readTransfer, readAcks_append, readAcks]

theorem readTransfer_take (rrq : List Nat) (peer : NET_SOCK_ADDR) (env : Nat → Env)
    (k j : Nat) (hj : j ≤ k) :
    (readTransfer rrq peer (env 0) ((List.range k).map (fun i => env (i + 1)))).take (j + 1)
      = readTransfer rrq peer (env 0) ((List.range j).map (fun i => env (i + 1))) := by
  simp only [readTransfer, List.take_succ_cons, readAcks_take, ← List.map_take,
    List.take_range, Nat.min_eq_left hj]

theorem read_full_prefix_range (s : TFTPs) (rrq : List Nat) (peer : NET_SOCK_ADDR)
    (env : Nat → Env) (m : Nat)
    (hS : s.TFTPs_State = TFTPs_STATE_IDLE) (hEn : s.TFTPs_ServerEn = true)
    (hP : valid_tid s.Net peer peer = true)
    (hlen : 2 ≤ rrq.length) (hop : Dgram_OpCode rrq = TFTP_OPCODE_RD_REQ)
    (hopen : (env 0).NetFS_FileOpen ≠ 0)
    (he : ∀ j, j ≤ m → Env_rd_ok (env j))
    (hfull : ∀ j, j ≤ m → (env j).NetFS_FileRd_data.length = 512) :
    RdInv peer (1 + m)
        (run s (readTransfer rrq peer (env 0) ((List.range m).map (fun i => env (i + 1))))) ∧
      sent (run s (readTransfer rrq peer (env 0)
          ((List.range m).map (fun i => env (i + 1))))).Calls
        = sent s.Calls ++ dataPkts peer 1 ((List.range (m + 1)).map env) := by
  have hmem : ∀ x ∈ env 0 :: (List.range m).map (fun i => env (i + 1)), ∃ j, j ≤ m ∧ x = env j := by
    intro x hx
    rcases List.mem_cons.mp hx with h | h
    · exact ⟨0, Nat.zero_le m, h⟩
    · obtain ⟨i, hi, hxi⟩ := List.mem_map.mp h
      exact ⟨i + 1, by have := List.mem_range.mp hi; omega, hxi.symm⟩
  have h := read_full_prefix s rrq peer (env 0) ((List.range m).map (fun i => env (i + 1)))
    hS hEn hP hlen hop hopen
    (fun x hx => by obtain ⟨j, hj, e⟩ := hmem x hx; rw [e]; exact he j hj)
    (fun x hx => by obtain ⟨j, hj, e⟩ := hmem x hx; rw [e]; exact hfull j hj)
  have hl : env 0 :: (List.range m).map (fun i => env (i + 1)) = (List.range (m + 1)).map env := by
    rw [List.range_succ_eq_map]
    simp [List.map_map, Function.comp_def]
  rw [List.length_map, List.length_range, hl] at h
  exact h

/-- C35 (read transfer of a file of exactly k blocks): the server is idle and
enabled, the request is a read request whose file opens, the file has
`k * 512` octets with `k < 65535`, read number `j` of the file store returns
the octets of the file from `512 * j` on, at most 512 (`File_block`), the
transport accepts every packet, and the client acknowledges the blocks
1, ..., k in turn. Then the packets sent are the Data packets 1, ..., k,
each with the 512 octets of its block, followed by the Data packet `k + 1`
with no payload, which has 4 octets; `TFTPs_State` is TransferRead after each
of the first k packets and Idle after the empty one. -/
theorem C35_read_multiple_of_512 (s : TFTPs) (rrq : List Nat) (peer : NET_SOCK_ADDR)
    (f : List Nat) (k : Nat) (env : Nat → Env)
    (hS : s.TFTPs_State = TFTPs_STATE_IDLE) (hEn : s.TFTPs_ServerEn = true)
    (hP : valid_tid s.Net peer peer = true)
    (hlen : 2 ≤ rrq.length) (hop : Dgram_OpCode rrq = TFTP_OPCODE_RD_REQ)
    (hopen : (env 0).NetFS_FileOpen ≠ 0)
    (hf : f.length = k * 512) (hk : k < 65535)
    (he : ∀ j, j ≤ k → (env j).NetFS_FileRd_ok = true ∧ 0 ≤ (env j).NetSock_TxDataTo ∧
      (env j).NetFS_FileRd_data = File_block f j) :
    sent (run s (readTransfer rrq peer (env 0)
        ((List.range k).map (fun j => env (j + 1))))).Calls
      = sent s.Calls
          ++ (List.range k).map (fun j => (Pkt_Data (j + 1) (File_block f j), peer))
          ++ [(Pkt_Data (k + 1) [], peer)] ∧
    (∀ j, j < k → (File_block f j).length = 512) ∧
    (Pkt_Data (k + 1) []).length = 4 ∧
    (∀ j, j < k →
      (run s ((readTransfer rrq peer (env 0)
        ((List.range k).map (fun j => env (j + 1)))).take (j + 1))).TFTPs_State
        = TFTPs_STATE_DATA_RD) ∧
    (run s (readTransfer rrq peer (env 0)
        ((List.range k).map (fun j => env (j + 1))))).TFTPs_State = TFTPs_STATE_IDLE := by
  have hok : ∀ j, j ≤ k → Env_rd_ok (env j) := by
    intro j hj
    refine ⟨(he j hj).1, (he j hj).2.1, ?_⟩
    rw [(he j hj).2.2]
    exact List.length_take_le _ _
  have hfull : ∀ j, j < k → (env j).NetFS_FileRd_data.length = 512 := by
    intro j hj
    rw [(he j (Nat.le_of_lt hj)).2.2]
    exact File_block_length f k j hf hj
  have hlast : (env k).NetFS_FileRd_data = [] := by
    rw [(he k (Nat.le_refl k)).2.2]
    exact File_block_last f k hf
  have hpre : ∀ m, m < k →
      RdInv peer (1 + m)
        (run s (readTransfer rrq peer (env 0) ((List.range m).map (fun i => env (i + 1))))) ∧
      sent (run s (readTransfer rrq peer (env 0)
          ((List.range m).map (fun i => env (i + 1))))).Calls
        = sent s.Calls ++ dataPkts peer 1 ((List.range (m + 1)).map env) := by
    intro m hm
    exact read_full_prefix_range s rrq peer env m hS hEn hP hlen hop hopen
      (fun j hj => hok j (by omega)) (fun j hj => hfull j (by omega))
  have hend : sent (run s (readTransfer rrq peer (env 0)
        ((List.range k).map (fun j => env (j + 1))))).Calls
      = sent s.Calls
          ++ (List.range k).map (fun j => (Pkt_Data (j + 1) (File_block f j), peer))
          ++ [(Pkt_Data (k + 1) [], peer)] ∧
      (run s (readTransfer rrq peer (env 0)
        ((List.range k).map (fun j => env (j + 1))))).TFTPs_State = TFTPs_STATE_IDLE := by
    cases k with
    | zero =>
      have h1 := read_first_step s rrq peer (env 0) hS hEn hP hlen hop hopen
        (hok 0 (Nat.le_refl 0))
      rw [hlast] at h1
      simp only [List.range_zero, List.map_nil, readTransfer, readAcks, run_cons, run_nil,
        List.append_nil]
      exact ⟨h1.1, by simpa using h1.2.1⟩
    | succ m =>
      have hp := hpre m (Nat.lt_succ_self m)
      have h3 := read_step peer (1 + m) _ (env (m + 1)) hp.1 (hok (m + 1) (Nat.le_refl _))
      rw [hlast] at h3
      have hmod1 : (1 + m) % 65536 = 1 + m := Nat.mod_eq_of_lt (by omega)
      have hmod2 : (1 + m + 1) % 65536 = m + 1 + 1 := by
        rw [Nat.mod_eq_of_lt (by omega)]
        omega
      rw [List.range_succ, List.map_append, List.map_singleton, readTransfer_snoc,
        List.length_map, List.length_range, run_append, run_cons, run_nil]
      refine ⟨?_, by simpa using h3.2.1⟩
      rw [h3.1, hp.2, dataPkts_map_range peer env (m + 1) 1 (by omega), hmod2,
        ← List.range_succ]
      congr 2
      apply List.map_congr_left
      intro j hj
      have hj2 : j ≤ m + 1 := Nat.le_of_lt (List.mem_range.mp hj)
      rw [(he j hj2).2.2, Nat.add_comm 1 j]
  refine ⟨hend.1, fun j hj => File_block_length f k j hf hj, by simp [Pkt_Data], ?_, hend.2⟩
  intro j hj
  rw [readTransfer_take rrq peer env k j (Nat.le_of_lt hj)]
  exact (hpre j hj).1.1

set_option maxRecDepth 20000 in
/-- Witness for C35: the first client reads a file of 1024 octets from the
server at the loop entry. -/
theorem C35_read_multiple_of_512_witness :
    sent (run W_entry (readTransfer W_rrq W_peerA (File_env 7 W_file1024 0)
        ((List.range 2).map (fun j => File_env 7 W_file1024 (j + 1))))).Calls
      = sent W_entry.Calls
          ++ (List.range 2).map (fun j => (Pkt_Data (j + 1) (File_block W_file1024 j), W_peerA))
          ++ [(Pkt_Data (2 + 1) [], W_peerA)] ∧
    (∀ j, j < 2 → (File_block W_file1024 j).length = 512) ∧
    (Pkt_Data (2 + 1) []).length = 4 ∧
    (∀ j, j < 2 →
      (run W_entry ((readTransfer W_rrq W_peerA (File_env 7 W_file1024 0)
        ((List.range 2).map (fun j => File_env 7 W_file1024 (j + 1)))).take (j + 1))).TFTPs_State
        = TFTPs_STATE_DATA_RD) ∧
    (run W_entry (readTransfer W_rrq W_peerA (File_env 7 W_file1024 0)
        ((List.range 2).map (fun j => File_env 7 W_file1024 (j + 1))))).TFTPs_State
      = TFTPs_STATE_IDLE :=
  C35_read_multiple_of_512 W_entry W_rrq W_peerA W_file1024 2 (File_env 7 W_file1024)
    (by decide) (by decide) (by decide) (by decide) (by decide) (by decide) (by decide)
    (by decide) (fun j _ => ⟨rfl, by simp [File_env], rfl⟩)

/-! ## C36: the code of the Error packets -/

/-- C36 (every Error packet carries code 0): from every state, over every
sequence of loop iterations and `TFTPs_Dis`/`TFTPs_En` calls, with every
answer of the collaborators, each packet the server sends whose opcode is
Error has the error code 0 in its octets 2 and 3. In particular, when the
server is idle and enabled and the file of a read or write request cannot
be opened, the one packet sent is the Error "file not found" to the
requester, and its code is 0, not `TFTPs_ERR_CODE_FILE_NOT_FOUND`; this is
what the first client gets from the server at the loop entry. -/
theorem C36_error_code_zero :
    (∀ (s : TFTPs) (steps : List Step), ∃ l,
        sent (run s steps).Calls = sent s.Calls ++ l ∧
        ∀ p ∈ l, Dgram_OpCode p.1 = TFTP_OPCODE_ERR →
          Dgram_ErrCode p.1 = TFTPs_ERR_CODE_ERR_STR) ∧
      (∀ (s : TFTPs) (pkt : List Nat) (remote : NET_SOCK_ADDR) (e : Env),
        s.TFTPs_State = TFTPs_STATE_IDLE → s.TFTPs_ServerEn = true → 2 ≤ pkt.length →
        (Dgram_OpCode pkt = TFTP_OPCODE_RD_REQ ∨ Dgram_OpCode pkt = TFTP_OPCODE_WR_REQ) →
        e.NetFS_FileOpen = 0 →
        sent (TFTPs_Task s (Rx.data pkt remote) e).Calls
          = sent s.Calls ++ [(Pkt_Error 0 "file not found", remote)]) ∧
      Dgram_OpCode (Pkt_Error 0 "file not found") = TFTP_OPCODE_ERR ∧
      Dgram_ErrCode (Pkt_Error 0 "file not found") = TFTPs_ERR_CODE_ERR_STR ∧
      Dgram_ErrCode (Pkt_Error 0 "file not found") ≠ TFTPs_ERR_CODE_FILE_NOT_FOUND ∧
      sent (TFTPs_Task W_entry (Rx.data W_rrq W_peerA) (W_env 0 [])).Calls
        = [(Pkt_Error 0 "file not found", W_peerA)] := by
  refine ⟨fun s steps => ErrCode0_run steps s, ?_, by decide, by decide, by decide, by decide⟩
  intro s pkt remote e hS hEn hlen hreq hopen
  rw [Task_idle_req_nofile s pkt remote e (Dgram_OpCode pkt) hS hEn hlen rfl hreq hopen]
  simp [sent_append, sent]

/-! ## C38: the trace history -/

theorem TFTPs_Trace_ix (hist : Nat) (s : TFTPs) (tick : Nat) (t : TraceVars) (id : Nat)
    (p_str : String) (h : 0 < hist) : (TFTPs_Trace hist s tick t id p_str).TFTPs_TraceIx < hist := by
  simp only [TFTPs_Trace]
  split_ifs with hc
  · exact h
  · omega

theorem TFTPs_Trace_length (hist : Nat) (s : TFTPs) (tick : Nat) (t : TraceVars) (id : Nat)
    (p_str : String) :
    (TFTPs_Trace hist s tick t id p_str).TFTPs_TraceTbl.length = t.TFTPs_TraceTbl.length := by
  simp [TFTPs_Trace]

/-- C38 (the display loop reads the trace table two entries too far): the
write index is below `TFTPs_TRACE_HIST_SIZE` after every `TFTPs_Trace` call,
and the call keeps the size of the table. But `TFTPs_DispTrace` uses its loop
index, which runs from 2 to `TFTPs_TRACE_HIST_SIZE + 1`, as the index of the
trace table: it never renders the entries 0 and 1, and its last two rows read
the table at `TFTPs_TRACE_HIST_SIZE` and `TFTPs_TRACE_HIST_SIZE + 1`, outside
the table. In the template build (16 entries), after `TFTPs_TraceInit` and
the first `TFTPs_Trace` call the entry written is at index 0 and the write
index is 1: no row shows the entry, no row is marked, and the rows read the
indexes 2, ..., 17. -/
theorem C38_trace_display_off_by_two :
    (∀ (hist : Nat) (s : TFTPs) (tick : Nat) (t : TraceVars) (id : Nat) (p_str : String),
      0 < hist →
        (TFTPs_Trace hist s tick t id p_str).TFTPs_TraceIx < hist ∧
        (TFTPs_Trace hist s tick t id p_str).TFTPs_TraceTbl.length
          = t.TFTPs_TraceTbl.length) ∧
    (∀ (hist : Nat) (t : TraceVars),
      (TFTPs_DispTrace hist t).map DispRow.Row = (List.range hist).map (fun j => j + 2)) ∧
    (∀ (hist : Nat) (t : TraceVars), t.TFTPs_TraceTbl.length = hist → 0 < hist →
      (∀ r ∈ TFTPs_DispTrace hist t, r.Row ≠ 0 ∧ r.Row ≠ 1) ∧
      (∃ r ∈ TFTPs_DispTrace hist t, hist ≤ r.Row ∧ r.Entry = none)) ∧
    W_trace.TFTPs_TraceTbl.length = TFTPs_TRACE_HIST_SIZE ∧
    W_trace.TFTPs_TraceIx = 1 ∧
    W_trace.TFTPs_TraceTbl.get? 0
      = some { Id := 10, TS := 100, State := TFTPs_STATE_IDLE, Str := "Idle State",
               RxBlkNbr := 0, TxBlkNbr := 0 } ∧
    (TFTPs_DispTrace TFTPs_TRACE_HIST_SIZE W_trace).map DispRow.Row
      = [2, 3, 4, 5, 6, 7, 8, 9, 10, 11, 12, 13, 14, 15, 16, 17] ∧
    (TFTPs_DispTrace TFTPs_TRACE_HIST_SIZE W_trace).length = TFTPs_TRACE_HIST_SIZE ∧
    ((TFTPs_DispTrace TFTPs_TRACE_HIST_SIZE W_trace).drop 14).map DispRow.Entry = [none, none] ∧
    (∀ r ∈ TFTPs_DispTrace TFTPs_TRACE_HIST_SIZE W_trace,
      r.Entry ≠ W_trace.TFTPs_TraceTbl.get? 0 ∧ r.Mark = false) := by
  refine ⟨fun hist s tick t id p_str h =>
      ⟨TFTPs_Trace_ix hist s tick t id p_str h, TFTPs_Trace_length hist s tick t id p_str⟩,
    ?_, ?_, by decide, by decide, by decide, by decide, by decide, by decide, by decide⟩
  · intro hist t
    simp [TFTPs_DispTrace, Function.comp_def]
  · intro hist t hl h0
    refine ⟨?_, ?_⟩
    · intro r hr
      simp only [TFTPs_DispTrace, List.mem_map] at hr
      obtain ⟨i, ⟨j, _, hj⟩, hi⟩ := hr
      rw [← hi]
      show i ≠ 0 ∧ i ≠ 1
      omega
    · refine ⟨DispRow.mk (hist - 1 + 2) (decide (hist - 1 + 2 = t.TFTPs_TraceIx))
        (t.TFTPs_TraceTbl.get? (hist - 1 + 2)), ?_, ?_, ?_⟩
      · simp only [TFTPs_DispTrace, List.mem_map]
        exact ⟨hist - 1 + 2, ⟨hist - 1, List.mem_range.mpr (by omega), rfl⟩, rfl⟩
      · show hist ≤ hist - 1 + 2
        omega
      · show t.TFTPs_TraceTbl.get? (hist - 1 + 2) = none
        rw [List.get?_eq_none]
        omega

/-! ## C10: an unexpected packet in Idle -/

set_option maxRecDepth 20000 in
/-- C10 (an unexpected packet in Idle after a completed transfer makes a
file-store call): for an Ack, a Data or an Error packet in Idle, with the
server enabled, `TFTPs_StateIdle` returns `TFTPs_ERR_ACK`, `TFTPs_ERR_DATA`
or `TFTPs_ERR_ERR` and leaves every variable as it was; the iteration sends
no packet and ends in Idle; when `TFTPs_FileHandle` is null it makes no
file-store call. But after a transfer that ended with a short block the
state is Idle, no file is open, and `TFTPs_FileHandle` still holds the handle
of the file that was closed: the first client read the ten-octet file `abc`
and now sends the Ack of block 1; `TFTPs_Terminate`, which the loop calls
after the error, calls `NetFS_FileClose` on handle 7. -/
theorem C10_unexpected_in_idle_closes_again :
    (∀ (s : TFTPs) (pkt : List Nat) (peer : NET_SOCK_ADDR) (e : Env),
      s.TFTPs_State = TFTPs_STATE_IDLE → s.TFTPs_ServerEn = true → 2 ≤ pkt.length →
      (Dgram_OpCode pkt = TFTP_OPCODE_ACK ∨ Dgram_OpCode pkt = TFTP_OPCODE_DATA ∨
        Dgram_OpCode pkt = TFTP_OPCODE_ERR) →
        (∀ t : TFTPs, t.TFTPs_OpCode = Dgram_OpCode pkt →
          TFTPs_StateIdle t e = (t, Idle_err (Dgram_OpCode pkt))) ∧
        (TFTPs_Task s (Rx.data pkt peer) e).TFTPs_OpCode = Dgram_OpCode pkt ∧
        sent (TFTPs_Task s (Rx.data pkt peer) e).Calls = sent s.Calls ∧
        (TFTPs_Task s (Rx.data pkt peer) e).TFTPs_State = TFTPs_STATE_IDLE ∧
        (s.TFTPs_FileHandle = 0 →
          fileCalls (TFTPs_Task s (Rx.data pkt peer) e).Calls = fileCalls s.Calls) ∧
        (s.TFTPs_FileHandle ≠ 0 →
          fileCalls (TFTPs_Task s (Rx.data pkt peer) e).Calls
            = fileCalls s.Calls ++ [Call.NetFS_FileClose s.TFTPs_FileHandle])) ∧
      Reachable W_idle_abc ∧
      W_idle_abc.TFTPs_State = TFTPs_STATE_IDLE ∧
      W_idle_abc.TFTPs_ServerEn = true ∧
      W_idle_abc.TFTPs_FileHandle = 7 ∧
      openFiles W_idle_abc.Calls = [] ∧
      fileCalls W_idle_abc.Calls
        = [Call.NetFS_FileOpen [97, 98, 99] TFTPs_FILE_OPEN_RD 7, Call.NetFS_FileRd 7 512,
           Call.NetFS_FileClose 7] ∧
      Dgram_OpCode (Pkt_Ack 1) = TFTP_OPCODE_ACK ∧
      sent (TFTPs_Task W_idle_abc (Rx.data (Pkt_Ack 1) W_peerA) (W_env 0 [])).Calls
        = sent W_idle_abc.Calls ∧
      fileCalls (TFTPs_Task W_idle_abc (Rx.data (Pkt_Ack 1) W_peerA) (W_env 0 [])).Calls
        = fileCalls W_idle_abc.Calls ++ [Call.NetFS_FileClose 7] := by
  refine ⟨?_, W_idle_abc_reachable, by decide⟩
  intro s pkt peer e hS hEn hlen hop
  refine ⟨?_, ?_⟩
  · intro t ht
    have h := TFTPs_StateIdle_unexpected t e
    rcases hop with h1 | h1 | h1 <;> rw [h1] at ht ⊢
    · simpa [Idle_err] using h.1 ht
    · simpa [Idle_err] using h.2.1 ht
    · simpa [Idle_err] using h.2.2 ht
  · rw [Task_idle_unexpected s pkt peer e (Dgram_OpCode pkt) hS hEn hlen rfl hop]
    by_cases hh : s.TFTPs_FileHandle = 0 <;>
      simp [sent_append, sent, fileCalls_append, fileCalls, hh]

end TFTPServer
